import Mathlib

/-!
# ST_Datalog: a shallow embedding of the datalog formatting engine

Source: `Libraries/DATALOG/xtrf/ST_Datalog.cpp` and `ST_Datalog.h`.

Conventions of the embedding.

* A `SITE` is a natural number; a `Sites` collection is the list of its members in
  `Begin()` iteration order.
* A value that can be `UTL_VOID` is an `Option`; `none` is `UTL_VOID`.
* A multisite variable (`BoolM`, `TMResultM`, ...) is a function of the site.
* C++ `double` values are idealised as rationals (`Rat`): the code only compares scales
  with `0.0` and takes reciprocals, which are exact here.
* `std::ostream` is the text written so far together with the sticky adjustment flag
  (`left` / `right`); `setw` applies to the next item only.
* The STDF stream is the list of records handed to `STDF.Write`, in order; the error
  reporter is the list of `ERR.ReportError` calls, in order.
* Functions of the Unison library that are not part of this repository
  (`FormatSVData`, `CalculateUnitScale`, ...) are fields of the structure `Lib`, or data of
  the user-data object they are methods of.
* `Parent` is bound from a reference in every constructor, so the `Parent != NULL`
  branches are the only ones modelled.
-/

namespace STDatalog

/-! ## Sites and multisite values -/

/-- Site number (`SITE`). -/
abbrev SITE := Nat

/-- Ordered collection of sites (`Sites`), in `Begin()` iteration order. -/
abbrev Sites := List SITE

/-- Value of `sites.Begin().GetValue()`; the iterator of an empty collection is taken to
yield site 0. -/
def Sites.beginValue (s : Sites) : SITE := s.headD 0

/-- Value of `LoadedSites.GetLargestSite()`. -/
def Sites.GetLargestSite (s : Sites) : SITE := s.foldl max 0

/-- Test result (`TM_RESULT`); `TM_NOTEST` stands for every value that is neither pass
nor fail. -/
inductive TM_RESULT where
  | TM_NOTEST
  | TM_PASS
  | TM_FAIL
  deriving DecidableEq, Repr

/-- Multisite boolean compared with a scalar (`res == b` on a `BoolM`): true when every
site of the comparison domain holds `b`. -/
def BoolM.allEq (dom : Sites) (res : SITE → Bool) (b : Bool) : Bool :=
  dom.all (fun s => res s == b)

/-- Result of `Res.Equal(TM_FAIL)`: the per-site flag "result is exactly fail". -/
def TMResultM.Equal (Res : SITE → TM_RESULT) (r : TM_RESULT) : SITE → Bool :=
  fun s => decide (Res s = r)

/-- Effect of `fsites.DisableFailingSites(flags)`: the sites whose flag is false are
removed, the iteration order of the others is kept. -/
def Sites.DisableFailingSites (fsites : Sites) (flags : SITE → Bool) : Sites :=
  fsites.filter flags

/-! ## Output stream -/

/-- Sticky adjustment flag of the stream. -/
inductive Adjust where
  | left
  | right
  deriving DecidableEq, Repr

/-- State of a `std::ostream`: the characters written and the adjustment flag. -/
structure OStream where
  text : String
  adjust : Adjust
  deriving DecidableEq, Repr

/-- Blank run of the given length. -/
def blanks (n : Nat) : String := String.mk (List.replicate n ' ')

/-- Field of width `w` holding `s`, padded with blanks on the side given by the flag; a
longer `s` is not truncated. -/
def padField (a : Adjust) (w : Int) (s : String) : String :=
  match a with
  | Adjust.left => s ++ blanks (w.toNat - s.length)
  | Adjust.right => blanks (w.toNat - s.length) ++ s

namespace OStream

/-- Insertion `output << s` with no pending width. -/
def put (o : OStream) (s : String) : OStream := { o with text := o.text ++ s }

/-- Insertion `output << setw(w) << s` under the current adjustment flag. -/
def putw (o : OStream) (w : Int) (s : String) : OStream :=
  { o with text := o.text ++ padField o.adjust w s }

/-- Manipulator `left`. -/
def setLeft (o : OStream) : OStream := { o with adjust := Adjust.left }

/-- Manipulator `right`. -/
def setRight (o : OStream) : OStream := { o with adjust := Adjust.right }

/-- Manipulator `endl`. -/
def endl (o : OStream) : OStream := o.put "\n"

end OStream

/-- Function `OutputBorder(output, len, space)`. -/
def OutputBorder (o : OStream) (len : Int) (space : Int) : OStream :=
  let o1 := o.put (String.mk (List.replicate len.toNat '-'))
  if space > 0 then o1.putw space " " else o1

/-! ## Constants of the source -/

def TNSize : Int := 10
def VASize : Int := 13
def PGSize : Int := 21
def TDSize : Int := 50
def UnitSize : Int := 8
def DefaultFieldWidth : Int := 13
def DefaultPassString : String := " P "
def IntegerPartWidthScaled : Int := 6
def IntegerPartWidthUnscaled : Int := 10

/-! ## The STDF stream and its records -/

/-- Part flag of a PRR (`STDFV4_PRR::REPLACE` / `NEW_PART`). -/
inductive PRRPart where
  | REPLACE
  | NEW_PART
  deriving DecidableEq, Repr

/-- Arguments of `PRR.SetResult` and `PRR.SetInfo` at the time of `STDF.Write(PRR)`. -/
structure PRRRecord where
  resultValid : Bool
  result : Option Bool
  part : PRRPart
  site : SITE
  testTime : Option Rat
  numTests : Nat
  hardBin : Int
  softBin : Int
  serial : String
  partText : String
  xCoord : Int
  yCoord : Int
  deriving DecidableEq, Repr

/-! ## The datalog method object and its environment -/

/-- System events (`DatalogMethod::SystemEvents`) registered by the constructor. -/
inductive SystemEvents where
  | StartOfTest
  | EndOfTest
  | ProgramLoad
  | ProgramUnload
  | ProgramReset
  | Summary
  | StartOfWafer
  | EndOfWafer
  | StartOfLot
  | EndOfLot
  | StartTestNode
  | StartTestBlock
  | ParametricTest
  | ParametricTestArray
  | FunctionalTest
  | ScanTest
  | Text
  | Generic
  deriving DecidableEq, Repr

/-- Members of class `ST_Datalog` that the formatters read or write. -/
structure ST_Datalog where
  SummaryNeeded : Bool
  LastFormatEvent : SystemEvents
  PerSiteSummary : Bool
  EnableVerbose : Bool
  EnableDebug : Bool
  UnitAutoscaling : Bool
  ASCIIDatalogInColumns : Bool
  AppendPinName : Bool
  EnhancedFuncChars : Bool
  EnableScan2007 : Bool
  ASCIIOptimizeForUnscaledValues : Bool
  /-- Member `VerbosePins` (a `PinML`: the pin names in order, `none` is `UTL_VOID`). -/
  VerbosePins : Option (List String)
  NumTestsExecuted : SITE → Nat
  FieldWidth : Int
  PassString : String
  FinishTime : Option Rat

/-- State left by the constructor `ST_Datalog::ST_Datalog()`, with the registered default of
every attribute. -/
def ST_Datalog.init : ST_Datalog :=
  { SummaryNeeded := false
    LastFormatEvent := SystemEvents.StartTestBlock
    PerSiteSummary := true
    EnableVerbose := false
    EnableDebug := false
    UnitAutoscaling := false
    ASCIIDatalogInColumns := false
    AppendPinName := true
    EnhancedFuncChars := false
    EnableScan2007 := false
    ASCIIOptimizeForUnscaledValues := false
    VerbosePins := none
    NumTestsExecuted := fun _ => 0
    FieldWidth := DefaultFieldWidth
    PassString := DefaultPassString
    FinishTime := none }

/-- Method `ST_DatalogData::GetIntegerPartWidth`. -/
def ST_Datalog.GetIntegerPartWidth (p : ST_Datalog) : Int :=
  if p.ASCIIOptimizeForUnscaledValues then IntegerPartWidthUnscaled else IntegerPartWidthScaled

/-- Method `ST_DatalogData::SetLastFormatEvent` for a data object of event `ev`. -/
def ST_Datalog.SetLastFormatEvent (p : ST_Datalog) (ev : SystemEvents) : ST_Datalog :=
  { p with LastFormatEvent := ev }

/-- Output format handed to `Format`: a null pointer, or a string of which only the first
character is compared with the first character of "ASCII" and of "STDFV4". -/
inductive FormatSel where
  | null
  | ascii
  | stdfv4
  | unknown
  deriving DecidableEq, Repr

/-- Selection made by `Format` on its `format` argument. -/
def FormatSel.ofString (format : Option String) : FormatSel :=
  match format with
  | none => FormatSel.null
  | some f =>
    if f.data.head? = some 'A' then FormatSel.ascii
    else if f.data.head? = some 'S' then FormatSel.stdfv4
    else FormatSel.unknown

/-! ## EndOfTest -/

/-- Fields of `EndOfTestStruct` that the formatters read. -/
structure EndOfTestStruct where
  Results : SITE → Option Bool
  Retest : Bool
  BinNames : SITE → String
  SerialNumbers : SITE → String
  XCoord : SITE → Int
  YCoord : SITE → Int
  SoftwareBinNumbers : SITE → Int
  HardwareBinNumbers : SITE → Int
  TestTimes : SITE → Option Rat
  OverallTestTime : Option Rat
  PartTexts : SITE → String

/-- Default-constructed `EndOfTestStruct` (`EOT()`), before the host fills it. -/
def EndOfTestStruct.empty : EndOfTestStruct :=
  { Results := fun _ => none
    Retest := false
    BinNames := fun _ => ""
    SerialNumbers := fun _ => ""
    XCoord := fun _ => 0
    YCoord := fun _ => 0
    SoftwareBinNumbers := fun _ => 0
    HardwareBinNumbers := fun _ => 0
    TestTimes := fun _ => none
    OverallTestTime := none
    PartTexts := fun _ => "" }

/-- Library pieces used by the EndOfTest formatter: the constant `UTL_NO_WAFER_COORD` and the
text of a `FloatS` inserted under `fixed << setprecision(6)`. -/
structure EotLib where
  UTL_NO_WAFER_COORD : Int
  showFixed6 : Option Rat → String

/-- Global site collections of the run time at the moment of a call; `ActiveSites` is also
the domain over which a multisite value is compared with a scalar. -/
structure SiteEnv where
  LoadedSites : Sites
  SelectedSites : Sites
  ActiveSites : Sites

/-- Function `IsSelectedSite(site)`. -/
def IsSelectedSite (env : SiteEnv) (site : SITE) : Bool :=
  env.SelectedSites.any (fun s => s == site)

/-- Class `EndOfTestData`: the members set by the constructor. -/
structure EndOfTestData where
  DlogTime : Option Rat
  EOT : EndOfTestStruct
  Valid : Bool
  SelSites : Sites

/-- Constructor `EndOfTestData::EndOfTestData`; `host` is the outcome of
`RunTime.GetEndOfTestData(EOT)`: the returned flag and the structure as the host left it.
The second component is the parent after `SetFinishTime()`. -/
def EndOfTestData.new (parent : ST_Datalog) (env : SiteEnv) (now : Option Rat)
    (host : Bool × EndOfTestStruct) : EndOfTestData × ST_Datalog :=
  ({ DlogTime := now, EOT := host.2, Valid := host.1, SelSites := env.SelectedSites },
   { parent with FinishTime := now })

/-- Method `EndOfTestData::FormatASCII`, column-oriented section. -/
def EndOfTestData.FormatASCIIColumns (d : EndOfTestData) (L : EotLib) (parent : ST_Datalog)
    (env : SiteEnv) (o0 : OStream) : OStream :=
  let field_width := parent.FieldWidth
  let border (o : OStream) : OStream :=
    let o := OutputBorder o 12 0
    let o := OutputBorder o field_width 2
    let o := env.LoadedSites.foldl (fun o _ => OutputBorder o (field_width + 4) 2) o
    o.endl
  let blankCell (o : OStream) : OStream := (o.putw (field_width + 4) " ").putw 2 " "
  let row (o : OStream) (title : String) (cell : OStream → SITE → OStream) : OStream :=
    let o := (o.putw (12 + field_width) title).putw 2 " "
    let o := env.LoadedSites.foldl
      (fun o s => if IsSelectedSite env s then cell o s else blankCell o) o
    o.endl
  let o := border o0
  let o := (o.putw (12 + field_width) "Device Results").putw 2 " "
  let o := env.LoadedSites.foldl
    (fun o s => (((o.setLeft.put "Site_").setLeft.putw 4 (toString s)).setLeft.putw
      (field_width + 4 - 9) " ").putw 2 " ") o
  let o := if d.EOT.Retest then o.put "RETEST" else o
  let o := o.endl
  let o := border o
  let o := (o.setLeft.putw (12 + field_width) " Pass/Fail").putw 2 " "
  let o := env.LoadedSites.foldl
    (fun o s =>
      let PF := if IsSelectedSite env s then
          (if d.EOT.Results s = some true then "PASS " else "*FAIL*")
        else " "
      (o.setRight.putw (field_width + 3) PF).putw 3 " ") o
  let o := o.endl
  let o := row o.setLeft " Bin Name" (fun o s =>
    (o.setLeft.putw (field_width + 4) ((d.EOT.BinNames s).take (field_width + 4).toNat)).putw 2 " ")
  let o := row o.setLeft " Serial Number" (fun o s =>
    (o.setRight.putw (field_width + 2) (d.EOT.SerialNumbers s)).putw 4 " ")
  let o :=
    if d.EOT.XCoord env.SelectedSites.beginValue > L.UTL_NO_WAFER_COORD then
      let o := row o.setLeft " Wafer X-Coordinate" (fun o s =>
        (o.setRight.putw (field_width + 2) (toString (d.EOT.XCoord s))).putw 4 " ")
      row o.setLeft " Wafer Y-coordinate" (fun o s =>
        (o.setRight.putw (field_width + 2) (toString (d.EOT.YCoord s))).putw 4 " ")
    else o
  let o := row o.setLeft " Software Bin Number" (fun o s =>
    let sw_bin := d.EOT.SoftwareBinNumbers s
    if sw_bin < 0 then (o.setRight.putw (field_width + 2) "Not Binned").putw 4 " "
    else (o.setRight.putw (field_width + 2) (toString sw_bin)).putw 4 " ")
  let o := row o.setLeft " Hardware Bin Number" (fun o s =>
    (o.setRight.putw (field_width + 2) (toString (d.EOT.HardwareBinNumbers s))).putw 4 " ")
  let o := row o.setLeft " Test Time" (fun o s =>
    ((o.setRight.putw (field_width + 1) (L.showFixed6 (d.EOT.TestTimes s))).put "s").putw 4 " ")
  let o := row o.setLeft " Total Tests Executed" (fun o s =>
    (o.setRight.putw (field_width + 2) (toString (parent.NumTestsExecuted s))).putw 4 " ")
  let o := row o.setLeft " Part Description" (fun o s =>
    (o.setLeft.putw (field_width + 4) ((d.EOT.PartTexts s).take (field_width + 4).toNat)).putw 2 " ")
  border o

/-- Pass/fail text of one site in the row-oriented section of `EndOfTestData::FormatASCII`
and in `ProgramResetData::FormatASCII`. -/
def EndOfTestRowPF (EOT : EndOfTestStruct) (s : SITE) : String :=
  match EOT.Results s with
  | none => "   "
  | some r => if r = true then " P " else " F "

/-- Method `EndOfTestData::FormatASCII`, row-oriented section: the line of one selected
site. -/
def EndOfTestData.FormatASCIIRow (d : EndOfTestData) (L : EotLib) (parent : ST_Datalog)
    (o : OStream) (s : SITE) : OStream :=
  let o := (((o.put "  ").setRight.putw 4 (toString s)).put "  ").putw 9 (d.EOT.SerialNumbers s)
  let o := o.put "       "
  let o :=
    if d.EOT.XCoord s > L.UTL_NO_WAFER_COORD then
      ((((o.setRight.putw 7 (toString (d.EOT.XCoord s))).put "  ").setRight.putw 7
        (toString (d.EOT.YCoord s))).put "   ")
    else o.put "                   "
  let PF := EndOfTestRowPF d.EOT s
  let o :=
    if d.EOT.SoftwareBinNumbers s ≥ 0 then
      ((((((o.put PF).put "  ").setRight.putw 10 (toString (d.EOT.SoftwareBinNumbers s))).put
        "  ").setRight.putw 10 (toString (d.EOT.HardwareBinNumbers s))).put "  ")
    else
      ((((o.put PF).put "              ").setRight.putw 10
        (toString (d.EOT.HardwareBinNumbers s))).put "  ")
  let o :=
    if d.EOT.TestTimes s ≠ none then
      (((o.setRight.putw 12 (L.showFixed6 (d.EOT.TestTimes s))).put "s").put "  ")
    else ((o.setRight.putw 10 " ").put "  ")
  let o := (o.setRight.putw 10 (toString (parent.NumTestsExecuted s))).put "  "
  let o := if d.EOT.Retest then o.put "RETEST" else o.put "      "
  ((o.put "  ").setLeft.put (d.EOT.PartTexts s)).endl

/-- Method `EndOfTestData::FormatASCII`. -/
def EndOfTestData.FormatASCII (d : EndOfTestData) (L : EotLib) (parent : ST_Datalog)
    (env : SiteEnv) (_fail_only_mode : Bool) (output : OStream) : OStream :=
  let o := output.endl
  if parent.ASCIIDatalogInColumns then
    d.FormatASCIIColumns L parent env o
  else
    let o := o.endl
    let o := (o.put "  Site  Device ID       X Coord  Y Coord   P/F  SW Bin No.  HW Bin No.  Test Time      Test Count  Status  Device Description").endl
    let o := (o.put "  ----  ---------       -------  -------   ---  ----------  ----------  -------------  ----------  ------  ------------------").endl
    d.SelSites.foldl (fun o s => d.FormatASCIIRow L parent o s) o

/-- Method `EndOfTestData::FormatSTDFV4`: the PRR written for one selected site. -/
def EndOfTestData.PRR (d : EndOfTestData) (parent : ST_Datalog) (s : SITE) : PRRRecord :=
  { resultValid := if d.EOT.Results s = none then false else true
    result := d.EOT.Results s
    part := if d.EOT.Retest then PRRPart.REPLACE else PRRPart.NEW_PART
    site := s
    testTime := d.EOT.OverallTestTime
    numTests := parent.NumTestsExecuted s
    hardBin := d.EOT.HardwareBinNumbers s
    softBin := d.EOT.SoftwareBinNumbers s
    serial := d.EOT.SerialNumbers s
    partText := d.EOT.PartTexts s
    xCoord := d.EOT.XCoord s
    yCoord := d.EOT.YCoord s }

/-! ## Values (`BasicVar`) -/

/-- Type tag of a value (`SV_TYPE`); `SV_NONE` is the tag reported for a void value. -/
inductive SV_TYPE where
  | SV_INT
  | SV_UINT
  | SV_FLOAT
  | SV_STRING
  | SV_ENUM
  | SV_BOOL
  | SV_PIN
  | SV_ARRAY_OF
  | SV_NONE
  deriving DecidableEq, Repr

/-- Shape tag of a value (`SV_CONFIG`); `SV_OTHER` stands for every shape the source has no
case label for. -/
inductive SV_CONFIG where
  | SV_SCALAR_S
  | SV_SCALAR_M
  | SV_ARRAY_S1D
  | SV_ARRAY_M1D
  | SV_LIST_S
  | SV_LIST_M
  | SV_OTHER
  deriving DecidableEq, Repr

/-- Single-site shapes. -/
inductive SConfig where
  | SCALAR_S
  | ARRAY_S1D
  | LIST_S
  deriving DecidableEq, Repr

/-- Multisite shapes. -/
inductive MConfig where
  | SCALAR_M
  | ARRAY_M1D
  | LIST_M
  deriving DecidableEq, Repr

/-- One scalar datum. -/
inductive SVal where
  | int (v : Int)
  | uint (v : Nat)
  | float (v : Rat)
  | str (s : String)
  | enum (s : String)
  | bool (b : Bool)
  | pin (name : String)
  deriving DecidableEq, Repr

/-- Value of the tagged union `BasicVar`: void, a single-site value (scalar, 1-D array or
list) with its type tag and elements, a multisite value with its per-site elements, an array
of values, or a value of a shape the source does not handle. -/
inductive BasicVar where
  | void
  | single (cfg : SConfig) (ty : SV_TYPE) (xs : List SVal)
  | multi (cfg : MConfig) (ty : SV_TYPE) (valid : Bool) (xs : List (SITE × List SVal))
  | arrayOf (xs : List BasicVar)
  | unsupported (ty : SV_TYPE)

namespace BasicVar

/-- Method `Valid()` (equivalently `!= UTL_VOID`). -/
def Valid : BasicVar → Bool
  | void => false
  | _ => true

/-- Method `GetType()`. -/
def GetType : BasicVar → SV_TYPE
  | void => SV_TYPE.SV_NONE
  | single _ ty _ => ty
  | multi _ ty _ _ => ty
  | arrayOf _ => SV_TYPE.SV_ARRAY_OF
  | unsupported ty => ty

/-- Method `GetConfig()`. -/
def GetConfig : BasicVar → SV_CONFIG
  | single SConfig.SCALAR_S _ _ => SV_CONFIG.SV_SCALAR_S
  | single SConfig.ARRAY_S1D _ _ => SV_CONFIG.SV_ARRAY_S1D
  | single SConfig.LIST_S _ _ => SV_CONFIG.SV_LIST_S
  | multi MConfig.SCALAR_M _ _ _ => SV_CONFIG.SV_SCALAR_M
  | multi MConfig.ARRAY_M1D _ _ _ => SV_CONFIG.SV_ARRAY_M1D
  | multi MConfig.LIST_M _ _ _ => SV_CONFIG.SV_LIST_M
  | _ => SV_CONFIG.SV_OTHER

/-- Elements of the 1-D array read by `GetFloatS1D()`, `GetIntS1D()` or
`GetUnsignedS1D()`. -/
def elemsS1D : BasicVar → List SVal
  | single _ _ xs => xs
  | _ => []

/-- Method `GetArrayOfBasicVar()`: the elements when the value is a valid array of values,
`none` when the array object is not valid. -/
def GetArrayOfBasicVar : BasicVar → Option (List BasicVar)
  | arrayOf xs => some xs
  | _ => none

end BasicVar

/-- Comparison `(sv == sv[0])` of a 1-D array with its first element: every element equals
the first one. -/
def allEqualFirst (xs : List SVal) : Bool :=
  match xs with
  | [] => true
  | x :: _ => xs.all (fun y => y == x)

/-- Test of one limit in `PerPinLimits`: a defined single-site 1-D array of float, int or
unsigned type with more than one element, not all equal to the first. -/
def PerPinLimit (V : BasicVar) : Bool :=
  if V.Valid && V.GetConfig = SV_CONFIG.SV_ARRAY_S1D then
    match V.GetType with
    | SV_TYPE.SV_FLOAT => decide (V.elemsS1D.length > 1) && (allEqualFirst V.elemsS1D == false)
    | SV_TYPE.SV_INT => decide (V.elemsS1D.length > 1) && (allEqualFirst V.elemsS1D == false)
    | SV_TYPE.SV_UINT => decide (V.elemsS1D.length > 1) && (allEqualFirst V.elemsS1D == false)
    | _ => false
  else false

/-- Function `PerPinLimits(LL, HL)`. -/
def PerPinLimits (LL HL : BasicVar) : Bool :=
  if PerPinLimit LL then true
  else if PerPinLimit HL then true
  else false

/-- Function `GetArrayLength(TV)`. -/
def GetArrayLength (TV : BasicVar) : Nat :=
  if TV.Valid && TV.GetConfig = SV_CONFIG.SV_ARRAY_S1D then
    match TV.GetType with
    | SV_TYPE.SV_FLOAT => TV.elemsS1D.length
    | SV_TYPE.SV_INT => TV.elemsS1D.length
    | SV_TYPE.SV_UINT => TV.elemsS1D.length
    | _ => 0
  else 0

/-- Function `GetDefaultFormat(var)`. -/
def GetDefaultFormat (var : BasicVar) : String :=
  if var.GetType = SV_TYPE.SV_INT ∨ var.GetType = SV_TYPE.SV_UINT then "%9.0f" else "%9.3f"

/-! ## STDF records and the stream -/

/-- Pin list (`PinML`): the pin names in order; `none` is `UTL_VOID`. -/
abbrev PinML := Option (List String)

/-- Content of a PTR object at `STDF.Write(PTR)`: the arguments of `SetInfo`, `SetUnits`,
`SetContext`, `SetResult` and both `SetLimit` calls. -/
structure PTRRecord where
  testID : Nat
  tdesc : Option String
  units : String
  site : SITE
  result : TM_RESULT
  value : BasicVar
  resultScale : Rat
  fmt : String
  loLimit : BasicVar
  loScale : Rat
  hiLimit : BasicVar
  hiScale : Rat

/-- Content of an MPR object at `STDF.Write(MPR)`. -/
structure MPRRecord where
  testID : Nat
  tdesc : Option String
  units : String
  site : SITE
  pins : PinML
  results : List TM_RESULT
  value : BasicVar
  resultScale : Rat
  fmt : String
  loLimit : BasicVar
  loScale : Rat
  hiLimit : BasicVar
  hiScale : Rat

/-- Content of a GDR object at `STDF.Write(GDR)`, with the active site set in force during
the write. -/
structure GDRRecord where
  data : List BasicVar
  activeSites : Sites

/-- Site constant `SITE_255` of the summary records that cover all sites. -/
def SITE_255 : SITE := 255

/-- Content of a TSR object at `STDF.Write(TSR)`: the arguments of `SetContext` (`none` for
the call without arguments), `SetInfo`, `SetCounts` and `SetStats`. -/
structure TSRRecord where
  context : Option (Nat × SITE)
  testNum : Nat
  testType : Char
  testText : Option String
  numTested : Nat
  numFails : Nat
  minVal : Rat
  maxVal : Rat
  sums : Rat
  squares : Rat

/-- Arguments of `HBR.SetInfo` or `SBR.SetInfo` at the time of the write; `name` is `none`
for `UTL_VOID`. -/
structure BinRecord where
  binNumber : Int
  count : Nat
  desc : Char
  name : Option String
  head : Nat
  site : SITE
  deriving DecidableEq, Repr

/-- Arguments of `PCR.SetInfo` at the time of the write (the three void arguments are left
out). -/
structure PCRRecord where
  total : Int
  passes : Int
  head : Nat
  site : SITE
  deriving DecidableEq, Repr

/-- Arguments of `MRR.SetInfo`. -/
structure MRRRecord where
  finish : Option Rat
  disp : Char
  lotDesc : String
  execDesc : String

/-- Arguments of `WCR.SetInfo`. -/
structure WCRRecord where
  units : Nat
  size : Option Rat
  height : Option Rat
  width : Option Rat
  flat : Char
  incX : Char
  incY : Char
  centerX : Option Int
  centerY : Option Int

/-- Arguments of `WIR.SetInfo`. -/
structure WIRRecord where
  time : Option Rat
  waferID : String

/-- Arguments of `WRR.SetCounts`, `WRR.SetIDs` and `WRR.SetInfo`. -/
structure WRRRecord where
  numTested : Int
  numPasses : Int
  numRetested : Int
  waferID : Option String
  fabWaferID : String
  waferFrame : String
  waferMask : String
  finish : Option Rat
  userDesc : String
  execDesc : String

/-- Content of the MIR object at `STDF.Write(MIR)`: the arguments of `SetInfo`, `SetCodes`,
`SetBurnInTime` (`none` when it is not called) and of the `SetField` calls, in order, each with
the name of its field. -/
structure MIRRecord where
  setupTime : Option Rat
  startTime : Option Rat
  modeCode : Char
  retestCode : Char
  protectionCode : Char
  commandCode : Char
  burnInTime : Option Int
  fields : List (String × String)

/-- Content of the SDR object at `STDF.Write(SDR)`: the arguments of `SetSiteInfo` and of the
`SetField` calls, in order, each with the name of its field. -/
structure SDRRecord where
  head : Nat
  sites : Sites
  fields : List (String × String × String)

/-- Arguments of `FTR.SetInfo`, `FTR.SetContext` and `FTR.SetFTRInfo` (without the collected
pattern structures, which are those of the data object). -/
structure FTRRecord where
  testID : Nat
  tdesc : Option String
  site : SITE
  recIndex : Nat
  enhanced : Bool
  verbose : Bool

/-- Arguments of `PSR.SetTestSequence` and `PSR.SetPatternInfo`. -/
structure PSRRecord where
  burstName : String
  patterns : List String
  patternCounts : List Nat

/-- Arguments of `STR.SetContext` and the reference handed to `STR.SetSTRInfo`. -/
structure STRRecord where
  testID : Nat
  site : SITE
  tdesc : Option String
  psr_ref : Int

/-- Item appended to a GDR by one of the `GDR.PushBack...` calls of
`StartOfLotData::FormatSTDFV4`. -/
inductive GdrItem where
  | CN (value : String)
  | I1 (value : Int)
  | I2 (value : Int)
  | I4 (value : Int)
  | U1 (value : Nat)
  | U2 (value : Nat)
  | U4 (value : Nat)
  | R4 (value : Rat)
  | R8 (value : Rat)

/-- Record handed to `STDF.Write`, or another call that changes the content of the stream
(`SetOptimization`, `SetSiteConfiguration`, `UnisonPinMap`, `UnisonPinGroups`), noted in the
order of the calls. -/
inductive STDFRecord where
  | PIR (site : SITE)
  | PRR (r : PRRRecord)
  | PTR (r : PTRRecord)
  | MPR (r : MPRRecord)
  | GDR (r : GDRRecord)
  | TSR (r : TSRRecord)
  | HBR (r : BinRecord)
  | SBR (r : BinRecord)
  | PCR (r : PCRRecord)
  | MRR (r : MRRRecord)
  | WCR (r : WCRRecord)
  | WIR (r : WIRRecord)
  | WRR (r : WRRRecord)
  | FAR
  | VUR
  | MIR (r : MIRRecord)
  | RDR (bins : List String)
  | SDR (r : SDRRecord)
  | GDRX (items : List GdrItem)
  | FTR (r : FTRRecord)
  | PSR (r : PSRRecord)
  | STR (r : STRRecord)
  | DTR (text : String)
  | SetOptimization (full : Bool)
  | SetSiteConfiguration (sites : Sites)
  | UnisonPinMap
  | UnisonPinGroups

/-- Stream returned by `GetSTDFV4Stream(false)`: its validity and the records written to
it so far, oldest first. -/
structure STDFV4Stream where
  valid : Bool
  records : List STDFRecord

/-- Method `STDF.Write(record)`. -/
def STDFV4Stream.Write (s : STDFV4Stream) (r : STDFRecord) : STDFV4Stream :=
  { s with records := s.records ++ [r] }

/-- Site of a record that belongs to one site. -/
def STDFRecord.site? : STDFRecord → Option SITE
  | STDFRecord.PIR s => some s
  | STDFRecord.PRR r => some r.site
  | STDFRecord.PTR r => some r.site
  | STDFRecord.MPR r => some r.site
  | STDFRecord.GDR _ => none
  | STDFRecord.TSR r => r.context.map (fun c => c.2)
  | STDFRecord.HBR r => if r.head = 255 then none else some r.site
  | STDFRecord.SBR r => if r.head = 255 then none else some r.site
  | STDFRecord.PCR r => if r.head = 255 then none else some r.site
  | STDFRecord.FTR r => some r.site
  | STDFRecord.STR r => some r.site
  | _ => none

/-- Method `EndOfTestData::FormatSTDFV4`. -/
def EndOfTestData.FormatSTDFV4 (d : EndOfTestData) (parent : ST_Datalog)
    (_fail_only_mode : Bool) (STDF : STDFV4Stream) : STDFV4Stream :=
  if STDF.valid then
    d.SelSites.foldl (fun st s => st.Write (STDFRecord.PRR (d.PRR parent s))) STDF
  else STDF

/-- Method `EndOfTestData::Format`: the output stream, the STDF stream and the parent
object after the call. -/
def EndOfTestData.Format (d : EndOfTestData) (L : EotLib) (env : SiteEnv)
    (format : Option String) (fail_only_mode : Bool)
    (st : OStream × STDFV4Stream × ST_Datalog) : OStream × STDFV4Stream × ST_Datalog :=
  match FormatSel.ofString format with
  | FormatSel.null => st
  | FormatSel.ascii =>
    (d.FormatASCII L st.2.2 env fail_only_mode st.1, st.2.1,
      st.2.2.SetLastFormatEvent SystemEvents.EndOfTest)
  | FormatSel.stdfv4 =>
    (st.1, d.FormatSTDFV4 st.2.2 fail_only_mode st.2.1,
      st.2.2.SetLastFormatEvent SystemEvents.EndOfTest)
  | FormatSel.unknown => (st.1, st.2.1, st.2.2.SetLastFormatEvent SystemEvents.EndOfTest)

/-! ## Parametric tests -/

/-- Library functions of `DatalogBaseUserData` / `DatalogData` used by the parametric
formatters. An output string parameter of the C++ function is returned as a component of
the result; `CalculateAutoRangeUnitScale` also receives the content its output string had
before the call. -/
structure Lib where
  /-- `CalculateUnitScale(units, real_units)`: the scale and `real_units`. -/
  CalculateUnitScale : String → Rat × String
  /-- `CalculateBaseUnitScale(units, real_units)`: the scale and `real_units`. -/
  CalculateBaseUnitScale : String → Rat × String
  /-- `CalculateAutoRangeUnitScale(units, out, TV, LL, HL)`: the scale and `out`. -/
  CalculateAutoRangeUnitScale : String → String → BasicVar → BasicVar → BasicVar → Rat × String
  /-- `FormatSVData(str, type, Val, width, scale, int_part_width)`: `str` on success. -/
  FormatSVData : SV_TYPE → BasicVar → Int → Rat → Int → Option String
  /-- `FormatPins(str, pins, size)`: `str`. -/
  FormatPins : PinML → Int → String
  /-- `AppendPinNameToTestText(pins, text)`: the text after the call. -/
  AppendPinNameToTestText : PinML → Option String → Option String

/-- Members of the base class `DatalogData` read through `GetDlogSites()`, `GetTestName()`
and `GetBlockName()`, and the collection time. -/
structure DlogCtx where
  DlogSites : Sites
  TestName : Option String
  BlockName : Option String
  DlogTime : Option Rat

/-- Text inserted for a `StringS`; a void string inserts nothing. -/
def showStringS (s : Option String) : String := s.getD ""

/-- Test `s.Valid() && (s.Length() > 0)` on a `StringS`. -/
def validNonEmpty (s : Option String) : Bool :=
  match s with
  | some t => decide (t.length > 0)
  | none => false

/-- Method `ST_DatalogData::FormatTestDescription(str, user_info)`: the value of `str`. -/
def FormatTestDescription (ctx : DlogCtx) (user_info : Option String) : Option String :=
  if validNonEmpty user_info then user_info
  else if validNonEmpty ctx.TestName then
    if validNonEmpty ctx.BlockName then
      some (showStringS ctx.TestName ++ "/" ++ showStringS ctx.BlockName)
    else ctx.TestName
  else user_info

/-- Selector of `GetBaseSData` / `StuffSData` (`DatalogParametric::Test`, `LowLimit`,
`HighLimit`). -/
inductive ParamKind where
  | Test
  | LowLimit
  | HighLimit
  deriving DecidableEq, Repr

/-- User data `DatalogParametric` as read by the formatters. -/
structure DatalogParametric where
  TestID : Nat
  Result : SITE → TM_RESULT
  Units : String
  Comment : Option String
  Pins : PinML
  BaseSData : ParamKind → SITE → BasicVar

/-- Class `ParametricTestData`. -/
structure ParametricTestData where
  ctx : DlogCtx
  PData : DatalogParametric

/-- Function `OutputParametricHeader(output, field_width, columns, separate_units)`. -/
def OutputParametricHeader (o : OStream) (LoadedSites : Sites) (field_width : Int)
    (columns : Bool) (separate_units : Bool) : OStream :=
  let o := o.endl
  let o :=
    if columns then
      let o := (o.setLeft.putw TNSize "Test_No.").putw 2 " "
      let o := (o.setLeft.putw field_width "Minimum").putw 2 " "
      let o := LoadedSites.foldl
        (fun o s => (((o.setLeft.put "Site_").setLeft.putw 4 (toString s)).setLeft.putw
          (field_width + 4 - 9) " ").putw 2 " ") o
      let o := (o.setLeft.putw field_width "Maximum").putw 2 " "
      let o := (o.setLeft.putw UnitSize "Units").putw 2 " "
      let o := (o.setLeft.putw PGSize "Pin_Name").putw 2 " "
      let o := (o.put "Test_Description").endl
      let o := OutputBorder o TNSize 2
      let o := OutputBorder o field_width 2
      let o := LoadedSites.foldl (fun o _ => OutputBorder o (field_width + 4) 2) o
      let o := OutputBorder o field_width 2
      let o := OutputBorder o UnitSize 2
      let o := OutputBorder o PGSize 2
      OutputBorder o TDSize 2
    else
      let o := (o.setLeft.putw TNSize "Test_No.").putw 2 " "
      let o := (o.putw 3 "P/F").put "  "
      let o := (o.putw 4 "Site").put "  "
      let o := (o.setLeft.putw field_width "Minimum").putw 2 " "
      let o := (o.setLeft.putw field_width "Measured").putw 2 " "
      let o := (o.setLeft.putw field_width "Maximum").putw 2 " "
      let o := if separate_units then (o.setLeft.putw UnitSize "Units").putw 2 " " else o
      let o := (o.setLeft.putw PGSize "Pin_Name").putw 2 " "
      let o := (o.put "Test_Description").endl
      let o := OutputBorder o TNSize 2
      let o := OutputBorder o 3 2
      let o := OutputBorder o 4 2
      let o := OutputBorder o field_width 2
      let o := OutputBorder o field_width 2
      let o := OutputBorder o field_width 2
      let o := if separate_units then OutputBorder o UnitSize 2 else o
      let o := OutputBorder o PGSize 2
      OutputBorder o TDSize 2
  o.endl

/-- Function `PrintValue(output, type, Val, units, width, scale, suppress_units,
int_part_width)`. -/
def PrintValue (L : Lib) (o : OStream) (type : SV_TYPE) (Val : BasicVar) (units : String)
    (width : Int) (scale : Rat) (suppress_units : Bool) (int_part_width : Int) : OStream :=
  if Val.Valid then
    let unit_width : Int := units.length
    let val_width : Int := if suppress_units then width else width - unit_width
    match L.FormatSVData type Val val_width scale int_part_width with
    | some str =>
      if suppress_units then
        (o.setRight.putw val_width str).setLeft.putw 2 " "
      else
        (((o.setRight.putw val_width str).setLeft.putw unit_width units).putw 2 " ")
    | none => o.putw (width + 2) " "
  else o.putw (width + 2) " "

/-- Pass/fail marker `(Res == TM_PASS) ? pass_string : (Res == TM_FAIL) ? "*F*" : "   "`. -/
def PFMarker (Res : TM_RESULT) (pass_string : String) : String :=
  if Res = TM_RESULT.TM_PASS then pass_string
  else if Res = TM_RESULT.TM_FAIL then "*F*" else "   "

/-- Type selection `TV.Valid() ? TV.GetType() : LL.Valid() ? LL.GetType() : HL.GetType()`. -/
def varType (TV LL HL : BasicVar) : SV_TYPE :=
  if TV.Valid then TV.GetType else if LL.Valid then LL.GetType else HL.GetType

/-- Arguments of one call of `OutputParametricSiteASCII` (all but the stream). -/
structure SiteLineArgs where
  site : SITE
  TestID : Nat
  Res : TM_RESULT
  field_width : Int
  scale : Rat
  TV : BasicVar
  LL : BasicVar
  HL : BasicVar
  separate_units : Bool
  units : String
  pins : PinML
  comment : Option String
  pass_string : String
  int_part_width : Int

/-- Function `OutputParametricSiteASCII`. -/
def OutputParametricSiteASCII (L : Lib) (o : OStream) (a : SiteLineArgs) : OStream :=
  let o := (o.setRight.putw TNSize (toString a.TestID)).putw 2 " "
  let PF := PFMarker a.Res a.pass_string
  let o := (o.putw 3 PF).putw 2 " "
  let o := (o.setRight.putw 4 (toString a.site)).putw 2 " "
  let var_type := varType a.TV a.LL a.HL
  let o := PrintValue L o var_type a.LL a.units a.field_width a.scale a.separate_units a.int_part_width
  let o := PrintValue L o var_type a.TV a.units a.field_width a.scale a.separate_units a.int_part_width
  let o := PrintValue L o var_type a.HL a.units a.field_width a.scale a.separate_units a.int_part_width
  let o := if a.separate_units then (o.setLeft.putw 8 a.units).putw 2 " " else o
  let o := (o.setLeft.putw PGSize (L.FormatPins a.pins PGSize)).putw 2 " "
  (o.setLeft.put (showStringS a.comment)).endl

/-- Function `OutputParametricLineStartASCII`. -/
def OutputParametricLineStartASCII (L : Lib) (o : OStream) (TestID : Nat) (field_width : Int)
    (scale : Rat) (TV LL HL : BasicVar) (units : String) (int_part_width : Int) : OStream :=
  let o := (o.setRight.putw TNSize (toString TestID)).setLeft.putw 2 " "
  PrintValue L o (varType TV LL HL) LL units field_width scale true int_part_width

/-- Function `OutputParametricLineEndASCII`. -/
def OutputParametricLineEndASCII (L : Lib) (o : OStream) (field_width : Int)
    (limit_scale : Rat) (TV LL HL : BasicVar) (units : String) (pins : PinML)
    (comment : Option String) (int_part_width : Int) : OStream :=
  let o := PrintValue L o (varType TV LL HL) HL units field_width limit_scale true int_part_width
  let o := (o.setLeft.putw UnitSize units).putw 2 " "
  let o := (o.setLeft.putw PGSize (L.FormatPins pins PGSize)).putw 2 " "
  (o.setLeft.put (showStringS comment)).endl

namespace ParametricTestData

/-- Local `fsites` of both formatters: the datalogged sites, without the sites whose result
is not `TM_FAIL` when `fail_only_mode` is set. -/
def fsites (d : ParametricTestData) (fail_only_mode : Bool) : Sites :=
  if fail_only_mode then
    Sites.DisableFailingSites d.ctx.DlogSites (TMResultM.Equal d.PData.Result TM_RESULT.TM_FAIL)
  else d.ctx.DlogSites

/-- Local `tdesc` of both formatters. -/
def tdesc (d : ParametricTestData) (L : Lib) (parent : ST_Datalog) : Option String :=
  let testText :=
    if parent.AppendPinName then L.AppendPinNameToTestText d.PData.Pins d.PData.Comment
    else d.PData.Comment
  FormatTestDescription d.ctx testText

/-- Replacement `if (scale == 0.0 && !GetUnitAutoscaling()) scale = 1.0`. -/
def fixScale (parent : ST_Datalog) (scale : Rat) : Rat :=
  if scale = 0 ∧ parent.UnitAutoscaling = false then 1 else scale

/-- Local `scale` of `FormatASCII` after the replacement of a zero scale. -/
def asciiScale (d : ParametricTestData) (L : Lib) (parent : ST_Datalog) : Rat :=
  fixScale parent (L.CalculateUnitScale d.PData.Units).1

/-- Local `real_units` of `FormatASCII` after the call of `CalculateUnitScale`. -/
def asciiRealUnits (d : ParametricTestData) (L : Lib) : String :=
  (L.CalculateUnitScale d.PData.Units).2

/-- Expression `(scale != 0.0) ? scale : CalculateAutoRangeUnitScale(units, out, TV, LL, HL)`:
the scale and the content of `out` afterwards. -/
def realScale (L : Lib) (scale : Rat) (units out : String) (TV LL HL : BasicVar) :
    Rat × String :=
  if scale ≠ 0 then (scale, out) else L.CalculateAutoRangeUnitScale units out TV LL HL

/-- Row-oriented section of `FormatASCII`: the calls of `OutputParametricSiteASCII` made for
the sites of the list, in order, `real_units` being the content of that variable when the
loop reaches the list. -/
def rowCallsFrom (d : ParametricTestData) (L : Lib) (parent : ST_Datalog) (tdesc : Option String)
    (scale : Rat) : String → Sites → List SiteLineArgs
  | _, [] => []
  | real_units, site :: rest =>
    let TV := d.PData.BaseSData ParamKind.Test site
    let LL := d.PData.BaseSData ParamKind.LowLimit site
    let HL := d.PData.BaseSData ParamKind.HighLimit site
    let r := realScale L scale d.PData.Units real_units TV LL HL
    { site := site, TestID := d.PData.TestID, Res := d.PData.Result site,
      field_width := parent.FieldWidth, scale := r.1, TV := TV, LL := LL, HL := HL,
      separate_units := false, units := r.2, pins := d.PData.Pins, comment := tdesc,
      pass_string := parent.PassString, int_part_width := parent.GetIntegerPartWidth }
      :: rowCallsFrom d L parent tdesc scale r.2 rest

/-- Calls of `OutputParametricSiteASCII` made by the row-oriented section of `FormatASCII`. -/
def rowCalls (d : ParametricTestData) (L : Lib) (parent : ST_Datalog) (fail_only_mode : Bool) :
    List SiteLineArgs :=
  rowCallsFrom d L parent (d.tdesc L parent) (d.asciiScale L parent) (d.asciiRealUnits L)
    (d.fsites fail_only_mode)

/-- State of the loop over the loaded sites in the column-oriented section: the stream, the
sites the iterator `tested` has not passed yet (`*tested` is the first of them, and site 0 once
the iterator is at its end) and the content of `real_units`. -/
structure ColState where
  out : OStream
  tested : Sites
  real_units : String

/-- Column-oriented section of `FormatASCII`. -/
def FormatASCIIColumns (d : ParametricTestData) (L : Lib) (parent : ST_Datalog) (env : SiteEnv)
    (fail_only_mode : Bool) (o : OStream) : OStream :=
  let field_width := parent.FieldWidth
  let int_part_width := parent.GetIntegerPartWidth
  let fsites := d.fsites fail_only_mode
  let first_site := env.LoadedSites.beginValue
  let last_site := env.LoadedSites.GetLargestSite
  let units := d.PData.Units
  let tdesc := d.tdesc L parent
  let scale := d.asciiScale L parent
  let limit_site := Sites.beginValue fsites
  let TV_first := d.PData.BaseSData ParamKind.Test limit_site
  let LL := d.PData.BaseSData ParamKind.LowLimit limit_site
  let HL := d.PData.BaseSData ParamKind.HighLimit limit_site
  let lim := realScale L scale units units TV_first LL HL
  let limit_scale := lim.1
  let limit_units := lim.2
  (env.LoadedSites.foldl
    (fun (st : ColState) site =>
      let o := st.out
      let o :=
        if site = first_site then
          OutputParametricLineStartASCII L o d.PData.TestID field_width limit_scale TV_first LL HL
            limit_units int_part_width
        else o
      let st :=
        if site = Sites.beginValue st.tested then
          let TV := d.PData.BaseSData ParamKind.Test site
          let r := realScale L scale units st.real_units TV LL HL
          let PF := PFMarker (d.PData.Result site) parent.PassString
          let o := (o.put PF).put " "
          let o := PrintValue L o (varType TV LL HL) TV r.2 field_width r.1 true int_part_width
          { out := o, tested := st.tested.tail, real_units := r.2 }
        else
          { st with out := ((o.put "    ").putw field_width " ").put "  " }
      if site = last_site then
        { st with out := (OutputParametricLineEndASCII L st.out field_width limit_scale TV_first
            LL HL limit_units d.PData.Pins tdesc int_part_width) }
      else st)
    { out := o, tested := fsites, real_units := d.asciiRealUnits L }).out

/-- Method `ParametricTestData::FormatASCII`. -/
def FormatASCII (d : ParametricTestData) (L : Lib) (parent : ST_Datalog) (env : SiteEnv)
    (fail_only_mode : Bool) (output : OStream) : OStream :=
  let o :=
    if parent.LastFormatEvent ≠ SystemEvents.ParametricTest ∧
        parent.LastFormatEvent ≠ SystemEvents.ParametricTestArray then
      OutputParametricHeader output env.LoadedSites parent.FieldWidth
        parent.ASCIIDatalogInColumns false
    else output
  if parent.ASCIIDatalogInColumns then
    d.FormatASCIIColumns L parent env fail_only_mode o
  else
    (d.rowCalls L parent fail_only_mode).foldl (OutputParametricSiteASCII L) o

/-- Local `scale` of `FormatSTDFV4` after the replacement of a zero scale. -/
def stdfScale (d : ParametricTestData) (L : Lib) (parent : ST_Datalog) : Rat :=
  fixScale parent (L.CalculateBaseUnitScale d.PData.Units).1

/-- Local `real_units` of `FormatSTDFV4` after the call of `CalculateBaseUnitScale`; it is
the argument of `PTR.SetUnits`. -/
def stdfRealUnits (d : ParametricTestData) (L : Lib) : String :=
  (L.CalculateBaseUnitScale d.PData.Units).2

/-- Statement `if (real_scale != 0.0) real_scale = 1.0 / real_scale`. -/
def invertScale (real_scale : Rat) : Rat :=
  if real_scale ≠ 0 then 1 / real_scale else real_scale

/-- Loop of `FormatSTDFV4` over the sites of the list: the PTR records written, in order,
`real_units` being the content of that variable when the loop reaches the list. -/
def ptrFrom (d : ParametricTestData) (L : Lib) (parent : ST_Datalog) (tdesc : Option String)
    (setUnits : String) (scale : Rat) : String → Sites → List PTRRecord
  | _, [] => []
  | real_units, site :: rest =>
    let TV := d.PData.BaseSData ParamKind.Test site
    if TV.Valid then
      let LL := d.PData.BaseSData ParamKind.LowLimit site
      let HL := d.PData.BaseSData ParamKind.HighLimit site
      let r := realScale L scale d.PData.Units real_units TV LL HL
      let real_scale := invertScale r.1
      let fmt := GetDefaultFormat TV
      { testID := d.PData.TestID, tdesc := tdesc, units := setUnits, site := site,
        result := d.PData.Result site, value := TV, resultScale := real_scale, fmt := fmt,
        loLimit := LL, loScale := real_scale, hiLimit := HL, hiScale := real_scale }
        :: ptrFrom d L parent tdesc setUnits scale r.2 rest
    else ptrFrom d L parent tdesc setUnits scale real_units rest

/-- Records written by `FormatSTDFV4` on a valid stream, in order. -/
def ptrRecords (d : ParametricTestData) (L : Lib) (parent : ST_Datalog) (fail_only_mode : Bool) :
    List PTRRecord :=
  ptrFrom d L parent (d.tdesc L parent) (d.stdfRealUnits L) (d.stdfScale L parent)
    (d.stdfRealUnits L) (d.fsites fail_only_mode)

/-- Method `ParametricTestData::FormatSTDFV4`. -/
def FormatSTDFV4 (d : ParametricTestData) (L : Lib) (parent : ST_Datalog)
    (fail_only_mode : Bool) (STDF : STDFV4Stream) : STDFV4Stream :=
  if STDF.valid then
    (d.ptrRecords L parent fail_only_mode).foldl (fun st r => st.Write (STDFRecord.PTR r)) STDF
  else STDF

/-- Method `ParametricTestData::Format`. -/
def Format (d : ParametricTestData) (L : Lib) (env : SiteEnv) (format : Option String)
    (fail_only_mode : Bool) (st : OStream × STDFV4Stream × ST_Datalog) :
    OStream × STDFV4Stream × ST_Datalog :=
  match FormatSel.ofString format with
  | FormatSel.null => st
  | FormatSel.ascii =>
    (d.FormatASCII L st.2.2 env fail_only_mode st.1, st.2.1,
      st.2.2.SetLastFormatEvent SystemEvents.ParametricTest)
  | FormatSel.stdfv4 =>
    (st.1, d.FormatSTDFV4 L st.2.2 fail_only_mode st.2.1,
      st.2.2.SetLastFormatEvent SystemEvents.ParametricTest)
  | FormatSel.unknown => (st.1, st.2.1, st.2.2.SetLastFormatEvent SystemEvents.ParametricTest)

end ParametricTestData

/-! ## Parametric array tests -/

/-- User data `DatalogParametricArray` as read by the formatters. `Results site` is
`GetResults()[site]`; `SData BV kind ii site` is the content of `BV` after
`StuffSData(BV, kind, ii, site)`, given its content before the call. -/
structure DatalogParametricArray where
  TestID : Nat
  Results : SITE → List TM_RESULT
  Units : String
  Comment : Option String
  Pins : PinML
  NumValues : ParamKind → Nat
  BaseS1DData : ParamKind → SITE → BasicVar
  SData : BasicVar → ParamKind → Nat → SITE → BasicVar

/-- Class `ParametricTestDataArray`. -/
structure ParametricTestDataArray where
  ctx : DlogCtx
  PData : DatalogParametricArray

/-- Method `Pins.GetNumPins()`. -/
def PinML.GetNumPins (p : PinML) : Nat := (p.getD []).length

/-- Expression `(ii < npins ? Pins[ii] : PinML(UTL_VOID))`. -/
def PinML.pinAt (p : PinML) (ii : Nat) : PinML :=
  if ii < PinML.GetNumPins p then some [(p.getD []).getD ii ""] else none

namespace ParametricTestDataArray

/-- Element `Res1D[site][ii]`. -/
def resAt (d : ParametricTestDataArray) (site : SITE) (ii : Nat) : TM_RESULT :=
  (d.PData.Results site).getD ii TM_RESULT.TM_NOTEST

/-- Local `scale` of `FormatASCII` after the replacement of a zero scale. -/
def asciiScale (d : ParametricTestDataArray) (L : Lib) (parent : ST_Datalog) : Rat :=
  ParametricTestData.fixScale parent (L.CalculateUnitScale d.PData.Units).1

/-- Row-oriented section of `FormatASCII`, inner loop over the value indices of one site. -/
def rowCallsSite (d : ParametricTestDataArray) (L : Lib) (parent : ST_Datalog)
    (tdesc : Option String) (scale : Rat) (fail_only_mode : Bool) (site : SITE) :
    String → List Nat → List SiteLineArgs × String
  | real_units, [] => ([], real_units)
  | real_units, ii :: rest =>
    if fail_only_mode ∧ d.resAt site ii ≠ TM_RESULT.TM_FAIL then
      rowCallsSite d L parent tdesc scale fail_only_mode site real_units rest
    else
      let TV := d.PData.SData BasicVar.void ParamKind.Test ii site
      let LL := d.PData.SData BasicVar.void ParamKind.LowLimit ii site
      let HL := d.PData.SData BasicVar.void ParamKind.HighLimit ii site
      let r := ParametricTestData.realScale L scale d.PData.Units real_units TV LL HL
      let tl := rowCallsSite d L parent tdesc scale fail_only_mode site r.2 rest
      ({ site := site, TestID := d.PData.TestID, Res := d.resAt site ii,
         field_width := parent.FieldWidth, scale := r.1, TV := TV, LL := LL, HL := HL,
         separate_units := false, units := r.2, pins := PinML.pinAt d.PData.Pins ii,
         comment := tdesc, pass_string := parent.PassString,
         int_part_width := parent.GetIntegerPartWidth } :: tl.1, tl.2)

/-- Row-oriented section of `FormatASCII`, outer loop over the datalogged sites. -/
def rowCallsFrom (d : ParametricTestDataArray) (L : Lib) (parent : ST_Datalog)
    (tdesc : Option String) (scale : Rat) (fail_only_mode : Bool) (nvalues : Nat) :
    String → Sites → List SiteLineArgs
  | _, [] => []
  | real_units, site :: rest =>
    let r := rowCallsSite d L parent tdesc scale fail_only_mode site real_units
      (List.range nvalues)
    r.1 ++ rowCallsFrom d L parent tdesc scale fail_only_mode nvalues r.2 rest

/-- Calls of `OutputParametricSiteASCII` made by the row-oriented section of `FormatASCII`. -/
def rowCalls (d : ParametricTestDataArray) (L : Lib) (parent : ST_Datalog)
    (fail_only_mode : Bool) : List SiteLineArgs :=
  rowCallsFrom d L parent (FormatTestDescription d.ctx d.PData.Comment) (d.asciiScale L parent)
    fail_only_mode (d.PData.NumValues ParamKind.Test) (L.CalculateUnitScale d.PData.Units).2
    d.ctx.DlogSites

/-- Column-oriented section of `FormatASCII`: the line of value index `ii`. -/
def FormatASCIIColumnLine (d : ParametricTestDataArray) (L : Lib) (parent : ST_Datalog)
    (env : SiteEnv) (fail_only_mode : Bool) (st : OStream × String) (ii : Nat) :
    OStream × String :=
  let field_width := parent.FieldWidth
  let int_part_width := parent.GetIntegerPartWidth
  let units := d.PData.Units
  let tdesc := FormatTestDescription d.ctx d.PData.Comment
  let scale := d.asciiScale L parent
  let first_site := env.LoadedSites.beginValue
  let limit_site := Sites.beginValue d.ctx.DlogSites
  let last_site := env.LoadedSites.GetLargestSite
  let ResM : SITE → TM_RESULT := fun site => d.resAt site ii
  let allPass : Bool := env.ActiveSites.all (fun s => decide (ResM s = TM_RESULT.TM_PASS))
  let TV_first := d.PData.SData BasicVar.void ParamKind.Test ii limit_site
  let LL := d.PData.SData BasicVar.void ParamKind.LowLimit ii limit_site
  let HL := d.PData.SData BasicVar.void ParamKind.HighLimit ii limit_site
  let lim := ParametricTestData.realScale L scale units units TV_first LL HL
  let limit_scale := lim.1
  let limit_units := lim.2
  if allPass = false ∨ fail_only_mode = false then
    let r := env.LoadedSites.foldl
      (fun (cs : ParametricTestData.ColState) site =>
        let o := cs.out
        let o :=
          if site = first_site then
            OutputParametricLineStartASCII L o d.PData.TestID field_width limit_scale TV_first
              LL HL limit_units int_part_width
          else o
        let cs : ParametricTestData.ColState :=
          if site = Sites.beginValue cs.tested then
            let TV := d.PData.SData BasicVar.void ParamKind.Test ii site
            let r := ParametricTestData.realScale L scale units cs.real_units TV LL HL
            let o :=
              if ResM site ≠ TM_RESULT.TM_PASS ∨ fail_only_mode = false then
                let PF := PFMarker (ResM site) parent.PassString
                let o := (o.put PF).put " "
                PrintValue L o (varType TV LL HL) TV r.2 field_width r.1 true int_part_width
              else ((o.put "    ").putw field_width " ").put "  "
            { out := o, tested := cs.tested.tail, real_units := r.2 }
          else
            { cs with out := ((o.put "    ").putw field_width " ").put "  " }
        if site = last_site then
          { cs with out := (OutputParametricLineEndASCII L cs.out field_width limit_scale
              TV_first LL HL limit_units (PinML.pinAt d.PData.Pins ii) tdesc int_part_width) }
        else cs)
      { out := st.1, tested := d.ctx.DlogSites, real_units := st.2 }
    (r.out, r.real_units)
  else st

/-- Method `ParametricTestDataArray::FormatASCII`. -/
def FormatASCII (d : ParametricTestDataArray) (L : Lib) (parent : ST_Datalog) (env : SiteEnv)
    (fail_only_mode : Bool) (output : OStream) : OStream :=
  let o :=
    if parent.LastFormatEvent ≠ SystemEvents.ParametricTest ∧
        parent.LastFormatEvent ≠ SystemEvents.ParametricTestArray then
      OutputParametricHeader output env.LoadedSites parent.FieldWidth
        parent.ASCIIDatalogInColumns false
    else output
  if parent.ASCIIDatalogInColumns then
    ((List.range (d.PData.NumValues ParamKind.Test)).foldl
      (d.FormatASCIIColumnLine L parent env fail_only_mode)
      (o, (L.CalculateUnitScale d.PData.Units).2)).1
  else
    (d.rowCalls L parent fail_only_mode).foldl (OutputParametricSiteASCII L) o

/-- Local `scale` of `FormatSTDFV4` after the replacement of a zero scale. -/
def stdfScale (d : ParametricTestDataArray) (L : Lib) (parent : ST_Datalog) : Rat :=
  ParametricTestData.fixScale parent (L.CalculateBaseUnitScale d.PData.Units).1

/-- Local `real_units` of `FormatSTDFV4`; it is the argument of `SetUnits`. -/
def stdfRealUnits (d : ParametricTestDataArray) (L : Lib) : String :=
  (L.CalculateBaseUnitScale d.PData.Units).2

/-- Per-pin branch of `FormatSTDFV4` for one site: the loop over the value indices, `BV`
being the content of that variable when the loop reaches the list. -/
def perPinLoop (d : ParametricTestDataArray) (tdesc : Option String) (units : String)
    (real_scale : Rat) (fmt : String) (num_low num_high : Nat) (site : SITE) :
    BasicVar → List Nat → List PTRRecord
  | _, [] => []
  | BV, ii :: rest =>
    let BV1 := d.PData.SData BV ParamKind.Test ii site
    if BV1.Valid then
      let lo :=
        if num_low > 0 then
          d.PData.SData BasicVar.void ParamKind.LowLimit (if num_low = 1 then 0 else ii) site
        else BasicVar.void
      let hi :=
        if num_high > 0 then
          d.PData.SData BasicVar.void ParamKind.HighLimit (if num_high = 1 then 0 else ii) site
        else BasicVar.void
      { testID := d.PData.TestID, tdesc := tdesc, units := units, site := site,
        result := d.resAt site ii, value := BV1, resultScale := real_scale, fmt := fmt,
        loLimit := lo, loScale := real_scale, hiLimit := hi, hiScale := real_scale }
        :: perPinLoop d tdesc units real_scale fmt num_low num_high site hi rest
    else perPinLoop d tdesc units real_scale fmt num_low num_high site BV1 rest

/-- Body of the site loop of `FormatSTDFV4`: the records written for one site and the content
of `str` afterwards. -/
def siteRecords (d : ParametricTestDataArray) (L : Lib) (tdesc : Option String)
    (real_units : String) (scale : Rat) (str : String) (site : SITE) :
    List STDFRecord × String :=
  let TV := d.PData.BaseS1DData ParamKind.Test site
  let LL := d.PData.BaseS1DData ParamKind.LowLimit site
  let HL := d.PData.BaseS1DData ParamKind.HighLimit site
  let fmt := GetDefaultFormat TV
  let r := ParametricTestData.realScale L scale real_units str TV LL HL
  let real_scale := ParametricTestData.invertScale r.1
  if PerPinLimits LL HL then
    ((perPinLoop d tdesc real_units real_scale fmt (GetArrayLength LL) (GetArrayLength HL) site
        BasicVar.void (List.range (GetArrayLength TV))).map STDFRecord.PTR, r.2)
  else
    ([STDFRecord.MPR
        { testID := d.PData.TestID, tdesc := tdesc, units := real_units, site := site,
          pins := d.PData.Pins, results := d.PData.Results site, value := TV,
          resultScale := real_scale, fmt := fmt, loLimit := LL, loScale := real_scale,
          hiLimit := HL, hiScale := real_scale }], r.2)

/-- Site loop of `FormatSTDFV4` over the sites of the list. -/
def recordsFrom (d : ParametricTestDataArray) (L : Lib) (tdesc : Option String)
    (real_units : String) (scale : Rat) : String → Sites → List STDFRecord
  | _, [] => []
  | str, site :: rest =>
    let r := siteRecords d L tdesc real_units scale str site
    r.1 ++ recordsFrom d L tdesc real_units scale r.2 rest

/-- Records written by `FormatSTDFV4` on a valid stream, in order. The argument
`fail_only_mode` is not read by the method. -/
def stdfRecords (d : ParametricTestDataArray) (L : Lib) (parent : ST_Datalog)
    (_fail_only_mode : Bool) : List STDFRecord :=
  recordsFrom d L (FormatTestDescription d.ctx d.PData.Comment) (d.stdfRealUnits L)
    (d.stdfScale L parent) "" d.ctx.DlogSites

/-- Method `ParametricTestDataArray::FormatSTDFV4`. -/
def FormatSTDFV4 (d : ParametricTestDataArray) (L : Lib) (parent : ST_Datalog)
    (fail_only_mode : Bool) (STDF : STDFV4Stream) : STDFV4Stream :=
  if STDF.valid then
    (d.stdfRecords L parent fail_only_mode).foldl (fun st r => st.Write r) STDF
  else STDF

/-- Method `ParametricTestDataArray::Format`. -/
def Format (d : ParametricTestDataArray) (L : Lib) (env : SiteEnv) (format : Option String)
    (fail_only_mode : Bool) (st : OStream × STDFV4Stream × ST_Datalog) :
    OStream × STDFV4Stream × ST_Datalog :=
  match FormatSel.ofString format with
  | FormatSel.null => st
  | FormatSel.ascii =>
    (d.FormatASCII L st.2.2 env fail_only_mode st.1, st.2.1,
      st.2.2.SetLastFormatEvent SystemEvents.ParametricTestArray)
  | FormatSel.stdfv4 =>
    (st.1, d.FormatSTDFV4 L st.2.2 fail_only_mode st.2.1,
      st.2.2.SetLastFormatEvent SystemEvents.ParametricTestArray)
  | FormatSel.unknown =>
    (st.1, st.2.1, st.2.2.SetLastFormatEvent SystemEvents.ParametricTestArray)

end ParametricTestDataArray

/-! ## Generic data -/

def GSSize : Int := TNSize + 2 + 3 + 2
def GDSize : Int := 64
def GDAllSize : Int := 1024

/-- Library functions used by the generic-data display functions. An output string parameter
of the C++ function is returned as (a component of) the result. -/
structure GenLib where
  /-- `CalculateAutoRangeUnitScale(units, Val)`: the scale and `units`. -/
  CalculateAutoRangeUnitScale : BasicVar → Rat × String
  /-- `FormatSVData(str, Val, width, scale)`: `str`. -/
  FormatSVData : BasicVar → Int → Rat → String
  /-- `FormatSVData(str, Val, ii, width, scale)`: `str`. -/
  FormatSVDataAt : BasicVar → Nat → Int → Rat → String
  /-- `GetNumberOfElements(Val)`. -/
  GetNumberOfElements : BasicVar → Nat
  /-- `FormatPins(str, Val.GetPinML(), size)`: `str`. -/
  FormatPins : BasicVar → Int → String
  /-- `Val.GetPinM().GetName()`. -/
  PinName : BasicVar → String

/-- What the generic-data formatters take from outside the repository: the display functions
and the result of `GDR.SetGenericData(Arr)`, which tells per site whether the data of the site
fits the record. -/
structure GenHost where
  lib : GenLib
  SetGenericData : List BasicVar → SITE → Bool

/-- Validity of the multisite object read from a value by `GetFloatM()`, `GetIntM1D()`,
`GetPinM()` and the like. -/
def BasicVar.multiValid : BasicVar → Bool
  | BasicVar.multi _ _ valid _ => valid
  | _ => false

/-- Element `FV[site]` of the multisite object read from a value, as a single-site value of
the given shape. -/
def BasicVar.atSite (cfg : SConfig) : BasicVar → SITE → BasicVar
  | BasicVar.multi _ ty _ xs, site => BasicVar.single cfg ty ((xs.lookup site).getD [])
  | _, _ => BasicVar.void

/-- Function `DisplaySGenData(Val, output, index)`. -/
def DisplaySGenData (G : GenLib) (Val : BasicVar) (o : OStream) (index : Nat) : OStream :=
  let type := Val.GetType
  let su : Rat × String :=
    if type = SV_TYPE.SV_FLOAT then G.CalculateAutoRangeUnitScale Val else (1, "")
  let o := (o.setRight.putw TNSize (toString index)).put "       "
  match type with
  | SV_TYPE.SV_FLOAT =>
    (((o.setRight.putw VASize (G.FormatSVData Val VASize su.1)).put su.2).endl)
  | SV_TYPE.SV_INT => (o.setLeft.put (G.FormatSVData Val GDAllSize su.1)).endl
  | SV_TYPE.SV_UINT => (o.setLeft.put (G.FormatSVData Val GDAllSize su.1)).endl
  | SV_TYPE.SV_STRING => (o.setLeft.put (G.FormatSVData Val GDAllSize su.1)).endl
  | SV_TYPE.SV_ENUM => (o.setLeft.put (G.FormatSVData Val GDAllSize su.1)).endl
  | SV_TYPE.SV_BOOL => (o.setLeft.put (G.FormatSVData Val GDAllSize su.1)).endl
  | _ => (o.setLeft.put "** Unsupported variable type found in array **").endl

/-- Function `DisplayMGenData(Val, output, site, index)`. -/
def DisplayMGenData (G : GenLib) (Val : BasicVar) (o : OStream) (site : SITE) (index : Nat) :
    OStream :=
  let viaSite (o : OStream) : OStream :=
    if Val.multiValid then DisplaySGenData G (Val.atSite SConfig.SCALAR_S site) o index else o
  match Val.GetType with
  | SV_TYPE.SV_FLOAT => viaSite o
  | SV_TYPE.SV_INT => viaSite o
  | SV_TYPE.SV_UINT => viaSite o
  | SV_TYPE.SV_STRING => viaSite o
  | SV_TYPE.SV_ENUM => viaSite o
  | SV_TYPE.SV_BOOL => viaSite o
  | SV_TYPE.SV_PIN =>
    if Val.multiValid then
      ((((o.setRight.putw TNSize (toString index)).put "       ").setLeft.put (G.PinName Val)).endl)
    else o
  | _ => DisplaySGenData G Val o index

/-- Loop of `DisplayS1DGenData` and `DisplaySLGenData` over the elements of the list. -/
def displayElems (G : GenLib) (Val : BasicVar) (index : Nat) (isFloat : Bool) (scale : Rat)
    (units : String) (o : OStream) (iis : List Nat) : OStream :=
  iis.foldl
    (fun o ii =>
      let o :=
        if ii = 0 then (o.setRight.putw TNSize (toString index)).put "       "
        else o.putw GSSize " "
      if isFloat then
        (((o.setRight.putw VASize (G.FormatSVDataAt Val ii VASize scale)).put units).endl)
      else (o.setLeft.put (G.FormatSVDataAt Val ii GDAllSize scale)).endl)
    o

/-- Function `DisplayS1DGenData(Val, output, index)`. -/
def DisplayS1DGenData (G : GenLib) (Val : BasicVar) (o : OStream) (index : Nat) : OStream :=
  let iis := List.range (G.GetNumberOfElements Val)
  match Val.GetType with
  | SV_TYPE.SV_FLOAT =>
    let su := G.CalculateAutoRangeUnitScale Val
    displayElems G Val index true su.1 su.2 o iis
  | SV_TYPE.SV_INT => displayElems G Val index false 1 "" o iis
  | SV_TYPE.SV_UINT => displayElems G Val index false 1 "" o iis
  | SV_TYPE.SV_STRING => displayElems G Val index false 1 "" o iis
  | SV_TYPE.SV_ENUM => displayElems G Val index false 1 "" o iis
  | SV_TYPE.SV_BOOL => displayElems G Val index false 1 "" o iis
  | _ => DisplaySGenData G Val o index

/-- Function `DisplayM1DGenData(Val, output, site, index)`. -/
def DisplayM1DGenData (G : GenLib) (Val : BasicVar) (o : OStream) (site : SITE) (index : Nat) :
    OStream :=
  let viaSite (o : OStream) : OStream :=
    if Val.multiValid then DisplayS1DGenData G (Val.atSite SConfig.ARRAY_S1D site) o index else o
  match Val.GetType with
  | SV_TYPE.SV_FLOAT => viaSite o
  | SV_TYPE.SV_INT => viaSite o
  | SV_TYPE.SV_UINT => viaSite o
  | SV_TYPE.SV_STRING => viaSite o
  | SV_TYPE.SV_ENUM => viaSite o
  | SV_TYPE.SV_BOOL => viaSite o
  | _ => DisplaySGenData G Val o index

/-- Function `DisplaySLGenData(Val, output, index)`. -/
def DisplaySLGenData (G : GenLib) (Val : BasicVar) (o : OStream) (index : Nat) : OStream :=
  let iis := List.range (G.GetNumberOfElements Val)
  match Val.GetType with
  | SV_TYPE.SV_FLOAT =>
    let su := G.CalculateAutoRangeUnitScale Val
    displayElems G Val index true su.1 su.2 o iis
  | SV_TYPE.SV_INT => displayElems G Val index false 1 "" o iis
  | SV_TYPE.SV_UINT => displayElems G Val index false 1 "" o iis
  | SV_TYPE.SV_STRING => displayElems G Val index false 1 "" o iis
  | SV_TYPE.SV_ENUM => displayElems G Val index false 1 "" o iis
  | SV_TYPE.SV_BOOL => displayElems G Val index false 1 "" o iis
  | _ => DisplaySGenData G Val o index

/-- Function `DisplayMLGenData(Val, output, site, index)`. -/
def DisplayMLGenData (G : GenLib) (Val : BasicVar) (o : OStream) (site : SITE) (index : Nat) :
    OStream :=
  let viaSite (o : OStream) : OStream :=
    if Val.multiValid then DisplaySLGenData G (Val.atSite SConfig.LIST_S site) o index else o
  match Val.GetType with
  | SV_TYPE.SV_FLOAT => viaSite o
  | SV_TYPE.SV_INT => viaSite o
  | SV_TYPE.SV_UINT => viaSite o
  | SV_TYPE.SV_STRING => viaSite o
  | SV_TYPE.SV_ENUM => viaSite o
  | SV_TYPE.SV_PIN =>
    ((((o.setRight.putw TNSize (toString index)).put "       ").setLeft.put
      (G.FormatPins Val GDSize)).endl)
  | _ => DisplaySGenData G Val o index

mutual

/-- Function `DisplayArrOfGenData(Val, output, site, index)`: the stream and `index` after
the call. -/
def DisplayArrOfGenData (G : GenLib) (site : SITE) : BasicVar → OStream × Nat → OStream × Nat
  | BasicVar.arrayOf xs, st => DisplayArrOfGenDataLoop G site xs st
  | _, st => st

/-- Loop of `DisplayArrOfGenData` over the remaining elements of the array. -/
def DisplayArrOfGenDataLoop (G : GenLib) (site : SITE) :
    List BasicVar → OStream × Nat → OStream × Nat
  | [], st => st
  | v :: rest, st =>
    let st1 : OStream × Nat :=
      match v with
      | BasicVar.void => st
      | BasicVar.single SConfig.SCALAR_S _ _ => (DisplaySGenData G v st.1 st.2, st.2)
      | BasicVar.single SConfig.ARRAY_S1D _ _ => (DisplayS1DGenData G v st.1 st.2, st.2)
      | BasicVar.single SConfig.LIST_S _ _ => (DisplaySLGenData G v st.1 st.2, st.2)
      | BasicVar.multi MConfig.SCALAR_M _ _ _ => (DisplayMGenData G v st.1 site st.2, st.2)
      | BasicVar.multi MConfig.ARRAY_M1D _ _ _ => (DisplayM1DGenData G v st.1 site st.2, st.2)
      | BasicVar.multi MConfig.LIST_M _ _ _ => (DisplayMLGenData G v st.1 site st.2, st.2)
      | BasicVar.arrayOf _ => DisplayArrOfGenData G site v st
      | BasicVar.unsupported ty =>
        if ty = SV_TYPE.SV_ARRAY_OF then st
        else
          ((((((st.1.putw (GSSize + 6) " ").setLeft.put
            "ST_Datalog::Generic - unsupported variable configuration found in array at index ").put
            (toString st.2)).put ".").endl), st.2)
    DisplayArrOfGenDataLoop G site rest (st1.1, st1.2 + 1)

end

mutual

/-- Function `GDR_HasMultisiteValues(sites, Val)`, after the test of the number of sites. -/
def hasMultisiteValues : BasicVar → Bool
  | BasicVar.arrayOf xs => hasMultisiteValuesLoop xs
  | _ => false

/-- Loop of `GDR_HasMultisiteValues` over the remaining elements of the array. -/
def hasMultisiteValuesLoop : List BasicVar → Bool
  | [] => false
  | v :: rest =>
    match v with
    | BasicVar.multi _ _ _ _ => true
    | BasicVar.arrayOf _ => if hasMultisiteValues v then true else hasMultisiteValuesLoop rest
    | _ => hasMultisiteValuesLoop rest

end

/-- Function `GDR_HasMultisiteValues(sites, Val)`. -/
def GDR_HasMultisiteValues (sites : Sites) (Val : BasicVar) : Bool :=
  if sites.length < 2 then false else hasMultisiteValues Val

/-- User data `DatalogGeneric`: the array returned by `GetData()`. -/
structure DatalogGeneric where
  Data : List BasicVar

/-- Class `GenericData`. -/
structure GenericData where
  ctx : DlogCtx
  GData : DatalogGeneric

/-- Severity of a reported error; only `ERR_GENERIC_ADVISORY` is used by the source. -/
inductive ErrLevel where
  | ERR_GENERIC_ADVISORY
  | ERR_OTHER
  deriving DecidableEq, Repr

/-- Arguments of one `ERR.ReportError` call: severity, message and site (`none` is
`NO_SITES`). -/
structure ErrReport where
  level : ErrLevel
  message : String
  site : Option SITE
  deriving DecidableEq, Repr

/-- What `GenericData::FormatSTDFV4` reads and writes besides its object: the STDF stream,
the reported errors (oldest first) and the active site set of the run time, which is also the
set of sites over which the comparisons `res == true` and `res == false` run. -/
structure GenState where
  STDF : STDFV4Stream
  errors : List ErrReport
  ActiveSites : Sites

/-- Statement `good_sites += site`. -/
def Sites.add (s : Sites) (site : SITE) : Sites := if site ∈ s then s else s ++ [site]

namespace GenericData

/-- Method `GenericData::FormatASCII`. -/
def FormatASCII (d : GenericData) (H : GenHost) (fail_only_mode : Bool) (output : OStream) :
    OStream :=
  let Arr := BasicVar.arrayOf d.GData.Data
  let size := d.GData.Data.length
  if fail_only_mode = false ∧ size > 0 then
    let dlog_sites := d.ctx.DlogSites
    if GDR_HasMultisiteValues dlog_sites Arr then
      dlog_sites.foldl
        (fun o site =>
          let o := ((((o.putw TNSize "Index").putw (2 + 3 + 2) " ").put
            "Generic Data for site ").put (toString site)).endl
          let o := OutputBorder o TNSize (2 + 3 + 2)
          let o := OutputBorder o GDSize 0
          let o := o.endl
          (DisplayArrOfGenData H.lib site Arr (o, 0)).1)
        output
    else
      let o := (((output.putw TNSize "Index").putw (2 + 3 + 2) " ").put "Generic Data").endl
      let o := OutputBorder o TNSize (2 + 3 + 2)
      let o := OutputBorder o GDSize 0
      let o := o.endl
      (DisplayArrOfGenData H.lib (Sites.beginValue dlog_sites) Arr (o, 0)).1
  else output

/-- Call `ERR.ReportError(ERR_GENERIC_ADVISORY, message, Arr, site, UTL_VOID)`. -/
def reportAdvisory (errors : List ErrReport) (message : String) (site : Option SITE) :
    List ErrReport :=
  errors ++ [ErrReport.mk ErrLevel.ERR_GENERIC_ADVISORY message site]

/-- Call `RunTime.SetActiveSites(sites)`. -/
def SetActiveSites (st : GenState) (sites : Sites) : GenState :=
  { st with ActiveSites := sites }

/-- Call `STDF.Write(GDR)`: the record goes out for the sites active at that moment. -/
def WriteGDR (st : GenState) (Arr : List BasicVar) : GenState :=
  { st with STDF := st.STDF.Write (STDFRecord.GDR (GDRRecord.mk Arr st.ActiveSites)) }

/-- Loop of the "some sites fit" branch of `FormatSTDFV4`: the sites collected in
`good_sites` and the errors reported, for the sites of the list. -/
def splitSites (res : SITE → Bool) : Sites → Sites × List ErrReport → Sites × List ErrReport
  | [], acc => acc
  | s :: rest, acc =>
    if res s then splitSites res rest (Sites.add acc.1 s, acc.2)
    else
      splitSites res rest
        (acc.1, reportAdvisory acc.2
          "ST_Datalog::Generic: Site data was longer than STDFv4 limit for GDR records." (some s))

/-- Method `GenericData::FormatSTDFV4`. -/
def FormatSTDFV4 (d : GenericData) (H : GenHost) (_fail_only_mode : Bool) (st : GenState) :
    GenState :=
  if st.STDF.valid then
    let Arr := d.GData.Data
    if Arr.length > 0 then
      let res := H.SetGenericData Arr
      if BoolM.allEq st.ActiveSites res true then
        WriteGDR st Arr
      else if BoolM.allEq st.ActiveSites res false then
        if GDR_HasMultisiteValues d.ctx.DlogSites (BasicVar.arrayOf Arr) then
          { st with errors := (reportAdvisory st.errors
              "ST_Datalog::Generic: All site data was longer than STDFv4 limit for GDR records."
              none) }
        else
          { st with errors := (reportAdvisory st.errors
              "ST_Datalog::Generic: Data was longer than STDFv4 limit for GDR records." none) }
      else
        let r := splitSites res d.ctx.DlogSites ([], st.errors)
        let good_sites := r.1
        let st1 : GenState := { st with errors := r.2 }
        let save_sites := st1.ActiveSites
        let st2 := SetActiveSites st1 good_sites
        let st3 := WriteGDR st2 Arr
        SetActiveSites st3 save_sites
    else st
  else st

/-- Method `GenericData::Format`. -/
def Format (d : GenericData) (H : GenHost) (format : Option String) (fail_only_mode : Bool)
    (st : OStream × GenState × ST_Datalog) : OStream × GenState × ST_Datalog :=
  match FormatSel.ofString format with
  | FormatSel.null => st
  | FormatSel.ascii =>
    (d.FormatASCII H fail_only_mode st.1, st.2.1, st.2.2.SetLastFormatEvent SystemEvents.Generic)
  | FormatSel.stdfv4 =>
    (st.1, d.FormatSTDFV4 H fail_only_mode st.2.1,
      st.2.2.SetLastFormatEvent SystemEvents.Generic)
  | FormatSel.unknown => (st.1, st.2.1, st.2.2.SetLastFormatEvent SystemEvents.Generic)

end GenericData

/-! ## Observations made on the formatters -/

/-- Sites that get a line in the row-oriented output of `ParametricTestData::FormatASCII`:
the site argument of every `OutputParametricSiteASCII` call, in order. -/
def ParametricTestData.asciiRowSites (d : ParametricTestData) (L : Lib) (parent : ST_Datalog)
    (fail_only_mode : Bool) : List SITE :=
  (d.rowCalls L parent fail_only_mode).map (fun a => a.site)

/-- Sites for which `ParametricTestData::FormatSTDFV4` writes a record on a valid stream that
is empty before the call, in order. -/
def ParametricTestData.stdfSites (d : ParametricTestData) (L : Lib) (parent : ST_Datalog)
    (fail_only_mode : Bool) : List SITE :=
  (d.FormatSTDFV4 L parent fail_only_mode (STDFV4Stream.mk true [])).records.filterMap
    STDFRecord.site?

/-- Kind of an STDF record. -/
inductive RecKind where
  | PIR
  | PRR
  | PTR
  | MPR
  | GDR
  | TSR
  | HBR
  | SBR
  | PCR
  | MRR
  | WCR
  | WIR
  | WRR
  | FAR
  | VUR
  | MIR
  | RDR
  | SDR
  | FTR
  | PSR
  | STR
  | DTR
  | PMR
  | PGR
  | Setting
  deriving DecidableEq, Repr

/-- Kind of a record. -/
def STDFRecord.kind : STDFRecord → RecKind
  | STDFRecord.PIR _ => RecKind.PIR
  | STDFRecord.PRR _ => RecKind.PRR
  | STDFRecord.PTR _ => RecKind.PTR
  | STDFRecord.MPR _ => RecKind.MPR
  | STDFRecord.GDR _ => RecKind.GDR
  | STDFRecord.TSR _ => RecKind.TSR
  | STDFRecord.HBR _ => RecKind.HBR
  | STDFRecord.SBR _ => RecKind.SBR
  | STDFRecord.PCR _ => RecKind.PCR
  | STDFRecord.MRR _ => RecKind.MRR
  | STDFRecord.WCR _ => RecKind.WCR
  | STDFRecord.WIR _ => RecKind.WIR
  | STDFRecord.WRR _ => RecKind.WRR
  | STDFRecord.FAR => RecKind.FAR
  | STDFRecord.VUR => RecKind.VUR
  | STDFRecord.MIR _ => RecKind.MIR
  | STDFRecord.RDR _ => RecKind.RDR
  | STDFRecord.SDR _ => RecKind.SDR
  | STDFRecord.GDRX _ => RecKind.GDR
  | STDFRecord.FTR _ => RecKind.FTR
  | STDFRecord.PSR _ => RecKind.PSR
  | STDFRecord.STR _ => RecKind.STR
  | STDFRecord.DTR _ => RecKind.DTR
  | STDFRecord.SetOptimization _ => RecKind.Setting
  | STDFRecord.SetSiteConfiguration _ => RecKind.Setting
  | STDFRecord.UnisonPinMap => RecKind.PMR
  | STDFRecord.UnisonPinGroups => RecKind.PGR

/-- Comparison results of the entries a measurement record carries: the result of a PTR, the
result array of an MPR. -/
def STDFRecord.entryResults : STDFRecord → List TM_RESULT
  | STDFRecord.PTR r => [r.result]
  | STDFRecord.MPR r => r.results
  | _ => []

/-- Kind, site and entry results of a record. -/
def STDFRecord.obs (r : STDFRecord) : RecKind × Option SITE × List TM_RESULT :=
  (r.kind, r.site?, r.entryResults)

/-- Kind, site and entry results of the records `ParametricTestDataArray::FormatSTDFV4` writes
for one site when every measured entry of a site with per-pin limits is defined: one PTR per
entry under per-pin limits, one MPR otherwise. -/
def ParametricTestDataArray.siteObs (d : ParametricTestDataArray) (site : SITE) :
    List (RecKind × Option SITE × List TM_RESULT) :=
  if PerPinLimits (d.PData.BaseS1DData ParamKind.LowLimit site)
      (d.PData.BaseS1DData ParamKind.HighLimit site) then
    (List.range (GetArrayLength (d.PData.BaseS1DData ParamKind.Test site))).map
      (fun ii => (RecKind.PTR, some site, [d.resAt site ii]))
  else [(RecKind.MPR, some site, d.PData.Results site)]

/-- Wording of claim C6 for one limit: the value is a defined single-site 1-D array and not
all of its elements are equal. -/
def arrayShapedNotAllEqual (V : BasicVar) : Prop :=
  ∃ ty xs, V = BasicVar.single SConfig.ARRAY_S1D ty xs ∧ ∃ x ∈ xs, ∃ y ∈ xs, x ≠ y

/-- Wording of claim C6 for one limit, restricted to the types the source has a case for:
the value is a defined single-site 1-D array of float, int or unsigned type and not all of its
elements are equal. -/
def numericArrayNotAllEqual (V : BasicVar) : Prop :=
  ∃ ty xs, V = BasicVar.single SConfig.ARRAY_S1D ty xs ∧
    (ty = SV_TYPE.SV_FLOAT ∨ ty = SV_TYPE.SV_INT ∨ ty = SV_TYPE.SV_UINT) ∧
    ∃ x ∈ xs, ∃ y ∈ xs, x ≠ y

/-- Scale factors a measurement record carries: the one of the result and the ones of the low
and high limit. -/
def STDFRecord.scales : STDFRecord → List Rat
  | STDFRecord.PTR r => [r.resultScale, r.loScale, r.hiScale]
  | STDFRecord.MPR r => [r.resultScale, r.loScale, r.hiScale]
  | _ => []

/-! ## Concrete inputs -/

/-- Library constants for the EndOfTest examples. -/
def exEotLib : EotLib := { UTL_NO_WAFER_COORD := -32768, showFixed6 := fun _ => "0.000000" }

/-- One loaded, selected and active site. -/
def exEnv1 : SiteEnv := { LoadedSites := [1], SelectedSites := [1], ActiveSites := [1] }

/-- EndOfTest snapshot captured while the host could not supply the end-of-test data:
`RunTime.GetEndOfTestData` returned false and left the structure as constructed. -/
def exInvalidEOT : EndOfTestData :=
  (EndOfTestData.new ST_Datalog.init exEnv1 none (false, EndOfTestStruct.empty)).1

/-- Empty output stream in its initial state. -/
def exOut : OStream := { text := "", adjust := Adjust.right }

/-- Example library. The unit table follows the comments of the source ("if unit = mA then
scale = 1e3", "if unit = mA then real_units = A"); a unit that is not known gives scale 0 and
the autorange picks the milli range. -/
def exLib : Lib :=
  { CalculateUnitScale := fun u =>
      if u = "mA" then (1000, "A") else if u = "V" then (1, "V") else (0, "")
    CalculateBaseUnitScale := fun u =>
      if u = "mA" then (1000, "A") else if u = "V" then (1, "V") else (0, "")
    CalculateAutoRangeUnitScale := fun u _ _ _ _ => (1000, "m" ++ u)
    FormatSVData := fun _ _ _ _ _ => some "val"
    FormatPins := fun _ _ => ""
    AppendPinNameToTestText := fun _ t => t }

/-- Single-site float scalar. -/
def exFloat (q : Rat) : BasicVar :=
  BasicVar.single SConfig.SCALAR_S SV_TYPE.SV_FLOAT [SVal.float q]

/-- Parametric snapshot with one tested site whose result is fail and whose measured value
is void. -/
def exVoidFail : ParametricTestData :=
  { ctx := { DlogSites := [1], TestName := some "vdd", BlockName := none, DlogTime := none }
    PData :=
      { TestID := 100
        Result := fun _ => TM_RESULT.TM_FAIL
        Units := "V"
        Comment := none
        Pins := none
        BaseSData := fun k _ =>
          match k with
          | ParamKind.Test => BasicVar.void
          | ParamKind.LowLimit => exFloat 3
          | ParamKind.HighLimit => exFloat 4 } }

/-- Scenario A of the specification: two tested sites with the same limits 3.0 / 3.6 V, site 1
measures 3.3 (pass), site 2 measures 3.7 (fail). -/
def exA : ParametricTestData :=
  { ctx := { DlogSites := [1, 2], TestName := some "vdd", BlockName := none, DlogTime := none }
    PData :=
      { TestID := 100
        Result := fun s => if s = 1 then TM_RESULT.TM_PASS else TM_RESULT.TM_FAIL
        Units := "V"
        Comment := none
        Pins := none
        BaseSData := fun k s =>
          match k with
          | ParamKind.Test => if s = 1 then exFloat 3.3 else exFloat 3.7
          | ParamKind.LowLimit => exFloat 3.0
          | ParamKind.HighLimit => exFloat 3.6 } }

/-- Single-site 1-D float array. -/
def exFloats (qs : List Rat) : BasicVar :=
  BasicVar.single SConfig.ARRAY_S1D SV_TYPE.SV_FLOAT (qs.map SVal.float)

/-- Element `ii` of a single-site 1-D array as a scalar, void outside the array. -/
def exElem (v : BasicVar) (ii : Nat) : BasicVar :=
  match v.elemsS1D.get? ii with
  | some x => BasicVar.single SConfig.SCALAR_S v.GetType [x]
  | none => BasicVar.void

/-- Parametric array snapshot (values in tenths of a volt): two tested sites with two pins
each, high limit 36 on every pin, low limit 30 on every pin of site 2 and `low1` on the pins
of site 1; site 1 passes on pin 0 and fails on pin 1, site 2 passes on both. -/
def exArrayData (low1 : List Rat) : ParametricTestDataArray :=
  let base : ParamKind → SITE → BasicVar := fun k s =>
    match k with
    | ParamKind.Test => if s = 1 then exFloats [33, 37] else exFloats [34, 35]
    | ParamKind.LowLimit => if s = 1 then exFloats low1 else exFloats [30, 30]
    | ParamKind.HighLimit => exFloats [36, 36]
  { ctx := { DlogSites := [1, 2], TestName := some "vout", BlockName := none, DlogTime := none }
    PData :=
      { TestID := 200
        Results := fun s =>
          if s = 1 then [TM_RESULT.TM_PASS, TM_RESULT.TM_FAIL]
          else [TM_RESULT.TM_PASS, TM_RESULT.TM_PASS]
        Units := "V"
        Comment := none
        Pins := some ["p0", "p1"]
        NumValues := fun _ => 2
        BaseS1DData := base
        SData := fun _ k ii s => exElem (base k s) ii } }

/-- Array snapshot with identical limits on all tested sites. -/
def exArr : ParametricTestDataArray := exArrayData [30, 30]

/-- The snapshot `exArr` after the low limit of site 1 is changed to differ on pin 0. -/
def exArrVar : ParametricTestDataArray := exArrayData [20, 30]

/-- Low limit given as a 1-D array of two different strings. -/
def exStringLimit : BasicVar :=
  BasicVar.single SConfig.ARRAY_S1D SV_TYPE.SV_STRING [SVal.str "a", SVal.str "b"]

/-- Generic-data snapshot: two tested sites, one multisite float scalar. -/
def exGen : GenericData :=
  { ctx := { DlogSites := [1, 2], TestName := none, BlockName := none, DlogTime := none }
    GData := { Data := [BasicVar.multi MConfig.SCALAR_M SV_TYPE.SV_FLOAT true
      [(1, [SVal.float 1]), (2, [SVal.float 2])]] } }

/-- Display library of the generic-data examples. -/
def exGenLib : GenLib :=
  { CalculateAutoRangeUnitScale := fun _ => (1, "")
    FormatSVData := fun _ _ _ => "val"
    FormatSVDataAt := fun _ _ _ _ => "val"
    GetNumberOfElements := fun v => v.elemsS1D.length
    FormatPins := fun _ _ => ""
    PinName := fun _ => "" }

/-- Host for which the generic data fits the record on no site. -/
def exHostNone : GenHost := { lib := exGenLib, SetGenericData := fun _ _ => false }

/-- Host for which the generic data fits the record on site 1 only. -/
def exHostSite1 : GenHost := { lib := exGenLib, SetGenericData := fun _ s => decide (s = 1) }

/-- Valid empty STDF stream, no error reported, sites 1 and 2 active. -/
def exGenState : GenState :=
  { STDF := STDFV4Stream.mk true [], errors := [], ActiveSites := [1, 2] }

/-- Parametric snapshot with declared unit "mA": one tested site, measured 0.005. -/
def exMilli : ParametricTestData :=
  { ctx := { DlogSites := [1], TestName := some "idd", BlockName := none, DlogTime := none }
    PData :=
      { TestID := 101
        Result := fun _ => TM_RESULT.TM_PASS
        Units := "mA"
        Comment := none
        Pins := none
        BaseSData := fun k _ =>
          match k with
          | ParamKind.Test => exFloat 0.005
          | ParamKind.LowLimit => exFloat 0.001
          | ParamKind.HighLimit => exFloat 0.009 } }

/-- Parametric snapshot whose declared unit is not in the unit table of `exLib`. -/
def exUnknownUnit : ParametricTestData :=
  { ctx := { DlogSites := [1], TestName := some "res", BlockName := none, DlogTime := none }
    PData :=
      { TestID := 102
        Result := fun _ => TM_RESULT.TM_PASS
        Units := "ohm"
        Comment := none
        Pins := none
        BaseSData := fun k _ =>
          match k with
          | ParamKind.Test => exFloat 50
          | ParamKind.LowLimit => exFloat 40
          | ParamKind.HighLimit => exFloat 60 } }

/-- Datalog method object with `UnitAutoscaling` enabled. -/
def exParentAuto : ST_Datalog := { ST_Datalog.init with UnitAutoscaling := true }

/-! ## Checked arithmetic of the parametric encoders -/

/-- Quotient `a / b` of two `double` values as an operation that fails on a zero divisor. -/
def checkedDiv (a b : Rat) : Option Rat :=
  if b = 0 then none else some (a / b)

/-- Statement `if (real_scale != 0.0) real_scale = 1.0 / real_scale` of both `FormatSTDFV4`
methods, the division being the failing one: the value of `real_scale` afterwards, or `none`
when a division by zero is attempted. -/
def ParametricTestData.invertScaleChecked (real_scale : Rat) : Option Rat :=
  if real_scale ≠ 0 then checkedDiv 1 real_scale else some real_scale

/-! ## Locals of the column-oriented sections -/

namespace ParametricTestData

/-- Local `limit_site` of the column-oriented section of `FormatASCII`:
`fsites.Begin().GetValue()`, read after `fsites` lost its non-failing sites in
`fail_only_mode`. -/
def limitSite (d : ParametricTestData) (fail_only_mode : Bool) : SITE :=
  Sites.beginValue (d.fsites fail_only_mode)

/-- Locals `limit_scale` and `limit_units` of the column-oriented section. -/
def limitScaleUnits (d : ParametricTestData) (L : Lib) (parent : ST_Datalog)
    (fail_only_mode : Bool) : Rat × String :=
  realScale L (d.asciiScale L parent) d.PData.Units d.PData.Units
    (d.PData.BaseSData ParamKind.Test (d.limitSite fail_only_mode))
    (d.PData.BaseSData ParamKind.LowLimit (d.limitSite fail_only_mode))
    (d.PData.BaseSData ParamKind.HighLimit (d.limitSite fail_only_mode))

/-- Call of `OutputParametricLineStartASCII` made by the column-oriented section. -/
def lineStart (d : ParametricTestData) (L : Lib) (parent : ST_Datalog) (fail_only_mode : Bool)
    (o : OStream) : OStream :=
  OutputParametricLineStartASCII L o d.PData.TestID parent.FieldWidth
    (d.limitScaleUnits L parent fail_only_mode).1
    (d.PData.BaseSData ParamKind.Test (d.limitSite fail_only_mode))
    (d.PData.BaseSData ParamKind.LowLimit (d.limitSite fail_only_mode))
    (d.PData.BaseSData ParamKind.HighLimit (d.limitSite fail_only_mode))
    (d.limitScaleUnits L parent fail_only_mode).2 parent.GetIntegerPartWidth

/-- Call of `OutputParametricLineEndASCII` made by the column-oriented section. -/
def lineEnd (d : ParametricTestData) (L : Lib) (parent : ST_Datalog) (fail_only_mode : Bool)
    (o : OStream) : OStream :=
  OutputParametricLineEndASCII L o parent.FieldWidth
    (d.limitScaleUnits L parent fail_only_mode).1
    (d.PData.BaseSData ParamKind.Test (d.limitSite fail_only_mode))
    (d.PData.BaseSData ParamKind.LowLimit (d.limitSite fail_only_mode))
    (d.PData.BaseSData ParamKind.HighLimit (d.limitSite fail_only_mode))
    (d.limitScaleUnits L parent fail_only_mode).2 d.PData.Pins (d.tdesc L parent)
    parent.GetIntegerPartWidth

end ParametricTestData

namespace ParametricTestDataArray

/-- Local `limit_site` of the column-oriented section of `FormatASCII`:
`dlog_sites.Begin().GetValue()`. -/
def limitSite (d : ParametricTestDataArray) : SITE :=
  Sites.beginValue d.ctx.DlogSites

/-- Locals `limit_scale` and `limit_units` of the line of value index `ii`. -/
def limitScaleUnits (d : ParametricTestDataArray) (L : Lib) (parent : ST_Datalog) (ii : Nat) :
    Rat × String :=
  ParametricTestData.realScale L (d.asciiScale L parent) d.PData.Units d.PData.Units
    (d.PData.SData BasicVar.void ParamKind.Test ii d.limitSite)
    (d.PData.SData BasicVar.void ParamKind.LowLimit ii d.limitSite)
    (d.PData.SData BasicVar.void ParamKind.HighLimit ii d.limitSite)

/-- Call of `OutputParametricLineStartASCII` made for the line of value index `ii`. -/
def lineStart (d : ParametricTestDataArray) (L : Lib) (parent : ST_Datalog) (ii : Nat)
    (o : OStream) : OStream :=
  OutputParametricLineStartASCII L o d.PData.TestID parent.FieldWidth
    (d.limitScaleUnits L parent ii).1
    (d.PData.SData BasicVar.void ParamKind.Test ii d.limitSite)
    (d.PData.SData BasicVar.void ParamKind.LowLimit ii d.limitSite)
    (d.PData.SData BasicVar.void ParamKind.HighLimit ii d.limitSite)
    (d.limitScaleUnits L parent ii).2 parent.GetIntegerPartWidth

/-- Call of `OutputParametricLineEndASCII` made for the line of value index `ii`. -/
def lineEnd (d : ParametricTestDataArray) (L : Lib) (parent : ST_Datalog) (ii : Nat)
    (o : OStream) : OStream :=
  OutputParametricLineEndASCII L o parent.FieldWidth
    (d.limitScaleUnits L parent ii).1
    (d.PData.SData BasicVar.void ParamKind.Test ii d.limitSite)
    (d.PData.SData BasicVar.void ParamKind.LowLimit ii d.limitSite)
    (d.PData.SData BasicVar.void ParamKind.HighLimit ii d.limitSite)
    (d.limitScaleUnits L parent ii).2 (PinML.pinAt d.PData.Pins ii)
    (FormatTestDescription d.ctx d.PData.Comment) parent.GetIntegerPartWidth

end ParametricTestDataArray

/-- Scenario C of the specification: four loaded sites of which sites 1 and 3 are selected. -/
def exEnv4 : SiteEnv :=
  { LoadedSites := [1, 2, 3, 4], SelectedSites := [1, 3], ActiveSites := [1, 3] }

/-- Parametric snapshot of scenario C: scenario A measured on the sites 1 and 3. -/
def exC : ParametricTestData :=
  { exA with ctx := { exA.ctx with DlogSites := [1, 3] } }

/-- Default attributes with `ASCIIDatalogInColumns` enabled. -/
def exParentCols : ST_Datalog := { ST_Datalog.init with ASCIIDatalogInColumns := true }

/-- Example library whose `FormatSVData` shows the numerator of a float scalar, so that
different values are printed differently. -/
def exLibShow : Lib :=
  { exLib with
    FormatSVData := fun _ v _ _ _ =>
      match v with
      | BasicVar.single _ _ [SVal.float q] => some (toString q.num)
      | _ => none }

/-- Two loaded sites, both selected and active. -/
def exEnv2 : SiteEnv :=
  { LoadedSites := [1, 2], SelectedSites := [1, 2], ActiveSites := [1, 2] }

/-- Parametric snapshot with per-site limits: site 1 measures 15 within its limits 10 / 20
(pass), site 2 measures 47 outside its limits 30 / 40 (fail). -/
def exPerSite : ParametricTestData :=
  { ctx := { DlogSites := [1, 2], TestName := some "vdd", BlockName := none, DlogTime := none }
    PData :=
      { TestID := 100
        Result := fun s => if s = 1 then TM_RESULT.TM_PASS else TM_RESULT.TM_FAIL
        Units := "V"
        Comment := none
        Pins := none
        BaseSData := fun k s =>
          match k with
          | ParamKind.Test => if s = 1 then exFloat 15 else exFloat 47
          | ParamKind.LowLimit => if s = 1 then exFloat 10 else exFloat 30
          | ParamKind.HighLimit => if s = 1 then exFloat 20 else exFloat 40 } }

/-! ## Counters and times of the method object -/

/-- Method `ST_DatalogData::ResetNumTestsExecuted`: `Parent->NumTestsExecuted = 0`. -/
def ST_Datalog.ResetNumTestsExecuted (p : ST_Datalog) : ST_Datalog :=
  { p with NumTestsExecuted := fun _ => 0 }

/-- Statement `++(Parent->NumTestsExecuted[site])` on an element of type `unsigned int`. -/
def ST_Datalog.incSite (p : ST_Datalog) (site : SITE) : ST_Datalog :=
  { p with NumTestsExecuted := fun s =>
      if s = site then (p.NumTestsExecuted s + 1) % 2 ^ 32 else p.NumTestsExecuted s }

/-- Method `ST_DatalogData::IncNumTestsExecuted` of a data object whose `GetDlogSites()` is
`DlogSites`. -/
def ST_Datalog.IncNumTestsExecuted (p : ST_Datalog) (DlogSites : Sites) : ST_Datalog :=
  DlogSites.foldl ST_Datalog.incSite p

/-- Method `ST_DatalogData::SetFinishTime` of a data object collected at `DlogTime`. -/
def ST_Datalog.SetFinishTime (p : ST_Datalog) (DlogTime : Option Rat) : ST_Datalog :=
  { p with FinishTime := DlogTime }

/-- Method `ST_DatalogData::SetSummaryNeeded`, also the assignments to `SummaryNeeded` in the
event methods. -/
def ST_Datalog.SetSummaryNeeded (p : ST_Datalog) (is_needed : Bool) : ST_Datalog :=
  { p with SummaryNeeded := is_needed }

/-- Method `ST_Datalog::GetSummaryNeeded`. -/
def ST_Datalog.GetSummaryNeeded (p : ST_Datalog) : Bool := p.SummaryNeeded

/-! ## Host data -/

/-- Direction of a wafer map (`WaferDirectionS`); `OTHER` stands for every value the switch
of `GetDirectionChar` does not list. -/
inductive WaferDirection where
  | WAFER_DIR_LEFT
  | WAFER_DIR_RIGHT
  | WAFER_DIR_TOP
  | WAFER_DIR_BOTTOM
  | OTHER
  deriving DecidableEq, Repr

/-- Methods of the `WaferMap` returned by `TestProg.GetActiveWaferMap()`; `SizeUnits` is
`GetWaferSize().GetUnits()`. -/
structure WaferMap where
  Valid : Bool
  Name : String
  WaferSize : Option Rat
  SizeUnits : String
  WaferHeight : Option Rat
  WaferWidth : Option Rat
  Orientation : WaferDirection
  XDirection : WaferDirection
  YDirection : WaferDirection

/-- Fields of `WaferInfoStruct` that the formatters read. -/
structure WaferInfoStruct where
  NumTested : Int
  NumPasses : Int
  NumRetested : Int
  WaferID : Option String

/-- Field of a GDR record of the XTRF file (`tinyxtrf`): name, type and value. -/
structure XtrfField where
  m_name : String
  m_type : String
  m_value : String
  deriving DecidableEq, Repr

/-- Host services read by the lot, wafer and summary formatters at the time of the call.
`FAPROC_Get name` is the string left in the variable by `FAPROC.Get(name, var)` (empty when
the call leaves it untouched), `FAPROC_GetInt` the same for an `IntS` variable (`none` when it
stays void); `xtrfGdrs` is the result of `xtrf->gdrs()` after parsing "/tmp/gdr.xtrf";
`atoi`, `readInt`, `readUInt` and `readDouble` are the C library conversions; `asctime` is
`asctime_r(gmtime_r(...))`. -/
structure LotHost where
  GetLotInfo : String → String
  FAPROC_Get : String → String
  FAPROC_GetInt : String → Option Int
  ExecutionModeIsQA : Bool
  gJobSetupTime : Option Rat
  gRetestedBinNames : List String
  xtrfGdrs : List (List XtrfField)
  atoi : String → Int
  readInt : String → Int
  readUInt : String → Nat
  readDouble : String → Rat
  asctime : Rat → String

/-- Queries of the STDF stream library: `STDF.NeedFileSetup()` and `STDF.NeedWaferSetup()`
as functions of the stream, and `STDFV4_PSR::FindTestSequence(name)`. -/
structure StreamLib where
  NeedFileSetup : STDFV4Stream → Bool
  NeedWaferSetup : STDFV4Stream → Bool
  FindTestSequence : String → Int

/-! ## StartOfTest -/

/-- Class `StartOfTestData`: the members set by the constructor. -/
structure StartOfTestData where
  DlogTime : Option Rat
  SelSites : Sites
  TesterType : String

/-- Constructor `StartOfTestData::StartOfTestData`: the object and the parent after
`ResetNumTestsExecuted()`. -/
def StartOfTestData.new (parent : ST_Datalog) (env : SiteEnv) (now : Option Rat)
    (TestHeadType : String) : StartOfTestData × ST_Datalog :=
  ({ DlogTime := now, SelSites := env.SelectedSites, TesterType := TestHeadType },
   parent.ResetNumTestsExecuted)

namespace StartOfTestData

/-- Method `StartOfTestData::FormatASCII`. -/
def FormatASCII (_d : StartOfTestData) (_fail_only_mode : Bool) (output : OStream) : OStream :=
  output.endl.endl

/-- Method `StartOfTestData::FormatSTDFV4`. -/
def FormatSTDFV4 (d : StartOfTestData) (_fail_only_mode : Bool) (STDF : STDFV4Stream) :
    STDFV4Stream :=
  if STDF.valid then d.SelSites.foldl (fun st s => st.Write (STDFRecord.PIR s)) STDF
  else STDF

/-- Method `StartOfTestData::Format`. -/
def Format (d : StartOfTestData) (format : Option String) (fail_only_mode : Bool)
    (st : OStream × STDFV4Stream × ST_Datalog) : OStream × STDFV4Stream × ST_Datalog :=
  match FormatSel.ofString format with
  | FormatSel.null => st
  | FormatSel.ascii =>
    (d.FormatASCII fail_only_mode st.1, st.2.1,
      st.2.2.SetLastFormatEvent SystemEvents.StartOfTest)
  | FormatSel.stdfv4 =>
    (st.1, d.FormatSTDFV4 fail_only_mode st.2.1,
      st.2.2.SetLastFormatEvent SystemEvents.StartOfTest)
  | FormatSel.unknown => (st.1, st.2.1, st.2.2.SetLastFormatEvent SystemEvents.StartOfTest)

end StartOfTestData

/-- Function `GetCode(field)`: the first character of the lot information, or a blank. -/
def GetCode (H : LotHost) (field : String) : Char :=
  ((H.GetLotInfo field).data.head?).getD ' '

/-! ## ProgramReset -/

/-- Class `ProgramResetData`: the members set by the constructor. -/
structure ProgramResetData where
  DlogTime : Option Rat
  EOT : EndOfTestStruct
  Valid : Bool
  SelSites : Sites

/-- Constructor `ProgramResetData::ProgramResetData`; `host` is the outcome of
`RunTime.GetEndOfTestData(EOT)`. The second component is the parent after
`SetFinishTime()`. -/
def ProgramResetData.new (parent : ST_Datalog) (env : SiteEnv) (now : Option Rat)
    (host : Bool × EndOfTestStruct) : ProgramResetData × ST_Datalog :=
  ({ DlogTime := now, EOT := host.2, Valid := host.1, SelSites := env.SelectedSites },
   parent.SetFinishTime now)

namespace ProgramResetData

/-- Method `ProgramResetData::FormatASCII`: the line of one selected site. -/
def FormatASCIIRow (d : ProgramResetData) (L : EotLib) (parent : ST_Datalog) (o : OStream)
    (s : SITE) : OStream :=
  let o := (((o.put "  ").setRight.putw 4 (toString s)).put "  ").putw 9 (d.EOT.SerialNumbers s)
  let o := o.put "       "
  let o :=
    if d.EOT.XCoord s > L.UTL_NO_WAFER_COORD then
      ((((o.setRight.putw 7 (toString (d.EOT.XCoord s))).put "  ").setRight.putw 7
        (toString (d.EOT.YCoord s))).put "   ")
    else o.put "                   "
  let PF := EndOfTestRowPF d.EOT s
  let o :=
    if d.EOT.SoftwareBinNumbers s ≥ 0 then
      ((((((o.put PF).put "  ").setRight.putw 10 (toString (d.EOT.SoftwareBinNumbers s))).put
        "  ").setRight.putw 10 (toString (d.EOT.HardwareBinNumbers s))).put "  ")
    else
      ((((o.put PF).put "              ").setRight.putw 10
        (toString (d.EOT.HardwareBinNumbers s))).put "  ")
  let o := (o.setRight.putw 10 (toString (parent.NumTestsExecuted s))).put "  "
  let o := if d.EOT.Retest then o.put "RETEST" else o.put "      "
  ((o.put "  ").setLeft.put (d.EOT.PartTexts s)).endl

/-- Method `ProgramResetData::FormatASCII`. -/
def FormatASCII (d : ProgramResetData) (L : EotLib) (parent : ST_Datalog)
    (_fail_only_mode : Bool) (output : OStream) : OStream :=
  let o := (output.endl.endl).put "*** Test program RESET was executed! ***"
  let o := ((o.endl.endl).put "Device Results:").endl
  let o := (o.put "  Site  Device ID       X Coord  Y Coord   P/F  SW Bin No.  HW Bin No.  Test Count  Status  Device Description").endl
  let o := (o.put "  ----  ---------       -------  -------   ---  ----------  ----------  ----------  ------  ------------------").endl
  d.SelSites.foldl (fun o s => d.FormatASCIIRow L parent o s) o

/-- Method `ProgramResetData::FormatSTDFV4`: the PRR written for one selected site. -/
def PRR (d : ProgramResetData) (parent : ST_Datalog) (s : SITE) : PRRRecord :=
  { resultValid := false
    result := d.EOT.Results s
    part := if d.EOT.Retest then PRRPart.REPLACE else PRRPart.NEW_PART
    site := s
    testTime := d.EOT.TestTimes s
    numTests := parent.NumTestsExecuted s
    hardBin := d.EOT.HardwareBinNumbers s
    softBin := d.EOT.SoftwareBinNumbers s
    serial := d.EOT.SerialNumbers s
    partText := d.EOT.PartTexts s
    xCoord := d.EOT.XCoord s
    yCoord := d.EOT.YCoord s }

/-- Method `ProgramResetData::FormatSTDFV4`. -/
def FormatSTDFV4 (d : ProgramResetData) (parent : ST_Datalog) (_fail_only_mode : Bool)
    (STDF : STDFV4Stream) : STDFV4Stream :=
  if STDF.valid then
    d.SelSites.foldl (fun st s => st.Write (STDFRecord.PRR (d.PRR parent s))) STDF
  else STDF

/-- Method `ProgramResetData::Format`. -/
def Format (d : ProgramResetData) (L : EotLib) (format : Option String) (fail_only_mode : Bool)
    (st : OStream × STDFV4Stream × ST_Datalog) : OStream × STDFV4Stream × ST_Datalog :=
  match FormatSel.ofString format with
  | FormatSel.null => st
  | FormatSel.ascii =>
    (d.FormatASCII L st.2.2 fail_only_mode st.1, st.2.1,
      st.2.2.SetLastFormatEvent SystemEvents.ProgramReset)
  | FormatSel.stdfv4 =>
    (st.1, d.FormatSTDFV4 st.2.2 fail_only_mode st.2.1,
      st.2.2.SetLastFormatEvent SystemEvents.ProgramReset)
  | FormatSel.unknown => (st.1, st.2.1, st.2.2.SetLastFormatEvent SystemEvents.ProgramReset)

end ProgramResetData

/-! ## StartOfWafer and EndOfWafer -/

/-- Function `FormatTime(time)`. -/
def FormatTime (H : LotHost) (time : Option Rat) : String :=
  match time with
  | some t => H.asctime t
  | none => ""

/-- Function `SafeString(str)`. -/
def SafeString (str : Option String) : String := str.getD ""

/-- Function `GetDirectionChar(dir)`. -/
def GetDirectionChar (dir : WaferDirection) : Char :=
  match dir with
  | WaferDirection.WAFER_DIR_LEFT => 'L'
  | WaferDirection.WAFER_DIR_RIGHT => 'R'
  | WaferDirection.WAFER_DIR_TOP => 'U'
  | WaferDirection.WAFER_DIR_BOTTOM => 'D'
  | WaferDirection.OTHER => ' '

/-- Class `StartOfWaferData`: the members set by the constructor. -/
structure StartOfWaferData where
  DlogTime : Option Rat
  Valid : Bool
  WMap : WaferMap
  WaferID : String

/-- Constructor `StartOfWaferData::StartOfWaferData`. -/
def StartOfWaferData.new (now : Option Rat) (WMap : WaferMap) (H : LotHost) :
    StartOfWaferData :=
  { DlogTime := now
    Valid := WMap.Valid && decide ((H.GetLotInfo "WaferID").length > 0)
    WMap := WMap
    WaferID := H.GetLotInfo "WaferID" }

namespace StartOfWaferData

/-- Method `StartOfWaferData::FormatASCII`. -/
def FormatASCII (d : StartOfWaferData) (_fail_only_mode : Bool) (output : OStream) : OStream :=
  if d.Valid = true then
    if d.WMap.Name.length > 0 then
      (((((output.put "Start of Wafer: WaferID ").put d.WaferID).put " - Mapping to ").put
        d.WMap.Name).endl).endl
    else (((output.put "Start of Wafer: WaferID ").put d.WaferID).endl).endl
  else output

/-- Content of the WCR built by `FormatSTDFV4`. A void dimension stays void under the
in-place division and multiplication. -/
def WCR (d : StartOfWaferData) (H : LotHost) : WCRRecord :=
  let sunits := d.WMap.SizeUnits
  let conv : Option Rat → Option Rat :=
    if sunits.length > 0 then
      if sunits = "Inch" then fun x => x.map (fun v => v / 2.54)
      else if sunits = "Meter" then fun x => x.map (fun v => v * 100)
      else fun x => x
    else fun x => x
  let w_units : Nat :=
    if sunits.length > 0 then
      if sunits = "Inch" then 2 else if sunits = "Meter" then 2 else 0
    else 0
  let flat := GetDirectionChar d.WMap.Orientation
  let inc_x := GetDirectionChar d.WMap.XDirection
  let inc_y := GetDirectionChar d.WMap.YDirection
  let swap : Bool := (inc_x = 'U' ∨ inc_x = 'D') ∧ (inc_y = 'L' ∨ inc_y = 'R')
  { units := w_units
    size := conv d.WMap.WaferSize
    height := conv d.WMap.WaferHeight
    width := conv d.WMap.WaferWidth
    flat := flat
    incX := if swap then inc_y else inc_x
    incY := if swap then inc_x else inc_y
    centerX := H.FAPROC_GetInt "CENTER DIE X"
    centerY := H.FAPROC_GetInt "CENTER DIE Y" }

/-- Method `StartOfWaferData::FormatSTDFV4`. -/
def FormatSTDFV4 (d : StartOfWaferData) (S : StreamLib) (H : LotHost) (_fail_only_mode : Bool)
    (STDF : STDFV4Stream) : STDFV4Stream :=
  if STDF.valid then
    if d.Valid then
      let STDF1 :=
        if S.NeedWaferSetup STDF then STDF.Write (STDFRecord.WCR (d.WCR H)) else STDF
      STDF1.Write (STDFRecord.WIR { time := d.DlogTime, waferID := d.WaferID })
    else STDF
  else STDF

/-- Method `StartOfWaferData::Format`. -/
def Format (d : StartOfWaferData) (S : StreamLib) (H : LotHost) (format : Option String)
    (fail_only_mode : Bool) (st : OStream × STDFV4Stream × ST_Datalog) :
    OStream × STDFV4Stream × ST_Datalog :=
  match FormatSel.ofString format with
  | FormatSel.null => st
  | FormatSel.ascii =>
    (d.FormatASCII fail_only_mode st.1, st.2.1,
      st.2.2.SetLastFormatEvent SystemEvents.StartOfWafer)
  | FormatSel.stdfv4 =>
    (st.1, d.FormatSTDFV4 S H fail_only_mode st.2.1,
      st.2.2.SetLastFormatEvent SystemEvents.StartOfWafer)
  | FormatSel.unknown => (st.1, st.2.1, st.2.2.SetLastFormatEvent SystemEvents.StartOfWafer)

end StartOfWaferData

/-- Class `EndOfWaferData`: the members set by the constructor; `host` is the outcome of
`RunTime.GetWaferInfo(WaferInfo)`. -/
structure EndOfWaferData where
  DlogTime : Option Rat
  Valid : Bool
  WaferInfo : WaferInfoStruct

/-- Constructor `EndOfWaferData::EndOfWaferData`. -/
def EndOfWaferData.new (now : Option Rat) (host : Bool × WaferInfoStruct) : EndOfWaferData :=
  { DlogTime := now, Valid := host.1, WaferInfo := host.2 }

namespace EndOfWaferData

/-- Method `EndOfWaferData::FormatASCII`. -/
def FormatASCII (d : EndOfWaferData) (H : LotHost) (parent : ST_Datalog)
    (_fail_only_mode : Bool) (output : OStream) : OStream :=
  let line (o : OStream) (title : String) (value : String) : OStream :=
    ((o.setLeft.putw 25 title).put value).endl
  let o := (output.endl.put "Wafer Results:").endl
  let o := line o "  Finish Time:" (FormatTime H parent.FinishTime)
  let o := line o "  Devices Tested:" (toString d.WaferInfo.NumTested)
  let o := line o "  Passed Devices:" (toString d.WaferInfo.NumPasses)
  let o := line o "  Retested Devices:" (toString d.WaferInfo.NumRetested)
  let o := line o "  Wafer ID:" (SafeString d.WaferInfo.WaferID)
  let o := line o "  Fab Wafer ID:" (SafeString (some (H.GetLotInfo "FabWaferID")))
  let o := line o "  Wafer Frame ID:" (SafeString (some (H.GetLotInfo "FabWaferFrame")))
  let o := line o "  Wafer Mask ID:" (SafeString (some (H.GetLotInfo "WaferMask")))
  let o := line o "  User Description:" (SafeString (some (H.GetLotInfo "WaferUserDesc")))
  (line o "  Exec Description:" (SafeString (some (H.GetLotInfo "ExecDescription")))).endl

/-- Method `EndOfWaferData::FormatSTDFV4`. -/
def FormatSTDFV4 (d : EndOfWaferData) (H : LotHost) (parent : ST_Datalog)
    (_fail_only_mode : Bool) (STDF : STDFV4Stream) : STDFV4Stream :=
  if STDF.valid then
    STDF.Write (STDFRecord.WRR
      { numTested := d.WaferInfo.NumTested
        numPasses := d.WaferInfo.NumPasses
        numRetested := d.WaferInfo.NumRetested
        waferID := d.WaferInfo.WaferID
        fabWaferID := H.GetLotInfo "FabWaferID"
        waferFrame := H.GetLotInfo "FabWaferFrame"
        waferMask := H.GetLotInfo "WaferMask"
        finish := parent.FinishTime
        userDesc := H.GetLotInfo "WaferUserDesc"
        execDesc := H.GetLotInfo "ExecDescription" })
  else STDF

/-- Method `EndOfWaferData::Format`. -/
def Format (d : EndOfWaferData) (H : LotHost) (format : Option String) (fail_only_mode : Bool)
    (st : OStream × STDFV4Stream × ST_Datalog) : OStream × STDFV4Stream × ST_Datalog :=
  match FormatSel.ofString format with
  | FormatSel.null => st
  | FormatSel.ascii =>
    (d.FormatASCII H st.2.2 fail_only_mode st.1, st.2.1,
      st.2.2.SetLastFormatEvent SystemEvents.EndOfWafer)
  | FormatSel.stdfv4 =>
    (st.1, d.FormatSTDFV4 H st.2.2 fail_only_mode st.2.1,
      st.2.2.SetLastFormatEvent SystemEvents.EndOfWafer)
  | FormatSel.unknown => (st.1, st.2.1, st.2.2.SetLastFormatEvent SystemEvents.EndOfWafer)

end EndOfWaferData

/-! ## StartTestNode and Text -/

/-- Class `StartTestNodeData`. -/
structure StartTestNodeData where
  DlogTime : Option Rat

/-- Method `StartTestNodeData::Format`: the last formatted event is set unless the ASCII
datalog is in columns; the format pointer is not looked at. -/
def StartTestNodeData.Format (_d : StartTestNodeData) (_format : Option String)
    (_fail_only_mode : Bool) (st : OStream × STDFV4Stream × ST_Datalog) :
    OStream × STDFV4Stream × ST_Datalog :=
  if st.2.2.ASCIIDatalogInColumns = false then
    (st.1, st.2.1, st.2.2.SetLastFormatEvent SystemEvents.StartTestNode)
  else st

/-- User data `DatalogText`. -/
structure DatalogText where
  Text : String
  IsDebug : Bool

/-- Class `TextData`. -/
structure TextData where
  DlogTime : Option Rat
  TData : DatalogText

namespace TextData

/-- Method `TextData::FormatASCII`. -/
def FormatASCII (d : TextData) (parent : ST_Datalog) (fail_only_mode : Bool)
    (output : OStream) : OStream :=
  if fail_only_mode = false then
    if d.TData.IsDebug = false then
      let o := if parent.LastFormatEvent ≠ SystemEvents.Text then output.endl else output
      (o.put d.TData.Text).endl
    else if parent.EnableDebug then
      let o := if parent.LastFormatEvent ≠ SystemEvents.Text then output.endl else output
      ((o.put "DEBUG TEXT: ").put d.TData.Text).endl
    else output
  else output

/-- Method `TextData::FormatSTDFV4`. -/
def FormatSTDFV4 (d : TextData) (_fail_only_mode : Bool) (STDF : STDFV4Stream) :
    STDFV4Stream :=
  if STDF.valid ∧ d.TData.IsDebug = false then STDF.Write (STDFRecord.DTR d.TData.Text)
  else STDF

/-- Method `TextData::Format`. -/
def Format (d : TextData) (format : Option String) (fail_only_mode : Bool)
    (st : OStream × STDFV4Stream × ST_Datalog) : OStream × STDFV4Stream × ST_Datalog :=
  match FormatSel.ofString format with
  | FormatSel.null => st
  | FormatSel.ascii =>
    (d.FormatASCII st.2.2 fail_only_mode st.1, st.2.1,
      st.2.2.SetLastFormatEvent SystemEvents.Text)
  | FormatSel.stdfv4 =>
    (st.1, d.FormatSTDFV4 fail_only_mode st.2.1, st.2.2.SetLastFormatEvent SystemEvents.Text)
  | FormatSel.unknown => (st.1, st.2.1, st.2.2.SetLastFormatEvent SystemEvents.Text)

end TextData

/-! ## StartOfLot -/

/-- Name and version of the datalog method (`STDLOG_NAME`, `STDLOG_VERSION_STRING`). -/
def STDLOG_NAME : String := "ST-TPY Datalog"
def STDLOG_VERSION_STRING : String := "U1709.01.00"

/-- Test `value.find(pat) != std::string::npos` on the characters of the strings. -/
def containsSub (s pat : List Char) : Bool :=
  s.tails.any (fun t => pat.isPrefixOf t)

/-- Statement `value.replace(value.find(pat), pat.size(), by)` for a `pat` that occurs in
`value`: the first occurrence is replaced. -/
def replaceFirst (pat by_ : List Char) : List Char → List Char
  | [] => []
  | c :: rest =>
    if pat.isPrefixOf (c :: rest) then by_ ++ (c :: rest).drop pat.length
    else c :: replaceFirst pat by_ rest

/-- Class `StartOfLotData`: the members set by the constructor. -/
structure StartOfLotData where
  DlogTime : Option Rat
  SelSites : Sites
  TesterType : String

/-- Constructor `StartOfLotData::StartOfLotData`: the object and the parent after
`ResetNumTestsExecuted()`. -/
def StartOfLotData.new (parent : ST_Datalog) (env : SiteEnv) (now : Option Rat)
    (TestHeadType : String) : StartOfLotData × ST_Datalog :=
  ({ DlogTime := now, SelSites := env.SelectedSites, TesterType := TestHeadType },
   parent.ResetNumTestsExecuted)

namespace StartOfLotData

/-- Method `StartOfLotData::FormatASCII`. -/
def FormatASCII (_d : StartOfLotData) (H : LotHost) (_fail_only_mode : Bool)
    (output : OStream) : OStream :=
  let LotID := H.GetLotInfo "LotID"
  let DevName := H.GetLotInfo "DeviceName"
  let o := output.endl.put "Start of Lot"
  let o := if LotID.length > 0 then (o.put " - LotID: ").put LotID else o
  let o := if DevName.length > 0 then (o.put " - Device Name: ").put DevName else o
  o.endl.endl

/-- Content of the MIR built by `FormatSTDFV4`. -/
def MIR (d : StartOfLotData) (H : LotHost) : MIRRecord :=
  let testmode := GetCode H "TestMode"
  let testmode := if testmode = ' ' then (if H.ExecutionModeIsQA then 'Q' else 'P') else testmode
  let stCustomRtstCode := H.FAPROC_Get "ST Custom Retest Code"
  let rtstCode := if stCustomRtstCode.length ≥ 1 then stCustomRtstCode.data.headD ' ' else ' '
  let TType := H.GetLotInfo "TesterType"
  let SysName := H.GetLotInfo "SystemName"
  { setupTime := H.gJobSetupTime
    startTime := d.DlogTime
    modeCode := testmode
    retestCode := rtstCode
    protectionCode := GetCode H "ProtectionCode"
    commandCode := GetCode H "CommandMode"
    burnInTime :=
      if (H.GetLotInfo "BurnInTime").length > 0 then some (H.atoi (H.GetLotInfo "BurnInTime"))
      else none
    fields :=
      [("LOT_ID", H.GetLotInfo "LotID"),
       ("PART_TYPE", H.GetLotInfo "DeviceName"),
       ("NODE_NAME", H.GetLotInfo "TesterName"),
       ("TESTER_TYPE", if TType.length > 0 ∧ TType ≠ "Fusion" then TType else d.TesterType),
       ("JOB_NAME", H.GetLotInfo "ProgramName"),
       ("JOB_REVISION", H.GetLotInfo "FileNameRev"),
       ("SUBLOT_ID", H.GetLotInfo "SubLotID"),
       ("OPERATOR_NAME", H.GetLotInfo "OperatorID"),
       ("EXEC_TYPE", if SysName.length > 0 ∧ SysName ≠ "enVision" then SysName else "Unison"),
       ("EXEC_VERSION", H.GetLotInfo "TargetName"),
       ("TEST_CODE", H.GetLotInfo "TestPhase"),
       ("TEST_TEMP", H.GetLotInfo "TestTemp"),
       ("USER_TEXT", H.GetLotInfo "UserText"),
       ("AUX_FILE", H.GetLotInfo "AuxDataFile"),
       ("PACKAGE_TYPE", H.GetLotInfo "Package"),
       ("FAMILY_ID", H.GetLotInfo "ProductID"),
       ("DATE_CODE", H.GetLotInfo "DateCode"),
       ("FACILITY_ID", H.GetLotInfo "TestFacility"),
       ("FLOOR_ID", H.GetLotInfo "TestFloor"),
       ("PROCESS_ID", H.GetLotInfo "FabID"),
       ("OPERATION_FREQ", H.GetLotInfo "OperFreq"),
       ("SPEC_NAME", H.GetLotInfo "TestSpecName"),
       ("SPEC_VERSION", H.GetLotInfo "TestSpecRev"),
       ("FLOW_ID", H.GetLotInfo "ActiveFlow"),
       ("SETUP_ID", H.GetLotInfo "TestSetup"),
       ("DESIGN_REV", H.GetLotInfo "DesignRevision"),
       ("ENG_LOT_ID", H.GetLotInfo "EngineeringLotID"),
       ("ROM_CODE", H.GetLotInfo "ROMCode"),
       ("TESTER_SN", H.GetLotInfo "TesterSerNum"),
       ("SUPERVISOR", H.GetLotInfo "Supervisor")] }

/-- Content of the SDR built by `FormatSTDFV4`. -/
def SDR (H : LotHost) (env : SiteEnv) : SDRRecord :=
  let RobotType := H.FAPROC_Get "Robot Type"
  let RobotType := if RobotType.length = 0 then H.GetLotInfo "HandlerType" else RobotType
  { head := 255
    sites := env.LoadedSites
    fields :=
      [("HANDLER", RobotType, H.GetLotInfo "PHID"),
       ("PROBE_CARD", H.GetLotInfo "CardType", H.GetLotInfo "CardID"),
       ("LOAD_BOARD", H.GetLotInfo "LoadBoardType", H.GetLotInfo "LoadBoardID"),
       ("DIB_BOARD", H.GetLotInfo "DIBType", H.GetLotInfo "ActiveLoadBoard"),
       ("CABLE", H.GetLotInfo "IFCableType", H.GetLotInfo "IFCableID"),
       ("CONTACTOR", H.GetLotInfo "ContactorType", H.GetLotInfo "ContactorID"),
       ("LASER", H.GetLotInfo "LaserType", H.GetLotInfo "LaserID"),
       ("EXTRA_EQUIP", H.GetLotInfo "ExtEquipmentType", H.GetLotInfo "ExtEquipmentID")] }

/-- Loop over the fields of one XTRF GDR record: the content of the local `GdrSize` and the
items pushed to the GDR so far. The local `GdrIndex` stays 0, its increment being commented
out in the source. -/
def gdrField (H : LotHost) (st : Int × List GdrItem) (f : XtrfField) : Int × List GdrItem :=
  if f.m_name = "FIELD_CNT" then (H.readInt f.m_value, st.2)
  else if f.m_name = "GEN_DATA" then
    if (0 : Int) ≥ st.1 then st
    else
      let dataType := f.m_type
      if dataType = "C*n" then
        let value := f.m_value.data
        let value :=
          if containsSub value "!DlogName!".data then
            replaceFirst "!DlogName!".data STDLOG_NAME.data value
          else if containsSub value "!DlogRev!".data then
            replaceFirst "!DlogRev!".data STDLOG_VERSION_STRING.data value
          else value
        (st.1, st.2 ++ [GdrItem.CN (String.mk value)])
      else if containsSub dataType.data "I*1".data then
        (st.1, st.2 ++ [GdrItem.I1 (H.readInt f.m_value)])
      else if containsSub dataType.data "I*2".data then
        (st.1, st.2 ++ [GdrItem.I2 (H.readInt f.m_value)])
      else if containsSub dataType.data "I*4".data then
        (st.1, st.2 ++ [GdrItem.I4 (H.readInt f.m_value)])
      else if containsSub dataType.data "U*1".data then
        (st.1, st.2 ++ [GdrItem.U1 (H.readUInt f.m_value)])
      else if containsSub dataType.data "U*2".data then
        (st.1, st.2 ++ [GdrItem.U2 (H.readUInt f.m_value)])
      else if containsSub dataType.data "U*4".data then
        (st.1, st.2 ++ [GdrItem.U4 (H.readUInt f.m_value)])
      else if containsSub dataType.data "R*4".data then
        (st.1, st.2 ++ [GdrItem.R4 (H.readDouble f.m_value)])
      else if containsSub dataType.data "R*8".data then
        (st.1, st.2 ++ [GdrItem.R8 (H.readDouble f.m_value)])
      else st
  else st

/-- Records written and stream calls made by `FormatSTDFV4` inside the `NeedFileSetup()`
branch, in order. -/
def setupRecords (d : StartOfLotData) (H : LotHost) (parent : ST_Datalog) (env : SiteEnv) :
    List STDFRecord :=
  [STDFRecord.SetOptimization false, STDFRecord.FAR]
  ++ (if parent.EnableScan2007 then [STDFRecord.VUR] else [])
  ++ [STDFRecord.MIR (d.MIR H)]
  ++ (if H.FAPROC_Get "Test Status" = "Retest" then
        (if H.gRetestedBinNames.length ≠ 0 then [STDFRecord.RDR H.gRetestedBinNames] else [])
      else [])
  ++ [STDFRecord.SDR (SDR H env), STDFRecord.SetSiteConfiguration env.LoadedSites,
      STDFRecord.UnisonPinMap, STDFRecord.UnisonPinGroups]
  ++ H.xtrfGdrs.map (fun g => STDFRecord.GDRX (g.foldl (gdrField H) (0, [])).2)

/-- Method `StartOfLotData::FormatSTDFV4`. -/
def FormatSTDFV4 (d : StartOfLotData) (S : StreamLib) (H : LotHost) (parent : ST_Datalog)
    (env : SiteEnv) (_fail_only_mode : Bool) (STDF : STDFV4Stream) : STDFV4Stream :=
  if STDF.valid then
    if S.NeedFileSetup STDF then
      (d.setupRecords H parent env).foldl (fun st r => st.Write r) STDF
    else STDF
  else STDF

/-- Method `StartOfLotData::Format`. -/
def Format (d : StartOfLotData) (S : StreamLib) (H : LotHost) (env : SiteEnv)
    (format : Option String) (fail_only_mode : Bool)
    (st : OStream × STDFV4Stream × ST_Datalog) : OStream × STDFV4Stream × ST_Datalog :=
  match FormatSel.ofString format with
  | FormatSel.null => st
  | FormatSel.ascii =>
    (d.FormatASCII H fail_only_mode st.1, st.2.1,
      st.2.2.SetLastFormatEvent SystemEvents.StartOfLot)
  | FormatSel.stdfv4 =>
    (st.1, d.FormatSTDFV4 S H st.2.2 env fail_only_mode st.2.1,
      st.2.2.SetLastFormatEvent SystemEvents.StartOfLot)
  | FormatSel.unknown => (st.1, st.2.1, st.2.2.SetLastFormatEvent SystemEvents.StartOfLot)

end StartOfLotData

/-- Example stream library: file setup is needed until a FAR is in the stream, wafer setup
until a WCR is in the stream. -/
def exStreamLib : StreamLib :=
  { NeedFileSetup := fun s => !(s.records.any (fun r => decide (r.kind = RecKind.FAR)))
    NeedWaferSetup := fun s => !(s.records.any (fun r => decide (r.kind = RecKind.WCR)))
    FindTestSequence := fun _ => 0 }

/-- Example host services without lot information and without XTRF records. -/
def exLotHost : LotHost :=
  { GetLotInfo := fun _ => ""
    FAPROC_Get := fun _ => ""
    FAPROC_GetInt := fun _ => none
    ExecutionModeIsQA := false
    gJobSetupTime := none
    gRetestedBinNames := []
    xtrfGdrs := []
    atoi := fun _ => 0
    readInt := fun _ => 0
    readUInt := fun _ => 0
    readDouble := fun _ => 0
    asctime := fun _ => "" }

/-- StartOfLot snapshot captured on `exEnv2`. -/
def exLot : StartOfLotData :=
  (StartOfLotData.new ST_Datalog.init exEnv2 none "tester").1

/-! ## Summary -/

/-- Fields of `BinInfoArrayStruct` that the formatters read. -/
structure BinInfoArrayStruct where
  NumBins : Nat
  Description : Nat → String
  SWBinNumber : Nat → Int
  HWBinNumber : Nat → Int
  BinName : Nat → String
  Count : Nat → Nat
  FinalCount : Nat → Nat
  SiteCount : SITE → Nat → Nat
  FinalSiteCount : SITE → Nat → Nat

/-- Fields of `HWBinInfoArrayStruct` that the formatters read. -/
structure HWBinInfoArrayStruct where
  NumBins : Nat
  Description : Nat → String
  BinNumber : Nat → Int
  BinName : Nat → String
  Count : Nat → Nat
  FinalCount : Nat → Nat
  SiteCount : SITE → Nat → Nat
  FinalSiteCount : SITE → Nat → Nat

/-- Fields of `BinCountStruct` (the pass and the fail totals). -/
structure BinCountStruct where
  Count : Int
  FinalCount : Int
  SiteCount : SITE → Int
  FinalSiteCount : SITE → Int

/-- Fields of `TSRInfoStruct` that the formatters read; `size` is `TestNum.GetSize()`. -/
structure TSRInfoStruct where
  size : Nat
  TestNum : Nat → Nat
  TestType : Nat → String
  TestText : Nat → String
  PinName : Nat → PinML
  NumTested : SITE → Nat → Nat
  NumFails : SITE → Nat → Nat
  PassPercent : SITE → Nat → Rat
  MinValue : SITE → Nat → Rat
  MaxValue : SITE → Nat → Rat
  Sums : SITE → Nat → Rat
  SumOfSquares : SITE → Nat → Rat

/-- Default-constructed bin structures (`BinInfo()`, `HWBinInfo()`, `Passes()`). -/
def BinInfoArrayStruct.empty : BinInfoArrayStruct :=
  { NumBins := 0, Description := fun _ => "", SWBinNumber := fun _ => 0,
    HWBinNumber := fun _ => 0, BinName := fun _ => "", Count := fun _ => 0,
    FinalCount := fun _ => 0, SiteCount := fun _ _ => 0, FinalSiteCount := fun _ _ => 0 }

def HWBinInfoArrayStruct.empty : HWBinInfoArrayStruct :=
  { NumBins := 0, Description := fun _ => "", BinNumber := fun _ => 0, BinName := fun _ => "",
    Count := fun _ => 0, FinalCount := fun _ => 0, SiteCount := fun _ _ => 0,
    FinalSiteCount := fun _ _ => 0 }

/-- Run-time data a Summary reads: the outcome of `RunTime.GetBinInfo(BinInfo, Passes,
Fails)` (the returned flag and the three structures as the host left them), of
`RunTime.GetBinInfo(HWBinInfo)` and of `RunTime.GetTSRInformation(TSRInfo)`, the name of the
active limit table and the two time strings of `TestProg`. -/
structure SumHost where
  GetBinInfo : Bool × BinInfoArrayStruct × BinCountStruct × BinCountStruct
  GetHWBinInfo : HWBinInfoArrayStruct
  GetTSRInformation : TSRInfoStruct
  ActiveLimitTableName : String
  CurrentLocalTime : String
  CurrentGMTime : String

/-- Class `SummaryData`: the members set by the constructor. -/
structure SummaryData where
  DlogTime : Option Rat
  IsFinalSummary : Bool
  FileClosingAfterSummary : Bool
  Valid : Bool
  TSRValid : Bool
  FileName : String
  ProgName : String
  UserName : String
  DUTName : String
  LotID : String
  SublotID : String
  LotStat : String
  LotType : String
  LotDesc : String
  ProdID : String
  WaferID : String
  FabID : String
  LotStart : String
  Shift : String
  Operator : String
  TesterName : String
  FlowName : String
  DIBName : String
  LimitTableName : String
  CurLocalTime : String
  CurGMTime : String
  PHName : String
  SumHdr : String
  TestMode : String
  BinInfo : BinInfoArrayStruct
  HWBinInfo : HWBinInfoArrayStruct
  Passes : BinCountStruct
  Fails : BinCountStruct
  TSRInfo : TSRInfoStruct

/-- Constructor `SummaryData::SummaryData(parent, is_final, file_closing_after_summary)`. -/
def SummaryData.new (now : Option Rat) (R : SumHost) (H : LotHost) (is_final : Bool)
    (file_closing_after_summary : Bool) : SummaryData :=
  let Valid := R.GetBinInfo.1
  let info (field : String) : String := if Valid then H.GetLotInfo field else ""
  { DlogTime := now
    IsFinalSummary := is_final
    FileClosingAfterSummary := file_closing_after_summary
    Valid := Valid
    TSRValid := decide (R.GetTSRInformation.size > 0)
    FileName := info "TestProgFileName"
    ProgName := info "ProgramName"
    UserName := info "UserName"
    DUTName := info "DeviceName"
    LotID := info "LotID"
    SublotID := info "SubLotID"
    LotStat := info "LotStatus"
    LotType := info "LotType"
    LotDesc := info "LotDescription"
    ProdID := info "ProductID"
    WaferID := info "WaferID"
    FabID := info "FabID"
    LotStart := info "LotStartTime"
    Shift := ""
    Operator := info "OperatorID"
    TesterName := info "TesterName"
    FlowName := info "ActiveFlow"
    DIBName := info "ActiveLoadBoard"
    LimitTableName := if Valid then R.ActiveLimitTableName else ""
    CurLocalTime := if Valid then R.CurrentLocalTime else ""
    CurGMTime := if Valid then R.CurrentGMTime else ""
    PHName := info "ProberHander"
    SumHdr := info "SummaryHeader"
    TestMode :=
      if Valid then
        (if (H.GetLotInfo "TestMode").length = 0 then
          (if H.ExecutionModeIsQA then "QA" else "Production")
        else H.GetLotInfo "TestMode")
      else ""
    BinInfo := R.GetBinInfo.2.1
    HWBinInfo := if Valid then R.GetHWBinInfo else HWBinInfoArrayStruct.empty
    Passes := R.GetBinInfo.2.2.1
    Fails := R.GetBinInfo.2.2.2
    TSRInfo := R.GetTSRInformation }

/-- Character `str[0]` of a string, the terminating NUL for an empty one. -/
def firstChar (s : String) : Char := s.data.headD (Char.ofNat 0)

/-- Expression `(double(a) / double(b)) * 100.0`, the division being the one that fails on a
zero divisor. -/
def percentOf (a b : Rat) : Option Rat := (checkedDiv a b).map (fun q => q * 100)

/-- Sum formed by `acc += x` over the sites in a variable of type `unsigned int`. -/
def sumU32 (sites : Sites) (x : SITE → Nat) : Nat :=
  sites.foldl (fun acc s => (acc + x s) % 2 ^ 32) 0

namespace SummaryData

/-- Local `site_total` of the per-site sections of `FormatASCII`. -/
def siteTotal (d : SummaryData) (site : SITE) : Int :=
  if d.IsFinalSummary then d.Passes.FinalSiteCount site + d.Fails.FinalSiteCount site
  else d.Passes.SiteCount site + d.Fails.SiteCount site

/-- Local `total` of `FormatASCII`. -/
def total (d : SummaryData) : Int :=
  if d.IsFinalSummary then d.Passes.FinalCount + d.Fails.FinalCount
  else d.Passes.Count + d.Fails.Count

/-- Aggregate pass percentage of test `ii`:
`(NTested > 0) ? ((double(NTested) - double(NFails)) / double(NTested)) * 100.0 : 0.0`. -/
def tsrAllPercent (d : SummaryData) (LoadedSites : Sites) (ii : Nat) : Option Rat :=
  let NTested := sumU32 LoadedSites (fun s => d.TSRInfo.NumTested s ii)
  let NFails := sumU32 LoadedSites (fun s => d.TSRInfo.NumFails s ii)
  if NTested > 0 then percentOf ((NTested : Rat) - (NFails : Rat)) (NTested : Rat) else some 0

/-- Percentage of a per-site bin row: `(double(bcount) / double(site_total)) * 100.0`. -/
def siteBinPercent (bcount : Nat) (site_total : Int) : Option Rat :=
  percentOf (bcount : Rat) (site_total : Rat)

/-- Percentage of an aggregate bin row:
`((total > 0) && (bcount > 0)) ? (double(bcount) / double(total)) * 100.0 : 0.0`. -/
def allBinPercent (bcount : Nat) (total : Int) : Option Rat :=
  if total > 0 ∧ bcount > 0 then percentOf (bcount : Rat) (total : Rat) else some 0

/-- Pass percentage of the device count table:
`((total > 0) && (npass > 0)) ? (double(npass) / double(total)) * 100.0 : 0.0`. -/
def passPercent (npass : Int) (total : Int) : Option Rat :=
  if total > 0 ∧ npass > 0 then percentOf (npass : Rat) (total : Rat) else some 0

end SummaryData

/-- Text of a `double` inserted under `fixed << setprecision(n)`. -/
structure SumLib where
  showFixed : Nat → Rat → String

namespace SummaryData

/-- Test text of test `ii` after the optional `AppendPinNameToTestText`. -/
def testText (d : SummaryData) (L : Lib) (parent : ST_Datalog) (ii : Nat) : Option String :=
  if parent.AppendPinName then
    L.AppendPinNameToTestText (d.TSRInfo.PinName ii) (some (d.TSRInfo.TestText ii))
  else some (d.TSRInfo.TestText ii)

/-- Line of the lot information block: `left << setw(18) << title << ": " << value`. -/
def infoLine (o : OStream) (title value : String) : OStream :=
  (((o.setLeft.putw 18 title).put ": ").put value).endl

/-- Per-site row of the test result summary. -/
def tsrSiteRow (d : SummaryData) (L : Lib) (F : SumLib) (parent : ST_Datalog) (site : SITE)
    (o : OStream) (ii : Nat) : OStream :=
  let o := (o.setRight.putw TNSize (toString (d.TSRInfo.TestNum ii))).put "  "
  let o := (o.setRight.putw 4 (toString site)).put "  "
  let o := ((o.put "  ").put (String.singleton (firstChar (d.TSRInfo.TestType ii)))).put "   "
  let o := (o.setRight.putw 10 (toString (d.TSRInfo.NumTested site ii))).put "  "
  let o := (o.setRight.putw 10 (toString (d.TSRInfo.NumFails site ii))).put "  "
  let PC := d.TSRInfo.PassPercent site ii * 100
  let o := (o.putw 7 (F.showFixed 2 PC)).put "%  "
  (o.setLeft.put (showStringS (d.testText L parent ii))).endl

/-- Aggregate row of the test result summary, given the value of its percentage `PC`. -/
def tsrAllRowText (d : SummaryData) (L : Lib) (F : SumLib) (parent : ST_Datalog)
    (LoadedSites : Sites) (o : OStream) (ii : Nat) (PC : Rat) : OStream :=
  let NTested := sumU32 LoadedSites (fun s => d.TSRInfo.NumTested s ii)
  let NFails := sumU32 LoadedSites (fun s => d.TSRInfo.NumFails s ii)
  let o := (o.setRight.putw TNSize (toString (d.TSRInfo.TestNum ii))).put "  "
  let o := (o.setRight.putw 4 "All").put "  "
  let o := ((o.put "  ").put (String.singleton (firstChar (d.TSRInfo.TestType ii)))).put "   "
  let o := (o.setRight.putw 10 (toString NTested)).put "  "
  let o := (o.setRight.putw 10 (toString NFails)).put "  "
  let o := (o.putw 7 (F.showFixed 2 PC)).put "%  "
  (o.setLeft.put (showStringS (d.testText L parent ii))).endl

/-- Aggregate row of the test result summary; `none` when the percentage divides by zero. -/
def tsrAllRow (d : SummaryData) (L : Lib) (F : SumLib) (parent : ST_Datalog)
    (LoadedSites : Sites) (o : OStream) (ii : Nat) : Option OStream :=
  (d.tsrAllPercent LoadedSites ii).map (d.tsrAllRowText L F parent LoadedSites o ii)

/-- Test result summary section of `FormatASCII`. -/
def tsrSection (d : SummaryData) (L : Lib) (F : SumLib) (parent : ST_Datalog)
    (LoadedSites : Sites) (o : OStream) : Option OStream :=
  if d.TSRValid then
    let num_recs := d.TSRInfo.size
    let o := (o.put "Test Result Summary:").endl
    let o := ((o.setLeft.putw TNSize "Test_No.").put
      "  Site  Type  Executions  Failures    % Passed  Test_Description").endl
    let o := OutputBorder o TNSize 2
    let o := OutputBorder o 4 2
    let o := OutputBorder o 4 2
    let o := OutputBorder o 10 2
    let o := OutputBorder o 10 2
    let o := OutputBorder o 8 2
    let o := OutputBorder o TDSize 0
    let o := o.endl
    let o :=
      if parent.PerSiteSummary then
        LoadedSites.foldl
          (fun o site => (List.range num_recs).foldl (d.tsrSiteRow L F parent site) o) o
      else o
    ((List.range num_recs).foldlM (d.tsrAllRow L F parent LoadedSites) o).map (fun o => o.endl)
  else some o

/-- Local `bcount` of the per-site software bin rows. -/
def binSiteCount (d : SummaryData) (site : SITE) (ii : Nat) : Nat :=
  if d.IsFinalSummary then d.BinInfo.FinalSiteCount site ii else d.BinInfo.SiteCount site ii

/-- Row of a per-site software bin, given the value of its percentage `PC`. -/
def binSiteRowText (d : SummaryData) (F : SumLib) (site : SITE) (o : OStream) (ii : Nat)
    (PC : Rat) : OStream :=
  let o := (o.setRight.putw 4 (toString site)).put "  "
  let o := (o.setLeft.putw 4 (d.BinInfo.Description ii)).put "  "
  let o := (o.setRight.putw 5 (toString (d.BinInfo.SWBinNumber ii))).put "  "
  let o := (o.setRight.putw 5 (toString (d.BinInfo.HWBinNumber ii))).put "  "
  let o := (o.setLeft.putw 34 (d.BinInfo.BinName ii)).put "  "
  let o := (o.setRight.putw 10 (toString (d.binSiteCount site ii))).put "  "
  ((o.setRight.putw 9 (F.showFixed 3 PC)).put "%").endl

/-- Row of a per-site software bin whose count is positive. -/
def binSiteRow (d : SummaryData) (F : SumLib) (site : SITE) (site_total : Int) (o : OStream)
    (ii : Nat) : Option OStream :=
  if d.binSiteCount site ii > 0 then
    (siteBinPercent (d.binSiteCount site ii) site_total).map (d.binSiteRowText F site o ii)
  else some o

/-- Block of one loaded site in the per-site part of the bin summary. -/
def binSiteBlock (d : SummaryData) (F : SumLib) (o : OStream) (site : SITE) : Option OStream :=
  let site_total := d.siteTotal site
  if site_total > 0 then
    ((List.range d.BinInfo.NumBins).foldlM (d.binSiteRow F site site_total) o).map
      (fun o => (OutputBorder o 78 0).endl.endl)
  else some o

/-- Local `bcount` of the aggregate software bin rows. -/
def binAllCount (d : SummaryData) (ii : Nat) : Nat :=
  if d.IsFinalSummary then d.BinInfo.FinalCount ii else d.BinInfo.Count ii

/-- Aggregate row of a software bin, given the value of its percentage `PC`. -/
def binAllRowText (d : SummaryData) (F : SumLib) (o : OStream) (ii : Nat) (PC : Rat) :
    OStream :=
  let o := o.put " ALL  "
  let o := (o.setLeft.putw 4 (d.BinInfo.Description ii)).put "  "
  let o := (o.setRight.putw 5 (toString (d.BinInfo.SWBinNumber ii))).put "  "
  let o := (o.setRight.putw 5 (toString (d.BinInfo.HWBinNumber ii))).put "  "
  let o := (o.setLeft.putw 34 (d.BinInfo.BinName ii)).put "  "
  let o := (o.setRight.putw 10 (toString (d.binAllCount ii))).put "  "
  ((o.setRight.putw 9 (F.showFixed 3 PC)).put "%").endl

/-- Aggregate row of a software bin that has a name. -/
def binAllRow (d : SummaryData) (F : SumLib) (o : OStream) (ii : Nat) : Option OStream :=
  if (d.BinInfo.BinName ii).length > 0 then
    (allBinPercent (d.binAllCount ii) d.total).map (d.binAllRowText F o ii)
  else some o

/-- Bin summary section of `FormatASCII`. -/
def binSection (d : SummaryData) (F : SumLib) (parent : ST_Datalog) (LoadedSites : Sites)
    (o : OStream) : Option OStream :=
  let o := (o.put "Bin Summary:").endl
  let o := (((((((o.put "Site  ").setLeft.putw (4 + 2) "P/F").putw (5 + 2) "SWBin").putw (5 + 2)
    "HWBin").putw (34 + 2) "Bin Name").putw (10 + 2) "Count").putw 10 "Percent").endl
  let o := OutputBorder o 4 2
  let o := OutputBorder o 4 2
  let o := OutputBorder o 5 2
  let o := OutputBorder o 5 2
  let o := OutputBorder o 34 2
  let o := OutputBorder o 10 2
  let o := OutputBorder o 10 0
  let o := o.endl
  (if parent.PerSiteSummary then LoadedSites.foldlM (d.binSiteBlock F) o else some o).bind
    (fun o =>
      ((List.range d.BinInfo.NumBins).foldlM (d.binAllRow F) o).map
        (fun o => (OutputBorder o 78 0).endl.endl))

/-- Local `bcount` of the per-site hardware bin rows. -/
def hwSiteCount (d : SummaryData) (site : SITE) (ii : Nat) : Nat :=
  if d.IsFinalSummary then d.HWBinInfo.FinalSiteCount site ii
  else d.HWBinInfo.SiteCount site ii

/-- Row of a per-site hardware bin, given the value of its percentage `PC`. -/
def hwSiteRowText (d : SummaryData) (F : SumLib) (site : SITE) (o : OStream) (ii : Nat)
    (PC : Rat) : OStream :=
  let o := (o.setRight.putw 4 (toString site)).put "  "
  let o := (o.setLeft.putw 4 (d.HWBinInfo.Description ii)).put "  "
  let o := (o.setRight.putw 5 (toString (d.HWBinInfo.BinNumber ii))).put "  "
  let o := (o.setLeft.putw 34 (d.HWBinInfo.BinName ii)).put "  "
  let o := (o.setRight.putw 10 (toString (d.hwSiteCount site ii))).put "  "
  ((o.setRight.putw 9 (F.showFixed 3 PC)).put "%").endl

/-- Row of a per-site hardware bin whose count is positive. -/
def hwSiteRow (d : SummaryData) (F : SumLib) (site : SITE) (site_total : Int) (o : OStream)
    (ii : Nat) : Option OStream :=
  if d.hwSiteCount site ii > 0 then
    (siteBinPercent (d.hwSiteCount site ii) site_total).map (d.hwSiteRowText F site o ii)
  else some o

/-- Block of one loaded site in the per-site part of the hardware bin summary. -/
def hwSiteBlock (d : SummaryData) (F : SumLib) (o : OStream) (site : SITE) : Option OStream :=
  let site_total := d.siteTotal site
  if site_total > 0 then
    ((List.range d.HWBinInfo.NumBins).foldlM (d.hwSiteRow F site site_total) o).map
      (fun o => (OutputBorder o 78 0).endl.endl)
  else some o

/-- Local `bcount` of the aggregate hardware bin rows. -/
def hwAllCount (d : SummaryData) (ii : Nat) : Nat :=
  if d.IsFinalSummary then d.HWBinInfo.FinalCount ii else d.HWBinInfo.Count ii

/-- Aggregate row of a hardware bin, given the value of its percentage `PC`. -/
def hwAllRowText (d : SummaryData) (F : SumLib) (o : OStream) (ii : Nat) (PC : Rat) :
    OStream :=
  let o := o.put " ALL  "
  let o := (o.setLeft.putw 4 (d.HWBinInfo.Description ii)).put "  "
  let o := (o.setRight.putw 5 (toString (d.HWBinInfo.BinNumber ii))).put "  "
  let o := (o.setLeft.putw 34 (d.HWBinInfo.BinName ii)).put "  "
  let o := (o.setRight.putw 10 (toString (d.hwAllCount ii))).put "  "
  ((o.setRight.putw 9 (F.showFixed 3 PC)).put "%").endl

/-- Aggregate row of a hardware bin whose number is not negative. -/
def hwAllRow (d : SummaryData) (F : SumLib) (o : OStream) (ii : Nat) : Option OStream :=
  if d.HWBinInfo.BinNumber ii ≥ 0 then
    (allBinPercent (d.hwAllCount ii) d.total).map (d.hwAllRowText F o ii)
  else some o

/-- Hardware bin summary section of `FormatASCII`. -/
def hwSection (d : SummaryData) (F : SumLib) (parent : ST_Datalog) (LoadedSites : Sites)
    (o : OStream) : Option OStream :=
  let o := (o.put "Hardware Bin Summary:").endl
  let o := ((((((o.put "Site  ").setLeft.putw (4 + 2) "P/F").putw (5 + 2) "HWBin").putw (34 + 2)
    "HW Bin Name").putw (10 + 2) "Count").putw 10 "Percent").endl
  let o := OutputBorder o 4 2
  let o := OutputBorder o 4 2
  let o := OutputBorder o 5 2
  let o := OutputBorder o 34 2
  let o := OutputBorder o 10 2
  let o := OutputBorder o 10 0
  let o := o.endl
  (if parent.PerSiteSummary then LoadedSites.foldlM (d.hwSiteBlock F) o else some o).bind
    (fun o =>
      ((List.range d.HWBinInfo.NumBins).foldlM (d.hwAllRow F) o).map
        (fun o => (OutputBorder o 78 0).endl.endl))

/-- Local `site_npass` of the device count table. -/
def sitePasses (d : SummaryData) (site : SITE) : Int :=
  if d.IsFinalSummary then d.Passes.FinalSiteCount site else d.Passes.SiteCount site

/-- Local `npass` of the device count table. -/
def passes (d : SummaryData) : Int :=
  if d.IsFinalSummary then d.Passes.FinalCount else d.Passes.Count

/-- Row of one loaded site in the device count table, given the value of its percentage. -/
def deviceSiteRowText (d : SummaryData) (F : SumLib) (o : OStream) (site : SITE) (SPP : Rat) :
    OStream :=
  (((((((o.setRight.putw 4 (toString site)).put "  ").setRight.putw 14
    (toString (d.siteTotal site))).put "  ").setRight.putw 14
    (toString (d.sitePasses site))).setRight.putw 9 (F.showFixed 3 SPP)).put "%").endl

/-- Last row of the device count table, given the value of its percentage. -/
def deviceAllRowText (d : SummaryData) (F : SumLib) (o : OStream) (PP : Rat) : OStream :=
  ((((((o.put " ALL  ").setRight.putw 14 (toString d.total)).put "  ").setRight.putw 14
    (toString d.passes)).setRight.putw 9 (F.showFixed 3 PP)).put "%").endl

/-- Row of one loaded site in the device count table. -/
def deviceSiteRow (d : SummaryData) (F : SumLib) (o : OStream) (site : SITE) : Option OStream :=
  if d.siteTotal site > 0 then
    (passPercent (d.sitePasses site) (d.siteTotal site)).map (d.deviceSiteRowText F o site)
  else some o

/-- Device count section of `FormatASCII`. -/
def deviceSection (d : SummaryData) (F : SumLib) (parent : ST_Datalog) (LoadedSites : Sites)
    (o : OStream) : Option OStream :=
  let o := (o.put "Device Count Summary:").endl
  let o := (((((((o.putw 4 "Site").put "  ").putw 14 "Devices Tested").put "  ").putw 14
    "Devices Passed").put "  ").putw 10 "Percent").endl
  let o := OutputBorder o 4 2
  let o := OutputBorder o 14 2
  let o := OutputBorder o 14 2
  let o := OutputBorder o 10 0
  let o := o.endl
  (if parent.PerSiteSummary then LoadedSites.foldlM (d.deviceSiteRow F) o else some o).bind
    (fun o => (passPercent d.passes d.total).map (d.deviceAllRowText F o))

/-- Method `SummaryData::FormatASCII`; `none` when one of its percentages divides by zero. -/
def FormatASCII (d : SummaryData) (L : Lib) (F : SumLib) (parent : ST_Datalog) (env : SiteEnv)
    (_fail_only_mode : Bool) (output : OStream) : Option OStream :=
  let o :=
    if d.IsFinalSummary then ((output.endl.setRight.putw 50 "FINAL SUMMARY").endl).endl
    else ((output.endl.setRight.putw 50 "SUBLOT SUMMARY").endl).endl
  let o := infoLine o "FILE NAME" d.FileName
  let o := infoLine o "PROGRAM NAME" d.ProgName
  let o := infoLine o "USER NAME" d.UserName
  let o := infoLine o "DEVICE NAME" d.DUTName
  let o := infoLine o "LOT ID" d.LotID
  let o := infoLine o "SUBLOT ID" d.SublotID
  let o := infoLine o "LOT STATUS" d.LotStat
  let o := infoLine o "LOT TYPE" d.LotType
  let o := infoLine o "LOT DESCRIPTION" d.LotDesc
  let o := infoLine o "PRODUCT ID" d.ProdID
  let o := infoLine o "WAFER ID" d.WaferID
  let o := infoLine o "FAB ID" d.FabID
  let o := infoLine o "LOT START TIME" d.LotStart
  let o := infoLine o "SHIFT" d.Shift
  let o := infoLine o "OPERATOR ID" d.Operator
  let o := infoLine o "TESTER NAME" d.TesterName
  let o := infoLine o "ACTIVE FLOW" d.FlowName
  let o := infoLine o "ACTIVE LOADBOARD" d.DIBName
  let o := infoLine o "ACTIVE LIMITTABLE" d.LimitTableName
  let o := infoLine o "LOCAL TIME" d.CurLocalTime
  let o := infoLine o "GM TIME" d.CurGMTime
  let o := infoLine o "PROBER/HANDLER" d.PHName
  let o := infoLine o "HEADER" d.SumHdr
  let o := infoLine o "MODE" d.TestMode
  let o := o.endl
  (((d.tsrSection L F parent env.LoadedSites o).bind
    (d.binSection F parent env.LoadedSites)).bind
    (d.hwSection F parent env.LoadedSites)).bind
    (d.deviceSection F parent env.LoadedSites)

end SummaryData

/-- Accumulators of test `ii` in `SummaryData::FormatSTDFV4`: the elements `num_tested[ii]`,
`num_fails[ii]`, `min_val[ii]`, `max_val[ii]`, `sums[ii]` and `squares[ii]`. -/
structure TsrAcc where
  num_tested : Nat
  num_fails : Nat
  min_val : Rat
  max_val : Rat
  sums : Rat
  squares : Rat
  deriving DecidableEq, Repr

/-- Initial content of the accumulators: 0, 0, 1e100, -1e100, 0.0, 0.0. -/
def TsrAcc.init : TsrAcc :=
  { num_tested := 0, num_fails := 0, min_val := 10 ^ 100, max_val := -(10 ^ 100), sums := 0,
    squares := 0 }

namespace SummaryData

/-- Body of the site loop of `FormatSTDFV4` for test `ii`, as far as the accumulators go. -/
def tsrAccStep (d : SummaryData) (ii : Nat) (acc : TsrAcc) (site : SITE) : TsrAcc :=
  if d.TSRInfo.NumTested site ii > 0 then
    { num_tested := (acc.num_tested + d.TSRInfo.NumTested site ii) % 2 ^ 32
      num_fails := (acc.num_fails + d.TSRInfo.NumFails site ii) % 2 ^ 32
      min_val :=
        if d.TSRInfo.MinValue site ii < acc.min_val then d.TSRInfo.MinValue site ii
        else acc.min_val
      max_val :=
        if d.TSRInfo.MaxValue site ii > acc.max_val then d.TSRInfo.MaxValue site ii
        else acc.max_val
      sums := acc.sums + d.TSRInfo.Sums site ii
      squares := acc.squares + d.TSRInfo.SumOfSquares site ii }
  else acc

/-- Accumulators of test `ii` after the loop over the loaded sites. -/
def tsrAcc (d : SummaryData) (LoadedSites : Sites) (ii : Nat) : TsrAcc :=
  LoadedSites.foldl (d.tsrAccStep ii) TsrAcc.init

/-- Per-site TSR of test `ii`. -/
def tsrSiteRecord (d : SummaryData) (L : Lib) (parent : ST_Datalog) (site : SITE) (ii : Nat) :
    TSRRecord :=
  { context := some (1, site)
    testNum := d.TSRInfo.TestNum ii
    testType := firstChar (d.TSRInfo.TestType ii)
    testText := d.testText L parent ii
    numTested := d.TSRInfo.NumTested site ii
    numFails := d.TSRInfo.NumFails site ii
    minVal := d.TSRInfo.MinValue site ii
    maxVal := d.TSRInfo.MaxValue site ii
    sums := d.TSRInfo.Sums site ii
    squares := d.TSRInfo.SumOfSquares site ii }

/-- Aggregate TSR of test `ii`. -/
def tsrAllRecord (d : SummaryData) (L : Lib) (parent : ST_Datalog) (LoadedSites : Sites)
    (ii : Nat) : TSRRecord :=
  { context := none
    testNum := d.TSRInfo.TestNum ii
    testType := firstChar (d.TSRInfo.TestType ii)
    testText := d.testText L parent ii
    numTested := (d.tsrAcc LoadedSites ii).num_tested
    numFails := (d.tsrAcc LoadedSites ii).num_fails
    minVal := (d.tsrAcc LoadedSites ii).min_val
    maxVal := (d.tsrAcc LoadedSites ii).max_val
    sums := (d.tsrAcc LoadedSites ii).sums
    squares := (d.tsrAcc LoadedSites ii).squares }

/-- TSR records written by `FormatSTDFV4`, in order: the per-site records of the site loop,
then the aggregate records. -/
def tsrRecords (d : SummaryData) (L : Lib) (parent : ST_Datalog) (LoadedSites : Sites) :
    List STDFRecord :=
  if d.TSRValid then
    let num_recs := d.TSRInfo.size
    let num_sites := LoadedSites.length
    (LoadedSites.map (fun site =>
      ((List.range num_recs).filter (fun ii =>
        decide (d.TSRInfo.NumTested site ii > 0) && (parent.PerSiteSummary &&
          decide (num_sites > 1)))).map
        (fun ii => STDFRecord.TSR (d.tsrSiteRecord L parent site ii)))).flatten
    ++ ((List.range num_recs).filter
          (fun ii => decide ((d.tsrAcc LoadedSites ii).num_tested > 0))).map
        (fun ii => STDFRecord.TSR (d.tsrAllRecord L parent LoadedSites ii))
  else []

/-- HBR of hardware bin `bn` for one site. -/
def hbrSiteRecord (d : SummaryData) (site : SITE) (bn : Nat) : BinRecord :=
  { binNumber := d.HWBinInfo.BinNumber bn
    count :=
      if d.IsFinalSummary then d.HWBinInfo.FinalSiteCount site bn
      else d.HWBinInfo.SiteCount site bn
    desc := firstChar (d.HWBinInfo.Description bn)
    name := if (d.HWBinInfo.BinName bn).length > 0 then some (d.HWBinInfo.BinName bn) else none
    head := 1
    site := site }

/-- Aggregate HBR of hardware bin `bn`. -/
def hbrAllRecord (d : SummaryData) (bn : Nat) : BinRecord :=
  { binNumber := d.HWBinInfo.BinNumber bn
    count := if d.IsFinalSummary then d.HWBinInfo.FinalCount bn else d.HWBinInfo.Count bn
    desc := firstChar (d.HWBinInfo.Description bn)
    name := if (d.HWBinInfo.BinName bn).length > 0 then some (d.HWBinInfo.BinName bn) else none
    head := 255
    site := SITE_255 }

/-- SBR of software bin `bn` for one site. -/
def sbrSiteRecord (d : SummaryData) (site : SITE) (bn : Nat) : BinRecord :=
  { binNumber := d.BinInfo.SWBinNumber bn
    count :=
      if d.IsFinalSummary then d.BinInfo.FinalSiteCount site bn else d.BinInfo.SiteCount site bn
    desc := firstChar (d.BinInfo.Description bn)
    name := some (d.BinInfo.BinName bn)
    head := 1
    site := site }

/-- Aggregate SBR of software bin `bn`. -/
def sbrAllRecord (d : SummaryData) (bn : Nat) : BinRecord :=
  { binNumber := d.BinInfo.SWBinNumber bn
    count := if d.IsFinalSummary then d.BinInfo.FinalCount bn else d.BinInfo.Count bn
    desc := firstChar (d.BinInfo.Description bn)
    name := some (d.BinInfo.BinName bn)
    head := 255
    site := SITE_255 }

/-- HBR, SBR, PCR and MRR records written by `FormatSTDFV4`, in order. -/
def binRecords (d : SummaryData) (H : LotHost) (parent : ST_Datalog) (LoadedSites : Sites) :
    List STDFRecord :=
  (if parent.PerSiteSummary then
    (LoadedSites.map (fun site =>
      (List.range d.HWBinInfo.NumBins).map
        (fun bn => STDFRecord.HBR (d.hbrSiteRecord site bn)))).flatten
   else [])
  ++ (List.range d.HWBinInfo.NumBins).map (fun bn => STDFRecord.HBR (d.hbrAllRecord bn))
  ++ (if parent.PerSiteSummary then
    (LoadedSites.map (fun site =>
      (List.range d.BinInfo.NumBins).map
        (fun bn => STDFRecord.SBR (d.sbrSiteRecord site bn)))).flatten
   else [])
  ++ (List.range d.BinInfo.NumBins).map (fun bn => STDFRecord.SBR (d.sbrAllRecord bn))
  ++ (if parent.PerSiteSummary then
    LoadedSites.map (fun site => STDFRecord.PCR
      { total := d.siteTotal site
        passes := d.sitePasses site
        head := 1
        site := site })
   else [])
  ++ [STDFRecord.PCR
        { total := d.total
          passes := d.passes
          head := 255
          site := SITE_255 },
      STDFRecord.MRR
        { finish := parent.FinishTime
          disp := if (H.GetLotInfo "DispCode").length > 0 then
            firstChar (H.GetLotInfo "DispCode") else ' '
          lotDesc := H.GetLotInfo "LotDescription"
          execDesc := H.GetLotInfo "ExecDescription" }]

/-- Method `SummaryData::FormatSTDFV4`. -/
def FormatSTDFV4 (d : SummaryData) (L : Lib) (H : LotHost) (parent : ST_Datalog)
    (env : SiteEnv) (_fail_only_mode : Bool) (STDF : STDFV4Stream) : STDFV4Stream :=
  if d.FileClosingAfterSummary = false then STDF
  else if STDF.valid then
    (d.tsrRecords L parent env.LoadedSites ++ d.binRecords H parent env.LoadedSites).foldl
      (fun st r => st.Write r) STDF
  else STDF

/-- Method `SummaryData::Format`; the first component is `none` when `FormatASCII` divides
by zero. -/
def Format (d : SummaryData) (L : Lib) (F : SumLib) (H : LotHost) (env : SiteEnv)
    (format : Option String) (fail_only_mode : Bool)
    (st : OStream × STDFV4Stream × ST_Datalog) : Option (OStream × STDFV4Stream × ST_Datalog) :=
  match FormatSel.ofString format with
  | FormatSel.null => some st
  | FormatSel.ascii =>
    (d.FormatASCII L F st.2.2 env fail_only_mode st.1).map (fun o =>
      (o, st.2.1, st.2.2.SetLastFormatEvent SystemEvents.Summary))
  | FormatSel.stdfv4 =>
    some (st.1, d.FormatSTDFV4 L H st.2.2 env fail_only_mode st.2.1,
      st.2.2.SetLastFormatEvent SystemEvents.Summary)
  | FormatSel.unknown =>
    some (st.1, st.2.1, st.2.2.SetLastFormatEvent SystemEvents.Summary)

end SummaryData

/-- User data `DatalogSummaryInfo`. -/
structure DatalogSummaryInfo where
  PartialSummary : Bool
  FileClosingAfterSummary : Bool

/-- Method `ST_Datalog::Summary(udata)`, `sdata` being the outcome of the dynamic cast: the
parent afterwards and the `SummaryData` object. -/
def ST_Datalog.Summary (p : ST_Datalog) (now : Option Rat) (R : SumHost) (H : LotHost)
    (sdata : Option DatalogSummaryInfo) : ST_Datalog × SummaryData :=
  let DoFinal :=
    match sdata with
    | some s => if s.PartialSummary then false else true
    | none => false
  let FileClosingAfterSummary :=
    match sdata with
    | some s => s.FileClosingAfterSummary
    | none => false
  (p.SetSummaryNeeded false, SummaryData.new now R H DoFinal FileClosingAfterSummary)

/-- Example run-time data of a summary on the loaded sites 1 and 2, of which only site 1 was
tested: four devices, three in software bin 1 (pass) and one in software bin 2 (fail); one
test with four executions and one failure on site 1, and no execution on site 2, whose
statistics are all zero. -/
def exSumHost : SumHost :=
  { GetBinInfo :=
      (true,
       { NumBins := 2
         Description := fun ii => if ii = 0 then "PASS" else "FAIL"
         SWBinNumber := fun ii => if ii = 0 then 1 else 2
         HWBinNumber := fun ii => if ii = 0 then 1 else 2
         BinName := fun ii => if ii = 0 then "good" else "bad"
         Count := fun ii => if ii = 0 then 3 else 1
         FinalCount := fun ii => if ii = 0 then 3 else 1
         SiteCount := fun s ii => if s = 1 then (if ii = 0 then 3 else 1) else 0
         FinalSiteCount := fun s ii => if s = 1 then (if ii = 0 then 3 else 1) else 0 },
       { Count := 3, FinalCount := 3, SiteCount := fun s => if s = 1 then 3 else 0,
         FinalSiteCount := fun s => if s = 1 then 3 else 0 },
       { Count := 1, FinalCount := 1, SiteCount := fun s => if s = 1 then 1 else 0,
         FinalSiteCount := fun s => if s = 1 then 1 else 0 })
    GetHWBinInfo :=
      { NumBins := 2
        Description := fun ii => if ii = 0 then "PASS" else "FAIL"
        BinNumber := fun ii => if ii = 0 then 1 else 2
        BinName := fun ii => if ii = 0 then "good" else "bad"
        Count := fun ii => if ii = 0 then 3 else 1
        FinalCount := fun ii => if ii = 0 then 3 else 1
        SiteCount := fun s ii => if s = 1 then (if ii = 0 then 3 else 1) else 0
        FinalSiteCount := fun s ii => if s = 1 then (if ii = 0 then 3 else 1) else 0 }
    GetTSRInformation :=
      { size := 1
        TestNum := fun _ => 100
        TestType := fun _ => "P"
        TestText := fun _ => "vdd"
        PinName := fun _ => none
        NumTested := fun s _ => if s = 1 then 4 else 0
        NumFails := fun s _ => if s = 1 then 1 else 0
        PassPercent := fun s _ => if s = 1 then 3 / 4 else 0
        MinValue := fun s _ => if s = 1 then 1 else 0
        MaxValue := fun s _ => if s = 1 then 2 else 0
        Sums := fun s _ => if s = 1 then 6 else 0
        SumOfSquares := fun s _ => if s = 1 then 10 else 0 }
    ActiveLimitTableName := ""
    CurrentLocalTime := ""
    CurrentGMTime := "" }

/-- Final summary captured from `exSumHost`, with the file closing after it. -/
def exSum : SummaryData := SummaryData.new none exSumHost exLotHost true true

/-- Example number formatter: the integer part of the value. -/
def exSumLib : SumLib := { showFixed := fun _ q => toString (q.floor) }

/-! ## Functional tests -/

def CCSize : Int := 10
def SCSize : Int := 14

/-- The two file-level variables `FPSize` and `BHSize`, which `CheckPatternNameSize` changes. -/
structure Globals where
  FPSize : Int
  BHSize : Int
  deriving DecidableEq, Repr

/-- Initial values of `FPSize` and `BHSize`. -/
def Globals.init : Globals :=
  { FPSize := 43
    BHSize := TNSize + 2 + 3 + 2 + 4 + 2 + 43 + 2 + CCSize + 2 + SCSize + 2 + TDSize + 2 + 4 + 2 }

/-- Pattern object as `FormatPatternAddr` and `CheckPatternNameSize` see it: its validity,
whether its type is `OBJ_PATTERN` or `OBJ_PATTERN_BURST`, its name and, for the last pattern
of a scan burst, `GetNumberOfVectors()`. -/
structure PatObject where
  Valid : Bool
  isPattern : Bool
  Name : String
  NumberOfVectors : Int
  deriving DecidableEq, Repr

/-- User data `DatalogFunctional` as read by the formatters. -/
structure DatalogFunctional where
  TestID : Nat
  Result : SITE → TM_RESULT
  Comment : Option String

/-- Fields of `DigitalPatternInfoStruct` that the formatters read. `NumRecordsNonZero` is the
value of the expression `PatInfo.NumRecords != 0`; `PatternObject site` lists the patterns of
the site, `NumPatterns` is `PatternObject.GetSize()`. -/
structure DigitalPatternInfoStruct where
  NumRecordsNonZero : Bool
  NumRecords : SITE → Nat
  NumPatterns : Nat
  PatternObject : SITE → Nat → PatObject
  VecOffset : SITE → Nat → Nat
  Count : SITE → Nat → Nat
  ScanRegister : SITE → Nat → Int
  ScanBit : SITE → Nat → Int

/-- Fields and methods of `DigitalPatternPinStruct` that the formatters read.
`NumRecordsIsZero` is the value of the expression `PatPinInfo.NumRecords == 0`;
`StuffHeaderPins site fn` is the pin list the method stores; the three string methods give
`none` when they return false. -/
structure DigitalPatternPinStruct where
  NumRecordsIsZero : Bool
  Pins : PinML
  NumHeaderPins : Nat
  StuffHeaderPins : SITE → Nat → PinML
  FailingPinsCount : SITE → Nat → Nat
  DatalogChar : SITE → Nat → String
  StuffComplexString : SITE → Nat → Option String
  StuffComplexStringAlt : SITE → Nat → String → Option String
  StuffPassFailString : SITE → Nat → Char → Char → Option String

/-- Library pieces used by the functional formatter: `PinML::HasSameOrderAndPins`, and the
configuration variable `enhanced_char_set` of section `datalog` (its type name and its value,
`none` when `GetConfigVariableValue` returns false). -/
structure FuncLib where
  HasSameOrderAndPins : PinML → PinML → Bool
  ConfigVariableType : String
  ConfigVariableValue : Option String

/-- Class `FunctionalTestData`. -/
structure FunctionalTestData where
  ctx : DlogCtx
  FData : DatalogFunctional
  MaxNumFails : Int
  PatInfo : DigitalPatternInfoStruct
  PatPinInfo : DigitalPatternPinStruct

/-- Function `CalcMaxPinLength(pins, header)`: the returned length and the rows stored in
`header` (none when 0 is returned). -/
def CalcMaxPinLength (pins : PinML) : Nat × List String :=
  let names := pins.getD []
  let npins := names.length
  if npins > 0 then
    let max_len := (names.map String.length).foldl max 0
    if max_len > 0 then
      let row (r : Nat) : String :=
        String.mk (names.map (fun name =>
          let hd := max_len - 1 - r
          if hd < name.length then name.data.getD (name.length - hd - 1) ' ' else ' '))
      (max_len + 1,
        (List.range max_len).map row ++ [String.mk (List.replicate npins '-')])
    else (0, [])
  else (0, [])

/-- Function `ShowPinHeaderRow(output, index, space, header, extra)`. -/
def ShowPinHeaderRow (o : OStream) (index : Int) (space : Int) (header : List String)
    (extra : Bool) : OStream :=
  let o :=
    if extra then
      let o := if space ≥ 6 then o.putw (space - 6) " " else o
      o.put "fail  "
    else if space > 0 then o.putw space " "
    else o
  if index ≥ 0 ∧ index < header.length then o.setLeft.put (header.getD index.toNat "")
  else o

/-- Function `OutputFunctionalHeader(output, pins)`, reading `FPSize` and `BHSize`. -/
def OutputFunctionalHeader (G : Globals) (o : OStream) (pins : PinML) : OStream :=
  let o := o.endl
  let cm := if pins.isSome then CalcMaxPinLength pins else (0, [])
  let MaxPinLen : Int := cm.1
  let PinHeader := cm.2
  let PinOnlyRows : Int := MaxPinLen - 2
  let o := (List.range PinOnlyRows.toNat).foldl
    (fun o ii =>
      (ShowPinHeaderRow o ii G.BHSize PinHeader (decide ((ii : Int) = PinOnlyRows - 1))).endl) o
  let ii : Int := PinOnlyRows.toNat
  let o := (o.setLeft.putw TNSize "Test_No.").put "  P/F  Site  "
  let o := (o.setLeft.putw G.FPSize "Pattern").put "  "
  let o := (o.setLeft.putw CCSize "Count").put "  "
  let o := (o.setLeft.putw SCSize "ScanVec:Bit").put "  "
  let o := (o.setLeft.putw TDSize "Test_Description").put "  "
  let r :=
    if MaxPinLen > 1 then (ShowPinHeaderRow (o.put "pins  ") ii 0 PinHeader false, ii + 1)
    else (o, ii)
  let o := r.1.endl
  let ii := r.2
  let o := OutputBorder o TNSize 2
  let o := OutputBorder o 3 2
  let o := OutputBorder o 4 2
  let o := OutputBorder o G.FPSize 2
  let o := OutputBorder o CCSize 2
  let o := OutputBorder o SCSize 2
  let o := OutputBorder o TDSize 2
  let o := if MaxPinLen > 0 then ShowPinHeaderRow (OutputBorder o 4 2) ii 0 PinHeader false else o
  o.endl

/-- Function `FormatPatternAddr(str, Pat, Offs)` for a pattern object: the value of `str`
afterwards, given its value before. -/
def FormatPatternAddrObj (str : String) (Pat : PatObject) (Offs : Nat) : String :=
  if Pat.Valid then
    if Pat.isPattern then
      if Offs > 0 then Pat.Name ++ "+" ++ toString Offs else Pat.Name
    else str
  else str

/-- Function `FormatPatternAddr(str, PatName, Offs)` for a pattern name. -/
def FormatPatternAddrName (PatName : String) (Offs : Nat) : String :=
  if Offs > 0 then PatName ++ "+" ++ toString Offs else PatName

/-- Function `FormatScanInfo(str, scan_reg, scan_bit)`. -/
def FormatScanInfo (scan_reg scan_bit : Int) : String :=
  if scan_reg ≥ 0 ∧ scan_bit ≥ 0 then toString scan_reg ++ ":" ++ toString scan_bit else ""

/-- Common tail of both `CheckPatternNameSize` functions: the 8 characters added to the
longest name, the comparison with `FPSize` and the update of both variables; the flag tells
whether they were changed. -/
def growPatternColumn (G : Globals) (LongestNameLength : Int) : Bool × Globals :=
  let LongestNameLength := LongestNameLength + 8
  if LongestNameLength > G.FPSize then
    (true, { FPSize := LongestNameLength, BHSize := G.BHSize - G.FPSize + LongestNameLength })
  else (false, G)

/-- Function `CheckPatternNameSize(Patterns, DlogSites)`: the returned flag and the two
variables afterwards. -/
def CheckPatternNameSizeM (G : Globals) (PatInfo : DigitalPatternInfoStruct)
    (DlogSites : Sites) : Bool × Globals :=
  let Longest : Nat := DlogSites.foldl
    (fun acc site => (List.range PatInfo.NumPatterns).foldl
      (fun acc ii =>
        if (PatInfo.PatternObject site ii).Name.length > acc then
          (PatInfo.PatternObject site ii).Name.length
        else acc) acc) 0
  growPatternColumn G Longest

namespace FunctionalTestData

/-- Local `ShowVerbose` of `FormatASCII` after the test of the collected pin records. -/
def ShowVerbose (d : FunctionalTestData) (parent : ST_Datalog) : Bool :=
  if parent.EnableVerbose ∧ d.PatPinInfo.NumRecordsIsZero then false else parent.EnableVerbose

/-- Local `fsites` of both formatters. -/
def fsites (d : FunctionalTestData) (fail_only_mode : Bool) : Sites :=
  if fail_only_mode then
    Sites.DisableFailingSites d.ctx.DlogSites (TMResultM.Equal d.FData.Result TM_RESULT.TM_FAIL)
  else d.ctx.DlogSites

/-- Local `tdesc` of `FormatASCII`: the test description, cut to `TDSize` characters in
verbose mode. -/
def tdescASCII (d : FunctionalTestData) (parent : ST_Datalog) : Option String :=
  let tdesc := FormatTestDescription d.ctx d.FData.Comment
  if d.ShowVerbose parent ∧ ((showStringS tdesc).length : Int) > TDSize then
    some (String.mk ((showStringS tdesc).data.take TDSize.toNat))
  else tdesc

/-- Local `alt_enhanced_chars` of `FormatASCII`. -/
def altEnhancedChars (F : FuncLib) (parent : ST_Datalog) : String :=
  if parent.EnhancedFuncChars then
    if F.ConfigVariableType = "string" then
      match F.ConfigVariableValue with
      | some temp => temp
      | none => ""
    else ""
  else ""

/-- Local `nrecs` of both formatters for one site; the comparison of the record count with
`MaxNumFails` is taken on the values. -/
def nrecs (d : FunctionalTestData) (site : SITE) : Int :=
  if (d.PatInfo.NumRecords site : Int) < d.MaxNumFails then (d.PatInfo.NumRecords site : Int)
  else if d.FData.Result site = TM_RESULT.TM_FAIL then d.MaxNumFails
  else 1

/-- Pairs `(site, fn)` visited by the two nested loops of both formatters, in order. -/
def records (d : FunctionalTestData) (fail_only_mode : Bool) : List (SITE × Nat) :=
  ((d.fsites fail_only_mode).map
    (fun site => (List.range (d.nrecs site).toNat).map (fun fn => (site, fn)))).flatten

/-- Body of the record loop of `FormatASCII` from the insertion of the test number to
`endl`: the data row of record `fn` of `site`. -/
def row (d : FunctionalTestData) (F : FuncLib) (parent : ST_Datalog) (G : Globals)
    (o : OStream) (r : SITE × Nat) : OStream :=
  let site := r.1
  let fn := r.2
  let ShowVerbose := d.ShowVerbose parent
  let o := (o.setRight.putw TNSize (toString d.FData.TestID)).put "  "
  let o := (o.put (PFMarker (d.FData.Result site) parent.PassString)).put "  "
  let o := (o.setRight.putw 4 (toString site)).put "  "
  let str := FormatPatternAddrObj "" (d.PatInfo.PatternObject site fn)
    (d.PatInfo.VecOffset site fn)
  let o := (o.setLeft.putw G.FPSize str).put "  "
  let o :=
    if d.PatInfo.Count site fn ≠ 2 ^ 32 - 1 then
      (o.setRight.putw CCSize (toString (d.PatInfo.Count site fn))).put "  "
    else (o.setRight.putw CCSize "unknown").put "  "
  let str := FormatScanInfo (d.PatInfo.ScanRegister site fn) (d.PatInfo.ScanBit site fn)
  let o := (o.setLeft.putw SCSize str).put "  "
  let o :=
    if fn > 0 then o.putw TDSize " "
    else o.setLeft.putw TDSize (showStringS (d.tdescASCII parent))
  let o :=
    if ShowVerbose ∧ d.FData.Result site = TM_RESULT.TM_FAIL then
      let o := ((o.put "  ").setRight.putw 4
        (toString (d.PatPinInfo.FailingPinsCount site fn))).put "  "
      if parent.EnhancedFuncChars then
        let alt := altEnhancedChars F parent
        let str :=
          if alt.length > 0 then
            (d.PatPinInfo.StuffComplexStringAlt site fn alt).getD
              (d.PatPinInfo.DatalogChar site fn)
          else
            (d.PatPinInfo.StuffComplexString site fn).getD (d.PatPinInfo.DatalogChar site fn)
        o.setLeft.put str
      else
        o.setLeft.put ((d.PatPinInfo.StuffPassFailString site fn '.' 'F').getD "")
    else o
  o.endl

/-- What the record loop of `FormatASCII` carries from one record to the next: the output,
the cached `VerbosePins` of the parent, and the local `ShowHeaderOnce`. -/
structure LoopState where
  out : OStream
  VerbosePins : PinML
  ShowHeaderOnce : Bool

/-- Body of the record loop of `FormatASCII`: the header decision, then the data row. -/
def recStep (d : FunctionalTestData) (F : FuncLib) (parent : ST_Datalog) (G : Globals)
    (st : LoopState) (r : SITE × Nat) : LoopState :=
  let st1 : LoopState :=
    if d.ShowVerbose parent ∧ d.FData.Result r.1 = TM_RESULT.TM_FAIL then
      let newPins := d.PatPinInfo.StuffHeaderPins r.1 r.2
      if F.HasSameOrderAndPins newPins st.VerbosePins = false then
        { st with VerbosePins := newPins, out := OutputFunctionalHeader G st.out newPins }
      else st
    else if st.ShowHeaderOnce then
      { st with out := OutputFunctionalHeader G st.out none }
    else st
  { VerbosePins := st1.VerbosePins, ShowHeaderOnce := false, out := d.row F parent G st1.out r }

/-- Local `ShowHeaderOnce` of `FormatASCII` when the record loop starts: set when the last
formatted event was not a functional test, or when `CheckPatternNameSize` returned true. -/
def showHeaderOnce (d : FunctionalTestData) (parent : ST_Datalog) (G : Globals)
    (fail_only_mode : Bool) : Bool :=
  decide (parent.LastFormatEvent ≠ SystemEvents.FunctionalTest) ||
    (CheckPatternNameSizeM G d.PatInfo (d.fsites fail_only_mode)).1

/-- Method `FunctionalTestData::FormatASCII`: the output, the parent (whose `VerbosePins` the
method changes) and the two layout variables afterwards. -/
def FormatASCII (d : FunctionalTestData) (F : FuncLib) (parent : ST_Datalog) (G : Globals)
    (fail_only_mode : Bool) (output : OStream) : OStream × ST_Datalog × Globals :=
  let VerbosePins :=
    if parent.LastFormatEvent ≠ SystemEvents.FunctionalTest then none else parent.VerbosePins
  let G1 := (CheckPatternNameSizeM G d.PatInfo (d.fsites fail_only_mode)).2
  let st := (d.records fail_only_mode).foldl (d.recStep F parent G1)
    { out := output, VerbosePins := VerbosePins,
      ShowHeaderOnce := d.showHeaderOnce parent G fail_only_mode }
  (st.out, { parent with VerbosePins := st.VerbosePins }, G1)

/-- Records written by `FormatSTDFV4` on a valid stream, in order. -/
def ftrRecords (d : FunctionalTestData) (parent : ST_Datalog) (fail_only_mode : Bool) :
    List FTRRecord :=
  (d.records fail_only_mode).map (fun r =>
    { testID := d.FData.TestID
      tdesc := FormatTestDescription d.ctx d.FData.Comment
      site := r.1
      recIndex := r.2
      enhanced := parent.EnhancedFuncChars
      verbose := parent.EnableVerbose })

/-- Method `FunctionalTestData::FormatSTDFV4`. -/
def FormatSTDFV4 (d : FunctionalTestData) (parent : ST_Datalog) (fail_only_mode : Bool)
    (STDF : STDFV4Stream) : STDFV4Stream :=
  if STDF.valid then
    (d.ftrRecords parent fail_only_mode).foldl (fun st r => st.Write (STDFRecord.FTR r)) STDF
  else STDF

/-- Method `FunctionalTestData::Format`: the output stream, the STDF stream, the parent and
the layout variables after the call. -/
def Format (d : FunctionalTestData) (F : FuncLib) (format : Option String)
    (fail_only_mode : Bool) (st : OStream × STDFV4Stream × ST_Datalog × Globals) :
    OStream × STDFV4Stream × ST_Datalog × Globals :=
  if d.PatInfo.NumRecordsNonZero then
    match FormatSel.ofString format with
    | FormatSel.null => st
    | FormatSel.ascii =>
      let r := d.FormatASCII F st.2.2.1 st.2.2.2 fail_only_mode st.1
      (r.1, st.2.1, r.2.1.SetLastFormatEvent SystemEvents.FunctionalTest, r.2.2)
    | FormatSel.stdfv4 =>
      (st.1, d.FormatSTDFV4 st.2.2.1 fail_only_mode st.2.1,
        st.2.2.1.SetLastFormatEvent SystemEvents.FunctionalTest, st.2.2.2)
    | FormatSel.unknown =>
      (st.1, st.2.1, st.2.2.1.SetLastFormatEvent SystemEvents.FunctionalTest, st.2.2.2)
  else st

end FunctionalTestData

/-- Constructor `FunctionalTestData::FunctionalTestData`: the object and the parent after
`IncNumTestsExecuted()`. -/
def FunctionalTestData.new (parent : ST_Datalog) (ctx : DlogCtx) (fdata : DatalogFunctional)
    (NumberOfFunctionalFails : Int) (PatternInfo : DigitalPatternInfoStruct)
    (PatternPinInfo : DigitalPatternPinStruct) : FunctionalTestData × ST_Datalog :=
  ({ ctx := ctx, FData := fdata, MaxNumFails := NumberOfFunctionalFails, PatInfo := PatternInfo,
     PatPinInfo := PatternPinInfo },
   parent.IncNumTestsExecuted ctx.DlogSites)

/-! ## Scan tests -/

def EXSize : Int := 3

/-- Fields of `DigitalScanInfoStruct` that the formatters read. -/
structure DigitalScanInfoStruct where
  NumRecords : SITE → Nat
  Patterns : List String
  PatternCounts : List Nat
  FailCount : SITE → Nat → Nat
  FailPin : SITE → Nat → Nat
  Pins : List String
  ExpectAlias : SITE → Nat → String
  PatternVec : SITE → Nat → Nat
  ScanRegister : SITE → Nat → Int
  ScanBit : SITE → Nat → Int
  BurstCount : Nat
  BurstName : String

/-- Class `ScanTestData`. -/
structure ScanTestData where
  ctx : DlogCtx
  FData : DatalogFunctional
  MaxNumFails : Int
  ScanInfo : DigitalScanInfoStruct

/-- Function `CheckPatternNameSize(PatternNames)`: the two variables afterwards. -/
def CheckPatternNameSizeS (G : Globals) (PatternNames : List String) : Globals :=
  let Longest : Nat := PatternNames.foldl
    (fun acc name => if name.length > acc then name.length else acc) 0
  (growPatternColumn G Longest).2

/-- Constructor `ScanTestData::ScanTestData`: the object and the parent after
`IncNumTestsExecuted()`. -/
def ScanTestData.new (parent : ST_Datalog) (ctx : DlogCtx) (fdata : DatalogFunctional)
    (NumberOfScanFails : Int) (ScanInfo : DigitalScanInfoStruct) : ScanTestData × ST_Datalog :=
  ({ ctx := ctx, FData := fdata, MaxNumFails := NumberOfScanFails, ScanInfo := ScanInfo },
   parent.IncNumTestsExecuted ctx.DlogSites)

namespace ScanTestData

/-- Header block of `FormatASCII`: the statements under `if (need_header)` up to the second
`endl`. -/
def header (G : Globals) (o : OStream) : OStream :=
  let o := o.endl
  let o := (o.setLeft.putw TNSize "Test_No.").put "  P/F  Site  "
  let o := (o.setLeft.putw CCSize "Count").put "  "
  let o := (o.setLeft.putw PGSize "Pin_Name").put "  "
  let o := (o.setLeft.putw EXSize "Exp").put "  "
  let o := (o.setLeft.putw G.FPSize "Pattern").put "  "
  let o := (o.setLeft.putw SCSize "ScanVec:Bit").put "  "
  let o := (o.setLeft.putw TDSize "Test_Description").put "  "
  let o := o.endl
  let o := OutputBorder o TNSize 2
  let o := OutputBorder o 3 2
  let o := OutputBorder o 4 2
  let o := OutputBorder o CCSize 2
  let o := OutputBorder o PGSize 2
  let o := OutputBorder o EXSize 2
  let o := OutputBorder o G.FPSize 2
  let o := OutputBorder o SCSize 2
  let o := OutputBorder o TDSize 2
  o.endl

/-- Inner loop over `zz` of `FormatASCII`, entered when `cycle > pat_end`: the pair
`(pat_index, pat_end)` afterwards; the first argument counts the values of `zz` left below
`Patterns.GetSize()`. -/
def advancePattern (counts : List Nat) (cycle : Nat) : Nat → Nat × Nat → Nat × Nat
  | 0, st => st
  | fuel + 1, st =>
    let pat_index := st.1 + 1
    let pat_end := (st.2 + counts.getD pat_index 0) % 2 ^ 32
    if cycle ≤ pat_end then (pat_index, pat_end)
    else advancePattern counts cycle fuel (pat_index, pat_end)

/-- Update of `(pat_index, pat_end)` made for the failure with cycle count `cycle`. -/
def locatePattern (d : ScanTestData) (cycle : Nat) (st : Nat × Nat) : Nat × Nat :=
  if cycle > st.2 then
    advancePattern d.ScanInfo.PatternCounts cycle (d.ScanInfo.Patterns.length - (st.1 + 1)) st
  else st

/-- Line of failure `ii` of `site`, printed with the pattern index `pat_index`. -/
def failRow (d : ScanTestData) (G : Globals) (tdesc : Option String) (site : SITE)
    (pat_index : Nat) (o : OStream) (ii : Nat) : OStream :=
  let cycle := d.ScanInfo.FailCount site ii
  let o := (o.setRight.putw TNSize (toString d.FData.TestID)).put "  "
  let o := (o.put "*F*").put "  "
  let o := (o.setRight.putw 4 (toString site)).put "  "
  let o := (o.setRight.putw CCSize (toString cycle)).put "  "
  let o := (o.setLeft.putw PGSize (d.ScanInfo.Pins.getD (d.ScanInfo.FailPin site ii) "")).put "  "
  let o := (o.put (d.ScanInfo.ExpectAlias site ii)).put "    "
  let str := FormatPatternAddrName (d.ScanInfo.Patterns.getD pat_index "")
    (d.ScanInfo.PatternVec site ii)
  let o := (o.setLeft.putw G.FPSize str).put "  "
  let str := FormatScanInfo (d.ScanInfo.ScanRegister site ii) (d.ScanInfo.ScanBit site ii)
  let o := (o.setLeft.putw SCSize str).put "  "
  let o := if ii = 0 then o.setLeft.putw TDSize (showStringS tdesc) else o
  o.endl

/-- Loop over the failures of one site: the output and `(pat_index, pat_end)`. -/
def failRows (d : ScanTestData) (G : Globals) (tdesc : Option String) (site : SITE)
    (o : OStream) : OStream × Nat × Nat :=
  (List.range (d.ScanInfo.NumRecords site)).foldl
    (fun st ii =>
      let p := d.locatePattern (d.ScanInfo.FailCount site ii) st.2
      (d.failRow G tdesc site p.1 st.1 ii, p))
    (o, 0, d.ScanInfo.PatternCounts.getD 0 0)

/-- Line of a site without failure; `Pattern` is the library constructor of a pattern object
from a name. -/
def passRow (d : ScanTestData) (Pattern : String → PatObject) (G : Globals)
    (tdesc : Option String) (o : OStream) (site : SITE) : OStream :=
  let npats := d.ScanInfo.Patterns.length
  let end_pat : PatObject :=
    if npats > 0 then Pattern (d.ScanInfo.Patterns.getD (npats - 1) "")
    else { Valid := false, isPattern := false, Name := "", NumberOfVectors := 0 }
  let vec : Int := if end_pat.Valid then end_pat.NumberOfVectors - 1 else -1
  let o := (o.setRight.putw TNSize (toString d.FData.TestID)).put "  "
  let o := (o.put " P ").put "  "
  let o := (o.setRight.putw 4 (toString site)).put "  "
  let o := (o.setRight.putw CCSize (toString d.ScanInfo.BurstCount)).put "  "
  let o := (o.putw PGSize " ").put "  "
  let o := ((o.put " ").put " ").put "   "
  let str := FormatPatternAddrObj "" end_pat (vec % 2 ^ 32).toNat
  let o := (o.setLeft.putw G.FPSize str).put "  "
  let o := (o.putw SCSize " ").put "  "
  let o := o.setLeft.putw TDSize (showStringS tdesc)
  o.endl

/-- Lines of one site, after the header decision. -/
def siteRows (d : ScanTestData) (Pattern : String → PatObject) (G : Globals)
    (tdesc : Option String) (o : OStream) (site : SITE) : OStream :=
  if d.ScanInfo.NumRecords site > 0 then (d.failRows G tdesc site o).1
  else d.passRow Pattern G tdesc o site

/-- Body of the site loop of `FormatASCII` on the pair of the output and the local
`need_header`. -/
def siteStep (d : ScanTestData) (Pattern : String → PatObject) (G : Globals)
    (tdesc : Option String) (st : OStream × Bool) (site : SITE) : OStream × Bool :=
  let o := if st.2 then header G st.1 else st.1
  (d.siteRows Pattern G tdesc o site, false)

/-- Method `ScanTestData::FormatASCII`: the output and the two layout variables. -/
def FormatASCII (d : ScanTestData) (Pattern : String → PatObject) (G : Globals)
    (_fail_only_mode : Bool) (output : OStream) : OStream × Globals :=
  let fsites := d.ctx.DlogSites
  let tdesc := FormatTestDescription d.ctx d.FData.Comment
  let need_header := true
  let G1 := CheckPatternNameSizeS G d.ScanInfo.Patterns
  ((fsites.foldl (d.siteStep Pattern G1 tdesc) (output, need_header)).1, G1)

/-- Method `ScanTestData::FormatSTDFV4`. -/
def FormatSTDFV4 (d : ScanTestData) (S : StreamLib) (_fail_only_mode : Bool)
    (STDF : STDFV4Stream) : STDFV4Stream :=
  if STDF.valid then
    let tdesc := FormatTestDescription d.ctx d.FData.Comment
    let psr_ref := S.FindTestSequence d.ScanInfo.BurstName
    let STDF := STDF.Write (STDFRecord.PSR
      { burstName := d.ScanInfo.BurstName, patterns := d.ScanInfo.Patterns,
        patternCounts := d.ScanInfo.PatternCounts })
    d.ctx.DlogSites.foldl
      (fun st site => st.Write (STDFRecord.STR
        { testID := d.FData.TestID, site := site, tdesc := tdesc, psr_ref := psr_ref }))
      STDF
  else STDF

/-- Method `ScanTestData::Format`. -/
def Format (d : ScanTestData) (Pattern : String → PatObject) (S : StreamLib)
    (format : Option String) (fail_only_mode : Bool)
    (st : OStream × STDFV4Stream × ST_Datalog × Globals) :
    OStream × STDFV4Stream × ST_Datalog × Globals :=
  match FormatSel.ofString format with
  | FormatSel.null => st
  | FormatSel.ascii =>
    let r := d.FormatASCII Pattern st.2.2.2 fail_only_mode st.1
    (r.1, st.2.1, st.2.2.1.SetLastFormatEvent SystemEvents.ScanTest, r.2)
  | FormatSel.stdfv4 =>
    (st.1, d.FormatSTDFV4 S fail_only_mode st.2.1,
      st.2.2.1.SetLastFormatEvent SystemEvents.ScanTest, st.2.2.2)
  | FormatSel.unknown =>
    (st.1, st.2.1, st.2.2.1.SetLastFormatEvent SystemEvents.ScanTest, st.2.2.2)

end ScanTestData

/-! ## Event methods -/

/-- Constructor `ParametricTestData::ParametricTestData`: the object and the parent after
`IncNumTestsExecuted()`. -/
def ParametricTestData.new (parent : ST_Datalog) (ctx : DlogCtx) (pdata : DatalogParametric) :
    ParametricTestData × ST_Datalog :=
  ({ ctx := ctx, PData := pdata }, parent.IncNumTestsExecuted ctx.DlogSites)

/-- Constructor `ParametricTestDataArray::ParametricTestDataArray`: the object and the parent
after `IncNumTestsExecuted()`. -/
def ParametricTestDataArray.new (parent : ST_Datalog) (ctx : DlogCtx)
    (pdata : DatalogParametricArray) : ParametricTestDataArray × ST_Datalog :=
  ({ ctx := ctx, PData := pdata }, parent.IncNumTestsExecuted ctx.DlogSites)

/-- User data handed to an event method, by the class that the dynamic casts of the event
methods find; `other` is an object of any other class. -/
inductive UserData where
  | null
  | Parametric (pdata : DatalogParametric)
  | ParametricArray (pdata : DatalogParametricArray)
  | Functional (fdata : DatalogFunctional)
  | Text (tdata : DatalogText)
  | Generic (gdata : DatalogGeneric)
  | SummaryInfo (sdata : DatalogSummaryInfo)
  | other

/-- Run-time data read by the constructors of the data objects at the time of an event:
the members the base class `DatalogData` collects (`ctx`, whose `DlogTime` is
`RunTime.GetCurrentLocalTime()`), the site sets, and the outcome of the calls the
constructors make. `actionUserData` and `outputs` describe what `DoAction` does with the
Summary event: the user data it hands to the event method and, for every enabled output, the
format name and the fail-only flag it hands to `Format`. -/
structure CaptureHost where
  ctx : DlogCtx
  env : SiteEnv
  TestHeadType : String
  EndOfTestData : Bool × EndOfTestStruct
  WMap : WaferMap
  WaferInfo : Bool × WaferInfoStruct
  lot : LotHost
  sum : SumHost
  NumberOfFunctionalFails : Int
  PatternInfo : DigitalPatternInfoStruct
  PatternPinInfo : DigitalPatternPinStruct
  NumberOfScanFails : Int
  ScanInfoAvailable : Bool
  ScanInfo : DigitalScanInfoStruct
  actionUserData : UserData
  outputs : List (Option String × Bool)

/-- Library functions and run-time data read by the `Format` methods. -/
structure FormatHost where
  L : Lib
  E : EotLib
  GH : GenHost
  S : StreamLib
  LH : LotHost
  SL : SumLib
  FL : FuncLib
  Pattern : String → PatObject
  env : SiteEnv

/-- Data object returned by an event method (`DatalogData *`), by its class. -/
inductive DatalogData where
  | StartOfTest (d : StartOfTestData)
  | EndOfTest (d : EndOfTestData)
  | ProgramReset (d : ProgramResetData)
  | Summary (d : SummaryData)
  | StartOfWafer (d : StartOfWaferData)
  | EndOfWafer (d : EndOfWaferData)
  | StartOfLot (d : StartOfLotData)
  | StartTestNode (d : StartTestNodeData)
  | ParametricTest (d : ParametricTestData)
  | ParametricTestArray (d : ParametricTestDataArray)
  | FunctionalTest (d : FunctionalTestData)
  | ScanTest (d : ScanTestData)
  | Text (d : TextData)
  | Generic (d : GenericData)

/-- Everything the event methods and the `Format` methods read and write: the text output,
the STDF stream with the reported errors and the active sites, the method object, and the
two layout variables `FPSize` and `BHSize`. -/
structure RunState where
  out : OStream
  gen : GenState
  parent : ST_Datalog
  G : Globals

/-- State with the three components a `Format` method returns. -/
def RunState.set3 (rs : RunState) (r : OStream × STDFV4Stream × ST_Datalog) : RunState :=
  { rs with out := r.1, gen := { rs.gen with STDF := r.2.1 }, parent := r.2.2 }

/-- Components of the state a `Format` method works on. -/
def RunState.get3 (rs : RunState) : OStream × STDFV4Stream × ST_Datalog :=
  (rs.out, rs.gen.STDF, rs.parent)

/-- Virtual call `data->Format(format, fail_only_mode, output)`. -/
def DatalogData.Format (data : DatalogData) (FH : FormatHost) (format : Option String)
    (fail_only_mode : Bool) (rs : RunState) : Option RunState :=
  match data with
  | DatalogData.StartOfTest d => some (rs.set3 (d.Format format fail_only_mode rs.get3))
  | DatalogData.EndOfTest d =>
    some (rs.set3 (d.Format FH.E FH.env format fail_only_mode rs.get3))
  | DatalogData.ProgramReset d => some (rs.set3 (d.Format FH.E format fail_only_mode rs.get3))
  | DatalogData.Summary d =>
    (d.Format FH.L FH.SL FH.LH FH.env format fail_only_mode rs.get3).map rs.set3
  | DatalogData.StartOfWafer d =>
    some (rs.set3 (d.Format FH.S FH.LH format fail_only_mode rs.get3))
  | DatalogData.EndOfWafer d => some (rs.set3 (d.Format FH.LH format fail_only_mode rs.get3))
  | DatalogData.StartOfLot d =>
    some (rs.set3 (d.Format FH.S FH.LH FH.env format fail_only_mode rs.get3))
  | DatalogData.StartTestNode d => some (rs.set3 (d.Format format fail_only_mode rs.get3))
  | DatalogData.ParametricTest d =>
    some (rs.set3 (d.Format FH.L FH.env format fail_only_mode rs.get3))
  | DatalogData.ParametricTestArray d =>
    some (rs.set3 (d.Format FH.L FH.env format fail_only_mode rs.get3))
  | DatalogData.FunctionalTest d =>
    let r := d.Format FH.FL format fail_only_mode (rs.out, rs.gen.STDF, rs.parent, rs.G)
    some { out := r.1, gen := { rs.gen with STDF := r.2.1 }, parent := r.2.2.1, G := r.2.2.2 }
  | DatalogData.ScanTest d =>
    let r := d.Format FH.Pattern FH.S format fail_only_mode
      (rs.out, rs.gen.STDF, rs.parent, rs.G)
    some { out := r.1, gen := { rs.gen with STDF := r.2.1 }, parent := r.2.2.1, G := r.2.2.2 }
  | DatalogData.Text d => some (rs.set3 (d.Format format fail_only_mode rs.get3))
  | DatalogData.Generic d =>
    let r := d.Format FH.GH format fail_only_mode (rs.out, rs.gen, rs.parent)
    some { rs with out := r.1, gen := r.2.1, parent := r.2.2 }

namespace ST_Datalog

/-- Method `ST_Datalog::StartOfTest`. -/
def StartOfTest (p : ST_Datalog) (H : CaptureHost) : ST_Datalog × Option DatalogData :=
  let r := StartOfTestData.new (p.SetSummaryNeeded true) H.env H.ctx.DlogTime H.TestHeadType
  (r.2, some (DatalogData.StartOfTest r.1))

/-- Method `ST_Datalog::EndOfTest`. -/
def EndOfTest (p : ST_Datalog) (H : CaptureHost) : ST_Datalog × Option DatalogData :=
  let r := EndOfTestData.new (p.SetSummaryNeeded true) H.env H.ctx.DlogTime H.EndOfTestData
  (r.2, some (DatalogData.EndOfTest r.1))

/-- Method `ST_Datalog::ProgramLoad`. -/
def ProgramLoad (p : ST_Datalog) : ST_Datalog × Option DatalogData := (p, none)

/-- Method `ST_Datalog::ProgramReset`. -/
def ProgramReset (p : ST_Datalog) (H : CaptureHost) : ST_Datalog × Option DatalogData :=
  let r := ProgramResetData.new (p.SetSummaryNeeded true) H.env H.ctx.DlogTime H.EndOfTestData
  (r.2, some (DatalogData.ProgramReset r.1))

/-- Outcome of `dynamic_cast<const DatalogSummaryInfo *>(udata)`. -/
def castSummaryInfo : UserData → Option DatalogSummaryInfo
  | UserData.SummaryInfo sdata => some sdata
  | _ => none

/-- Method `ST_Datalog::Summary` on the user data of the event. -/
def SummaryEvent (p : ST_Datalog) (udata : UserData) (H : CaptureHost) :
    ST_Datalog × Option DatalogData :=
  let r := p.Summary H.ctx.DlogTime H.sum H.lot (castSummaryInfo udata)
  (r.1, some (DatalogData.Summary r.2))

/-- Method `ST_Datalog::StartOfWafer`. -/
def StartOfWafer (p : ST_Datalog) (H : CaptureHost) : ST_Datalog × Option DatalogData :=
  (p, some (DatalogData.StartOfWafer (StartOfWaferData.new H.ctx.DlogTime H.WMap H.lot)))

/-- Method `ST_Datalog::EndOfWafer`. -/
def EndOfWafer (p : ST_Datalog) (H : CaptureHost) : ST_Datalog × Option DatalogData :=
  (p, some (DatalogData.EndOfWafer (EndOfWaferData.new H.ctx.DlogTime H.WaferInfo)))

/-- Method `ST_Datalog::StartOfLot`. -/
def StartOfLot (p : ST_Datalog) (H : CaptureHost) : ST_Datalog × Option DatalogData :=
  let r := StartOfLotData.new (p.SetSummaryNeeded true) H.env H.ctx.DlogTime H.TestHeadType
  (r.2, some (DatalogData.StartOfLot r.1))

/-- Method `ST_Datalog::EndOfLot`. -/
def EndOfLot (p : ST_Datalog) : ST_Datalog × Option DatalogData := (p, none)

/-- Method `ST_Datalog::StartTestNode`. -/
def StartTestNode (p : ST_Datalog) (H : CaptureHost) : ST_Datalog × Option DatalogData :=
  (p, some (DatalogData.StartTestNode { DlogTime := H.ctx.DlogTime }))

/-- Method `ST_Datalog::StartTestBlock`. -/
def StartTestBlock (p : ST_Datalog) : ST_Datalog × Option DatalogData := (p, none)

/-- Method `ST_Datalog::ParametricTest`. -/
def ParametricTest (p : ST_Datalog) (udata : UserData) (H : CaptureHost) :
    ST_Datalog × Option DatalogData :=
  match udata with
  | UserData.Parametric pdata =>
    let r := ParametricTestData.new (p.SetSummaryNeeded true) H.ctx pdata
    (r.2, some (DatalogData.ParametricTest r.1))
  | _ => (p, none)

/-- Method `ST_Datalog::ParametricTestArray`. -/
def ParametricTestArray (p : ST_Datalog) (udata : UserData) (H : CaptureHost) :
    ST_Datalog × Option DatalogData :=
  match udata with
  | UserData.ParametricArray pdata =>
    let r := ParametricTestDataArray.new (p.SetSummaryNeeded true) H.ctx pdata
    (r.2, some (DatalogData.ParametricTestArray r.1))
  | _ => (p, none)

/-- Method `ST_Datalog::FunctionalTest`. -/
def FunctionalTest (p : ST_Datalog) (udata : UserData) (H : CaptureHost) :
    ST_Datalog × Option DatalogData :=
  match udata with
  | UserData.Functional fdata =>
    let r := FunctionalTestData.new (p.SetSummaryNeeded true) H.ctx fdata
      H.NumberOfFunctionalFails H.PatternInfo H.PatternPinInfo
    (r.2, some (DatalogData.FunctionalTest r.1))
  | _ => (p, none)

/-- Method `ST_Datalog::ScanTest`. -/
def ScanTest (p : ST_Datalog) (udata : UserData) (H : CaptureHost) :
    ST_Datalog × Option DatalogData :=
  match udata with
  | UserData.Functional fdata =>
    if p.EnableScan2007 = true ∧ H.ScanInfoAvailable = true then
      let r := ScanTestData.new (p.SetSummaryNeeded true) H.ctx fdata H.NumberOfScanFails
        H.ScanInfo
      (r.2, some (DatalogData.ScanTest r.1))
    else (p, none)
  | _ => (p, none)

/-- Method `ST_Datalog::Text`. -/
def Text (p : ST_Datalog) (udata : UserData) (H : CaptureHost) :
    ST_Datalog × Option DatalogData :=
  match udata with
  | UserData.Text tdata =>
    (p.SetSummaryNeeded true,
      some (DatalogData.Text { DlogTime := H.ctx.DlogTime, TData := tdata }))
  | _ => (p, none)

/-- Method `ST_Datalog::Generic`. -/
def Generic (p : ST_Datalog) (udata : UserData) (H : CaptureHost) :
    ST_Datalog × Option DatalogData :=
  match udata with
  | UserData.Generic gdata =>
    (p.SetSummaryNeeded true, some (DatalogData.Generic { ctx := H.ctx, GData := gdata }))
  | _ => (p, none)

end ST_Datalog

/-- Call `DoAction(GetSystemEventName(DatalogMethod::Summary))` of the base class
`DatalogMethod`: the registered method of the Summary event is called and the data object it
returns is formatted for every enabled output. -/
def DoActionSummary (H : CaptureHost) (FH : FormatHost) (rs : RunState) : Option RunState :=
  let r := rs.parent.Summary H.ctx.DlogTime H.sum H.lot
    (ST_Datalog.castSummaryInfo H.actionUserData)
  H.outputs.foldlM
    (fun st fmt => (DatalogData.Summary r.2).Format FH fmt.1 fmt.2 st)
    { rs with parent := r.1 }

/-- Method `ST_Datalog::ProgramUnload`. -/
def ProgramUnload (H : CaptureHost) (FH : FormatHost) (rs : RunState) :
    Option (RunState × Option DatalogData) :=
  if rs.parent.SummaryNeeded then (DoActionSummary H FH rs).map (fun r => (r, none))
  else some (rs, none)

/-- Call of the method registered for event `ev` with the user data `udata`: the state
afterwards and the returned data object (`none` is `NULL`). -/
def DoEvent (ev : SystemEvents) (udata : UserData) (H : CaptureHost) (FH : FormatHost)
    (rs : RunState) : Option (RunState × Option DatalogData) :=
  let lift (r : ST_Datalog × Option DatalogData) : Option (RunState × Option DatalogData) :=
    some ({ rs with parent := r.1 }, r.2)
  match ev with
  | SystemEvents.StartOfTest => lift (rs.parent.StartOfTest H)
  | SystemEvents.EndOfTest => lift (rs.parent.EndOfTest H)
  | SystemEvents.ProgramLoad => lift rs.parent.ProgramLoad
  | SystemEvents.ProgramUnload => ProgramUnload H FH rs
  | SystemEvents.ProgramReset => lift (rs.parent.ProgramReset H)
  | SystemEvents.Summary => lift (rs.parent.SummaryEvent udata H)
  | SystemEvents.StartOfWafer => lift (rs.parent.StartOfWafer H)
  | SystemEvents.EndOfWafer => lift (rs.parent.EndOfWafer H)
  | SystemEvents.StartOfLot => lift (rs.parent.StartOfLot H)
  | SystemEvents.EndOfLot => lift rs.parent.EndOfLot
  | SystemEvents.StartTestNode => lift (rs.parent.StartTestNode H)
  | SystemEvents.StartTestBlock => lift rs.parent.StartTestBlock
  | SystemEvents.ParametricTest => lift (rs.parent.ParametricTest udata H)
  | SystemEvents.ParametricTestArray => lift (rs.parent.ParametricTestArray udata H)
  | SystemEvents.FunctionalTest => lift (rs.parent.FunctionalTest udata H)
  | SystemEvents.ScanTest => lift (rs.parent.ScanTest udata H)
  | SystemEvents.Text => lift (rs.parent.Text udata H)
  | SystemEvents.Generic => lift (rs.parent.Generic udata H)

/-- Example library of the functional formatter: two pin lists are the same when they are
equal; the configuration has no variable `enhanced_char_set`. -/
def exFuncLib : FuncLib :=
  { HasSameOrderAndPins := fun a b => decide (a = b)
    ConfigVariableType := ""
    ConfigVariableValue := none }

/-- Valid pattern object of 100 vectors with the given name. -/
def exPattern (name : String) : PatObject :=
  { Valid := true, isPattern := true, Name := name, NumberOfVectors := 100 }

/-- Libraries and site sets of the examples: two loaded sites, both selected. -/
def exFormatHost : FormatHost :=
  { L := exLib, E := exEotLib, GH := exHostNone, S := exStreamLib, LH := exLotHost,
    SL := exSumLib, FL := exFuncLib, Pattern := exPattern, env := exEnv2 }

/-- Collected pattern data of a functional test with one record per site, in pattern "pat",
count 7, no scan information. -/
def exPatInfo : DigitalPatternInfoStruct :=
  { NumRecordsNonZero := true
    NumRecords := fun _ => 1
    NumPatterns := 1
    PatternObject := fun _ _ => exPattern "pat"
    VecOffset := fun _ _ => 0
    Count := fun _ _ => 7
    ScanRegister := fun _ _ => -1
    ScanBit := fun _ _ => -1 }

/-- Collected pin data of a functional test without pin records. -/
def exPatPinInfo : DigitalPatternPinStruct :=
  { NumRecordsIsZero := true
    Pins := none
    NumHeaderPins := 0
    StuffHeaderPins := fun _ _ => none
    FailingPinsCount := fun _ _ => 0
    DatalogChar := fun _ _ => ""
    StuffComplexString := fun _ _ => none
    StuffComplexStringAlt := fun _ _ _ => none
    StuffPassFailString := fun _ _ _ _ => none }

/-- Collected scan data of a burst "burst" of one pattern "sp" with 10 cycles and no
failure. -/
def exScanInfo : DigitalScanInfoStruct :=
  { NumRecords := fun _ => 0
    Patterns := ["sp"]
    PatternCounts := [10]
    FailCount := fun _ _ => 0
    FailPin := fun _ _ => 0
    Pins := []
    ExpectAlias := fun _ _ => ""
    PatternVec := fun _ _ => 0
    ScanRegister := fun _ _ => -1
    ScanBit := fun _ _ => -1
    BurstCount := 10
    BurstName := "burst" }

/-- Functional user data of test 7, passing on every site. -/
def exFData : DatalogFunctional :=
  { TestID := 7, Result := fun _ => TM_RESULT.TM_PASS, Comment := some "func" }

/-- Run-time data at the time of an event whose datalogged sites are `sites`. -/
def exCaptureHost (sites : Sites) : CaptureHost :=
  { ctx := { DlogSites := sites, TestName := some "t", BlockName := none, DlogTime := none }
    env := exEnv2
    TestHeadType := ""
    EndOfTestData := (true, EndOfTestStruct.empty)
    WMap := { Valid := false, Name := "", WaferSize := none, SizeUnits := "", WaferHeight := none,
              WaferWidth := none, Orientation := WaferDirection.OTHER,
              XDirection := WaferDirection.OTHER, YDirection := WaferDirection.OTHER }
    WaferInfo := (false, { NumTested := 0, NumPasses := 0, NumRetested := 0, WaferID := none })
    lot := exLotHost
    sum := exSumHost
    NumberOfFunctionalFails := 1
    PatternInfo := exPatInfo
    PatternPinInfo := exPatPinInfo
    NumberOfScanFails := 1
    ScanInfoAvailable := true
    ScanInfo := exScanInfo
    actionUserData := UserData.null
    outputs := [(some "ASCII", false), (some "STDFV4", false)] }

/-- State of a run before any event: empty output, valid empty STDF stream, the method
object as constructed (scan disabled), the layout variables at their initial values. -/
def exRun : RunState :=
  { out := exOut, gen := exGenState, parent := ST_Datalog.init, G := Globals.init }

/-- Statements of `ParametricTestData::FormatASCII` after the header decision: the lines of
the test, written on the stream `o`. -/
def ParametricTestData.asciiLines (d : ParametricTestData) (L : Lib) (parent : ST_Datalog)
    (env : SiteEnv) (fail_only_mode : Bool) (o : OStream) : OStream :=
  if parent.ASCIIDatalogInColumns then d.FormatASCIIColumns L parent env fail_only_mode o
  else (d.rowCalls L parent fail_only_mode).foldl (OutputParametricSiteASCII L) o

/-- Statements of `ParametricTestDataArray::FormatASCII` after the header decision. -/
def ParametricTestDataArray.asciiLines (d : ParametricTestDataArray) (L : Lib)
    (parent : ST_Datalog) (env : SiteEnv) (fail_only_mode : Bool) (o : OStream) : OStream :=
  if parent.ASCIIDatalogInColumns then
    ((List.range (d.PData.NumValues ParamKind.Test)).foldl
      (d.FormatASCIIColumnLine L parent env fail_only_mode)
      (o, (L.CalculateUnitScale d.PData.Units).2)).1
  else
    (d.rowCalls L parent fail_only_mode).foldl (OutputParametricSiteASCII L) o

/-- Number of positions of `s` at which `pat` starts. -/
def countSub (s pat : List Char) : Nat :=
  (s.tails.filter (fun t => pat.isPrefixOf t)).length

/-- Scan snapshot of test 7 on site 1, without failure. -/
def exScan : ScanTestData :=
  { ctx := { DlogSites := [1], TestName := some "t", BlockName := none, DlogTime := none }
    FData := exFData
    MaxNumFails := 1
    ScanInfo := exScanInfo }

/-- Functional snapshot of test 7 on site 1: one record, passing. -/
def exFunc : FunctionalTestData :=
  { ctx := { DlogSites := [1], TestName := some "t", BlockName := none, DlogTime := none }
    FData := exFData
    MaxNumFails := 1
    PatInfo := exPatInfo
    PatPinInfo := exPatPinInfo }

/-- State before the first `Format` call of the functional and scan examples: empty output,
valid empty STDF stream, the method object as constructed, the layout variables at their
initial values. -/
def exFmtState : OStream × STDFV4Stream × ST_Datalog × Globals :=
  (exOut, STDFV4Stream.mk true [], ST_Datalog.init, Globals.init)

/-! ## Observations on the event methods -/

/-- Whether the method of an application event returns a data object: the dynamic cast of
the user data to the class of the event succeeds and, for the scan event, scan is enabled in
the method object and the digital subsystem has scan information. -/
def eventAccepted (p : ST_Datalog) (ev : SystemEvents) (udata : UserData) (H : CaptureHost) :
    Bool :=
  match ev, udata with
  | SystemEvents.ParametricTest, UserData.Parametric _ => true
  | SystemEvents.ParametricTestArray, UserData.ParametricArray _ => true
  | SystemEvents.FunctionalTest, UserData.Functional _ => true
  | SystemEvents.ScanTest, UserData.Functional _ => p.EnableScan2007 && H.ScanInfoAvailable
  | SystemEvents.Text, UserData.Text _ => true
  | SystemEvents.Generic, UserData.Generic _ => true
  | _, _ => false

/-- The PRR held by a record, when the record is one. -/
def STDFRecord.prr? : STDFRecord → Option PRRRecord
  | STDFRecord.PRR r => some r
  | _ => none

/-- End-of-test data of the host with the result `res` on every site and nothing else
filled in. -/
def exEOTStruct (res : Option Bool) : EndOfTestStruct :=
  { EndOfTestStruct.empty with Results := fun _ => res }

/-- ProgramReset snapshot of one selected site for which the host reports the result
pass. -/
def exResetPass : ProgramResetData :=
  (ProgramResetData.new ST_Datalog.init exEnv1 none (true, exEOTStruct (some true))).1

/-- EndOfTest snapshot of one selected site for which the host reports the result pass. -/
def exEOTPass : EndOfTestData :=
  (EndOfTestData.new ST_Datalog.init exEnv1 none (true, exEOTStruct (some true))).1

/-- EndOfTest snapshot of one selected site for which the host reports no result. -/
def exEOTVoid : EndOfTestData :=
  (EndOfTestData.new ST_Datalog.init exEnv1 none (true, exEOTStruct none)).1

/-- Aggregate software-bin record held by a record: an SBR written with head number 255. -/
def STDFRecord.sbrAll? : STDFRecord → Option BinRecord
  | STDFRecord.SBR r => if r.head = 255 then some r else none
  | _ => none

/-- Aggregate hardware-bin record held by a record: an HBR written with head number 255. -/
def STDFRecord.hbrAll? : STDFRecord → Option BinRecord
  | STDFRecord.HBR r => if r.head = 255 then some r else none
  | _ => none

/-- Run-time data of `exSumHost` in which the second software bin (number 2, one device) has
no name and the second hardware bin (one device) has the number -1. -/
def exSumHostUnnamed : SumHost :=
  { exSumHost with
    GetBinInfo :=
      (true,
       { exSumHost.GetBinInfo.2.1 with BinName := fun ii => if ii = 0 then "good" else "" },
       exSumHost.GetBinInfo.2.2.1, exSumHost.GetBinInfo.2.2.2)
    GetHWBinInfo :=
      { exSumHost.GetHWBinInfo with BinNumber := fun ii => if ii = 0 then 1 else -1 } }

/-- Final summary captured from `exSumHostUnnamed`, with the file closing after it. -/
def exSumUnnamed : SummaryData := SummaryData.new none exSumHostUnnamed exLotHost true true

/-! ## Observations on the scales of the column-oriented output -/

/-- Scale and unit string with which the column-oriented section of
`ParametricTestData::FormatASCII` prints the measured value of `site`, the variable
`real_units` holding `ru` at that moment: the value of
`(scale != 0.0) ? scale : CalculateAutoRangeUnitScale(units, real_units, TV, LL, HL)` and the
content of `real_units` afterwards. -/
def ParametricTestData.valueScaleUnits (d : ParametricTestData) (L : Lib) (parent : ST_Datalog)
    (fail_only_mode : Bool) (ru : String) (site : SITE) : Rat × String :=
  ParametricTestData.realScale L (d.asciiScale L parent) d.PData.Units ru
    (d.PData.BaseSData ParamKind.Test site)
    (d.PData.BaseSData ParamKind.LowLimit (d.limitSite fail_only_mode))
    (d.PData.BaseSData ParamKind.HighLimit (d.limitSite fail_only_mode))

/-- Scale and unit string with which the column-oriented section of
`ParametricTestDataArray::FormatASCII` prints value `ii` of `site`, the variable `real_units`
holding `ru` at that moment. -/
def ParametricTestDataArray.valueScaleUnits (d : ParametricTestDataArray) (L : Lib)
    (parent : ST_Datalog) (ii : Nat) (ru : String) (site : SITE) : Rat × String :=
  ParametricTestData.realScale L (d.asciiScale L parent) d.PData.Units ru
    (d.PData.SData BasicVar.void ParamKind.Test ii site)
    (d.PData.SData BasicVar.void ParamKind.LowLimit ii d.limitSite)
    (d.PData.SData BasicVar.void ParamKind.HighLimit ii d.limitSite)

/-- The rational 1/200 (0.005) in lowest terms. -/
def exFiveMilli : Rat := Rat.mk' 1 200 (by decide) (by decide)

/-- Example library with an autorange that looks at the measured value: below 1 it picks the
milli range (scale 1000, unit with prefix "m"), otherwise the unit itself (scale 1).
`FormatSVData` shows the scale it is given and the value as a fraction. -/
def exLibRange : Lib :=
  { exLib with
    CalculateAutoRangeUnitScale := fun u _ TV _ _ =>
      match TV with
      | BasicVar.single _ _ [SVal.float q] => if q < 1 then (1000, "m" ++ u) else (1, u)
      | _ => (1, u)
    FormatSVData := fun _ v _ sc _ =>
      match v with
      | BasicVar.single _ _ [SVal.float q] =>
        some (toString sc.num ++ "*" ++ toString q.num ++ "/" ++ toString q.den)
      | _ => none }

/-- Parametric snapshot in the unit "W", which the unit table does not know: site 1 measures
0.005, site 2 measures 5, both pass, no limits. -/
def exTwoRanges : ParametricTestData :=
  { ctx := { DlogSites := [1, 2], TestName := some "pwr", BlockName := none, DlogTime := none }
    PData :=
      { TestID := 100
        Result := fun _ => TM_RESULT.TM_PASS
        Units := "W"
        Comment := none
        Pins := none
        BaseSData := fun k s =>
          match k with
          | ParamKind.Test => if s = 1 then exFloat exFiveMilli else exFloat 5
          | ParamKind.LowLimit => BasicVar.void
          | ParamKind.HighLimit => BasicVar.void } }

/-- Column layout with unit autoscaling enabled, the last formatted event being a parametric
test (no header). -/
def exParentColsAuto : ST_Datalog :=
  { ST_Datalog.init with
    ASCIIDatalogInColumns := true
    UnitAutoscaling := true
    LastFormatEvent := SystemEvents.ParametricTest }

/-- Scenario A with both sites passing: site 1 measures 3.3 and site 2 measures 3.4 within
the limits 3.0 / 3.6 V. -/
def exAllPass : ParametricTestData :=
  { exA with
    PData :=
      { exA.PData with
        Result := fun _ => TM_RESULT.TM_PASS
        BaseSData := fun k s =>
          match k with
          | ParamKind.Test => if s = 1 then exFloat 3.3 else exFloat 3.4
          | ParamKind.LowLimit => exFloat 3.0
          | ParamKind.HighLimit => exFloat 3.6 } }

/-- The example array with every result pass. -/
def exArrAllPass : ParametricTestDataArray :=
  { exArr with
    PData :=
      { exArr.PData with
        Results := fun _ => [TM_RESULT.TM_PASS, TM_RESULT.TM_PASS] } }

/-- Column layout, the last formatted event being a parametric test (no header). -/
def exParentColsNoHeader : ST_Datalog :=
  { exParentCols with LastFormatEvent := SystemEvents.ParametricTest }

/-- Row layout, the last formatted event being a parametric test (no header). -/
def exParentRowsNoHeader : ST_Datalog :=
  { ST_Datalog.init with LastFormatEvent := SystemEvents.ParametricTest }

/-- Values of `(pat_index, pat_end)` in `ScanTestData::FormatASCII` after the first `k`
failures of `site` were handled: the initial values before the loop, then the update made
for each failure. The row of failure `ii` is printed with `(patternStates site (ii + 1)).1`. -/
def ScanTestData.patternStates (d : ScanTestData) (site : SITE) : Nat → Nat × Nat
  | 0 => (0, d.ScanInfo.PatternCounts.getD 0 0)
  | k + 1 => d.locatePattern (d.ScanInfo.FailCount site k) (ScanTestData.patternStates d site k)

/-- Scan snapshot of test 7 on site 1 with a burst of the three patterns "p0", "p1", "p2" of
10, 20 and 30 cycles and three failures, at the cycles 5, 25 and 100. -/
def exScanFails : ScanTestData :=
  { exScan with
    ScanInfo :=
      { exScanInfo with
        NumRecords := fun _ => 3
        Patterns := ["p0", "p1", "p2"]
        PatternCounts := [10, 20, 30]
        FailCount := fun _ ii => if ii = 0 then 5 else if ii = 1 then 25 else 100 } }

/-- Generic-data snapshot of a single tested site: one multisite float scalar. -/
def exGenOne : GenericData :=
  { ctx := { DlogSites := [1], TestName := none, BlockName := none, DlogTime := none }
    GData := { Data := [BasicVar.multi MConfig.SCALAR_M SV_TYPE.SV_FLOAT true
      [(1, [SVal.float 1])]] } }

/-- Generic-data snapshot of two tested sites whose payload is one single-site float. -/
def exGenScalar : GenericData :=
  { ctx := { DlogSites := [1, 2], TestName := none, BlockName := none, DlogTime := none }
    GData := { Data := [BasicVar.single SConfig.SCALAR_S SV_TYPE.SV_FLOAT [SVal.float 1]] } }

/-- Valid empty STDF stream, no error reported, site 1 active. -/
def exGenStateOne : GenState :=
  { STDF := STDFV4Stream.mk true [], errors := [], ActiveSites := [1] }

/-- Scan snapshot of test 7 on site 1 with a burst of the three patterns "p0", "p1", "p2" of
2147483648, 2147483648 and 5 cycles, whose counts add up to more than the largest
`unsigned int`, and one failure at cycle 2147483655. -/
def exScanWrap : ScanTestData :=
  { exScan with
    ScanInfo :=
      { exScanInfo with
        NumRecords := fun _ => 1
        Patterns := ["p0", "p1", "p2"]
        PatternCounts := [2147483648, 2147483648, 5]
        FailCount := fun _ _ => 2147483655 } }

/-! # Theorems -/

/-! ## Shared lemmas -/

theorem Write_foldl_records {α : Type} (f : α → STDFRecord) (l : List α) (S : STDFV4Stream) :
    (l.foldl (fun st r => st.Write (f r)) S).records = S.records ++ l.map f ∧
    (l.foldl (fun st r => st.Write (f r)) S).valid = S.valid := by
  induction l generalizing S with
  | nil => simp
  | cons a l ih =>
    have h := ih (S.Write (f a))
    simp only [List.foldl_cons, List.map_cons]
    refine ⟨?_, ?_⟩
    · rw [h.1]; simp [STDFV4Stream.Write]
    · rw [h.2]; simp [STDFV4Stream.Write]

theorem rowCallsFrom_sites (d : ParametricTestData) (L : Lib) (parent : ST_Datalog)
    (tdesc : Option String) (scale : Rat) (ru : String) (sites : Sites) :
    (ParametricTestData.rowCallsFrom d L parent tdesc scale ru sites).map (fun a => a.site)
      = sites := by
  induction sites generalizing ru with
  | nil => simp [ParametricTestData.rowCallsFrom]
  | cons s rest ih => simp [ParametricTestData.rowCallsFrom, ih]

theorem ptrFrom_sites (d : ParametricTestData) (L : Lib) (parent : ST_Datalog)
    (tdesc : Option String) (su : String) (scale : Rat) (ru : String) (sites : Sites) :
    (ParametricTestData.ptrFrom d L parent tdesc su scale ru sites).map (fun r => r.site)
      = sites.filter (fun s => (d.PData.BaseSData ParamKind.Test s).Valid) := by
  induction sites generalizing ru with
  | nil => simp [ParametricTestData.ptrFrom]
  | cons s rest ih =>
    by_cases h : (d.PData.BaseSData ParamKind.Test s).Valid = true
    · simp [ParametricTestData.ptrFrom, h, ih]
    · simp [ParametricTestData.ptrFrom, h, ih]

/-- In row mode `ParametricTestData::FormatASCII` is the optional header followed by the
calls of `OutputParametricSiteASCII` listed by `rowCalls`. -/
theorem ParametricTestData_FormatASCII_rows (d : ParametricTestData) (L : Lib)
    (parent : ST_Datalog) (env : SiteEnv) (fo : Bool) (o : OStream)
    (hrow : parent.ASCIIDatalogInColumns = false) :
    d.FormatASCII L parent env fo o
      = (d.rowCalls L parent fo).foldl (OutputParametricSiteASCII L)
          (if parent.LastFormatEvent ≠ SystemEvents.ParametricTest ∧
              parent.LastFormatEvent ≠ SystemEvents.ParametricTestArray then
            OutputParametricHeader o env.LoadedSites parent.FieldWidth false false
          else o) := by
  simp [ParametricTestData.FormatASCII, hrow]

/-- In row mode `ParametricTestDataArray::FormatASCII` is the optional header followed by the
calls of `OutputParametricSiteASCII` listed by `rowCalls`. -/
theorem ParametricTestDataArray_FormatASCII_rows (d : ParametricTestDataArray) (L : Lib)
    (parent : ST_Datalog) (env : SiteEnv) (fo : Bool) (o : OStream)
    (hrow : parent.ASCIIDatalogInColumns = false) :
    d.FormatASCII L parent env fo o
      = (d.rowCalls L parent fo).foldl (OutputParametricSiteASCII L)
          (if parent.LastFormatEvent ≠ SystemEvents.ParametricTest ∧
              parent.LastFormatEvent ≠ SystemEvents.ParametricTestArray then
            OutputParametricHeader o env.LoadedSites parent.FieldWidth false false
          else o) := by
  simp [ParametricTestDataArray.FormatASCII, hrow]

/-- The member `Valid` has no influence on `EndOfTestData::Format`. -/
theorem EndOfTestData_Format_ignores_Valid (d : EndOfTestData) (b : Bool) (L : EotLib)
    (env : SiteEnv) (format : Option String) (fo : Bool)
    (st : OStream × STDFV4Stream × ST_Datalog) :
    EndOfTestData.Format { d with Valid := b } L env format fo st
      = EndOfTestData.Format d L env format fo st := rfl

/-! ## C1: EndOfTest snapshots without host data -/

set_option maxRecDepth 100000 in
/-- C1 (evaluation at the failing input). The snapshot `exInvalidEOT` has `Valid = false`,
yet `EndOfTestData::Format` emits ASCII text for it, with and without `fail_only_mode`, in the
row and in the column layout, and writes one PRR for the selected site to a valid STDF stream,
with and without `fail_only_mode`: `Valid` is never read by the formatters. -/
theorem C1_invalid_EndOfTest_is_formatted :
    exInvalidEOT.Valid = false ∧
    (exInvalidEOT.Format exEotLib exEnv1 (some "ASCII") false
      (exOut, STDFV4Stream.mk true [], ST_Datalog.init)).1.text ≠ "" ∧
    (exInvalidEOT.Format exEotLib exEnv1 (some "ASCII") true
      (exOut, STDFV4Stream.mk true [], ST_Datalog.init)).1.text ≠ "" ∧
    (exInvalidEOT.Format exEotLib exEnv1 (some "ASCII") false
      (exOut, STDFV4Stream.mk true [],
        { ST_Datalog.init with ASCIIDatalogInColumns := true })).1.text ≠ "" ∧
    (exInvalidEOT.Format exEotLib exEnv1 (some "STDFV4") false
      (exOut, STDFV4Stream.mk true [], ST_Datalog.init)).2.1.records.filterMap STDFRecord.site?
        = [1] ∧
    (exInvalidEOT.Format exEotLib exEnv1 (some "STDFV4") true
      (exOut, STDFV4Stream.mk true [], ST_Datalog.init)).2.1.records.filterMap STDFRecord.site?
        = [1] := by
  decide

/-! ## C2: fail-only site sets of the parametric formatters -/

/-- C2 (counterexample). With `fail_only_mode` set, the failing site of `exVoidFail` gets a
line in the ASCII row output but no binary record, because its measured value is void. -/
theorem C2_counterexample :
    exVoidFail.asciiRowSites exLib ST_Datalog.init true ≠
      exVoidFail.stdfSites exLib ST_Datalog.init true := by
  decide

/-- C2 (amended). With `fail_only_mode` set, the sites that get a line in the ASCII row output
are exactly the tested sites whose result is `TM_FAIL`, in tested order; the sites for which
`FormatSTDFV4` writes a record on a valid stream are exactly the tested sites whose result is
`TM_FAIL` and whose measured value is defined; so the binary sites are the ASCII sites with a
defined measured value. -/
theorem C2_fail_only_sites (d : ParametricTestData) (L : Lib) (parent : ST_Datalog) :
    d.asciiRowSites L parent true
        = d.ctx.DlogSites.filter (fun s => decide (d.PData.Result s = TM_RESULT.TM_FAIL)) ∧
    d.stdfSites L parent true
        = d.ctx.DlogSites.filter (fun s => decide (d.PData.Result s = TM_RESULT.TM_FAIL)
            && (d.PData.BaseSData ParamKind.Test s).Valid) ∧
    d.stdfSites L parent true
        = (d.asciiRowSites L parent true).filter
            (fun s => (d.PData.BaseSData ParamKind.Test s).Valid) := by
  have hA : d.asciiRowSites L parent true
      = d.ctx.DlogSites.filter (fun s => decide (d.PData.Result s = TM_RESULT.TM_FAIL)) := by
    simp only [ParametricTestData.asciiRowSites, ParametricTestData.rowCalls, rowCallsFrom_sites,
      ParametricTestData.fsites, Sites.DisableFailingSites, if_true]
    rfl
  have hS : d.stdfSites L parent true
      = (d.ctx.DlogSites.filter (fun s => decide (d.PData.Result s = TM_RESULT.TM_FAIL))).filter
          (fun s => (d.PData.BaseSData ParamKind.Test s).Valid) := by
    unfold ParametricTestData.stdfSites ParametricTestData.FormatSTDFV4
    simp only [if_true]
    rw [(Write_foldl_records STDFRecord.PTR _ _).1]
    simp only [List.nil_append, List.filterMap_map]
    have : (STDFRecord.site? ∘ STDFRecord.PTR) = some ∘ (fun r => r.site) := by
      funext r; rfl
    rw [this, List.filterMap_eq_map]
    simp only [ParametricTestData.ptrRecords, ptrFrom_sites,
      ParametricTestData.fsites, Sites.DisableFailingSites, if_true]
    rfl
  refine ⟨hA, ?_, ?_⟩
  · rw [hS, List.filter_filter]
    congr 1
    funext s
    exact Bool.and_comm _ _
  · rw [hS, hA]

theorem ptrFrom_obs (d : ParametricTestData) (L : Lib) (parent : ST_Datalog)
    (tdesc : Option String) (su : String) (scale : Rat) (ru : String) (sites : Sites) :
    ((ParametricTestData.ptrFrom d L parent tdesc su scale ru sites).map STDFRecord.PTR).map
        STDFRecord.obs
      = (sites.filter (fun s => (d.PData.BaseSData ParamKind.Test s).Valid)).map
          (fun s => (RecKind.PTR, some s, [d.PData.Result s])) := by
  induction sites generalizing ru with
  | nil => simp [ParametricTestData.ptrFrom]
  | cons s rest ih =>
    by_cases h : (d.PData.BaseSData ParamKind.Test s).Valid = true
    · simp [ParametricTestData.ptrFrom, h, ih, STDFRecord.obs, STDFRecord.kind,
        STDFRecord.site?, STDFRecord.entryResults]
    · simp [ParametricTestData.ptrFrom, h, ih]

theorem ptrRecords_stream (d : ParametricTestData) (L : Lib) (parent : ST_Datalog)
    (fo : Bool) (rs : List STDFRecord) :
    (d.FormatSTDFV4 L parent fo (STDFV4Stream.mk true rs)).records
      = rs ++ (d.ptrRecords L parent fo).map STDFRecord.PTR := by
  unfold ParametricTestData.FormatSTDFV4
  simp only [if_true]
  exact (Write_foldl_records STDFRecord.PTR _ _).1

theorem perPinLoop_obs (d : ParametricTestDataArray) (tdesc : Option String) (units : String)
    (real_scale : Rat) (fmt : String) (nl nh : Nat) (site : SITE) (iis : List Nat)
    (hv : ∀ BV ii, ii ∈ iis → (d.PData.SData BV ParamKind.Test ii site).Valid = true)
    (BV : BasicVar) :
    ((ParametricTestDataArray.perPinLoop d tdesc units real_scale fmt nl nh site BV iis).map
        STDFRecord.PTR).map STDFRecord.obs
      = iis.map (fun ii => (RecKind.PTR, some site, [d.resAt site ii])) := by
  induction iis generalizing BV with
  | nil => simp [ParametricTestDataArray.perPinLoop]
  | cons ii rest ih =>
    have h1 := hv BV ii (List.mem_cons_self _ _)
    have ih' := fun BV' => ih (fun B j hj => hv B j (List.mem_cons_of_mem _ hj)) BV'
    simp only [ParametricTestDataArray.perPinLoop, h1, if_true, List.map_cons, ih']
    simp [STDFRecord.obs, STDFRecord.kind, STDFRecord.site?, STDFRecord.entryResults]

theorem recordsFrom_obs (d : ParametricTestDataArray) (L : Lib) (tdesc : Option String)
    (real_units : String) (scale : Rat) (sites : Sites)
    (hv : ∀ s ∈ sites, PerPinLimits (d.PData.BaseS1DData ParamKind.LowLimit s)
        (d.PData.BaseS1DData ParamKind.HighLimit s) = true →
      ∀ BV ii, ii < GetArrayLength (d.PData.BaseS1DData ParamKind.Test s) →
      (d.PData.SData BV ParamKind.Test ii s).Valid = true)
    (str : String) :
    (ParametricTestDataArray.recordsFrom d L tdesc real_units scale str sites).map STDFRecord.obs
      = (sites.map d.siteObs).flatten := by
  induction sites generalizing str with
  | nil => simp [ParametricTestDataArray.recordsFrom]
  | cons s rest ih =>
    have ih' := fun str' => ih (fun t ht => hv t (List.mem_cons_of_mem _ ht)) str'
    have hs := hv s (List.mem_cons_self _ _)
    simp only [ParametricTestDataArray.recordsFrom, List.map_append, ih', List.map_cons,
      List.flatten_cons]
    congr 1
    unfold ParametricTestDataArray.siteRecords ParametricTestDataArray.siteObs
    by_cases hp : PerPinLimits (d.PData.BaseS1DData ParamKind.LowLimit s)
        (d.PData.BaseS1DData ParamKind.HighLimit s) = true
    · simp only [hp, if_true]
      exact perPinLoop_obs d _ _ _ _ _ _ s _
        (fun BV ii hii => hs hp BV ii (List.mem_range.mp hii)) _
    · simp [hp, STDFRecord.obs, STDFRecord.kind, STDFRecord.site?, STDFRecord.entryResults]

theorem stdfRecords_stream (d : ParametricTestDataArray) (L : Lib) (parent : ST_Datalog)
    (fo : Bool) (rs : List STDFRecord) :
    (d.FormatSTDFV4 L parent fo (STDFV4Stream.mk true rs)).records
      = rs ++ d.stdfRecords L parent fo := by
  unfold ParametricTestDataArray.FormatSTDFV4
  simp only [if_true]
  have h := (Write_foldl_records (fun r => r) (d.stdfRecords L parent fo)
    (STDFV4Stream.mk true rs)).1
  simpa using h

theorem flatten_one_site_length {β : Type} (f : SITE → List β) (s0 : SITE) (l : Sites)
    (hnodup : l.Nodup) (h1 : ∀ s ∈ l, s ≠ s0 → (f s).length = 1) :
    ((l.map f).flatten).length
      = if s0 ∈ l then (l.length - 1) + (f s0).length else l.length := by
  induction l with
  | nil => simp
  | cons a rest ih =>
    have hn := List.nodup_cons.mp hnodup
    have ihr := ih hn.2 (fun s hs => h1 s (List.mem_cons_of_mem _ hs))
    simp only [List.map_cons, List.flatten_cons, List.length_append, ihr, List.length_cons]
    by_cases ha : a = s0
    · subst ha
      simp [hn.1]
      omega
    · have hfa := h1 a (List.mem_cons_self _ _) ha
      by_cases hm : s0 ∈ rest
      · have hpos : 0 < rest.length := List.length_pos_of_mem hm
        have : s0 ∈ a :: rest := List.mem_cons_of_mem _ hm
        simp [hm, this, hfa]
        omega
      · have : ¬ s0 ∈ a :: rest := by
          intro h
          rcases List.mem_cons.mp h with h | h
          · exact ha h.symm
          · exact hm h
        simp [hm, this, hfa]
        omega

/-! ## C3: fail-only filtering of the parametric array encoder -/

/-- C3 (evaluation at the failing input). With `fail_only_mode` set,
`ParametricTestDataArray::FormatSTDFV4` writes for `exArr` one MPR per tested site carrying
every entry, the passing ones included (site 2 has no failing entry at all), whereas the row
mode of `FormatASCII` prints only the failing entry, pin 1 of site 1. -/
theorem C3_array_encoder_ignores_fail_only :
    (exArr.FormatSTDFV4 exLib ST_Datalog.init true (STDFV4Stream.mk true [])).records.map
        STDFRecord.obs
      = [(RecKind.MPR, some 1, [TM_RESULT.TM_PASS, TM_RESULT.TM_FAIL]),
         (RecKind.MPR, some 2, [TM_RESULT.TM_PASS, TM_RESULT.TM_PASS])] ∧
    (exArr.rowCalls exLib ST_Datalog.init true).map (fun a => (a.site, a.pins, a.Res))
      = [(1, some ["p1"], TM_RESULT.TM_FAIL)] := by
  decide

/-- The records written by `ParametricTestDataArray::FormatSTDFV4` do not depend on
`fail_only_mode`. -/
theorem array_FormatSTDFV4_fail_only_irrelevant (d : ParametricTestDataArray) (L : Lib)
    (parent : ST_Datalog) (STDF : STDFV4Stream) :
    d.FormatSTDFV4 L parent true STDF = d.FormatSTDFV4 L parent false STDF := rfl

/-! ## C4: number of records for identical limits -/

/-- C4 (counterexample). In scenario A the two tested sites have the same limits, and
`ParametricTestData::FormatSTDFV4` writes two records, one PTR per site; likewise
`ParametricTestDataArray::FormatSTDFV4` writes two MPRs for `exArr`, whose limits are the same
on both sites and on all pins. -/
theorem C4_counterexample :
    exA.PData.BaseSData ParamKind.LowLimit 1 = exA.PData.BaseSData ParamKind.LowLimit 2 ∧
    exA.PData.BaseSData ParamKind.HighLimit 1 = exA.PData.BaseSData ParamKind.HighLimit 2 ∧
    (exA.FormatSTDFV4 exLib ST_Datalog.init false (STDFV4Stream.mk true [])).records.length ≠ 1 ∧
    exArr.PData.BaseS1DData ParamKind.LowLimit 1 = exArr.PData.BaseS1DData ParamKind.LowLimit 2 ∧
    exArr.PData.BaseS1DData ParamKind.HighLimit 1
      = exArr.PData.BaseS1DData ParamKind.HighLimit 2 ∧
    (exArr.FormatSTDFV4 exLib ST_Datalog.init false (STDFV4Stream.mk true [])).records.length
      ≠ 1 := by
  refine ⟨rfl, rfl, by decide, rfl, rfl, by decide⟩

/-- C4 (amended). The binary encoder writes one measurement record per tested site, not one
per event. `ParametricTestData::FormatSTDFV4` writes, on a valid stream, exactly one PTR for
every site of `fsites` whose measured value is defined, in order, carrying the result of that
site. When no tested site needs per-pin limits, `ParametricTestDataArray::FormatSTDFV4` writes
exactly one MPR for every tested site, in order, carrying the result array of that site; so
the number of records is the number of tested sites. -/
theorem C4_one_record_per_tested_site (d : ParametricTestData) (a : ParametricTestDataArray)
    (L : Lib) (parent : ST_Datalog) (fo : Bool)
    (h : ∀ s ∈ a.ctx.DlogSites, PerPinLimits (a.PData.BaseS1DData ParamKind.LowLimit s)
      (a.PData.BaseS1DData ParamKind.HighLimit s) = false) :
    (d.FormatSTDFV4 L parent fo (STDFV4Stream.mk true [])).records.map STDFRecord.obs
      = ((d.fsites fo).filter (fun s => (d.PData.BaseSData ParamKind.Test s).Valid)).map
          (fun s => (RecKind.PTR, some s, [d.PData.Result s])) ∧
    (a.FormatSTDFV4 L parent fo (STDFV4Stream.mk true [])).records.map STDFRecord.obs
      = a.ctx.DlogSites.map (fun s => (RecKind.MPR, some s, a.PData.Results s)) ∧
    (a.FormatSTDFV4 L parent fo (STDFV4Stream.mk true [])).records.length
      = a.ctx.DlogSites.length := by
  have hA : (a.FormatSTDFV4 L parent fo (STDFV4Stream.mk true [])).records.map STDFRecord.obs
      = a.ctx.DlogSites.map (fun s => (RecKind.MPR, some s, a.PData.Results s)) := by
    rw [stdfRecords_stream, List.nil_append]
    unfold ParametricTestDataArray.stdfRecords
    rw [recordsFrom_obs]
    · have hm : a.ctx.DlogSites.map a.siteObs
          = a.ctx.DlogSites.map (fun s => [(RecKind.MPR, some s, a.PData.Results s)]) := by
        apply List.map_congr_left
        intro s hs
        simp [ParametricTestDataArray.siteObs, h s hs]
      rw [hm]
      generalize a.ctx.DlogSites = l
      induction l with
      | nil => simp
      | cons x xs ih => simp [ih]
    · intro s hs hp
      rw [h s hs] at hp
      exact absurd hp (by simp)
  refine ⟨?_, hA, ?_⟩
  · rw [ptrRecords_stream, List.nil_append]
    exact ptrFrom_obs d L parent _ _ _ _ _
  · have hlen := congrArg List.length hA
    simpa using hlen

/-- C4 (witness): the amended statement at scenario A and at `exArr`. -/
theorem C4_one_record_per_tested_site_witness :
    (∀ s ∈ exArr.ctx.DlogSites, PerPinLimits (exArr.PData.BaseS1DData ParamKind.LowLimit s)
      (exArr.PData.BaseS1DData ParamKind.HighLimit s) = false) ∧
    (exA.FormatSTDFV4 exLib ST_Datalog.init false (STDFV4Stream.mk true [])).records.map
        STDFRecord.obs
      = ((exA.fsites false).filter (fun s => (exA.PData.BaseSData ParamKind.Test s).Valid)).map
          (fun s => (RecKind.PTR, some s, [exA.PData.Result s])) ∧
    (exArr.FormatSTDFV4 exLib ST_Datalog.init false (STDFV4Stream.mk true [])).records.map
        STDFRecord.obs
      = exArr.ctx.DlogSites.map (fun s => (RecKind.MPR, some s, exArr.PData.Results s)) ∧
    (exArr.FormatSTDFV4 exLib ST_Datalog.init false (STDFV4Stream.mk true [])).records.length
      = exArr.ctx.DlogSites.length :=
  ⟨by decide, C4_one_record_per_tested_site exA exArr exLib ST_Datalog.init false (by decide)⟩

theorem allEqualFirst_false_iff (xs : List SVal) :
    (xs.length > 1 ∧ allEqualFirst xs = false) ↔ ∃ x ∈ xs, ∃ y ∈ xs, x ≠ y := by
  constructor
  · rintro ⟨_, h⟩
    cases xs with
    | nil => simp [allEqualFirst] at h
    | cons a rest =>
      simp only [allEqualFirst, List.all_eq_false] at h
      obtain ⟨y, hy, hne⟩ := h
      refine ⟨y, hy, a, List.mem_cons_self _ _, ?_⟩
      simpa using hne
  · rintro ⟨x, hx, y, hy, hne⟩
    cases xs with
    | nil => simp at hx
    | cons a rest =>
      have hfalse : allEqualFirst (a :: rest) = false := by
        by_contra hcon
        have hall : allEqualFirst (a :: rest) = true := by simpa using hcon
        simp only [allEqualFirst, List.all_eq_true, beq_iff_eq] at hall
        exact hne ((hall x hx).trans (hall y hy).symm)
      refine ⟨?_, hfalse⟩
      cases rest with
      | nil =>
        simp only [List.mem_singleton] at hx hy
        exact absurd (hx.trans hy.symm) hne
      | cons b rest2 => simp

theorem PerPinLimit_iff (V : BasicVar) : PerPinLimit V = true ↔ numericArrayNotAllEqual V := by
  cases V with
  | void => simp [PerPinLimit, BasicVar.Valid, numericArrayNotAllEqual]
  | multi cfg ty v xs =>
    cases cfg <;> simp [PerPinLimit, BasicVar.Valid, BasicVar.GetConfig, numericArrayNotAllEqual]
  | arrayOf xs => simp [PerPinLimit, BasicVar.Valid, BasicVar.GetConfig, numericArrayNotAllEqual]
  | unsupported ty =>
    simp [PerPinLimit, BasicVar.Valid, BasicVar.GetConfig, numericArrayNotAllEqual]
  | single cfg ty xs =>
    cases cfg with
    | SCALAR_S =>
      simp [PerPinLimit, BasicVar.Valid, BasicVar.GetConfig, numericArrayNotAllEqual]
    | LIST_S =>
      simp [PerPinLimit, BasicVar.Valid, BasicVar.GetConfig, numericArrayNotAllEqual]
    | ARRAY_S1D =>
      have key := allEqualFirst_false_iff xs
      have hnum : numericArrayNotAllEqual (BasicVar.single SConfig.ARRAY_S1D ty xs) ↔
          ((ty = SV_TYPE.SV_FLOAT ∨ ty = SV_TYPE.SV_INT ∨ ty = SV_TYPE.SV_UINT) ∧
            ∃ x ∈ xs, ∃ y ∈ xs, x ≠ y) := by
        constructor
        · rintro ⟨ty1, xs1, heq, hty, h⟩
          injection heq with _ h1 h2
          subst h1
          subst h2
          exact ⟨hty, h⟩
        · rintro ⟨hty, h⟩
          exact ⟨ty, xs, rfl, hty, h⟩
      rw [hnum, ← key]
      cases ty <;>
        simp [PerPinLimit, BasicVar.Valid, BasicVar.GetConfig, BasicVar.GetType,
          BasicVar.elemsS1D]

/-! ## C5: one low limit changed to differ -/

/-- C5 (counterexample). `exArr` has identical limits on both tested sites; changing the low
limit of site 1 so that it differs (`exArrVar`) makes `FormatSTDFV4` write three records for
the two tested sites: two PTRs for site 1 and one MPR for site 2. -/
theorem C5_counterexample :
    (exArrVar.FormatSTDFV4 exLib ST_Datalog.init false (STDFV4Stream.mk true [])).records.length
      ≠ exArrVar.ctx.DlogSites.length ∧
    (exArrVar.FormatSTDFV4 exLib ST_Datalog.init false (STDFV4Stream.mk true [])).records.map
        STDFRecord.obs
      = [(RecKind.PTR, some 1, [TM_RESULT.TM_PASS]), (RecKind.PTR, some 1, [TM_RESULT.TM_FAIL]),
         (RecKind.MPR, some 2, [TM_RESULT.TM_PASS, TM_RESULT.TM_PASS])] := by
  decide

/-- C5 (amended). Take the snapshot after the change: the tested sites are distinct, every
tested site other than `s0` needs no per-pin limits, the low limit of `s0` is a float, int or
unsigned array whose elements are not all equal, and every measured entry of `s0` is
defined. Then
`ParametricTestDataArray::FormatSTDFV4` writes, in tested-site order, one PTR per array entry
of `s0` and one MPR for each other tested site, so the number of records is the number of
tested sites minus one plus the number of array entries of `s0`; it equals the number of
tested sites exactly when `s0` has a single entry. -/
theorem C5_perturbed_low_limit (d : ParametricTestDataArray) (L : Lib) (parent : ST_Datalog)
    (fo : Bool) (s0 : SITE) (hnodup : d.ctx.DlogSites.Nodup) (hs0 : s0 ∈ d.ctx.DlogSites)
    (hothers : ∀ s ∈ d.ctx.DlogSites, s ≠ s0 →
      PerPinLimits (d.PData.BaseS1DData ParamKind.LowLimit s)
        (d.PData.BaseS1DData ParamKind.HighLimit s) = false)
    (hper : numericArrayNotAllEqual (d.PData.BaseS1DData ParamKind.LowLimit s0))
    (hvalid : ∀ BV ii, ii < GetArrayLength (d.PData.BaseS1DData ParamKind.Test s0) →
      (d.PData.SData BV ParamKind.Test ii s0).Valid = true) :
    (d.FormatSTDFV4 L parent fo (STDFV4Stream.mk true [])).records.map STDFRecord.obs
      = (d.ctx.DlogSites.map (fun s =>
          if s = s0 then
            (List.range (GetArrayLength (d.PData.BaseS1DData ParamKind.Test s0))).map
              (fun ii => (RecKind.PTR, some s0, [d.resAt s0 ii]))
          else [(RecKind.MPR, some s, d.PData.Results s)])).flatten ∧
    (d.FormatSTDFV4 L parent fo (STDFV4Stream.mk true [])).records.length
      = (d.ctx.DlogSites.length - 1)
          + GetArrayLength (d.PData.BaseS1DData ParamKind.Test s0) ∧
    ((d.FormatSTDFV4 L parent fo (STDFV4Stream.mk true [])).records.length
        = d.ctx.DlogSites.length ↔
      GetArrayLength (d.PData.BaseS1DData ParamKind.Test s0) = 1) := by
  have hp0 : PerPinLimits (d.PData.BaseS1DData ParamKind.LowLimit s0)
      (d.PData.BaseS1DData ParamKind.HighLimit s0) = true := by
    simp [PerPinLimits, (PerPinLimit_iff _).mpr hper]
  have hobs : (d.FormatSTDFV4 L parent fo (STDFV4Stream.mk true [])).records.map STDFRecord.obs
      = (d.ctx.DlogSites.map d.siteObs).flatten := by
    rw [stdfRecords_stream, List.nil_append]
    unfold ParametricTestDataArray.stdfRecords
    apply recordsFrom_obs
    intro s hs hp BV ii hii
    by_cases h : s = s0
    · subst h; exact hvalid BV ii hii
    · rw [hothers s hs h] at hp; exact absurd hp (by simp)
  have hmap : d.ctx.DlogSites.map d.siteObs = d.ctx.DlogSites.map (fun s =>
          if s = s0 then
            (List.range (GetArrayLength (d.PData.BaseS1DData ParamKind.Test s0))).map
              (fun ii => (RecKind.PTR, some s0, [d.resAt s0 ii]))
          else [(RecKind.MPR, some s, d.PData.Results s)]) := by
    apply List.map_congr_left
    intro s hs
    by_cases h : s = s0
    · subst h; simp [ParametricTestDataArray.siteObs, hp0]
    · simp [ParametricTestDataArray.siteObs, hothers s hs h, h]
  have hlen : (d.FormatSTDFV4 L parent fo (STDFV4Stream.mk true [])).records.length
      = (d.ctx.DlogSites.length - 1)
          + GetArrayLength (d.PData.BaseS1DData ParamKind.Test s0) := by
    have hl := congrArg List.length hobs
    rw [List.length_map] at hl
    rw [hl, hmap, flatten_one_site_length _ s0 _ hnodup]
    · simp [hs0]
    · intro s _ h
      simp [h]
  refine ⟨by rw [hobs, hmap], hlen, ?_⟩
  have hpos : 0 < d.ctx.DlogSites.length := List.length_pos_of_mem hs0
  rw [hlen]
  omega

/-- C5 (witness): the amended statement at `exArrVar` with `s0 = 1`. -/
theorem C5_perturbed_low_limit_witness :
    exArrVar.ctx.DlogSites.Nodup ∧ 1 ∈ exArrVar.ctx.DlogSites ∧
    (∀ s ∈ exArrVar.ctx.DlogSites, s ≠ 1 →
      PerPinLimits (exArrVar.PData.BaseS1DData ParamKind.LowLimit s)
        (exArrVar.PData.BaseS1DData ParamKind.HighLimit s) = false) ∧
    numericArrayNotAllEqual (exArrVar.PData.BaseS1DData ParamKind.LowLimit 1) ∧
    (exArrVar.FormatSTDFV4 exLib ST_Datalog.init false (STDFV4Stream.mk true [])).records.length
      = (exArrVar.ctx.DlogSites.length - 1)
          + GetArrayLength (exArrVar.PData.BaseS1DData ParamKind.Test 1) :=
  ⟨by decide, by decide, by decide,
    ⟨SV_TYPE.SV_FLOAT, [SVal.float 20, SVal.float 30], rfl, Or.inl rfl, SVal.float 20,
      by simp, SVal.float 30, by simp, by decide⟩,
    (C5_perturbed_low_limit exArrVar exLib ST_Datalog.init false 1 (by decide) (by decide)
      (by decide)
      ⟨SV_TYPE.SV_FLOAT, [SVal.float 20, SVal.float 30], rfl, Or.inl rfl, SVal.float 20,
        by simp, SVal.float 30, by simp, by decide⟩
      (by
        intro BV ii hii
        have h2 : GetArrayLength (exArrVar.PData.BaseS1DData ParamKind.Test 1) = 2 := by decide
        rw [h2] at hii
        have hcases : ii = 0 ∨ ii = 1 := by omega
        rcases hcases with h | h <;> subst h <;> rfl)).2.1⟩

/-! ## C6: the per-pin discriminator -/

/-- C6 (counterexample). A low limit that is a defined single-site 1-D array of two different
strings is array-shaped with elements that are not all equal, yet `PerPinLimits` returns false
for it (with a void high limit): the source has no case for string arrays. -/
theorem C6_counterexample :
    ¬ (PerPinLimits exStringLimit BasicVar.void = true ↔
        (arrayShapedNotAllEqual exStringLimit ∨ arrayShapedNotAllEqual BasicVar.void)) := by
  intro h
  have hshape : arrayShapedNotAllEqual exStringLimit :=
    ⟨SV_TYPE.SV_STRING, [SVal.str "a", SVal.str "b"], rfl, SVal.str "a", by simp,
      SVal.str "b", by simp, by decide⟩
  have hfalse : PerPinLimits exStringLimit BasicVar.void = false := by decide
  rw [hfalse] at h
  exact absurd (h.mpr (Or.inl hshape)) (by simp)

/-- C6 (amended). `PerPinLimits(LL, HL)` returns true if and only if at least one of `LL` and
`HL` is a defined single-site 1-D array of float, int or unsigned type whose elements are not
all equal. In particular it returns false when both limits are void, when both are scalars,
and when both are arrays whose elements are all equal (arrays of length 0 and 1 included). -/
theorem C6_PerPinLimits_iff (LL HL : BasicVar) :
    (PerPinLimits LL HL = true ↔ (numericArrayNotAllEqual LL ∨ numericArrayNotAllEqual HL)) ∧
    PerPinLimits BasicVar.void BasicVar.void = false ∧
    (∀ t1 t2 xs ys, PerPinLimits (BasicVar.single SConfig.SCALAR_S t1 xs)
      (BasicVar.single SConfig.SCALAR_S t2 ys) = false) ∧
    (∀ t1 t2 n m x y, PerPinLimits (BasicVar.single SConfig.ARRAY_S1D t1 (List.replicate n x))
      (BasicVar.single SConfig.ARRAY_S1D t2 (List.replicate m y)) = false) := by
  have main : ∀ A B : BasicVar,
      PerPinLimits A B = true ↔ (numericArrayNotAllEqual A ∨ numericArrayNotAllEqual B) := by
    intro A B
    rw [← PerPinLimit_iff A, ← PerPinLimit_iff B]
    unfold PerPinLimits
    by_cases hA : PerPinLimit A = true
    · simp [hA]
    · by_cases hB : PerPinLimit B = true
      · simp [hA, hB]
      · simp [hA, hB]
  have neg : ∀ A B : BasicVar, ¬ numericArrayNotAllEqual A → ¬ numericArrayNotAllEqual B →
      PerPinLimits A B = false := by
    intro A B hA hB
    by_contra hcon
    have ht : PerPinLimits A B = true := by simpa using hcon
    rcases (main A B).mp ht with h | h
    · exact hA h
    · exact hB h
  have hrep : ∀ t n x,
      ¬ numericArrayNotAllEqual (BasicVar.single SConfig.ARRAY_S1D t (List.replicate n x)) := by
    rintro t n x ⟨ty, xs, heq, _, a, ha, b, hb, hne⟩
    injection heq with _ _ hxs
    rw [← hxs] at ha hb
    exact hne ((List.eq_of_mem_replicate ha).trans (List.eq_of_mem_replicate hb).symm)
  refine ⟨main LL HL, by decide, ?_, ?_⟩
  · intro t1 t2 xs ys
    apply neg
    · rintro ⟨ty, zs, heq, _⟩
      injection heq with hcfg
      exact absurd hcfg (by decide)
    · rintro ⟨ty, zs, heq, _⟩
      injection heq with hcfg
      exact absurd hcfg (by decide)
  · intro t1 t2 n m x y
    exact neg _ _ (hrep t1 n x) (hrep t2 m y)

/-! ## C7 and C8: generic data that does not fit the record -/

theorem splitSites_eq (res : SITE → Bool) (sites : Sites) (hnodup : sites.Nodup)
    (good : Sites) (errs : List ErrReport) (hdisj : ∀ s ∈ sites, s ∉ good) :
    GenericData.splitSites res sites (good, errs)
      = (good ++ sites.filter res,
         errs ++ (sites.filter (fun s => !res s)).map (fun s =>
           ErrReport.mk ErrLevel.ERR_GENERIC_ADVISORY
             "ST_Datalog::Generic: Site data was longer than STDFv4 limit for GDR records."
             (some s))) := by
  induction sites generalizing good errs with
  | nil => simp [GenericData.splitSites]
  | cons a rest ih =>
    have hn := List.nodup_cons.mp hnodup
    have ha : a ∉ good := hdisj a (List.mem_cons_self _ _)
    by_cases hr : res a = true
    · have hd : ∀ s ∈ rest, s ∉ Sites.add good a := by
        intro s hs hmem
        simp only [Sites.add, ha, if_false, List.mem_append, List.mem_singleton] at hmem
        rcases hmem with h | h
        · exact hdisj s (List.mem_cons_of_mem _ hs) h
        · exact hn.1 (h ▸ hs)
      simp only [GenericData.splitSites, hr, if_true]
      rw [ih hn.2 _ _ hd]
      simp [Sites.add, ha, hr]
    · have hr' : res a = false := by simpa using hr
      have hd : ∀ s ∈ rest, s ∉ good := fun s hs => hdisj s (List.mem_cons_of_mem _ hs)
      simp only [GenericData.splitSites, hr']
      rw [ih hn.2 _ _ hd]
      simp [GenericData.reportAdvisory, hr']

/-- C7 counterexample. A non-empty payload that fits the record for no site, for a single
tested site (a multisite value) and for two tested sites (a single-site value): no record is
written and exactly one advisory diagnostic is reported, but its text is "Data was longer
than STDFv4 limit ..." and does not speak of all sites. -/
theorem C7_counterexample :
    (∀ s ∈ exGenStateOne.ActiveSites, exHostNone.SetGenericData exGenOne.GData.Data s = false) ∧
    (exGenOne.FormatSTDFV4 exHostNone false exGenStateOne).STDF.records = [] ∧
    (exGenOne.FormatSTDFV4 exHostNone false exGenStateOne).errors
      = [ErrReport.mk ErrLevel.ERR_GENERIC_ADVISORY
          "ST_Datalog::Generic: Data was longer than STDFv4 limit for GDR records." none] ∧
    (∀ s ∈ exGenState.ActiveSites, exHostNone.SetGenericData exGenScalar.GData.Data s = false) ∧
    (exGenScalar.FormatSTDFV4 exHostNone false exGenState).STDF.records = [] ∧
    (exGenScalar.FormatSTDFV4 exHostNone false exGenState).errors
      = [ErrReport.mk ErrLevel.ERR_GENERIC_ADVISORY
          "ST_Datalog::Generic: Data was longer than STDFv4 limit for GDR records." none] ∧
    containsSub "ST_Datalog::Generic: Data was longer than STDFv4 limit for GDR records.".data
      "All site".data = false := by
  refine ⟨by decide, rfl, by decide, by decide, rfl, by decide, by decide⟩

theorem hasMultisiteValuesLoop_single (xs : List BasicVar)
    (h : ∀ v ∈ xs, (∀ c t b ys, v ≠ BasicVar.multi c t b ys) ∧ (∀ l, v ≠ BasicVar.arrayOf l)) :
    hasMultisiteValuesLoop xs = false := by
  induction xs with
  | nil => simp [hasMultisiteValuesLoop]
  | cons v rest ih =>
    have hv := h v (List.mem_cons_self _ _)
    have hr := ih (fun w hw => h w (List.mem_cons_of_mem _ hw))
    cases v with
    | void => simp [hasMultisiteValuesLoop, hr]
    | single c t ys => simp [hasMultisiteValuesLoop, hr]
    | multi c t b ys => exact absurd rfl (hv.1 c t b ys)
    | arrayOf l => exact absurd rfl (hv.2 l)
    | unsupported t => simp [hasMultisiteValuesLoop, hr]

theorem hasMultisiteValuesLoop_multi (xs : List BasicVar)
    (h : ∃ v ∈ xs, ∃ c t b ys, v = BasicVar.multi c t b ys) :
    hasMultisiteValuesLoop xs = true := by
  induction xs with
  | nil =>
    obtain ⟨v, hv, _⟩ := h
    exact absurd hv (List.not_mem_nil v)
  | cons v rest ih =>
    cases v with
    | multi c t b ys => simp [hasMultisiteValuesLoop]
    | void =>
      obtain ⟨w, hw, c, t, b, ys, e⟩ := h
      rcases List.mem_cons.mp hw with h1 | h1
      · rw [e] at h1; exact BasicVar.noConfusion h1
      · simp [hasMultisiteValuesLoop, ih ⟨w, h1, c, t, b, ys, e⟩]
    | single c1 t1 ys1 =>
      obtain ⟨w, hw, c, t, b, ys, e⟩ := h
      rcases List.mem_cons.mp hw with h1 | h1
      · rw [e] at h1; exact BasicVar.noConfusion h1
      · simp [hasMultisiteValuesLoop, ih ⟨w, h1, c, t, b, ys, e⟩]
    | arrayOf l =>
      obtain ⟨w, hw, c, t, b, ys, e⟩ := h
      rcases List.mem_cons.mp hw with h1 | h1
      · rw [e] at h1; exact BasicVar.noConfusion h1
      · simp [hasMultisiteValuesLoop, ih ⟨w, h1, c, t, b, ys, e⟩]
    | unsupported t1 =>
      obtain ⟨w, hw, c, t, b, ys, e⟩ := h
      rcases List.mem_cons.mp hw with h1 | h1
      · rw [e] at h1; exact BasicVar.noConfusion h1
      · simp [hasMultisiteValuesLoop, ih ⟨w, h1, c, t, b, ys, e⟩]

/-- C7 (amended). For a valid STDF stream, a non-empty payload, and a `SetGenericData` result
that is false on every site of the (non-empty) active set, `GenericData::FormatSTDFV4` writes
no record, leaves the active site set alone and reports exactly one diagnostic; that
diagnostic is of advisory level and names no single site (`NO_SITES`). Its text is "All site
data was longer ..." when `GDR_HasMultisiteValues` holds and "Data was longer ..." otherwise.
`GDR_HasMultisiteValues` is false for fewer than two tested sites and for a payload whose
elements are neither multisite values nor nested arrays, and true for two or more tested sites
and a payload with a multisite element. `GenericData::FormatASCII` prints the same text as
with a payload that fits on every site. -/
theorem C7_no_site_fits (d : GenericData) (H : GenHost) (fo : Bool) (st : GenState)
    (hvalid : st.STDF.valid = true) (hne : d.GData.Data ≠ [])
    (hact : st.ActiveSites ≠ [])
    (hnone : ∀ s ∈ st.ActiveSites, H.SetGenericData d.GData.Data s = false) :
    (d.FormatSTDFV4 H fo st).STDF.records = st.STDF.records ∧
    (d.FormatSTDFV4 H fo st).ActiveSites = st.ActiveSites ∧
    (d.FormatSTDFV4 H fo st).errors
      = st.errors ++ [ErrReport.mk ErrLevel.ERR_GENERIC_ADVISORY
          (if GDR_HasMultisiteValues d.ctx.DlogSites (BasicVar.arrayOf d.GData.Data) then
            "ST_Datalog::Generic: All site data was longer than STDFv4 limit for GDR records."
          else "ST_Datalog::Generic: Data was longer than STDFv4 limit for GDR records.")
          none] ∧
    (d.ctx.DlogSites.length < 2 →
      GDR_HasMultisiteValues d.ctx.DlogSites (BasicVar.arrayOf d.GData.Data) = false) ∧
    ((∀ v ∈ d.GData.Data,
        (∀ c t b ys, v ≠ BasicVar.multi c t b ys) ∧ (∀ l, v ≠ BasicVar.arrayOf l)) →
      GDR_HasMultisiteValues d.ctx.DlogSites (BasicVar.arrayOf d.GData.Data) = false) ∧
    (2 ≤ d.ctx.DlogSites.length →
      (∃ v ∈ d.GData.Data, ∃ c t b ys, v = BasicVar.multi c t b ys) →
      GDR_HasMultisiteValues d.ctx.DlogSites (BasicVar.arrayOf d.GData.Data) = true) ∧
    (∀ o, d.FormatASCII H fo o
      = d.FormatASCII { H with SetGenericData := fun _ _ => true } fo o) := by
  have hlen : d.GData.Data.length > 0 := List.length_pos.mpr hne
  have hfalse : BoolM.allEq st.ActiveSites (H.SetGenericData d.GData.Data) false = true := by
    simp only [BoolM.allEq, List.all_eq_true, beq_iff_eq]
    exact hnone
  have htrue : BoolM.allEq st.ActiveSites (H.SetGenericData d.GData.Data) true = false := by
    cases hs : st.ActiveSites with
    | nil => exact absurd hs hact
    | cons a rest =>
      have ha := hnone a (by rw [hs]; exact List.mem_cons_self _ _)
      simp [BoolM.allEq, ha]
  refine ⟨?_, ?_, ?_, ?_, ?_, ?_, fun o => rfl⟩
  · unfold GenericData.FormatSTDFV4
    simp only [hvalid, hlen, if_true, htrue, hfalse, Bool.false_eq_true, if_false]
    split <;> rfl
  · unfold GenericData.FormatSTDFV4
    simp only [hvalid, hlen, if_true, htrue, hfalse, Bool.false_eq_true, if_false]
    split <;> rfl
  · unfold GenericData.FormatSTDFV4
    simp only [hvalid, hlen, if_true, htrue, hfalse, Bool.false_eq_true, if_false]
    split <;> rfl
  · intro h2
    unfold GDR_HasMultisiteValues
    rw [if_pos h2]
  · intro hs
    unfold GDR_HasMultisiteValues
    split
    · rfl
    · unfold hasMultisiteValues
      exact hasMultisiteValuesLoop_single _ hs
  · intro h2 hm
    unfold GDR_HasMultisiteValues
    rw [if_neg (by omega)]
    unfold hasMultisiteValues
    exact hasMultisiteValuesLoop_multi _ hm

/-- C8. For a valid STDF stream, a non-empty payload and distinct tested sites that are all
active, if the data fits for some tested site and not for another, `GenericData::FormatSTDFV4`
reports exactly one advisory diagnostic per tested site whose data does not fit, naming that
site, in tested order, and none for the sites that fit; it writes the record exactly once,
while the active site set is exactly the fitting tested sites; and the active site set after
the call is the one before the call. -/
theorem C8_some_sites_fit (d : GenericData) (H : GenHost) (fo : Bool) (st : GenState)
    (hvalid : st.STDF.valid = true) (hne : d.GData.Data ≠ [])
    (hnodup : d.ctx.DlogSites.Nodup)
    (hsub : ∀ s ∈ d.ctx.DlogSites, s ∈ st.ActiveSites)
    (hsome : ∃ s ∈ d.ctx.DlogSites, H.SetGenericData d.GData.Data s = true)
    (hnot : ∃ s ∈ d.ctx.DlogSites, H.SetGenericData d.GData.Data s = false) :
    (d.FormatSTDFV4 H fo st).errors
      = st.errors ++ (d.ctx.DlogSites.filter (fun s => !H.SetGenericData d.GData.Data s)).map
          (fun s => ErrReport.mk ErrLevel.ERR_GENERIC_ADVISORY
            "ST_Datalog::Generic: Site data was longer than STDFv4 limit for GDR records."
            (some s)) ∧
    (d.FormatSTDFV4 H fo st).STDF.records
      = st.STDF.records ++ [STDFRecord.GDR (GDRRecord.mk d.GData.Data
          (d.ctx.DlogSites.filter (H.SetGenericData d.GData.Data)))] ∧
    (d.FormatSTDFV4 H fo st).ActiveSites = st.ActiveSites := by
  have hlen : d.GData.Data.length > 0 := List.length_pos.mpr hne
  obtain ⟨s1, hs1, hfit⟩ := hsome
  obtain ⟨s2, hs2, hunfit⟩ := hnot
  have htrue : BoolM.allEq st.ActiveSites (H.SetGenericData d.GData.Data) true = false := by
    simp only [BoolM.allEq, List.all_eq_false]
    exact ⟨s2, hsub s2 hs2, by simp [hunfit]⟩
  have hfalse : BoolM.allEq st.ActiveSites (H.SetGenericData d.GData.Data) false = false := by
    simp only [BoolM.allEq, List.all_eq_false]
    exact ⟨s1, hsub s1 hs1, by simp [hfit]⟩
  have hsplit := splitSites_eq (H.SetGenericData d.GData.Data) d.ctx.DlogSites hnodup []
    st.errors (by simp)
  unfold GenericData.FormatSTDFV4
  simp only [hvalid, hlen, if_true, htrue, hfalse, hsplit, Bool.false_eq_true, if_false]
  simp [GenericData.SetActiveSites, GenericData.WriteGDR, STDFV4Stream.Write]

/-- C7 (witness): the statement at `exGen`, two tested sites and a multisite value, with a
host for which no site fits: one advisory diagnostic, here with the text that speaks of all
site data. -/
theorem C7_no_site_fits_witness :
    exGenState.STDF.valid = true ∧ exGen.GData.Data ≠ [] ∧ exGenState.ActiveSites ≠ [] ∧
    (∀ s ∈ exGenState.ActiveSites, exHostNone.SetGenericData exGen.GData.Data s = false) ∧
    (exGen.FormatSTDFV4 exHostNone false exGenState).STDF.records = exGenState.STDF.records ∧
    (exGen.FormatSTDFV4 exHostNone false exGenState).errors
      = exGenState.errors ++ [ErrReport.mk ErrLevel.ERR_GENERIC_ADVISORY
          (if GDR_HasMultisiteValues exGen.ctx.DlogSites (BasicVar.arrayOf exGen.GData.Data) then
            "ST_Datalog::Generic: All site data was longer than STDFv4 limit for GDR records."
          else "ST_Datalog::Generic: Data was longer than STDFv4 limit for GDR records.")
          none] ∧
    GDR_HasMultisiteValues exGen.ctx.DlogSites (BasicVar.arrayOf exGen.GData.Data) = true :=
  ⟨rfl, by simp [exGen], by decide, by decide,
    (C7_no_site_fits exGen exHostNone false exGenState rfl (by simp [exGen]) (by decide)
      (by decide)).1,
    (C7_no_site_fits exGen exHostNone false exGenState rfl (by simp [exGen]) (by decide)
      (by decide)).2.2.1,
    by decide⟩

/-- C8 (witness): the statement at `exGen` with a host for which only site 1 fits. -/
theorem C8_some_sites_fit_witness :
    exGenState.STDF.valid = true ∧ exGen.GData.Data ≠ [] ∧ exGen.ctx.DlogSites.Nodup ∧
    (∀ s ∈ exGen.ctx.DlogSites, s ∈ exGenState.ActiveSites) ∧
    (∃ s ∈ exGen.ctx.DlogSites, exHostSite1.SetGenericData exGen.GData.Data s = true) ∧
    (∃ s ∈ exGen.ctx.DlogSites, exHostSite1.SetGenericData exGen.GData.Data s = false) ∧
    (exGen.FormatSTDFV4 exHostSite1 false exGenState).errors
      = exGenState.errors
        ++ (exGen.ctx.DlogSites.filter
              (fun s => !exHostSite1.SetGenericData exGen.GData.Data s)).map
            (fun s => ErrReport.mk ErrLevel.ERR_GENERIC_ADVISORY
              "ST_Datalog::Generic: Site data was longer than STDFv4 limit for GDR records."
              (some s)) ∧
    (exGen.FormatSTDFV4 exHostSite1 false exGenState).ActiveSites = exGenState.ActiveSites :=
  ⟨rfl, by simp [exGen], by decide, by decide, by decide, by decide,
    (C8_some_sites_fit exGen exHostSite1 false exGenState rfl (by simp [exGen]) (by decide)
      (by decide) (by decide) (by decide)).1,
    (C8_some_sites_fit exGen exHostSite1 false exGenState rfl (by simp [exGen]) (by decide)
      (by decide) (by decide) (by decide)).2.2⟩

/-! ## C9 and C10: the scale and the unit of the parametric formatters -/

theorem realScale_of_ne_zero (L : Lib) (scale : Rat) (h : scale ≠ 0) (units out : String)
    (TV LL HL : BasicVar) :
    ParametricTestData.realScale L scale units out TV LL HL = (scale, out) := by
  simp [ParametricTestData.realScale, h]

theorem fixScale_autoscaling_off (parent : ST_Datalog) (h : parent.UnitAutoscaling = false)
    (x : Rat) :
    ParametricTestData.fixScale parent x = (if x = 0 then 1 else x) ∧
    ParametricTestData.fixScale parent x ≠ 0 := by
  by_cases hx : x = 0
  · simp [ParametricTestData.fixScale, h, hx]
  · simp [ParametricTestData.fixScale, h, hx]

theorem fixScale_eq_zero_iff (parent : ST_Datalog) (x : Rat) :
    ParametricTestData.fixScale parent x = 0 ↔ (x = 0 ∧ parent.UnitAutoscaling = true) := by
  by_cases hx : x = 0
  · cases ha : parent.UnitAutoscaling <;> simp [ParametricTestData.fixScale, hx, ha]
  · simp [ParametricTestData.fixScale, hx]

theorem invertScale_of_ne_zero (x : Rat) (h : x ≠ 0) :
    ParametricTestData.invertScale x = 1 / x := by
  simp [ParametricTestData.invertScale, h]

theorem rowCallsFrom_scale_units (d : ParametricTestData) (L : Lib) (parent : ST_Datalog)
    (tdesc : Option String) (scale : Rat) (h : scale ≠ 0) (ru : String) (sites : Sites) :
    (ParametricTestData.rowCallsFrom d L parent tdesc scale ru sites).map
        (fun a => (a.scale, a.units))
      = sites.map (fun _ => (scale, ru)) := by
  induction sites with
  | nil => simp [ParametricTestData.rowCallsFrom]
  | cons s rest ih =>
    simp [ParametricTestData.rowCallsFrom, realScale_of_ne_zero L scale h, ih]

theorem ptrFrom_scale_units (d : ParametricTestData) (L : Lib) (parent : ST_Datalog)
    (tdesc : Option String) (su : String) (scale : Rat) (h : scale ≠ 0) (ru : String)
    (sites : Sites) :
    (ParametricTestData.ptrFrom d L parent tdesc su scale ru sites).map
        (fun r => (r.resultScale, r.loScale, r.hiScale, r.units))
      = (sites.filter (fun s => (d.PData.BaseSData ParamKind.Test s).Valid)).map
          (fun _ => (1 / scale, 1 / scale, 1 / scale, su)) := by
  induction sites with
  | nil => simp [ParametricTestData.ptrFrom]
  | cons s rest ih =>
    by_cases hv : (d.PData.BaseSData ParamKind.Test s).Valid = true
    · simp [ParametricTestData.ptrFrom, hv, realScale_of_ne_zero L scale h,
        invertScale_of_ne_zero scale h, ih]
    · simp [ParametricTestData.ptrFrom, hv, ih]

/-- C9 (counterexample). With `UnitAutoscaling` disabled and the declared unit "mA", for which
the library returns the scale 1000 and the unit "A" as the comments of the source describe,
the row-mode ASCII line is printed with scale 1000 and unit "A": the scale is not 1.0 and the
unit shown is not the declared unit. -/
theorem C9_counterexample :
    ST_Datalog.init.UnitAutoscaling = false ∧
    ¬ (∀ a ∈ exMilli.rowCalls exLib ST_Datalog.init false,
        a.scale = 1 ∧ a.units = exMilli.PData.Units) := by
  refine ⟨rfl, ?_⟩
  intro hall
  have hs : exMilli.asciiScale exLib ST_Datalog.init = 1000 := by
    simp [ParametricTestData.asciiScale, ParametricTestData.fixScale, exLib, exMilli]
  have hm := rowCallsFrom_scale_units exMilli exLib ST_Datalog.init
    (exMilli.tdesc exLib ST_Datalog.init) (exMilli.asciiScale exLib ST_Datalog.init)
    (by rw [hs]; norm_num) (exMilli.asciiRealUnits exLib) (exMilli.fsites false)
  have hone : (exMilli.rowCalls exLib ST_Datalog.init false).map (fun a => (a.scale, a.units))
      = [(1, "mA")] := by
    have hlen : (exMilli.rowCalls exLib ST_Datalog.init false).length = 1 := by decide
    match hrc : exMilli.rowCalls exLib ST_Datalog.init false, hlen with
    | [a], _ =>
      have ha := hall a (by rw [hrc]; exact List.mem_singleton.mpr rfl)
      have hu : exMilli.PData.Units = "mA" := rfl
      simp [ha.1, ha.2, hu]
  have hm2 : (exMilli.rowCalls exLib ST_Datalog.init false).map (fun a => (a.scale, a.units))
      = [(1000, "A")] := by
    unfold ParametricTestData.rowCalls
    rw [hm, hs]
    decide
  rw [hone] at hm2
  have h3 : ((1 : Rat), "mA").2 = ((1000 : Rat), "A").2 := by
    have := List.head_eq_of_cons_eq hm2
    rw [this]
  exact absurd h3 (by decide)

/-- C9 (amended). With `UnitAutoscaling` disabled no autorange scale is used and the scale is
never zero: the scale of `FormatASCII` is the result of `CalculateUnitScale` for the declared
unit, and exactly 1.0 when that result is 0.0; the factor handed to the PTR record by
`FormatSTDFV4` is the reciprocal of the result of `CalculateBaseUnitScale`, and exactly 1.0
when that result is 0.0. The unit shown on a row-mode ASCII line is the `real_units` string
returned by `CalculateUnitScale`, the unit stored in the record is the `real_units` string
returned by `CalculateBaseUnitScale`. In column mode the expression
`(scale != 0.0) ? scale : CalculateAutoRangeUnitScale(units, out, ...)` yields that same scale
and leaves its output string alone, so `limit_units`, initialised with the declared unit, is
printed verbatim as the unit label of the line. -/
theorem C9_autoscaling_disabled (d : ParametricTestData) (L : Lib) (parent : ST_Datalog)
    (fo : Bool) (h : parent.UnitAutoscaling = false) :
    d.asciiScale L parent
      = (if (L.CalculateUnitScale d.PData.Units).1 = 0 then 1
         else (L.CalculateUnitScale d.PData.Units).1) ∧
    d.stdfScale L parent
      = (if (L.CalculateBaseUnitScale d.PData.Units).1 = 0 then 1
         else (L.CalculateBaseUnitScale d.PData.Units).1) ∧
    (d.rowCalls L parent fo).map (fun a => (a.scale, a.units))
      = (d.fsites fo).map
          (fun _ => (d.asciiScale L parent, (L.CalculateUnitScale d.PData.Units).2)) ∧
    (d.ptrRecords L parent fo).map (fun r => (r.resultScale, r.loScale, r.hiScale, r.units))
      = ((d.fsites fo).filter (fun s => (d.PData.BaseSData ParamKind.Test s).Valid)).map
          (fun _ => (1 / d.stdfScale L parent, 1 / d.stdfScale L parent,
            1 / d.stdfScale L parent, (L.CalculateBaseUnitScale d.PData.Units).2)) ∧
    (∀ out TV LL HL, ParametricTestData.realScale L (d.asciiScale L parent) d.PData.Units
        out TV LL HL = (d.asciiScale L parent, out)) := by
  have hA := fixScale_autoscaling_off parent h (L.CalculateUnitScale d.PData.Units).1
  have hS := fixScale_autoscaling_off parent h (L.CalculateBaseUnitScale d.PData.Units).1
  refine ⟨hA.1, hS.1, ?_, ?_, ?_⟩
  · exact rowCallsFrom_scale_units d L parent _ _ hA.2 _ _
  · exact ptrFrom_scale_units d L parent _ _ _ hS.2 _ _
  · intro out TV LL HL
    exact realScale_of_ne_zero L _ hA.2 _ _ _ _ _

/-- C9 (witness): the amended statement at `exMilli` with the default attributes. -/
theorem C9_autoscaling_disabled_witness :
    ST_Datalog.init.UnitAutoscaling = false ∧
    exMilli.asciiScale exLib ST_Datalog.init
      = (if (exLib.CalculateUnitScale exMilli.PData.Units).1 = 0 then 1
         else (exLib.CalculateUnitScale exMilli.PData.Units).1) :=
  ⟨rfl, (C9_autoscaling_disabled exMilli exLib ST_Datalog.init false rfl).1⟩

theorem ptrFrom_scales (d : ParametricTestData) (L : Lib) (parent : ST_Datalog)
    (tdesc : Option String) (su : String) (scale : Rat) (ru : String) (sites : Sites) :
    ∀ r ∈ ParametricTestData.ptrFrom d L parent tdesc su scale ru sites,
      ∃ out, ∀ q ∈ (STDFRecord.PTR r).scales,
        q = ParametricTestData.invertScale
          (ParametricTestData.realScale L scale d.PData.Units out r.value r.loLimit
            r.hiLimit).1 := by
  induction sites generalizing ru with
  | nil => simp [ParametricTestData.ptrFrom]
  | cons s rest ih =>
    intro r hr
    by_cases hv : (d.PData.BaseSData ParamKind.Test s).Valid = true
    · simp only [ParametricTestData.ptrFrom, hv, if_true, List.mem_cons] at hr
      rcases hr with h | h
      · subst h
        exact ⟨ru, by simp [STDFRecord.scales]⟩
      · exact ih _ r h
    · simp only [ParametricTestData.ptrFrom, hv, Bool.false_eq_true, if_false] at hr
      exact ih _ r hr

theorem perPinLoop_scales (d : ParametricTestDataArray) (tdesc : Option String)
    (units : String) (real_scale : Rat) (fmt : String) (nl nh : Nat) (site : SITE)
    (BV : BasicVar) (iis : List Nat) :
    ∀ r ∈ ParametricTestDataArray.perPinLoop d tdesc units real_scale fmt nl nh site BV iis,
      ∀ q ∈ (STDFRecord.PTR r).scales, q = real_scale := by
  induction iis generalizing BV with
  | nil => simp [ParametricTestDataArray.perPinLoop]
  | cons ii rest ih =>
    intro r hr
    by_cases hv : (d.PData.SData BV ParamKind.Test ii site).Valid = true
    · simp only [ParametricTestDataArray.perPinLoop, hv, if_true, List.mem_cons] at hr
      rcases hr with h | h
      · subst h
        simp [STDFRecord.scales]
      · exact ih _ r h
    · simp only [ParametricTestDataArray.perPinLoop, hv, Bool.false_eq_true, if_false] at hr
      exact ih _ r hr

theorem recordsFrom_scales (d : ParametricTestDataArray) (L : Lib) (tdesc : Option String)
    (real_units : String) (scale : Rat) (str : String) (sites : Sites) :
    ∀ r ∈ ParametricTestDataArray.recordsFrom d L tdesc real_units scale str sites,
      ∃ out site, site ∈ sites ∧ ∀ q ∈ r.scales,
        q = ParametricTestData.invertScale
          (ParametricTestData.realScale L scale real_units out
            (d.PData.BaseS1DData ParamKind.Test site)
            (d.PData.BaseS1DData ParamKind.LowLimit site)
            (d.PData.BaseS1DData ParamKind.HighLimit site)).1 := by
  induction sites generalizing str with
  | nil => simp [ParametricTestDataArray.recordsFrom]
  | cons s rest ih =>
    intro r hr
    simp only [ParametricTestDataArray.recordsFrom, List.mem_append] at hr
    rcases hr with h | h
    · refine ⟨str, s, List.mem_cons_self _ _, ?_⟩
      unfold ParametricTestDataArray.siteRecords at h
      by_cases hp : PerPinLimits (d.PData.BaseS1DData ParamKind.LowLimit s)
          (d.PData.BaseS1DData ParamKind.HighLimit s) = true
      · simp only [hp, if_true, List.mem_map] at h
        obtain ⟨p, hp1, hp2⟩ := h
        subst hp2
        exact perPinLoop_scales d _ _ _ _ _ _ s _ _ p hp1
      · simp only [hp, Bool.false_eq_true, if_false, List.mem_singleton] at h
        subst h
        simp [STDFRecord.scales]
    · obtain ⟨out, site, hs, hq⟩ := ih _ r h
      exact ⟨out, site, List.mem_cons_of_mem _ hs, hq⟩

/-- C10 (counterexample). With `UnitAutoscaling` enabled and a declared unit for which
`CalculateBaseUnitScale` returns 0.0, the scale handed to the PTR record is the reciprocal of
the autorange scale 1000, not the base-unit scale. -/
theorem C10_counterexample :
    exParentAuto.UnitAutoscaling = true ∧
    (exLib.CalculateBaseUnitScale exUnknownUnit.PData.Units).1 = 0 ∧
    (exLib.CalculateAutoRangeUnitScale exUnknownUnit.PData.Units ""
        (exUnknownUnit.PData.BaseSData ParamKind.Test 1)
        (exUnknownUnit.PData.BaseSData ParamKind.LowLimit 1)
        (exUnknownUnit.PData.BaseSData ParamKind.HighLimit 1)).1 = 1000 ∧
    (exUnknownUnit.ptrRecords exLib exParentAuto false).map
        (fun r => (r.resultScale, r.loScale, r.hiScale))
      = [(1 / 1000, 1 / 1000, 1 / 1000)] ∧
    ¬ (∀ r ∈ exUnknownUnit.ptrRecords exLib exParentAuto false,
        r.resultScale = (exLib.CalculateBaseUnitScale exUnknownUnit.PData.Units).1 ∨
        r.resultScale = 1 / (exLib.CalculateBaseUnitScale exUnknownUnit.PData.Units).1) := by
  have hrec : (exUnknownUnit.ptrRecords exLib exParentAuto false).map
        (fun r => (r.resultScale, r.loScale, r.hiScale))
      = [(1 / 1000, 1 / 1000, 1 / 1000)] := by
    simp [ParametricTestData.ptrRecords, ParametricTestData.ptrFrom, ParametricTestData.fsites,
      ParametricTestData.stdfScale, ParametricTestData.fixScale, ParametricTestData.realScale,
      ParametricTestData.invertScale, exLib, exUnknownUnit, exParentAuto, exFloat,
      BasicVar.Valid]
  have hbase : (exLib.CalculateBaseUnitScale exUnknownUnit.PData.Units).1 = 0 := by
    simp [exLib, exUnknownUnit]
  refine ⟨rfl, hbase, by simp [exLib], hrec, ?_⟩
  intro hall
  have hlen : (exUnknownUnit.ptrRecords exLib exParentAuto false).length = 1 := by decide
  match hrc : exUnknownUnit.ptrRecords exLib exParentAuto false, hlen with
  | [r], _ =>
    have hr := hall r (by rw [hrc]; exact List.mem_singleton.mpr rfl)
    rw [hrc] at hrec
    simp only [List.map_cons, List.map_nil, List.cons.injEq, Prod.mk.injEq, and_true] at hrec
    rw [hbase, hrec.1] at hr
    norm_num at hr

/-- C10 (amended). The scale handed to the binary records, the same for the value and for
both limits, is the reciprocal of the base-unit scale (the result of `CalculateBaseUnitScale`,
replaced by 1.0 when it is 0.0 and autoscaling is off) whenever that scale is not zero. The
scale is zero exactly when `CalculateBaseUnitScale` returns 0.0 and autoscaling is on, and in
that case the records carry the reciprocal of the autorange scale
(`CalculateAutoRangeUnitScale` on the value and the limits of the site), or 0.0 when the
autorange scale is 0.0 too. This holds for the PTR records of `ParametricTestData` and for the
MPR and PTR records of `ParametricTestDataArray`. -/
theorem C10_binary_scale (d : ParametricTestData) (a : ParametricTestDataArray) (L : Lib)
    (parent : ST_Datalog) (fo : Bool) :
    (d.stdfScale L parent = 0 ↔
      ((L.CalculateBaseUnitScale d.PData.Units).1 = 0 ∧ parent.UnitAutoscaling = true)) ∧
    (a.stdfScale L parent = 0 ↔
      ((L.CalculateBaseUnitScale a.PData.Units).1 = 0 ∧ parent.UnitAutoscaling = true)) ∧
    (d.stdfScale L parent ≠ 0 →
      ∀ r ∈ d.ptrRecords L parent fo, ∀ q ∈ (STDFRecord.PTR r).scales,
        q = 1 / d.stdfScale L parent) ∧
    (d.stdfScale L parent = 0 →
      ∀ r ∈ d.ptrRecords L parent fo, ∃ out, ∀ q ∈ (STDFRecord.PTR r).scales,
        q = ParametricTestData.invertScale
          (L.CalculateAutoRangeUnitScale d.PData.Units out r.value r.loLimit r.hiLimit).1) ∧
    (a.stdfScale L parent ≠ 0 →
      ∀ r ∈ a.stdfRecords L parent fo, ∀ q ∈ r.scales, q = 1 / a.stdfScale L parent) ∧
    (a.stdfScale L parent = 0 →
      ∀ r ∈ a.stdfRecords L parent fo, ∃ out site, site ∈ a.ctx.DlogSites ∧ ∀ q ∈ r.scales,
        q = ParametricTestData.invertScale
          (L.CalculateAutoRangeUnitScale (a.stdfRealUnits L) out
            (a.PData.BaseS1DData ParamKind.Test site)
            (a.PData.BaseS1DData ParamKind.LowLimit site)
            (a.PData.BaseS1DData ParamKind.HighLimit site)).1) := by
  refine ⟨fixScale_eq_zero_iff parent _, fixScale_eq_zero_iff parent _, ?_, ?_, ?_, ?_⟩
  · intro h r hr
    obtain ⟨out, hq⟩ := ptrFrom_scales d L parent _ _ _ _ _ r hr
    intro q hqm
    rw [hq q hqm, realScale_of_ne_zero L _ h, invertScale_of_ne_zero _ h]
  · intro h r hr
    obtain ⟨out, hq⟩ := ptrFrom_scales d L parent _ _ _ _ _ r hr
    refine ⟨out, fun q hqm => ?_⟩
    rw [hq q hqm, h]
    simp [ParametricTestData.realScale]
  · intro h r hr
    obtain ⟨out, site, _, hq⟩ := recordsFrom_scales a L _ _ _ _ _ r hr
    intro q hqm
    rw [hq q hqm, realScale_of_ne_zero L _ h, invertScale_of_ne_zero _ h]
  · intro h r hr
    obtain ⟨out, site, hs, hq⟩ := recordsFrom_scales a L _ _ _ _ _ r hr
    refine ⟨out, site, hs, fun q hqm => ?_⟩
    rw [hq q hqm, h]
    simp [ParametricTestData.realScale]

/-- C10 (witness): the amended statement at scenario A and `exArr`, whose unit "V" has the
base-unit scale 1. -/
theorem C10_binary_scale_witness :
    exA.stdfScale exLib ST_Datalog.init ≠ 0 ∧
    (∀ r ∈ exA.ptrRecords exLib ST_Datalog.init false, ∀ q ∈ (STDFRecord.PTR r).scales,
      q = 1 / exA.stdfScale exLib ST_Datalog.init) :=
  ⟨by simp [ParametricTestData.stdfScale, ParametricTestData.fixScale, exLib, exA],
    (C10_binary_scale exA exArr exLib ST_Datalog.init false).2.2.1
      (by simp [ParametricTestData.stdfScale, ParametricTestData.fixScale, exLib, exA])⟩


/-! ## C11: a zero scale is never a divisor -/

theorem invertScaleChecked_eq (x : Rat) :
    ParametricTestData.invertScaleChecked x = some (ParametricTestData.invertScale x) := by
  by_cases hx : x = 0
  · simp [ParametricTestData.invertScaleChecked, ParametricTestData.invertScale, hx]
  · simp [ParametricTestData.invertScaleChecked, ParametricTestData.invertScale, hx, checkedDiv]

/-- C11. A zero unit scale never causes a division by zero in the parametric formatters. The
replacement made by both `FormatASCII` and both `FormatSTDFV4` methods turns the scale 0.0
into 1.0 exactly when `UnitAutoscaling` is off and leaves every other scale alone. The
reciprocal taken by the STDF encoders, with the division as an operation that fails on a zero
divisor, always succeeds: it yields `1 / scale` for a non-zero scale and passes 0.0 through
unchanged. Every scale factor stored in a PTR or MPR record written by
`ParametricTestData::FormatSTDFV4` or `ParametricTestDataArray::FormatSTDFV4` is the result
of that checked reciprocal. -/
theorem C11_zero_scale_never_divides (d : ParametricTestData) (da : ParametricTestDataArray)
    (L : Lib) (parent : ST_Datalog) (fo : Bool) (x : Rat) :
    (ParametricTestData.fixScale parent 0 = 1 ↔ parent.UnitAutoscaling = false) ∧
    (ParametricTestData.fixScale parent 0 = 0 ↔ parent.UnitAutoscaling = true) ∧
    (x ≠ 0 → ParametricTestData.fixScale parent x = x) ∧
    (∃ y, ParametricTestData.invertScaleChecked x = some y) ∧
    (x ≠ 0 → ParametricTestData.invertScaleChecked x = some (1 / x)) ∧
    ParametricTestData.invertScaleChecked 0 = some 0 ∧
    (∀ r ∈ d.ptrRecords L parent fo, ∃ out, ∀ q ∈ (STDFRecord.PTR r).scales,
      ParametricTestData.invertScaleChecked
        (ParametricTestData.realScale L (d.stdfScale L parent) d.PData.Units out r.value
          r.loLimit r.hiLimit).1 = some q) ∧
    (∀ r ∈ da.stdfRecords L parent fo, ∃ out site, site ∈ da.ctx.DlogSites ∧
      ∀ q ∈ r.scales,
        ParametricTestData.invertScaleChecked
          (ParametricTestData.realScale L (da.stdfScale L parent) (da.stdfRealUnits L) out
            (da.PData.BaseS1DData ParamKind.Test site)
            (da.PData.BaseS1DData ParamKind.LowLimit site)
            (da.PData.BaseS1DData ParamKind.HighLimit site)).1 = some q) := by
  refine ⟨?_, ?_, ?_, ⟨_, invertScaleChecked_eq x⟩, ?_, ?_, ?_, ?_⟩
  · cases ha : parent.UnitAutoscaling <;> simp [ParametricTestData.fixScale, ha]
  · cases ha : parent.UnitAutoscaling <;> simp [ParametricTestData.fixScale, ha]
  · intro hx
    simp [ParametricTestData.fixScale, hx]
  · intro hx
    rw [invertScaleChecked_eq, invertScale_of_ne_zero x hx]
  · simp [ParametricTestData.invertScaleChecked]
  · intro r hr
    obtain ⟨out, h⟩ := ptrFrom_scales d L parent _ _ _ _ _ r hr
    exact ⟨out, fun q hq => by rw [invertScaleChecked_eq, h q hq]⟩
  · intro r hr
    obtain ⟨out, site, hs, h⟩ := recordsFrom_scales da L _ _ _ _ _ r hr
    exact ⟨out, site, hs, fun q hq => by rw [invertScaleChecked_eq, h q hq]⟩

/-- C11 (witness): the statement at the scale 1000, whose reciprocal is taken, next to the
scale 0.0, which is passed through. -/
theorem C11_zero_scale_never_divides_witness :
    (1000 : Rat) ≠ 0 ∧
    ParametricTestData.invertScaleChecked 1000 = some (1 / 1000) ∧
    ParametricTestData.invertScaleChecked 0 = some 0 :=
  ⟨by norm_num,
    (C11_zero_scale_never_divides exUnknownUnit exArr exLib exParentAuto false 1000).2.2.2.2.1
      (by norm_num),
    (C11_zero_scale_never_divides exUnknownUnit exArr exLib exParentAuto false 1000).2.2.2.2.2.1⟩


/-! ## C15: row mode of the parametric ASCII formatter -/

theorem PrintValue_text (L : Lib) (o : OStream) (ty : SV_TYPE) (Val : BasicVar)
    (units : String) (w : Int) (scale : Rat) (su : Bool) (ipw : Int) :
    ∃ t, (PrintValue L o ty Val units w scale su ipw).text = o.text ++ t := by
  unfold PrintValue
  by_cases hv : Val.Valid = true
  · simp only [hv, if_true]
    cases hf : L.FormatSVData ty Val (if su = true then w else w - ↑units.length) scale ipw with
    | none => exact ⟨_, rfl⟩
    | some str =>
      cases su
      · exact ⟨padField Adjust.right (w - units.length) str ++
          (padField Adjust.left units.length units ++ padField Adjust.left 2 " "), by
          simp [OStream.putw, OStream.setLeft, OStream.setRight, String.append_assoc]⟩
      · exact ⟨padField Adjust.right w str ++ padField Adjust.left 2 " ", by
          simp [OStream.putw, OStream.setLeft, OStream.setRight, String.append_assoc]⟩
  · simp only [hv, Bool.false_eq_true, if_false]
    exact ⟨_, rfl⟩

theorem OutputParametricSiteASCII_text (L : Lib) (o : OStream) (a : SiteLineArgs) :
    ∃ rest, (OutputParametricSiteASCII L o a).text
      = o.text ++ padField Adjust.right TNSize (toString a.TestID) ++ padField Adjust.right 2 " "
        ++ padField Adjust.right 3 (PFMarker a.Res a.pass_string) ++ rest ++ "\n" := by
  unfold OutputParametricSiteASCII
  dsimp only
  generalize ho1 : ((((((o.setRight.putw TNSize (toString a.TestID)).putw 2 " ").putw 3
      (PFMarker a.Res a.pass_string)).putw 2 " ").setRight.putw 4 (toString a.site)).putw 2 " ")
    = o1
  have h0 : o1.text = o.text ++ (padField Adjust.right TNSize (toString a.TestID) ++
      (padField Adjust.right 2 " " ++ (padField Adjust.right 3 (PFMarker a.Res a.pass_string) ++
      (padField Adjust.right 2 " " ++ (padField Adjust.right 4 (toString a.site) ++
        padField Adjust.right 2 " "))))) := by
    rw [← ho1]
    simp [OStream.putw, OStream.setRight, String.append_assoc]
  obtain ⟨t1, h1⟩ := PrintValue_text L o1 (varType a.TV a.LL a.HL) a.LL a.units a.field_width
    a.scale a.separate_units a.int_part_width
  generalize PrintValue L o1 (varType a.TV a.LL a.HL) a.LL a.units a.field_width
    a.scale a.separate_units a.int_part_width = o2 at h1 ⊢
  obtain ⟨t2, h2⟩ := PrintValue_text L o2 (varType a.TV a.LL a.HL) a.TV a.units a.field_width
    a.scale a.separate_units a.int_part_width
  generalize PrintValue L o2 (varType a.TV a.LL a.HL) a.TV a.units a.field_width
    a.scale a.separate_units a.int_part_width = o3 at h2 ⊢
  obtain ⟨t3, h3⟩ := PrintValue_text L o3 (varType a.TV a.LL a.HL) a.HL a.units a.field_width
    a.scale a.separate_units a.int_part_width
  generalize PrintValue L o3 (varType a.TV a.LL a.HL) a.HL a.units a.field_width
    a.scale a.separate_units a.int_part_width = o4 at h3 ⊢
  cases a.separate_units
  · refine ⟨padField Adjust.right 2 " " ++ (padField Adjust.right 4 (toString a.site) ++
      (padField Adjust.right 2 " " ++ (t1 ++ (t2 ++ (t3 ++
        (padField Adjust.left PGSize (L.FormatPins a.pins PGSize) ++
          (padField Adjust.left 2 " " ++ showStringS a.comment))))))), ?_⟩
    simp [OStream.endl, OStream.put, OStream.putw, OStream.setLeft, h3, h2, h1, h0,
      String.append_assoc]
  · refine ⟨padField Adjust.right 2 " " ++ (padField Adjust.right 4 (toString a.site) ++
      (padField Adjust.right 2 " " ++ (t1 ++ (t2 ++ (t3 ++
        (padField Adjust.left 8 a.units ++ (padField Adjust.left 2 " " ++
        (padField Adjust.left PGSize (L.FormatPins a.pins PGSize) ++
          (padField Adjust.left 2 " " ++ showStringS a.comment))))))))), ?_⟩
    simp [OStream.endl, OStream.put, OStream.putw, OStream.setLeft, h3, h2, h1, h0,
      String.append_assoc]

theorem rowCallsFrom_args (d : ParametricTestData) (L : Lib) (parent : ST_Datalog)
    (tdesc : Option String) (scale : Rat) (ru : String) (sites : Sites) :
    ∀ a ∈ ParametricTestData.rowCallsFrom d L parent tdesc scale ru sites,
      a.Res = d.PData.Result a.site ∧ a.pass_string = parent.PassString ∧
      a.TestID = d.PData.TestID := by
  induction sites generalizing ru with
  | nil => simp [ParametricTestData.rowCallsFrom]
  | cons s rest ih =>
    intro a ha
    simp only [ParametricTestData.rowCallsFrom, List.mem_cons] at ha
    rcases ha with h | h
    · subst h
      exact ⟨rfl, rfl, rfl⟩
    · exact ih _ a h

/-- C15. In row mode (`ASCIIDatalogInColumns` off) `ParametricTestData::FormatASCII` is the
optional header followed by one call of `OutputParametricSiteASCII` per element of `rowCalls`.
Without `fail_only_mode` the sites of these calls are the tested sites, in their order; with
`fail_only_mode` they are the tested sites whose result is `TM_FAIL`, in their order, so a
tested site has a line if and only if its result is fail. Every call writes one line that
starts with the test number and then the pass/fail marker of the site's result, and the marker
is the configured pass string for `TM_PASS`, "*F*" for `TM_FAIL` and three blanks otherwise. -/
theorem C15_row_mode_lines (d : ParametricTestData) (L : Lib) (parent : ST_Datalog)
    (env : SiteEnv) (fo : Bool) (o : OStream) (hrow : parent.ASCIIDatalogInColumns = false) :
    d.FormatASCII L parent env fo o
      = (d.rowCalls L parent fo).foldl (OutputParametricSiteASCII L)
          (if parent.LastFormatEvent ≠ SystemEvents.ParametricTest ∧
              parent.LastFormatEvent ≠ SystemEvents.ParametricTestArray then
            OutputParametricHeader o env.LoadedSites parent.FieldWidth false false
          else o) ∧
    (d.rowCalls L parent false).map (fun a => a.site) = d.ctx.DlogSites ∧
    (d.rowCalls L parent true).map (fun a => a.site)
      = d.ctx.DlogSites.filter (fun s => decide (d.PData.Result s = TM_RESULT.TM_FAIL)) ∧
    (∀ s, s ∈ (d.rowCalls L parent true).map (fun a => a.site)
      ↔ s ∈ d.ctx.DlogSites ∧ d.PData.Result s = TM_RESULT.TM_FAIL) ∧
    (∀ a ∈ d.rowCalls L parent fo, ∀ o1 : OStream, ∃ rest,
      (OutputParametricSiteASCII L o1 a).text
        = o1.text ++ padField Adjust.right TNSize (toString d.PData.TestID)
          ++ padField Adjust.right 2 " "
          ++ padField Adjust.right 3 (PFMarker (d.PData.Result a.site) parent.PassString)
          ++ rest ++ "\n") ∧
    (∀ ps, PFMarker TM_RESULT.TM_PASS ps = ps ∧ PFMarker TM_RESULT.TM_FAIL ps = "*F*" ∧
      PFMarker TM_RESULT.TM_NOTEST ps = "   ") := by
  have hT : (d.rowCalls L parent true).map (fun a => a.site)
      = d.ctx.DlogSites.filter (fun s => decide (d.PData.Result s = TM_RESULT.TM_FAIL)) := by
    unfold ParametricTestData.rowCalls
    rw [rowCallsFrom_sites]
    rfl
  refine ⟨ParametricTestData_FormatASCII_rows d L parent env fo o hrow, ?_, hT, ?_, ?_, ?_⟩
  · unfold ParametricTestData.rowCalls
    rw [rowCallsFrom_sites]
    simp [ParametricTestData.fsites]
  · intro s
    rw [hT]
    simp [List.mem_filter]
  · intro a ha o1
    obtain ⟨h1, h2, h3⟩ := rowCallsFrom_args d L parent _ _ _ _ a ha
    obtain ⟨rest, hr⟩ := OutputParametricSiteASCII_text L o1 a
    exact ⟨rest, by rw [hr, h1, h2, h3]⟩
  · intro ps
    exact ⟨rfl, rfl, rfl⟩

/-- C15 (witness): the statement at scenario A with the default attributes, which select row
mode. -/
theorem C15_row_mode_lines_witness :
    ST_Datalog.init.ASCIIDatalogInColumns = false ∧
    (exA.rowCalls exLib ST_Datalog.init true).map (fun a => a.site)
      = exA.ctx.DlogSites.filter (fun s => decide (exA.PData.Result s = TM_RESULT.TM_FAIL)) :=
  ⟨rfl, (C15_row_mode_lines exA exLib ST_Datalog.init exEnv1 true exOut rfl).2.2.1⟩


/-! ## C12: the cells of a column-mode line -/

theorem blanks_length (n : Nat) : (blanks n).length = n := by
  simp [blanks, String.length]

theorem padField_blank (a : Adjust) (w : Int) : padField a w " " = blanks (max 1 w.toNat) := by
  have hone : (" " : String) = blanks 1 := rfl
  have hadd : ∀ m n : Nat, blanks m ++ blanks n = blanks (m + n) := by
    intro m n
    apply String.ext
    rw [String.data_append]
    show List.replicate m ' ' ++ List.replicate n ' ' = List.replicate (m + n) ' '
    exact (List.replicate_add m n ' ').symm
  have hlen : (" " : String).length = 1 := rfl
  cases a
  · simp only [padField, hlen]
    rw [hone, hadd]
    congr 1
    omega
  · simp only [padField, hlen]
    rw [hone, hadd]
    congr 1
    omega

theorem padField_length (a : Adjust) (w : Int) (s : String) :
    (padField a w s).length = max w.toNat s.length := by
  cases a <;> simp only [padField, String.length_append, blanks_length] <;> omega

theorem foldl_max_le (l : List Nat) (b m : Nat) (hb : b ≤ m) (h : ∀ s ∈ l, s ≤ m) :
    l.foldl max b ≤ m := by
  induction l generalizing b with
  | nil => simpa using hb
  | cons a l ih =>
    simp only [List.foldl_cons]
    exact ih (max b a) (max_le hb (h a (List.mem_cons_self _ _)))
      (fun s hs => h s (List.mem_cons_of_mem _ hs))

theorem GetLargestSite_append_last (l : List Nat) (z : Nat) (h : ∀ s ∈ l, s ≤ z) :
    Sites.GetLargestSite (l ++ [z]) = z := by
  unfold Sites.GetLargestSite
  rw [List.foldl_append]
  simp only [List.foldl_cons, List.foldl_nil]
  exact max_eq_right (foldl_max_le l 0 z (Nat.zero_le _) h)

/-- Loop over the loaded sites of a column-mode line when no site of the list is the first
or the last loaded site: only the cells are written. -/
theorem colFold_plain (start fin blank : OStream → OStream)
    (pop : ParametricTestData.ColState → SITE → ParametricTestData.ColState)
    (first last : SITE) (l : Sites) (h : ∀ s ∈ l, s ≠ first ∧ s ≠ last)
    (st : ParametricTestData.ColState) :
    l.foldl (fun (st : ParametricTestData.ColState) site =>
        let o := if site = first then start st.out else st.out
        let st1 : ParametricTestData.ColState :=
          if site = Sites.beginValue st.tested then pop { st with out := o } site
          else { st with out := blank o }
        if site = last then { st1 with out := fin st1.out } else st1) st
      = l.foldl (fun (st : ParametricTestData.ColState) site =>
          if site = Sites.beginValue st.tested then pop st site
          else { st with out := blank st.out }) st := by
  induction l generalizing st with
  | nil => rfl
  | cons a l ih =>
    have ha := h a (List.mem_cons_self _ _)
    simp only [List.foldl_cons, ha.1, ha.2, if_false]
    exact ih (fun s hs => h s (List.mem_cons_of_mem _ hs)) _

/-- Loop over the loaded sites of a column-mode line, the loaded sites being in strictly
ascending order: the line start is written once before the first cell and the line end once
after the last cell. -/
theorem colFold_skeleton (start fin blank : OStream → OStream)
    (pop : ParametricTestData.ColState → SITE → ParametricTestData.ColState)
    (a : SITE) (l : Sites) (hsorted : List.Pairwise (fun x y => x < y) (a :: l))
    (st : ParametricTestData.ColState) :
    (a :: l).foldl (fun (st : ParametricTestData.ColState) site =>
        let o := if site = Sites.beginValue (a :: l) then start st.out else st.out
        let st1 : ParametricTestData.ColState :=
          if site = Sites.beginValue st.tested then pop { st with out := o } site
          else { st with out := blank o }
        if site = Sites.GetLargestSite (a :: l) then { st1 with out := fin st1.out } else st1) st
      = { (a :: l).foldl (fun (st : ParametricTestData.ColState) site =>
            if site = Sites.beginValue st.tested then pop st site
            else { st with out := blank st.out }) { st with out := start st.out } with
          out := fin ((a :: l).foldl (fun (st : ParametricTestData.ColState) site =>
            if site = Sites.beginValue st.tested then pop st site
            else { st with out := blank st.out }) { st with out := start st.out }).out } := by
  have hfirst : Sites.beginValue (a :: l) = a := rfl
  rcases List.eq_nil_or_concat l with hl | ⟨init, z, hl⟩
  · subst hl
    have hlast : Sites.GetLargestSite [a] = a := by simp [Sites.GetLargestSite]
    simp only [List.foldl_cons, List.foldl_nil, hfirst, hlast, if_true]
  · rw [List.concat_eq_append] at hl
    subst hl
    have hp := List.pairwise_cons.mp hsorted
    have hp2 := List.pairwise_append.mp hp.2
    have hlast : Sites.GetLargestSite (a :: (init ++ [z])) = z := by
      have := GetLargestSite_append_last (a :: init) z (by
        intro s hs
        rcases List.mem_cons.mp hs with h | h
        · subst h
          exact Nat.le_of_lt (hp.1 z (by simp))
        · exact Nat.le_of_lt (hp2.2.2 s h z (by simp)))
      simpa using this
    have haz : a ≠ z := Nat.ne_of_lt (hp.1 z (by simp))
    have hinit : ∀ s ∈ init, s ≠ a ∧ s ≠ z := by
      intro s hs
      exact ⟨Nat.ne_of_gt (hp.1 s (by simp [hs])), Nat.ne_of_lt (hp2.2.2 s hs z (by simp))⟩
    have hza : z ≠ a := fun h => haz h.symm
    rw [hfirst, hlast]
    simp only [List.foldl_cons, List.foldl_append, List.foldl_nil, if_true, haz, hza, if_false]
    rw [colFold_plain start fin blank pop a z init hinit]

/-- Cells of a column-mode line. When the tested sites are a sub-sequence of the loaded sites,
no loaded site is listed twice and none is site 0, the loop writes one cell per loaded site, in
order: the blank cell `B` for a site that is not tested and a populated cell for a tested
one. -/
theorem colFold_cells (blank : OStream → OStream)
    (pop : ParametricTestData.ColState → SITE → ParametricTestData.ColState)
    (B : String) (Q : SITE → String → Prop)
    (hblank : ∀ o, (blank o).text = o.text ++ B)
    (hpop : ∀ st s, (pop st s).tested = st.tested.tail ∧
      ∃ c, (pop st s).out.text = st.out.text ++ c ∧ Q s c)
    (T l t : Sites) (hsub : List.Sublist t l) (hnd : l.Nodup) (h0 : ∀ s ∈ l, s ≠ 0)
    (hT : ∀ s ∈ l, (s ∈ T ↔ s ∈ t))
    (st : ParametricTestData.ColState) (ht : st.tested = t) :
    ∃ cells : List String,
      List.Forall₂ (fun s c => (s ∉ T → c = B) ∧ (s ∈ T → Q s c)) l cells ∧
      (l.foldl (fun (st : ParametricTestData.ColState) site =>
          if site = Sites.beginValue st.tested then pop st site
          else { st with out := blank st.out }) st).out.text
        = cells.foldl (fun acc c => acc ++ c) st.out.text := by
  induction hsub generalizing st with
  | slnil => exact ⟨[], List.Forall₂.nil, rfl⟩
  | @cons t l a hsub ih =>
    have hnd2 := List.nodup_cons.mp hnd
    have hat : a ∉ t := fun h => hnd2.1 (hsub.subset h)
    have hne : a ≠ Sites.beginValue st.tested := by
      rw [ht]
      cases t with
      | nil => exact h0 a (List.mem_cons_self _ _)
      | cons b t =>
        intro h
        exact hat (by rw [h]; exact List.mem_cons_self _ _)
    obtain ⟨cells, hc, htext⟩ := ih hnd2.2 (fun s hs => h0 s (List.mem_cons_of_mem _ hs))
      (fun s hs => hT s (List.mem_cons_of_mem _ hs)) { st with out := blank st.out } ht
    refine ⟨B :: cells, List.Forall₂.cons ⟨fun _ => rfl, fun h => ?_⟩ hc, ?_⟩
    · exact absurd ((hT a (List.mem_cons_self _ _)).mp h) hat
    · simp only [List.foldl_cons, hne, if_false]
      rw [htext, hblank]
  | @cons₂ t l a hsub ih =>
    have hnd2 := List.nodup_cons.mp hnd
    have heq : a = Sites.beginValue st.tested := by
      rw [ht]
      rfl
    obtain ⟨htail, c, hctext, hQ⟩ := hpop st a
    have ht2 : (pop st a).tested = t := by
      rw [htail, ht]
      rfl
    obtain ⟨cells, hc, htext⟩ := ih hnd2.2 (fun s hs => h0 s (List.mem_cons_of_mem _ hs))
      (fun s hs => by
        rw [hT s (List.mem_cons_of_mem _ hs), List.mem_cons]
        constructor
        · rintro (h | h)
          · exact absurd (h ▸ hs) hnd2.1
          · exact h
        · exact fun h => Or.inr h) (pop st a) ht2
    refine ⟨c :: cells, List.Forall₂.cons ⟨fun h => ?_, fun _ => hQ⟩ hc, ?_⟩
    · exact absurd ((hT a (List.mem_cons_self _ _)).mpr (List.mem_cons_self _ _)) h
    · simp only [List.foldl_cons]
      rw [if_pos heq, htext, hctext]

/-- Line of a column-mode block: line start, one cell per loaded site, line end. -/
theorem colFold_line (start fin blank : OStream → OStream)
    (pop : ParametricTestData.ColState → SITE → ParametricTestData.ColState)
    (B : String) (Q : SITE → String → Prop)
    (hblank : ∀ o, (blank o).text = o.text ++ B)
    (hpop : ∀ st s, (pop st s).tested = st.tested.tail ∧
      ∃ c, (pop st s).out.text = st.out.text ++ c ∧ Q s c)
    (a : SITE) (l t : Sites) (hsorted : List.Pairwise (fun x y => x < y) (a :: l))
    (h0 : ∀ s ∈ a :: l, s ≠ 0) (hsub : List.Sublist t (a :: l)) (ru : String) (o : OStream) :
    ∃ (cells : List String) (oc : OStream),
      List.Forall₂ (fun s c => (s ∉ t → c = B) ∧ (s ∈ t → Q s c)) (a :: l) cells ∧
      oc.text = cells.foldl (fun acc c => acc ++ c) (start o).text ∧
      ((a :: l).foldl (fun (st : ParametricTestData.ColState) site =>
        let o := if site = Sites.beginValue (a :: l) then start st.out else st.out
        let st1 : ParametricTestData.ColState :=
          if site = Sites.beginValue st.tested then pop { st with out := o } site
          else { st with out := blank o }
        if site = Sites.GetLargestSite (a :: l) then { st1 with out := fin st1.out } else st1)
        { out := o, tested := t, real_units := ru }).out = fin oc := by
  have hnd : (a :: l).Nodup := hsorted.imp (fun h => Nat.ne_of_lt h)
  obtain ⟨cells, hc, htext⟩ := colFold_cells blank pop B Q hblank hpop t (a :: l) t hsub hnd h0
    (fun _ _ => Iff.rfl) { out := start o, tested := t, real_units := ru } rfl
  refine ⟨cells, _, hc, htext, ?_⟩
  rw [colFold_skeleton start fin blank pop a l hsorted]

theorem blanks_append (m n : Nat) : blanks m ++ blanks n = blanks (m + n) := by
  apply String.ext
  rw [String.data_append]
  show List.replicate m ' ' ++ List.replicate n ' ' = List.replicate (m + n) ' '
  exact (List.replicate_add m n ' ').symm

/-- Blank cell of a column-mode line: `output << "    " << setw(field_width) << " " << "  "`
adds a run of `4 + field_width + 2` blanks. -/
theorem blank_cell_text (o : OStream) (fw : Int) (hfw : 1 ≤ fw) :
    (((o.put "    ").putw fw " ").put "  ").text = o.text ++ blanks (4 + fw.toNat + 2) := by
  have h4 : ("    " : String) = blanks 4 := rfl
  have h2 : ("  " : String) = blanks 2 := rfl
  have hm : max 1 fw.toNat = fw.toNat := by omega
  simp only [OStream.put, OStream.putw, padField_blank, hm, h4, h2, String.append_assoc,
    blanks_append]

/-- Value part of a populated cell: `PrintValue` with suppressed units appends one string to
the stream, and that string has `width + 2` characters when the library formats into the
requested width. -/
theorem PrintValue_cell (L : Lib) (o : OStream) (ty : SV_TYPE) (Val : BasicVar)
    (units : String) (w : Int) (hw : 0 ≤ w) (scale : Rat) (ipw : Int) :
    ∃ v, (PrintValue L o ty Val units w scale true ipw).text = o.text ++ v ∧
      ((∀ ty val sc ipw s, L.FormatSVData ty val w sc ipw = some s → s.length ≤ w.toNat) →
        v.length = w.toNat + 2) := by
  have hinv : (padField o.adjust (w + 2) " ").length = w.toNat + 2 := by
    rw [padField_length]
    have : (" " : String).length = 1 := rfl
    omega
  unfold PrintValue
  by_cases hv : Val.Valid = true
  · simp only [hv, if_true]
    cases hf : L.FormatSVData ty Val w scale ipw with
    | none => exact ⟨_, rfl, fun _ => hinv⟩
    | some str =>
      refine ⟨padField Adjust.right w str ++ padField Adjust.left 2 " ", ?_, ?_⟩
      · simp [OStream.putw, OStream.setLeft, OStream.setRight, String.append_assoc]
      · intro hc
        have := hc ty Val scale ipw str hf
        rw [String.length_append, padField_length, padField_length]
        have h1 : (" " : String).length = 1 := rfl
        have h2 : (2 : Int).toNat = 2 := rfl
        omega
  · simp only [hv, Bool.false_eq_true, if_false]
    exact ⟨_, rfl, fun _ => hinv⟩

/-- Column-oriented section of `ParametricTestData::FormatASCII` as line start, cells and
line end. -/
theorem ParametricTestData_column_cells (d : ParametricTestData) (L : Lib)
    (parent : ST_Datalog) (env : SiteEnv) (fo : Bool) (o : OStream)
    (hsorted : List.Pairwise (fun x y => x < y) env.LoadedSites)
    (hne : env.LoadedSites ≠ [])
    (h0 : ∀ s ∈ env.LoadedSites, s ≠ 0)
    (hsub : List.Sublist d.ctx.DlogSites env.LoadedSites)
    (hfw : 1 ≤ parent.FieldWidth) :
    ∃ (cells : List String) (oc : OStream),
      List.Forall₂ (fun site cell =>
        (site ∉ d.fsites fo → cell = blanks (4 + parent.FieldWidth.toNat + 2)) ∧
        (site ∈ d.fsites fo → ∃ v,
          cell = PFMarker (d.PData.Result site) parent.PassString ++ " " ++ v ∧
          (∃ o1 ru sc, (PrintValue L o1
              (varType (d.PData.BaseSData ParamKind.Test site)
                (d.PData.BaseSData ParamKind.LowLimit (d.limitSite fo))
                (d.PData.BaseSData ParamKind.HighLimit (d.limitSite fo)))
              (d.PData.BaseSData ParamKind.Test site) ru parent.FieldWidth sc true
              parent.GetIntegerPartWidth).text = o1.text ++ v) ∧
          ((PFMarker (d.PData.Result site) parent.PassString).length = 3 →
            (∀ ty val sc ipw s, L.FormatSVData ty val parent.FieldWidth sc ipw = some s →
              s.length ≤ parent.FieldWidth.toNat) →
            cell.length = 4 + parent.FieldWidth.toNat + 2)))
        env.LoadedSites cells ∧
      oc.text = cells.foldl (fun acc c => acc ++ c) (d.lineStart L parent fo o).text ∧
      d.FormatASCIIColumns L parent env fo o = d.lineEnd L parent fo oc := by
  obtain ⟨a, l, hl⟩ := List.exists_cons_of_ne_nil hne
  obtain ⟨ls, sel, act⟩ := env
  dsimp only at hl hsorted hne h0 hsub ⊢
  subst hl
  have hfs : List.Sublist (d.fsites fo) (a :: l) := by
    unfold ParametricTestData.fsites Sites.DisableFailingSites
    cases fo
    · simpa using hsub
    · exact (List.filter_sublist _).trans hsub
  exact colFold_line (d.lineStart L parent fo) (d.lineEnd L parent fo)
    (fun o => ((o.put "    ").putw parent.FieldWidth " ").put "  ")
    (fun (st : ParametricTestData.ColState) site =>
      { out := PrintValue L
          ((st.out.put (PFMarker (d.PData.Result site) parent.PassString)).put " ")
          (varType (d.PData.BaseSData ParamKind.Test site)
            (d.PData.BaseSData ParamKind.LowLimit (d.limitSite fo))
            (d.PData.BaseSData ParamKind.HighLimit (d.limitSite fo)))
          (d.PData.BaseSData ParamKind.Test site)
          (ParametricTestData.realScale L (d.asciiScale L parent) d.PData.Units st.real_units
            (d.PData.BaseSData ParamKind.Test site)
            (d.PData.BaseSData ParamKind.LowLimit (d.limitSite fo))
            (d.PData.BaseSData ParamKind.HighLimit (d.limitSite fo))).2
          parent.FieldWidth
          (ParametricTestData.realScale L (d.asciiScale L parent) d.PData.Units st.real_units
            (d.PData.BaseSData ParamKind.Test site)
            (d.PData.BaseSData ParamKind.LowLimit (d.limitSite fo))
            (d.PData.BaseSData ParamKind.HighLimit (d.limitSite fo))).1
          true parent.GetIntegerPartWidth
        tested := st.tested.tail
        real_units :=
          (ParametricTestData.realScale L (d.asciiScale L parent) d.PData.Units st.real_units
            (d.PData.BaseSData ParamKind.Test site)
            (d.PData.BaseSData ParamKind.LowLimit (d.limitSite fo))
            (d.PData.BaseSData ParamKind.HighLimit (d.limitSite fo))).2 })
    (blanks (4 + parent.FieldWidth.toNat + 2))
    (fun site cell => ∃ v,
      cell = PFMarker (d.PData.Result site) parent.PassString ++ " " ++ v ∧
      (∃ o1 ru sc, (PrintValue L o1
          (varType (d.PData.BaseSData ParamKind.Test site)
            (d.PData.BaseSData ParamKind.LowLimit (d.limitSite fo))
            (d.PData.BaseSData ParamKind.HighLimit (d.limitSite fo)))
          (d.PData.BaseSData ParamKind.Test site) ru parent.FieldWidth sc true
          parent.GetIntegerPartWidth).text = o1.text ++ v) ∧
      ((PFMarker (d.PData.Result site) parent.PassString).length = 3 →
        (∀ ty val sc ipw s, L.FormatSVData ty val parent.FieldWidth sc ipw = some s →
          s.length ≤ parent.FieldWidth.toNat) →
        cell.length = 4 + parent.FieldWidth.toNat + 2))
    (fun o => blank_cell_text o parent.FieldWidth hfw)
    (fun st s => ⟨rfl, by
      obtain ⟨v, hv, hlen⟩ := PrintValue_cell L
        ((st.out.put (PFMarker (d.PData.Result s) parent.PassString)).put " ")
        (varType (d.PData.BaseSData ParamKind.Test s)
          (d.PData.BaseSData ParamKind.LowLimit (d.limitSite fo))
          (d.PData.BaseSData ParamKind.HighLimit (d.limitSite fo)))
        (d.PData.BaseSData ParamKind.Test s)
        (ParametricTestData.realScale L (d.asciiScale L parent) d.PData.Units st.real_units
          (d.PData.BaseSData ParamKind.Test s)
          (d.PData.BaseSData ParamKind.LowLimit (d.limitSite fo))
          (d.PData.BaseSData ParamKind.HighLimit (d.limitSite fo))).2
        parent.FieldWidth (by omega)
        (ParametricTestData.realScale L (d.asciiScale L parent) d.PData.Units st.real_units
          (d.PData.BaseSData ParamKind.Test s)
          (d.PData.BaseSData ParamKind.LowLimit (d.limitSite fo))
          (d.PData.BaseSData ParamKind.HighLimit (d.limitSite fo))).1
        parent.GetIntegerPartWidth
      refine ⟨PFMarker (d.PData.Result s) parent.PassString ++ " " ++ v, ?_, v, rfl,
        ⟨_, _, _, hv⟩, ?_⟩
      · rw [hv]
        simp [OStream.put, String.append_assoc]
      · intro h3 hc
        have hl := hlen hc
        have h1 : (" " : String).length = 1 := rfl
        rw [String.length_append, String.length_append, h3, hl, h1]
        omega⟩)
    a l (d.fsites fo) hsorted h0 hfs (d.asciiRealUnits L) o

/-- Column-oriented section of `ParametricTestDataArray::FormatASCII`: the line of value
index `ii`, when it is printed, as line start, cells and line end. -/
theorem ParametricTestDataArray_column_cells (d : ParametricTestDataArray) (L : Lib)
    (parent : ST_Datalog) (env : SiteEnv) (fo : Bool) (o : OStream) (ru0 : String) (ii : Nat)
    (hsorted : List.Pairwise (fun x y => x < y) env.LoadedSites)
    (hne : env.LoadedSites ≠ [])
    (h0 : ∀ s ∈ env.LoadedSites, s ≠ 0)
    (hsub : List.Sublist d.ctx.DlogSites env.LoadedSites)
    (hfw : 1 ≤ parent.FieldWidth)
    (hprint : env.ActiveSites.all (fun s => decide (d.resAt s ii = TM_RESULT.TM_PASS)) = false
      ∨ fo = false) :
    ∃ (cells : List String) (oc : OStream),
      List.Forall₂ (fun site cell =>
        (site ∉ d.ctx.DlogSites → cell = blanks (4 + parent.FieldWidth.toNat + 2)) ∧
        (site ∈ d.ctx.DlogSites →
          ((fo = true ∧ d.resAt site ii = TM_RESULT.TM_PASS) →
            cell = blanks (4 + parent.FieldWidth.toNat + 2)) ∧
          (¬ (fo = true ∧ d.resAt site ii = TM_RESULT.TM_PASS) → ∃ v,
            cell = PFMarker (d.resAt site ii) parent.PassString ++ " " ++ v ∧
            (∃ o1 ru sc, (PrintValue L o1
                (varType (d.PData.SData BasicVar.void ParamKind.Test ii site)
                  (d.PData.SData BasicVar.void ParamKind.LowLimit ii d.limitSite)
                  (d.PData.SData BasicVar.void ParamKind.HighLimit ii d.limitSite))
                (d.PData.SData BasicVar.void ParamKind.Test ii site) ru parent.FieldWidth sc
                true parent.GetIntegerPartWidth).text = o1.text ++ v) ∧
            ((PFMarker (d.resAt site ii) parent.PassString).length = 3 →
              (∀ ty val sc ipw s, L.FormatSVData ty val parent.FieldWidth sc ipw = some s →
                s.length ≤ parent.FieldWidth.toNat) →
              cell.length = 4 + parent.FieldWidth.toNat + 2))))
        env.LoadedSites cells ∧
      oc.text = cells.foldl (fun acc c => acc ++ c) (d.lineStart L parent ii o).text ∧
      (d.FormatASCIIColumnLine L parent env fo (o, ru0) ii).1 = d.lineEnd L parent ii oc := by
  obtain ⟨a, l, hl⟩ := List.exists_cons_of_ne_nil hne
  obtain ⟨ls, sel, act⟩ := env
  dsimp only at hl hsorted hne h0 hsub hprint ⊢
  subst hl
  obtain ⟨cells, oc, hc, ht, hrun⟩ := colFold_line (d.lineStart L parent ii)
    (d.lineEnd L parent ii)
    (fun o => ((o.put "    ").putw parent.FieldWidth " ").put "  ")
    (fun (cs : ParametricTestData.ColState) site =>
      { out :=
          if d.resAt site ii ≠ TM_RESULT.TM_PASS ∨ fo = false then
            PrintValue L
              ((cs.out.put (PFMarker (d.resAt site ii) parent.PassString)).put " ")
              (varType (d.PData.SData BasicVar.void ParamKind.Test ii site)
                (d.PData.SData BasicVar.void ParamKind.LowLimit ii d.limitSite)
                (d.PData.SData BasicVar.void ParamKind.HighLimit ii d.limitSite))
              (d.PData.SData BasicVar.void ParamKind.Test ii site)
              (ParametricTestData.realScale L (d.asciiScale L parent) d.PData.Units
                cs.real_units (d.PData.SData BasicVar.void ParamKind.Test ii site)
                (d.PData.SData BasicVar.void ParamKind.LowLimit ii d.limitSite)
                (d.PData.SData BasicVar.void ParamKind.HighLimit ii d.limitSite)).2
              parent.FieldWidth
              (ParametricTestData.realScale L (d.asciiScale L parent) d.PData.Units
                cs.real_units (d.PData.SData BasicVar.void ParamKind.Test ii site)
                (d.PData.SData BasicVar.void ParamKind.LowLimit ii d.limitSite)
                (d.PData.SData BasicVar.void ParamKind.HighLimit ii d.limitSite)).1
              true parent.GetIntegerPartWidth
          else ((cs.out.put "    ").putw parent.FieldWidth " ").put "  "
        tested := cs.tested.tail
        real_units :=
          (ParametricTestData.realScale L (d.asciiScale L parent) d.PData.Units
            cs.real_units (d.PData.SData BasicVar.void ParamKind.Test ii site)
            (d.PData.SData BasicVar.void ParamKind.LowLimit ii d.limitSite)
            (d.PData.SData BasicVar.void ParamKind.HighLimit ii d.limitSite)).2 })
    (blanks (4 + parent.FieldWidth.toNat + 2))
    (fun site cell =>
      ((fo = true ∧ d.resAt site ii = TM_RESULT.TM_PASS) →
        cell = blanks (4 + parent.FieldWidth.toNat + 2)) ∧
      (¬ (fo = true ∧ d.resAt site ii = TM_RESULT.TM_PASS) → ∃ v,
        cell = PFMarker (d.resAt site ii) parent.PassString ++ " " ++ v ∧
        (∃ o1 ru sc, (PrintValue L o1
            (varType (d.PData.SData BasicVar.void ParamKind.Test ii site)
              (d.PData.SData BasicVar.void ParamKind.LowLimit ii d.limitSite)
              (d.PData.SData BasicVar.void ParamKind.HighLimit ii d.limitSite))
            (d.PData.SData BasicVar.void ParamKind.Test ii site) ru parent.FieldWidth sc
            true parent.GetIntegerPartWidth).text = o1.text ++ v) ∧
        ((PFMarker (d.resAt site ii) parent.PassString).length = 3 →
          (∀ ty val sc ipw s, L.FormatSVData ty val parent.FieldWidth sc ipw = some s →
            s.length ≤ parent.FieldWidth.toNat) →
          cell.length = 4 + parent.FieldWidth.toNat + 2)))
    (fun o => blank_cell_text o parent.FieldWidth hfw)
    (fun cs s => ⟨rfl, by
      by_cases hcond : fo = true ∧ d.resAt s ii = TM_RESULT.TM_PASS
      · refine ⟨blanks (4 + parent.FieldWidth.toNat + 2), ?_, fun _ => rfl,
          fun h => absurd hcond h⟩
        have hn : ¬ (d.resAt s ii ≠ TM_RESULT.TM_PASS ∨ fo = false) := by
          rintro (h | h)
          · exact h hcond.2
          · rw [hcond.1] at h
            exact Bool.noConfusion h
        simp only [hn, if_false]
        exact blank_cell_text cs.out parent.FieldWidth hfw
      · have hp : d.resAt s ii ≠ TM_RESULT.TM_PASS ∨ fo = false := by
          by_cases hr : d.resAt s ii = TM_RESULT.TM_PASS
          · right
            cases fo
            · rfl
            · exact absurd ⟨rfl, hr⟩ hcond
          · exact Or.inl hr
        obtain ⟨v, hv, hlen⟩ := PrintValue_cell L
          ((cs.out.put (PFMarker (d.resAt s ii) parent.PassString)).put " ")
          (varType (d.PData.SData BasicVar.void ParamKind.Test ii s)
            (d.PData.SData BasicVar.void ParamKind.LowLimit ii d.limitSite)
            (d.PData.SData BasicVar.void ParamKind.HighLimit ii d.limitSite))
          (d.PData.SData BasicVar.void ParamKind.Test ii s)
          (ParametricTestData.realScale L (d.asciiScale L parent) d.PData.Units
            cs.real_units (d.PData.SData BasicVar.void ParamKind.Test ii s)
            (d.PData.SData BasicVar.void ParamKind.LowLimit ii d.limitSite)
            (d.PData.SData BasicVar.void ParamKind.HighLimit ii d.limitSite)).2
          parent.FieldWidth (by omega)
          (ParametricTestData.realScale L (d.asciiScale L parent) d.PData.Units
            cs.real_units (d.PData.SData BasicVar.void ParamKind.Test ii s)
            (d.PData.SData BasicVar.void ParamKind.LowLimit ii d.limitSite)
            (d.PData.SData BasicVar.void ParamKind.HighLimit ii d.limitSite)).1
          parent.GetIntegerPartWidth
        refine ⟨PFMarker (d.resAt s ii) parent.PassString ++ " " ++ v, ?_,
          fun h => absurd h hcond, fun _ => ⟨v, rfl, ⟨_, _, _, hv⟩, ?_⟩⟩
        · simp only [hp, if_true]
          rw [hv]
          simp [OStream.put, String.append_assoc]
        · intro h3 hc
          have hl := hlen hc
          have h1 : (" " : String).length = 1 := rfl
          rw [String.length_append, String.length_append, h3, hl, h1]
          omega⟩)
    a l d.ctx.DlogSites hsorted h0 hsub ru0 o
  refine ⟨cells, oc, hc, ht, ?_⟩
  unfold ParametricTestDataArray.FormatASCIIColumnLine
  dsimp only
  rw [if_pos hprint]
  exact hrun

/-- C12. Column mode, the loaded sites being listed in strictly ascending order, none of them
site 0, the tested sites a sub-sequence of them and the field width at least 1. The line
written by `ParametricTestData::FormatASCII` is the line start, then exactly one cell per
loaded site in loaded-site order, then the line end. The cell of a loaded site that is not
among the tested sites left after the `fail_only_mode` filter is a run of
`4 + field_width + 2` blanks; the cell of a tested site is its pass/fail marker, one blank and
the measured value as printed by `PrintValue`, and it has the same `4 + field_width + 2`
characters when the marker has three characters and `FormatSVData` keeps to the width it is
given. The same holds for every line that `ParametricTestDataArray::FormatASCII` prints, where
in `fail_only_mode` the cell of a tested site whose result is pass is blank as well. -/
theorem C12_column_cells (d : ParametricTestData) (da : ParametricTestDataArray) (L : Lib)
    (parent : ST_Datalog) (env : SiteEnv) (fo : Bool) (o : OStream) (ru0 : String) (ii : Nat)
    (hsorted : List.Pairwise (fun x y => x < y) env.LoadedSites)
    (hne : env.LoadedSites ≠ [])
    (h0 : ∀ s ∈ env.LoadedSites, s ≠ 0)
    (hsub : List.Sublist d.ctx.DlogSites env.LoadedSites)
    (hsuba : List.Sublist da.ctx.DlogSites env.LoadedSites)
    (hfw : 1 ≤ parent.FieldWidth)
    (hprint : env.ActiveSites.all (fun s => decide (da.resAt s ii = TM_RESULT.TM_PASS)) = false
      ∨ fo = false) :
    (∃ (cells : List String) (oc : OStream),
        List.Forall₂ (fun site cell =>
          (site ∉ d.fsites fo → cell = blanks (4 + parent.FieldWidth.toNat + 2)) ∧
          (site ∈ d.fsites fo → ∃ v,
            cell = PFMarker (d.PData.Result site) parent.PassString ++ " " ++ v ∧
            (∃ o1 ru sc, (PrintValue L o1
                (varType (d.PData.BaseSData ParamKind.Test site)
                  (d.PData.BaseSData ParamKind.LowLimit (d.limitSite fo))
                  (d.PData.BaseSData ParamKind.HighLimit (d.limitSite fo)))
                (d.PData.BaseSData ParamKind.Test site) ru parent.FieldWidth sc true
                parent.GetIntegerPartWidth).text = o1.text ++ v) ∧
            ((PFMarker (d.PData.Result site) parent.PassString).length = 3 →
              (∀ ty val sc ipw s, L.FormatSVData ty val parent.FieldWidth sc ipw = some s →
                s.length ≤ parent.FieldWidth.toNat) →
              cell.length = 4 + parent.FieldWidth.toNat + 2)))
          env.LoadedSites cells ∧
        oc.text = cells.foldl (fun acc c => acc ++ c) (d.lineStart L parent fo o).text ∧
        d.FormatASCIIColumns L parent env fo o = d.lineEnd L parent fo oc) ∧
    (∃ (cells : List String) (oc : OStream),
        List.Forall₂ (fun site cell =>
          (site ∉ da.ctx.DlogSites → cell = blanks (4 + parent.FieldWidth.toNat + 2)) ∧
          (site ∈ da.ctx.DlogSites →
            ((fo = true ∧ da.resAt site ii = TM_RESULT.TM_PASS) →
              cell = blanks (4 + parent.FieldWidth.toNat + 2)) ∧
            (¬ (fo = true ∧ da.resAt site ii = TM_RESULT.TM_PASS) → ∃ v,
              cell = PFMarker (da.resAt site ii) parent.PassString ++ " " ++ v ∧
              (∃ o1 ru sc, (PrintValue L o1
                  (varType (da.PData.SData BasicVar.void ParamKind.Test ii site)
                    (da.PData.SData BasicVar.void ParamKind.LowLimit ii da.limitSite)
                    (da.PData.SData BasicVar.void ParamKind.HighLimit ii da.limitSite))
                  (da.PData.SData BasicVar.void ParamKind.Test ii site) ru parent.FieldWidth sc
                  true parent.GetIntegerPartWidth).text = o1.text ++ v) ∧
              ((PFMarker (da.resAt site ii) parent.PassString).length = 3 →
                (∀ ty val sc ipw s, L.FormatSVData ty val parent.FieldWidth sc ipw = some s →
                  s.length ≤ parent.FieldWidth.toNat) →
                cell.length = 4 + parent.FieldWidth.toNat + 2))))
          env.LoadedSites cells ∧
        oc.text = cells.foldl (fun acc c => acc ++ c) (da.lineStart L parent ii o).text ∧
        (da.FormatASCIIColumnLine L parent env fo (o, ru0) ii).1 = da.lineEnd L parent ii oc) :=
  ⟨ParametricTestData_column_cells d L parent env fo o hsorted hne h0 hsub hfw,
    ParametricTestDataArray_column_cells da L parent env fo o ru0 ii hsorted hne h0 hsuba hfw
      hprint⟩

/-- C12 (witness): scenario C, four loaded sites of which sites 1 and 3 are tested, with the
default field width. -/
theorem C12_column_cells_witness :
    List.Pairwise (fun x y => x < y) exEnv4.LoadedSites ∧
    List.Sublist exC.ctx.DlogSites exEnv4.LoadedSites ∧
    List.Sublist exArr.ctx.DlogSites exEnv4.LoadedSites ∧
    1 ≤ exParentCols.FieldWidth ∧
    ∃ (cells : List String) (oc : OStream),
      List.Forall₂ (fun site cell =>
        (site ∉ exC.fsites false → cell = blanks (4 + exParentCols.FieldWidth.toNat + 2)) ∧
        (site ∈ exC.fsites false → ∃ v,
          cell = PFMarker (exC.PData.Result site) exParentCols.PassString ++ " " ++ v ∧
          (∃ o1 ru sc, (PrintValue exLib o1
              (varType (exC.PData.BaseSData ParamKind.Test site)
                (exC.PData.BaseSData ParamKind.LowLimit (exC.limitSite false))
                (exC.PData.BaseSData ParamKind.HighLimit (exC.limitSite false)))
              (exC.PData.BaseSData ParamKind.Test site) ru exParentCols.FieldWidth sc true
              exParentCols.GetIntegerPartWidth).text = o1.text ++ v) ∧
          ((PFMarker (exC.PData.Result site) exParentCols.PassString).length = 3 →
            (∀ ty val sc ipw s, exLib.FormatSVData ty val exParentCols.FieldWidth sc ipw = some s →
              s.length ≤ exParentCols.FieldWidth.toNat) →
            cell.length = 4 + exParentCols.FieldWidth.toNat + 2)))
        exEnv4.LoadedSites cells ∧
      oc.text = cells.foldl (fun acc c => acc ++ c)
        (exC.lineStart exLib exParentCols false exOut).text ∧
      exC.FormatASCIIColumns exLib exParentCols exEnv4 false exOut
        = exC.lineEnd exLib exParentCols false oc :=
  ⟨by decide, by decide, by decide, by decide,
    (C12_column_cells exC exArr exLib exParentCols exEnv4 false exOut "" 0 (by decide)
      (by decide) (by decide) (by decide) (by decide) (by decide) (Or.inr rfl)).1⟩

set_option maxRecDepth 100000 in
/-- Scenario C evaluated: the line has the four cell slots of the loaded sites 1 to 4; the
slots of the sites 2 and 4, which are not tested, are blank. -/
theorem scenarioC_line :
    (exC.FormatASCIIColumns exLib exParentCols exEnv4 false exOut).text
      = "       100            val   P            val                     *F*           val                               val  V                                vdd\n" := by
  decide


/-! ## C13: the site whose limits a column-mode line shows -/

set_option maxRecDepth 100000 in
/-- C13. In column mode `ParametricTestData::FormatASCII` reads the limit pair of a line at
`fsites.Begin()` after `fsites` lost its non-failing sites, so in `fail_only_mode` the limits
shown are those of the first failing site, not those of the first tested site; the array
formatter reads them at `dlog_sites.Begin()`, the first tested site, in both modes. At the
snapshot `exPerSite` (sites 1 and 2 tested, site 1 passes with limits 10 / 20, site 2 fails
with limits 30 / 40) the line printed in `fail_only_mode` shows the limits 30 and 40 of site 2,
while without `fail_only_mode` it shows the limits 10 and 20 of site 1, the first tested
site. -/
theorem C13_limits_of_first_failing_site :
    (∀ d : ParametricTestData, d.limitSite false = Sites.beginValue d.ctx.DlogSites) ∧
    (∀ d : ParametricTestData, d.limitSite true
      = Sites.beginValue
          (d.ctx.DlogSites.filter (fun s => decide (d.PData.Result s = TM_RESULT.TM_FAIL)))) ∧
    (∀ da : ParametricTestDataArray, da.limitSite = Sites.beginValue da.ctx.DlogSites) ∧
    Sites.beginValue exPerSite.ctx.DlogSites = 1 ∧
    exPerSite.limitSite true = 2 ∧
    (exPerSite.FormatASCIIColumns exLibShow exParentCols exEnv2 true exOut).text
      = "       100             30                     *F*            47             40  V                                vdd\n" ∧
    (exPerSite.FormatASCIIColumns exLibShow exParentCols exEnv2 false exOut).text
      = "       100             10   P             15  *F*            47             20  V                                vdd\n" := by
  refine ⟨fun _ => rfl, fun _ => rfl, fun _ => rfl, ?_, ?_, ?_, ?_⟩ <;> decide


/-! ## C16: the one-time structural records -/

theorem StartOfLot_noop (S : StreamLib)
    (calls : List (StartOfLotData × LotHost × ST_Datalog × SiteEnv × Bool))
    (STDF : STDFV4Stream) (h : S.NeedFileSetup STDF = false ∨ STDF.valid = false) :
    calls.foldl (fun st c => c.1.FormatSTDFV4 S c.2.1 c.2.2.1 c.2.2.2.1 c.2.2.2.2 st) STDF
      = STDF := by
  induction calls with
  | nil => rfl
  | cons c calls ih =>
    have hstep : c.1.FormatSTDFV4 S c.2.1 c.2.2.1 c.2.2.2.1 c.2.2.2.2 STDF = STDF := by
      unfold StartOfLotData.FormatSTDFV4
      rcases h with h | h
      · simp [h]
      · simp [h]
    simp only [List.foldl_cons, hstep]
    exact ih

/-- C16. `StartOfLotData::FormatSTDFV4` leaves the stream as it is whenever the stream reports
that file setup is not needed: no file header, lot header, site description, pin map or pin
group is written. `StartOfWaferData::FormatSTDFV4` writes no WCR whenever wafer setup is not
needed: it adds nothing but the WIR of a valid snapshot. Hence, for a stream library that stops
asking for file setup once a FAR is in the stream, any sequence of `FormatSTDFV4` calls of
StartOfLot snapshots on one stream writes the setup block at most once: the stream ends as it
started, or with the setup block of the first call appended once, and that block holds exactly
one FAR, one MIR, one SDR, one pin map and one pin group call. -/
theorem C16_setup_records_written_once (S : StreamLib) :
    (∀ (d : StartOfLotData) (H : LotHost) (parent : ST_Datalog) (env : SiteEnv) (fo : Bool)
        (STDF : STDFV4Stream), S.NeedFileSetup STDF = false →
        d.FormatSTDFV4 S H parent env fo STDF = STDF) ∧
    (∀ (d : StartOfWaferData) (H : LotHost) (fo : Bool) (STDF : STDFV4Stream),
        S.NeedWaferSetup STDF = false →
        (d.FormatSTDFV4 S H fo STDF).records
          = STDF.records ++
            (if STDF.valid = true ∧ d.Valid = true then
              [STDFRecord.WIR { time := d.DlogTime, waferID := d.WaferID }] else [])) ∧
    ((∀ s : STDFV4Stream, (∃ r ∈ s.records, r.kind = RecKind.FAR) →
        S.NeedFileSetup s = false) →
      ∀ (c : StartOfLotData × LotHost × ST_Datalog × SiteEnv × Bool)
        (calls : List (StartOfLotData × LotHost × ST_Datalog × SiteEnv × Bool))
        (STDF : STDFV4Stream),
        ((c :: calls).foldl
            (fun st c => c.1.FormatSTDFV4 S c.2.1 c.2.2.1 c.2.2.2.1 c.2.2.2.2 st) STDF).records
          = STDF.records ∨
        ((c :: calls).foldl
            (fun st c => c.1.FormatSTDFV4 S c.2.1 c.2.2.1 c.2.2.2.1 c.2.2.2.2 st) STDF).records
          = STDF.records ++ c.1.setupRecords c.2.1 c.2.2.1 c.2.2.2.1) ∧
    (∀ (d : StartOfLotData) (H : LotHost) (parent : ST_Datalog) (env : SiteEnv),
      ∀ k ∈ [RecKind.FAR, RecKind.MIR, RecKind.SDR, RecKind.PMR, RecKind.PGR],
        ((d.setupRecords H parent env).filter (fun r => decide (r.kind = k))).length = 1) := by
  refine ⟨?_, ?_, ?_, ?_⟩
  · intro d H parent env fo STDF h
    unfold StartOfLotData.FormatSTDFV4
    simp [h]
  · intro d H fo STDF h
    unfold StartOfWaferData.FormatSTDFV4
    by_cases hv : STDF.valid = true
    · by_cases hd : d.Valid = true
      · simp [hv, hd, h, STDFV4Stream.Write]
      · simp [hv, hd]
    · simp [hv]
  · intro hS c calls STDF
    by_cases hdo : STDF.valid = true ∧ S.NeedFileSetup STDF = true
    · right
      have hfirst : c.1.FormatSTDFV4 S c.2.1 c.2.2.1 c.2.2.2.1 c.2.2.2.2 STDF
          = (c.1.setupRecords c.2.1 c.2.2.1 c.2.2.2.1).foldl (fun st r => st.Write r) STDF := by
        unfold StartOfLotData.FormatSTDFV4
        simp [hdo.1, hdo.2]
      have hrec := Write_foldl_records (fun r => r) (c.1.setupRecords c.2.1 c.2.2.1 c.2.2.2.1) STDF
      have hmem : ∃ r ∈ ((c.1.setupRecords c.2.1 c.2.2.1 c.2.2.2.1).foldl
          (fun st r => st.Write r) STDF).records, r.kind = RecKind.FAR := by
        refine ⟨STDFRecord.FAR, ?_, rfl⟩
        rw [hrec.1]
        simp [StartOfLotData.setupRecords]
      simp only [List.foldl_cons, hfirst]
      rw [StartOfLot_noop S calls _ (Or.inl (hS _ hmem)), hrec.1]
      simp
    · left
      have h : S.NeedFileSetup STDF = false ∨ STDF.valid = false := by
        by_cases hv : STDF.valid = true
        · left
          cases hn : S.NeedFileSetup STDF
          · rfl
          · exact absurd ⟨hv, hn⟩ hdo
        · right
          simpa using hv
      rw [StartOfLot_noop S (c :: calls) STDF h]
  · intro d H parent env k hk
    have hx : ∀ k', k' ≠ RecKind.GDR →
        ((H.xtrfGdrs.map (fun g => STDFRecord.GDRX
          (g.foldl (StartOfLotData.gdrField H) (0, [])).2)).filter
            (fun r => decide (r.kind = k'))) = [] := by
      intro k' hk'
      rw [List.filter_eq_nil_iff]
      intro r hr
      obtain ⟨g, _, hg⟩ := List.mem_map.mp hr
      subst hg
      simpa [STDFRecord.kind] using fun h => hk' h.symm
    simp only [List.mem_cons, List.mem_singleton, List.not_mem_nil, or_false] at hk
    have hfin : ∀ k', k' ≠ RecKind.GDR →
        ((d.setupRecords H parent env).filter (fun r => decide (r.kind = k'))).length
          = (([STDFRecord.SetOptimization false, STDFRecord.FAR]
              ++ (if parent.EnableScan2007 then [STDFRecord.VUR] else [])
              ++ [STDFRecord.MIR (d.MIR H)]
              ++ (if H.FAPROC_Get "Test Status" = "Retest" then
                    (if H.gRetestedBinNames.length ≠ 0 then
                      [STDFRecord.RDR H.gRetestedBinNames] else [])
                  else [])
              ++ [STDFRecord.SDR (StartOfLotData.SDR H env),
                  STDFRecord.SetSiteConfiguration env.LoadedSites,
                  STDFRecord.UnisonPinMap, STDFRecord.UnisonPinGroups]).filter
                (fun r => decide (r.kind = k'))).length := by
      intro k' hk'
      unfold StartOfLotData.setupRecords
      rw [List.filter_append, hx k' hk', List.append_nil]
    rcases hk with h | h | h | h | h <;> subst h
    · rw [hfin _ (by decide)]
      cases parent.EnableScan2007 <;>
        by_cases h1 : H.FAPROC_Get "Test Status" = "Retest" <;>
        by_cases h2 : H.gRetestedBinNames.length ≠ 0 <;>
        simp [h1, h2, STDFRecord.kind, List.filter]
    · rw [hfin _ (by decide)]
      cases parent.EnableScan2007 <;>
        by_cases h1 : H.FAPROC_Get "Test Status" = "Retest" <;>
        by_cases h2 : H.gRetestedBinNames.length ≠ 0 <;>
        simp [h1, h2, STDFRecord.kind, List.filter]
    · rw [hfin _ (by decide)]
      cases parent.EnableScan2007 <;>
        by_cases h1 : H.FAPROC_Get "Test Status" = "Retest" <;>
        by_cases h2 : H.gRetestedBinNames.length ≠ 0 <;>
        simp [h1, h2, STDFRecord.kind, List.filter]
    · rw [hfin _ (by decide)]
      cases parent.EnableScan2007 <;>
        by_cases h1 : H.FAPROC_Get "Test Status" = "Retest" <;>
        by_cases h2 : H.gRetestedBinNames.length ≠ 0 <;>
        simp [h1, h2, STDFRecord.kind, List.filter]
    · rw [hfin _ (by decide)]
      cases parent.EnableScan2007 <;>
        by_cases h1 : H.FAPROC_Get "Test Status" = "Retest" <;>
        by_cases h2 : H.gRetestedBinNames.length ≠ 0 <;>
        simp [h1, h2, STDFRecord.kind, List.filter]

/-- C16 (witness): with the example stream library, two StartOfLot snapshots formatted one
after the other on an empty valid stream. -/
theorem C16_setup_records_written_once_witness :
    (∀ s : STDFV4Stream, (∃ r ∈ s.records, r.kind = RecKind.FAR) →
        exStreamLib.NeedFileSetup s = false) ∧
    ((([(exLot, exLotHost, ST_Datalog.init, exEnv2, false),
         (exLot, exLotHost, ST_Datalog.init, exEnv2, false)].foldl
          (fun st c => c.1.FormatSTDFV4 exStreamLib c.2.1 c.2.2.1 c.2.2.2.1 c.2.2.2.2 st)
          (STDFV4Stream.mk true [])).records
        = (STDFV4Stream.mk true []).records) ∨
      (([(exLot, exLotHost, ST_Datalog.init, exEnv2, false),
         (exLot, exLotHost, ST_Datalog.init, exEnv2, false)].foldl
          (fun st c => c.1.FormatSTDFV4 exStreamLib c.2.1 c.2.2.1 c.2.2.2.1 c.2.2.2.2 st)
          (STDFV4Stream.mk true [])).records
        = (STDFV4Stream.mk true []).records
          ++ exLot.setupRecords exLotHost ST_Datalog.init exEnv2)) :=
  have hS : ∀ s : STDFV4Stream, (∃ r ∈ s.records, r.kind = RecKind.FAR) →
      exStreamLib.NeedFileSetup s = false := by
    intro s hs
    obtain ⟨r, hr, hk⟩ := hs
    simp only [exStreamLib, Bool.not_eq_false', List.any_eq_true, decide_eq_true_eq]
    exact ⟨r, hr, hk⟩
  ⟨hS, (C16_setup_records_written_once exStreamLib).2.2.1 hS
    (exLot, exLotHost, ST_Datalog.init, exEnv2, false)
    [(exLot, exLotHost, ST_Datalog.init, exEnv2, false)] (STDFV4Stream.mk true [])⟩

/-- The example stream after two StartOfLot snapshots were formatted holds one setup block:
two settings, FAR, MIR, SDR, pin map and pin groups. -/
theorem two_StartOfLot_kinds :
    ([(exLot, exLotHost, ST_Datalog.init, exEnv2, false),
      (exLot, exLotHost, ST_Datalog.init, exEnv2, false)].foldl
        (fun st c => c.1.FormatSTDFV4 exStreamLib c.2.1 c.2.2.1 c.2.2.2.1 c.2.2.2.2 st)
        (STDFV4Stream.mk true [])).records.map STDFRecord.kind
      = [RecKind.Setting, RecKind.FAR, RecKind.MIR, RecKind.SDR, RecKind.Setting, RecKind.PMR,
         RecKind.PGR] := by
  decide


/-! ## C17: the aggregate test statistics of a summary -/

theorem tsrAcc_fold (d : SummaryData) (ii : Nat) (l : Sites) (acc0 : TsrAcc) :
    ((l.foldl (d.tsrAccStep ii) acc0).num_tested % 2 ^ 32
        = (acc0.num_tested + (l.map (fun s => d.TSRInfo.NumTested s ii)).sum) % 2 ^ 32) ∧
    ((l.foldl (d.tsrAccStep ii) acc0).num_fails % 2 ^ 32
        = (acc0.num_fails +
            ((l.filter (fun s => decide (d.TSRInfo.NumTested s ii > 0))).map
              (fun s => d.TSRInfo.NumFails s ii)).sum) % 2 ^ 32) ∧
    (acc0.num_tested < 2 ^ 32 → (l.foldl (d.tsrAccStep ii) acc0).num_tested < 2 ^ 32) ∧
    (acc0.num_fails < 2 ^ 32 → (l.foldl (d.tsrAccStep ii) acc0).num_fails < 2 ^ 32) ∧
    ((l.foldl (d.tsrAccStep ii) acc0).sums
        = acc0.sums + ((l.filter (fun s => decide (d.TSRInfo.NumTested s ii > 0))).map
            (fun s => d.TSRInfo.Sums s ii)).sum) ∧
    ((l.foldl (d.tsrAccStep ii) acc0).squares
        = acc0.squares + ((l.filter (fun s => decide (d.TSRInfo.NumTested s ii > 0))).map
            (fun s => d.TSRInfo.SumOfSquares s ii)).sum) ∧
    ((l.foldl (d.tsrAccStep ii) acc0).min_val ≤ acc0.min_val) ∧
    (∀ s ∈ l.filter (fun s => decide (d.TSRInfo.NumTested s ii > 0)),
        (l.foldl (d.tsrAccStep ii) acc0).min_val ≤ d.TSRInfo.MinValue s ii) ∧
    ((l.foldl (d.tsrAccStep ii) acc0).min_val = acc0.min_val ∨
      ∃ s ∈ l.filter (fun s => decide (d.TSRInfo.NumTested s ii > 0)),
        (l.foldl (d.tsrAccStep ii) acc0).min_val = d.TSRInfo.MinValue s ii) ∧
    (acc0.max_val ≤ (l.foldl (d.tsrAccStep ii) acc0).max_val) ∧
    (∀ s ∈ l.filter (fun s => decide (d.TSRInfo.NumTested s ii > 0)),
        d.TSRInfo.MaxValue s ii ≤ (l.foldl (d.tsrAccStep ii) acc0).max_val) ∧
    ((l.foldl (d.tsrAccStep ii) acc0).max_val = acc0.max_val ∨
      ∃ s ∈ l.filter (fun s => decide (d.TSRInfo.NumTested s ii > 0)),
        (l.foldl (d.tsrAccStep ii) acc0).max_val = d.TSRInfo.MaxValue s ii) := by
  have h32 : (2 : Nat) ^ 32 = 4294967296 := by norm_num
  induction l generalizing acc0 with
  | nil => simp
  | cons a l ih =>
    by_cases hpos : d.TSRInfo.NumTested a ii > 0
    · have hstep : d.tsrAccStep ii acc0 a =
          { num_tested := (acc0.num_tested + d.TSRInfo.NumTested a ii) % 2 ^ 32
            num_fails := (acc0.num_fails + d.TSRInfo.NumFails a ii) % 2 ^ 32
            min_val :=
              if d.TSRInfo.MinValue a ii < acc0.min_val then d.TSRInfo.MinValue a ii
              else acc0.min_val
            max_val :=
              if d.TSRInfo.MaxValue a ii > acc0.max_val then d.TSRInfo.MaxValue a ii
              else acc0.max_val
            sums := acc0.sums + d.TSRInfo.Sums a ii
            squares := acc0.squares + d.TSRInfo.SumOfSquares a ii } := by
        simp [SummaryData.tsrAccStep, hpos]
      have hf : (a :: l).filter (fun s => decide (d.TSRInfo.NumTested s ii > 0))
          = a :: l.filter (fun s => decide (d.TSRInfo.NumTested s ii > 0)) := by
        simp [List.filter, hpos]
      obtain ⟨i1, i2, i3, i4, i5, i6, i7, i8, i9, i10, i11, i12⟩ := ih (d.tsrAccStep ii acc0 a)
      simp only [List.foldl_cons, hf, List.map_cons, List.sum_cons, List.mem_cons]
      rw [hstep] at i1 i2 i3 i4 i5 i6 i7 i8 i9 i10 i11 i12 ⊢
      simp only at i1 i2 i3 i4 i5 i6 i7 i8 i9 i10 i11 i12
      have hmin1 : (if d.TSRInfo.MinValue a ii < acc0.min_val then d.TSRInfo.MinValue a ii
          else acc0.min_val) ≤ acc0.min_val := by
        split_ifs with h
        · exact le_of_lt h
        · exact le_refl _
      have hmin2 : (if d.TSRInfo.MinValue a ii < acc0.min_val then d.TSRInfo.MinValue a ii
          else acc0.min_val) ≤ d.TSRInfo.MinValue a ii := by
        split_ifs with h
        · exact le_refl _
        · exact not_lt.mp h
      have hmax1 : acc0.max_val ≤ (if d.TSRInfo.MaxValue a ii > acc0.max_val then
          d.TSRInfo.MaxValue a ii else acc0.max_val) := by
        split_ifs with h
        · exact le_of_lt h
        · exact le_refl _
      have hmax2 : d.TSRInfo.MaxValue a ii ≤ (if d.TSRInfo.MaxValue a ii > acc0.max_val then
          d.TSRInfo.MaxValue a ii else acc0.max_val) := by
        split_ifs with h
        · exact le_refl _
        · exact not_lt.mp h
      refine ⟨?_, ?_, ?_, ?_, ?_, ?_, le_trans i7 hmin1, ?_, ?_, le_trans hmax1 i10, ?_, ?_⟩
      · rw [i1, h32]; omega
      · rw [i2, h32]; omega
      · intro _
        exact i3 (Nat.mod_lt _ (by norm_num))
      · intro _
        exact i4 (Nat.mod_lt _ (by norm_num))
      · rw [i5]; ring
      · rw [i6]; ring
      · rintro s (hs | hs)
        · subst hs
          exact le_trans i7 hmin2
        · exact i8 s hs
      · rcases i9 with h | ⟨s, hs, h⟩
        · by_cases hlt : d.TSRInfo.MinValue a ii < acc0.min_val
          · right
            exact ⟨a, Or.inl rfl, by rw [h, if_pos hlt]⟩
          · left
            rw [h, if_neg hlt]
        · exact Or.inr ⟨s, Or.inr hs, h⟩
      · rintro s (hs | hs)
        · subst hs
          exact le_trans hmax2 i10
        · exact i11 s hs
      · rcases i12 with h | ⟨s, hs, h⟩
        · by_cases hgt : d.TSRInfo.MaxValue a ii > acc0.max_val
          · right
            exact ⟨a, Or.inl rfl, by rw [h, if_pos hgt]⟩
          · left
            rw [h, if_neg hgt]
        · exact Or.inr ⟨s, Or.inr hs, h⟩
    · have hstep : d.tsrAccStep ii acc0 a = acc0 := by
        simp [SummaryData.tsrAccStep, hpos]
      have hf : (a :: l).filter (fun s => decide (d.TSRInfo.NumTested s ii > 0))
          = l.filter (fun s => decide (d.TSRInfo.NumTested s ii > 0)) := by
        simp [List.filter, hpos]
      have hz : d.TSRInfo.NumTested a ii = 0 := by omega
      have := ih acc0
      simp only [List.foldl_cons, hstep, hf, List.map_cons, List.sum_cons, hz, Nat.zero_add]
      exact this

/-- C17 (counterexample). Site 2 is loaded but has no execution of test 0, and the host
reports the value 0 as its minimum; the aggregate TSR of the test carries the minimum 1 of
site 1, which is not the minimum of the per-site minima over all loaded sites. -/
theorem C17_counterexample :
    2 ∈ exEnv2.LoadedSites ∧
    exSum.TSRInfo.MinValue 2 0 = 0 ∧
    (exSum.tsrAllRecord exLib ST_Datalog.init exEnv2.LoadedSites 0).minVal = 1 ∧
    ¬ (∀ s ∈ exEnv2.LoadedSites,
        (exSum.tsrAllRecord exLib ST_Datalog.init exEnv2.LoadedSites 0).minVal
          ≤ exSum.TSRInfo.MinValue s 0) := by
  have h1 : (exSum.tsrAllRecord exLib ST_Datalog.init exEnv2.LoadedSites 0).minVal = 1 := by
    simp [SummaryData.tsrAllRecord, SummaryData.tsrAcc, SummaryData.tsrAccStep, TsrAcc.init,
      exSum, SummaryData.new, exSumHost, exEnv2]
    norm_num
  have h2 : exSum.TSRInfo.MinValue 2 0 = 0 := by
    simp [exSum, SummaryData.new, exSumHost]
  refine ⟨by decide, h2, h1, ?_⟩
  intro hall
  have := hall 2 (by decide)
  rw [h1, h2] at this
  norm_num at this

/-- C17 (amended). Written with the file closing to a valid stream, `FormatSTDFV4` appends the
TSR records and then the bin records. The aggregate TSR of a test (the one whose context is
not a site) is written exactly when the test results are valid and the executions summed over
the loaded sites are positive. It combines the statistics of the loaded sites that have at
least one execution of the test: tested is the sum of tested_i over the loaded sites and
failed the sum of failed_i over those sites, both modulo 2^32; sum and sumsq are the sums of
sum_i and sumsq_i over those sites; min is the least of 1e100 and the min_i of those sites,
max the greatest of -1e100 and the max_i of those sites. -/
theorem C17_aggregate_over_tested_sites (d : SummaryData) (L : Lib) (H : LotHost)
    (parent : ST_Datalog) (env : SiteEnv) (fo : Bool) (STDF : STDFV4Stream) (ii : Nat) :
    (d.FileClosingAfterSummary = true → STDF.valid = true →
      (d.FormatSTDFV4 L H parent env fo STDF).records
        = STDF.records ++ (d.tsrRecords L parent env.LoadedSites
            ++ d.binRecords H parent env.LoadedSites)) ∧
    (∀ r : TSRRecord,
      (STDFRecord.TSR r ∈ d.tsrRecords L parent env.LoadedSites ∧ r.context = none) ↔
      (d.TSRValid = true ∧ ∃ jj, jj < d.TSRInfo.size ∧
        (d.tsrAcc env.LoadedSites jj).num_tested > 0 ∧
        r = d.tsrAllRecord L parent env.LoadedSites jj)) ∧
    (d.tsrAllRecord L parent env.LoadedSites ii).numTested
      = (env.LoadedSites.map (fun s => d.TSRInfo.NumTested s ii)).sum % 2 ^ 32 ∧
    (d.tsrAllRecord L parent env.LoadedSites ii).numFails
      = ((env.LoadedSites.filter (fun s => decide (d.TSRInfo.NumTested s ii > 0))).map
          (fun s => d.TSRInfo.NumFails s ii)).sum % 2 ^ 32 ∧
    (d.tsrAllRecord L parent env.LoadedSites ii).sums
      = ((env.LoadedSites.filter (fun s => decide (d.TSRInfo.NumTested s ii > 0))).map
          (fun s => d.TSRInfo.Sums s ii)).sum ∧
    (d.tsrAllRecord L parent env.LoadedSites ii).squares
      = ((env.LoadedSites.filter (fun s => decide (d.TSRInfo.NumTested s ii > 0))).map
          (fun s => d.TSRInfo.SumOfSquares s ii)).sum ∧
    ((d.tsrAllRecord L parent env.LoadedSites ii).minVal ≤ 10 ^ 100 ∧
      (∀ s ∈ env.LoadedSites.filter (fun s => decide (d.TSRInfo.NumTested s ii > 0)),
        (d.tsrAllRecord L parent env.LoadedSites ii).minVal ≤ d.TSRInfo.MinValue s ii) ∧
      ((d.tsrAllRecord L parent env.LoadedSites ii).minVal = 10 ^ 100 ∨
        ∃ s ∈ env.LoadedSites.filter (fun s => decide (d.TSRInfo.NumTested s ii > 0)),
          (d.tsrAllRecord L parent env.LoadedSites ii).minVal = d.TSRInfo.MinValue s ii)) ∧
    (-(10 ^ 100) ≤ (d.tsrAllRecord L parent env.LoadedSites ii).maxVal ∧
      (∀ s ∈ env.LoadedSites.filter (fun s => decide (d.TSRInfo.NumTested s ii > 0)),
        d.TSRInfo.MaxValue s ii ≤ (d.tsrAllRecord L parent env.LoadedSites ii).maxVal) ∧
      ((d.tsrAllRecord L parent env.LoadedSites ii).maxVal = -(10 ^ 100) ∨
        ∃ s ∈ env.LoadedSites.filter (fun s => decide (d.TSRInfo.NumTested s ii > 0)),
          (d.tsrAllRecord L parent env.LoadedSites ii).maxVal = d.TSRInfo.MaxValue s ii)) := by
  obtain ⟨i1, i2, i3, i4, i5, i6, i7, i8, i9, i10, i11, i12⟩ :=
    tsrAcc_fold d ii env.LoadedSites TsrAcc.init
  have hlt1 := i3 (by simp [TsrAcc.init])
  have hlt2 := i4 (by simp [TsrAcc.init])
  refine ⟨?_, ?_, ?_, ?_, ?_, ?_, ⟨i7, i8, i9⟩, ⟨i10, i11, i12⟩⟩
  · intro hc hv
    unfold SummaryData.FormatSTDFV4
    simp only [hc, hv, Bool.true_eq_false, if_false, if_true]
    exact (Write_foldl_records (fun r => r) _ STDF).1.trans (by simp)
  · intro r
    unfold SummaryData.tsrRecords
    by_cases hv : d.TSRValid = true
    · simp only [hv, if_true]
      constructor
      · rintro ⟨hmem, hctx⟩
        rcases List.mem_append.mp hmem with hmem | hmem
        · obtain ⟨l, hl, hr⟩ := List.mem_flatten.mp hmem
          obtain ⟨site, _, hl2⟩ := List.mem_map.mp hl
          subst hl2
          obtain ⟨jj, _, hj⟩ := List.mem_map.mp hr
          have hrr : d.tsrSiteRecord L parent site jj = r := by
            injection hj
          rw [← hrr] at hctx
          simp [SummaryData.tsrSiteRecord] at hctx
        · obtain ⟨jj, hjj, hj⟩ := List.mem_map.mp hmem
          have hf := List.mem_filter.mp hjj
          have hrr : d.tsrAllRecord L parent env.LoadedSites jj = r := by
            injection hj
          exact ⟨trivial, jj, List.mem_range.mp hf.1, by simpa using hf.2, hrr.symm⟩
      · rintro ⟨_, jj, hlt, hpos, hr⟩
        refine ⟨List.mem_append.mpr (Or.inr (List.mem_map.mpr ⟨jj, List.mem_filter.mpr
          ⟨List.mem_range.mpr hlt, by simpa using hpos⟩, by rw [hr]⟩)), ?_⟩
        rw [hr]
        rfl
    · simp [hv]
  · show (d.tsrAcc env.LoadedSites ii).num_tested = _
    unfold SummaryData.tsrAcc
    rw [← Nat.mod_eq_of_lt hlt1, i1]
    simp [TsrAcc.init]
  · show (d.tsrAcc env.LoadedSites ii).num_fails = _
    unfold SummaryData.tsrAcc
    rw [← Nat.mod_eq_of_lt hlt2, i2]
    simp [TsrAcc.init]
  · show (d.tsrAcc env.LoadedSites ii).sums = _
    unfold SummaryData.tsrAcc
    rw [i5]
    simp [TsrAcc.init]
  · show (d.tsrAcc env.LoadedSites ii).squares = _
    unfold SummaryData.tsrAcc
    rw [i6]
    simp [TsrAcc.init]

/-- C17 (witness): the amended statement at the example summary, written to an empty valid
stream. -/
theorem C17_aggregate_over_tested_sites_witness :
    exSum.FileClosingAfterSummary = true ∧ (STDFV4Stream.mk true []).valid = true ∧
    (exSum.FormatSTDFV4 exLib exLotHost ST_Datalog.init exEnv2 false
        (STDFV4Stream.mk true [])).records
      = (STDFV4Stream.mk true []).records
        ++ (exSum.tsrRecords exLib ST_Datalog.init exEnv2.LoadedSites
          ++ exSum.binRecords exLotHost ST_Datalog.init exEnv2.LoadedSites) :=
  ⟨rfl, rfl,
    (C17_aggregate_over_tested_sites exSum exLib exLotHost ST_Datalog.init exEnv2 false
      (STDFV4Stream.mk true []) 0).1 rfl rfl⟩


/-! ## C18: the percentages of the ASCII summary -/

theorem percentOf_of_ne_zero (a b : Rat) (h : b ≠ 0) : percentOf a b = some (a / b * 100) := by
  simp [percentOf, checkedDiv, h]

theorem foldlM_option_some {α β : Type} (f : β → α → Option β)
    (h : ∀ b a, ∃ c, f b a = some c) (l : List α) (b : β) : ∃ c, l.foldlM f b = some c := by
  induction l generalizing b with
  | nil => exact ⟨b, rfl⟩
  | cons a l ih =>
    obtain ⟨c, hc⟩ := h b a
    obtain ⟨r, hr⟩ := ih c
    exact ⟨r, by simp [List.foldlM, hc, hr]⟩

theorem allBinPercent_eq (bcount : Nat) (total : Int) :
    SummaryData.allBinPercent bcount total
      = some (if total > 0 ∧ bcount > 0 then (bcount : Rat) / (total : Rat) * 100 else 0) := by
  unfold SummaryData.allBinPercent
  by_cases h : total > 0 ∧ bcount > 0
  · have hne : (total : Rat) ≠ 0 := by
      have : (0 : Int) < total := h.1
      exact_mod_cast (ne_of_gt this)
    simp only [h, and_self, if_true]
    exact percentOf_of_ne_zero _ _ hne
  · simp only [h, if_false]

theorem passPercent_eq (npass total : Int) :
    SummaryData.passPercent npass total
      = some (if total > 0 ∧ npass > 0 then (npass : Rat) / (total : Rat) * 100 else 0) := by
  unfold SummaryData.passPercent
  by_cases h : total > 0 ∧ npass > 0
  · have hne : (total : Rat) ≠ 0 := by
      have : (0 : Int) < total := h.1
      exact_mod_cast (ne_of_gt this)
    simp only [h, and_self, if_true]
    exact percentOf_of_ne_zero _ _ hne
  · simp only [h, if_false]

theorem siteBinPercent_eq (bcount : Nat) (site_total : Int) (h : site_total > 0) :
    SummaryData.siteBinPercent bcount site_total
      = some ((bcount : Rat) / (site_total : Rat) * 100) := by
  have hne : (site_total : Rat) ≠ 0 := by
    have : (0 : Int) < site_total := h
    exact_mod_cast (ne_of_gt this)
  exact percentOf_of_ne_zero _ _ hne

theorem tsrAllPercent_eq (d : SummaryData) (LoadedSites : Sites) (ii : Nat) :
    d.tsrAllPercent LoadedSites ii
      = some (if sumU32 LoadedSites (fun s => d.TSRInfo.NumTested s ii) > 0 then
          (((sumU32 LoadedSites (fun s => d.TSRInfo.NumTested s ii) : Nat) : Rat)
            - ((sumU32 LoadedSites (fun s => d.TSRInfo.NumFails s ii) : Nat) : Rat))
            / ((sumU32 LoadedSites (fun s => d.TSRInfo.NumTested s ii) : Nat) : Rat) * 100
        else 0) := by
  unfold SummaryData.tsrAllPercent
  by_cases h : sumU32 LoadedSites (fun s => d.TSRInfo.NumTested s ii) > 0
  · have hne : ((sumU32 LoadedSites (fun s => d.TSRInfo.NumTested s ii) : Nat) : Rat) ≠ 0 := by
      exact_mod_cast (ne_of_gt h)
    simp only [h, if_true]
    exact percentOf_of_ne_zero _ _ hne
  · simp only [h, if_false]

theorem option_section_some {α β γ : Type} (c : Bool) (l1 : List α) (f1 : γ → α → Option γ)
    (l2 : List β) (f2 : γ → β → Option γ) (g : γ → γ)
    (h1 : ∀ b a, ∃ r, f1 b a = some r) (h2 : ∀ b a, ∃ r, f2 b a = some r) (o : γ) :
    ∃ r, ((if c = true then l1.foldlM f1 o else some o).bind
      (fun o => (l2.foldlM f2 o).map g)) = some r := by
  cases c
  · obtain ⟨r, hr⟩ := foldlM_option_some f2 h2 l2 o
    exact ⟨g r, by simp [hr]⟩
  · obtain ⟨q, hq⟩ := foldlM_option_some f1 h1 l1 o
    obtain ⟨r, hr⟩ := foldlM_option_some f2 h2 l2 q
    exact ⟨g r, by simp [hq, hr]⟩

theorem tsrAllRow_some (d : SummaryData) (L : Lib) (F : SumLib) (parent : ST_Datalog)
    (LoadedSites : Sites) (o : OStream) (ii : Nat) :
    ∃ r, d.tsrAllRow L F parent LoadedSites o ii = some r := by
  unfold SummaryData.tsrAllRow
  rw [tsrAllPercent_eq]
  exact ⟨_, rfl⟩

theorem binSiteBlock_some (d : SummaryData) (F : SumLib) (o : OStream) (site : SITE) :
    ∃ r, d.binSiteBlock F o site = some r := by
  unfold SummaryData.binSiteBlock
  by_cases ht : d.siteTotal site > 0
  · simp only [ht, if_true]
    obtain ⟨r, hr⟩ := foldlM_option_some (d.binSiteRow F site (d.siteTotal site))
      (fun b a => by
        unfold SummaryData.binSiteRow
        by_cases hc : d.binSiteCount site a > 0
        · rw [if_pos hc, siteBinPercent_eq _ _ ht]
          exact ⟨_, rfl⟩
        · rw [if_neg hc]
          exact ⟨_, rfl⟩)
      (List.range d.BinInfo.NumBins) o
    rw [hr]
    exact ⟨_, rfl⟩
  · simp only [ht, if_false]
    exact ⟨o, rfl⟩

theorem hwSiteBlock_some (d : SummaryData) (F : SumLib) (o : OStream) (site : SITE) :
    ∃ r, d.hwSiteBlock F o site = some r := by
  unfold SummaryData.hwSiteBlock
  by_cases ht : d.siteTotal site > 0
  · simp only [ht, if_true]
    obtain ⟨r, hr⟩ := foldlM_option_some (d.hwSiteRow F site (d.siteTotal site))
      (fun b a => by
        unfold SummaryData.hwSiteRow
        by_cases hc : d.hwSiteCount site a > 0
        · rw [if_pos hc, siteBinPercent_eq _ _ ht]
          exact ⟨_, rfl⟩
        · rw [if_neg hc]
          exact ⟨_, rfl⟩)
      (List.range d.HWBinInfo.NumBins) o
    rw [hr]
    exact ⟨_, rfl⟩
  · simp only [ht, if_false]
    exact ⟨o, rfl⟩

theorem binAllRow_some (d : SummaryData) (F : SumLib) (o : OStream) (ii : Nat) :
    ∃ r, d.binAllRow F o ii = some r := by
  unfold SummaryData.binAllRow
  rw [allBinPercent_eq]
  by_cases hc : (d.BinInfo.BinName ii).length > 0
  · rw [if_pos hc]
    exact ⟨_, rfl⟩
  · rw [if_neg hc]
    exact ⟨_, rfl⟩

theorem hwAllRow_some (d : SummaryData) (F : SumLib) (o : OStream) (ii : Nat) :
    ∃ r, d.hwAllRow F o ii = some r := by
  unfold SummaryData.hwAllRow
  rw [allBinPercent_eq]
  by_cases hc : d.HWBinInfo.BinNumber ii ≥ 0
  · rw [if_pos hc]
    exact ⟨_, rfl⟩
  · rw [if_neg hc]
    exact ⟨_, rfl⟩

theorem deviceSiteRow_some (d : SummaryData) (F : SumLib) (o : OStream) (site : SITE) :
    ∃ r, d.deviceSiteRow F o site = some r := by
  unfold SummaryData.deviceSiteRow
  rw [passPercent_eq]
  by_cases ht : d.siteTotal site > 0
  · rw [if_pos ht]
    exact ⟨_, rfl⟩
  · rw [if_neg ht]
    exact ⟨_, rfl⟩

theorem SummaryData_FormatASCII_some (d : SummaryData) (L : Lib) (F : SumLib)
    (parent : ST_Datalog) (env : SiteEnv) (fo : Bool) (o : OStream) :
    ∃ o1, d.FormatASCII L F parent env fo o = some o1 := by
  have htsr : ∀ o, ∃ o1, d.tsrSection L F parent env.LoadedSites o = some o1 := by
    intro o
    unfold SummaryData.tsrSection
    by_cases hv : d.TSRValid = true
    · simp only [hv, if_true]
      generalize (if parent.PerSiteSummary = true then _ else _ : OStream) = oh
      obtain ⟨r, hr⟩ := foldlM_option_some (d.tsrAllRow L F parent env.LoadedSites)
        (tsrAllRow_some d L F parent env.LoadedSites) (List.range d.TSRInfo.size) oh
      rw [hr]
      exact ⟨_, rfl⟩
    · simp only [hv, Bool.false_eq_true, if_false]
      exact ⟨o, rfl⟩
  have hbin : ∀ o, ∃ o1, d.binSection F parent env.LoadedSites o = some o1 := by
    intro o
    unfold SummaryData.binSection
    exact option_section_some _ _ _ _ _ _ (binSiteBlock_some d F) (binAllRow_some d F) _
  have hhw : ∀ o, ∃ o1, d.hwSection F parent env.LoadedSites o = some o1 := by
    intro o
    unfold SummaryData.hwSection
    exact option_section_some _ _ _ _ _ _ (hwSiteBlock_some d F) (hwAllRow_some d F) _
  have hdev : ∀ o, ∃ o1, d.deviceSection F parent env.LoadedSites o = some o1 := by
    intro o
    unfold SummaryData.deviceSection
    dsimp only
    generalize (OutputBorder _ 10 0).endl = oh
    cases parent.PerSiteSummary
    · simp only [Bool.false_eq_true, if_false, Option.some_bind, passPercent_eq]
      exact ⟨_, rfl⟩
    · obtain ⟨q, hq⟩ := foldlM_option_some (d.deviceSiteRow F) (deviceSiteRow_some d F)
        env.LoadedSites oh
      simp only [if_true, hq, Option.some_bind, passPercent_eq]
      exact ⟨_, rfl⟩
  unfold SummaryData.FormatASCII
  dsimp only
  generalize (SummaryData.infoLine _ "MODE" d.TestMode).endl = om
  obtain ⟨o1, h1⟩ := htsr om
  obtain ⟨o2, h2⟩ := hbin o1
  obtain ⟨o3, h3⟩ := hhw o2
  obtain ⟨o4, h4⟩ := hdev o3
  exact ⟨o4, by simp only [h1, Option.some_bind, h2, h3, h4]⟩

theorem SummaryData_Format_ascii (d : SummaryData) (L : Lib) (F : SumLib) (H : LotHost)
    (env : SiteEnv) (fo : Bool) (st : OStream × STDFV4Stream × ST_Datalog) (o1 : OStream)
    (h : d.FormatASCII L F st.2.2 env fo st.1 = some o1) :
    d.Format L F H env (some "ASCII") fo st
      = some (o1, st.2.1, st.2.2.SetLastFormatEvent SystemEvents.Summary) := by
  have hsel : FormatSel.ofString (some "ASCII") = FormatSel.ascii := by decide
  unfold SummaryData.Format
  rw [hsel]
  simp only [h, Option.map_some']

/-- C19. `ST_Datalog::Summary` changes nothing in the method object but the summary-needed
flag, which it clears, and the snapshot it returns holds the bin information, the pass and
fail totals and the test statistics exactly as the run time reports them. `SummaryData::Format`
changes nothing in the method object but the last formatted event. Hence a second Summary
captured after the first one was formatted, the run-time data being the same (no device test
in between), yields the same bin counts, pass and fail totals and test statistics, whatever
the kind (partial or final) of the two summaries. -/
theorem C19_summary_capture_is_a_read (p : ST_Datalog) (R : SumHost) (H : LotHost)
    (now1 now2 : Option Rat) (u1 u2 : Option DatalogSummaryInfo) (L : Lib) (F : SumLib)
    (env : SiteEnv) (format : Option String) (fo : Bool) (o : OStream) (STDF : STDFV4Stream) :
    (p.Summary now1 R H u1).1 = { p with SummaryNeeded := false } ∧
    (p.Summary now1 R H u1).1.GetSummaryNeeded = false ∧
    ((p.Summary now1 R H u1).2.BinInfo = R.GetBinInfo.2.1 ∧
      (p.Summary now1 R H u1).2.Passes = R.GetBinInfo.2.2.1 ∧
      (p.Summary now1 R H u1).2.Fails = R.GetBinInfo.2.2.2 ∧
      (p.Summary now1 R H u1).2.TSRInfo = R.GetTSRInformation ∧
      (p.Summary now1 R H u1).2.HWBinInfo
        = (if R.GetBinInfo.1 then R.GetHWBinInfo else HWBinInfoArrayStruct.empty)) ∧
    (∀ st1, (p.Summary now1 R H u1).2.Format L F H env format fo
        (o, STDF, (p.Summary now1 R H u1).1) = some st1 →
      (st1.2.2 = (p.Summary now1 R H u1).1 ∨
        st1.2.2 = { (p.Summary now1 R H u1).1 with LastFormatEvent := SystemEvents.Summary }) ∧
      st1.2.2.NumTestsExecuted = p.NumTestsExecuted ∧
      (st1.2.2.Summary now2 R H u2).2.BinInfo = (p.Summary now1 R H u1).2.BinInfo ∧
      (st1.2.2.Summary now2 R H u2).2.HWBinInfo = (p.Summary now1 R H u1).2.HWBinInfo ∧
      (st1.2.2.Summary now2 R H u2).2.Passes = (p.Summary now1 R H u1).2.Passes ∧
      (st1.2.2.Summary now2 R H u2).2.Fails = (p.Summary now1 R H u1).2.Fails ∧
      (st1.2.2.Summary now2 R H u2).2.TSRInfo = (p.Summary now1 R H u1).2.TSRInfo) := by
  refine ⟨rfl, rfl, ⟨rfl, rfl, rfl, rfl, rfl⟩, ?_⟩
  intro st1 hst
  have hpar : st1.2.2 = (p.Summary now1 R H u1).1 ∨
      st1.2.2 = { (p.Summary now1 R H u1).1 with LastFormatEvent := SystemEvents.Summary } := by
    unfold SummaryData.Format at hst
    cases hsel : FormatSel.ofString format with
    | null =>
      rw [hsel] at hst
      simp only [Option.some.injEq] at hst
      left
      rw [← hst]
    | ascii =>
      rw [hsel] at hst
      simp only [Option.map_eq_some'] at hst
      obtain ⟨o1, _, h1⟩ := hst
      right
      rw [← h1]
      rfl
    | stdfv4 =>
      rw [hsel] at hst
      simp only [Option.some.injEq] at hst
      right
      rw [← hst]
      rfl
    | unknown =>
      rw [hsel] at hst
      simp only [Option.some.injEq] at hst
      right
      rw [← hst]
      rfl
  refine ⟨hpar, ?_, rfl, rfl, rfl, rfl, rfl⟩
  rcases hpar with h | h <;> rw [h] <;> rfl

/-- C19 (witness): scenario D, two summaries of the example run-time data with the ASCII
format of the first in between. -/
theorem C19_summary_capture_is_a_read_witness :
    ∃ st1, (ST_Datalog.init.Summary none exSumHost exLotHost none).2.Format exLib exSumLib
        exLotHost exEnv2 (some "ASCII") false
        (exOut, STDFV4Stream.mk true [],
          (ST_Datalog.init.Summary none exSumHost exLotHost none).1) = some st1 ∧
      (st1.2.2.Summary none exSumHost exLotHost none).2.BinInfo
        = (ST_Datalog.init.Summary none exSumHost exLotHost none).2.BinInfo :=
  (SummaryData_FormatASCII_some (ST_Datalog.init.Summary none exSumHost exLotHost none).2
      exLib exSumLib (ST_Datalog.init.Summary none exSumHost exLotHost none).1 exEnv2 false
      exOut).elim
    (fun o1 ho1 =>
      ⟨(o1, STDFV4Stream.mk true [],
          (ST_Datalog.init.Summary none exSumHost exLotHost none).1.SetLastFormatEvent
            SystemEvents.Summary),
        SummaryData_Format_ascii _ exLib exSumLib exLotHost exEnv2 false
          (exOut, STDFV4Stream.mk true [],
            (ST_Datalog.init.Summary none exSumHost exLotHost none).1) o1 ho1,
        ((C19_summary_capture_is_a_read ST_Datalog.init exSumHost exLotHost none none none none
          exLib exSumLib exEnv2 (some "ASCII") false exOut (STDFV4Stream.mk true [])).2.2.2
          _ (SummaryData_Format_ascii _ exLib exSumLib exLotHost exEnv2 false
            (exOut, STDFV4Stream.mk true [],
              (ST_Datalog.init.Summary none exSumHost exLotHost none).1) o1 ho1)).2.2.1⟩)

/-! ## C20: the per-site counters of executed tests -/

theorem SummaryData_Format_frame (d : SummaryData) (L : Lib) (F : SumLib) (H : LotHost)
    (env : SiteEnv) (fmt : Option String) (fo : Bool)
    (st : OStream × STDFV4Stream × ST_Datalog) :
    ∃ r, d.Format L F H env fmt fo st = some r ∧
      ∃ e, r.2.2 = { st.2.2 with LastFormatEvent := e } := by
  unfold SummaryData.Format
  cases FormatSel.ofString fmt
  · exact ⟨st, rfl, _, rfl⟩
  · obtain ⟨o1, h1⟩ := SummaryData_FormatASCII_some d L F st.2.2 env fo st.1
    simp only [h1, Option.map_some']
    exact ⟨_, rfl, _, rfl⟩
  · exact ⟨_, rfl, _, rfl⟩
  · exact ⟨_, rfl, _, rfl⟩

theorem DatalogData_Format_frame (data : DatalogData) (FH : FormatHost) (fmt : Option String)
    (fo : Bool) (rs : RunState) :
    ∃ rs1, data.Format FH fmt fo rs = some rs1 ∧
      ∃ e v, rs1.parent = { rs.parent with LastFormatEvent := e, VerbosePins := v } := by
  cases data with
  | StartOfTest d =>
    refine ⟨_, rfl, ?_⟩
    simp only [RunState.set3, RunState.get3, StartOfTestData.Format]
    cases FormatSel.ofString fmt <;> exact ⟨_, _, rfl⟩
  | EndOfTest d =>
    refine ⟨_, rfl, ?_⟩
    simp only [RunState.set3, RunState.get3, EndOfTestData.Format]
    cases FormatSel.ofString fmt <;> exact ⟨_, _, rfl⟩
  | ProgramReset d =>
    refine ⟨_, rfl, ?_⟩
    simp only [RunState.set3, RunState.get3, ProgramResetData.Format]
    cases FormatSel.ofString fmt <;> exact ⟨_, _, rfl⟩
  | Summary d =>
    obtain ⟨r, hr, e, he⟩ := SummaryData_Format_frame d FH.L FH.SL FH.LH FH.env fmt fo rs.get3
    refine ⟨rs.set3 r, ?_, e, rs.parent.VerbosePins, ?_⟩
    · simp only [DatalogData.Format, hr, Option.map_some']
    · simp only [RunState.set3, he, RunState.get3]
  | StartOfWafer d =>
    refine ⟨_, rfl, ?_⟩
    simp only [RunState.set3, RunState.get3, StartOfWaferData.Format]
    cases FormatSel.ofString fmt <;> exact ⟨_, _, rfl⟩
  | EndOfWafer d =>
    refine ⟨_, rfl, ?_⟩
    simp only [RunState.set3, RunState.get3, EndOfWaferData.Format]
    cases FormatSel.ofString fmt <;> exact ⟨_, _, rfl⟩
  | StartOfLot d =>
    refine ⟨_, rfl, ?_⟩
    simp only [RunState.set3, RunState.get3, StartOfLotData.Format]
    cases FormatSel.ofString fmt <;> exact ⟨_, _, rfl⟩
  | StartTestNode d =>
    refine ⟨_, rfl, ?_⟩
    simp only [RunState.set3, RunState.get3, StartTestNodeData.Format]
    split <;> exact ⟨_, _, rfl⟩
  | ParametricTest d =>
    refine ⟨_, rfl, ?_⟩
    simp only [RunState.set3, RunState.get3, ParametricTestData.Format]
    cases FormatSel.ofString fmt <;> exact ⟨_, _, rfl⟩
  | ParametricTestArray d =>
    refine ⟨_, rfl, ?_⟩
    simp only [RunState.set3, RunState.get3, ParametricTestDataArray.Format]
    cases FormatSel.ofString fmt <;> exact ⟨_, _, rfl⟩
  | FunctionalTest d =>
    refine ⟨_, rfl, ?_⟩
    simp only [FunctionalTestData.Format]
    split
    · cases FormatSel.ofString fmt <;> exact ⟨_, _, rfl⟩
    · exact ⟨_, _, rfl⟩
  | ScanTest d =>
    refine ⟨_, rfl, ?_⟩
    simp only [ScanTestData.Format]
    cases FormatSel.ofString fmt <;> exact ⟨_, _, rfl⟩
  | Text d =>
    refine ⟨_, rfl, ?_⟩
    simp only [RunState.set3, RunState.get3, TextData.Format]
    cases FormatSel.ofString fmt <;> exact ⟨_, _, rfl⟩
  | Generic d =>
    refine ⟨_, rfl, ?_⟩
    simp only [GenericData.Format]
    cases FormatSel.ofString fmt <;> exact ⟨_, _, rfl⟩
theorem IncNumTestsExecuted_frame (sites : Sites) :
    ∀ p : ST_Datalog, ∃ f, p.IncNumTestsExecuted sites = { p with NumTestsExecuted := f } := by
  induction sites with
  | nil => intro p; exact ⟨_, rfl⟩
  | cons a l ih =>
    intro p
    obtain ⟨f, hf⟩ := ih (p.incSite a)
    refine ⟨f, ?_⟩
    show (p.incSite a).IncNumTestsExecuted l = _
    rw [hf]
    rfl

theorem Format_fold_frame (FH : FormatHost) (data : DatalogData)
    (outputs : List (Option String × Bool)) :
    ∀ rs : RunState, ∃ rs1,
      outputs.foldlM (fun st fmt => data.Format FH fmt.1 fmt.2 st) rs = some rs1 ∧
      ∃ e v, rs1.parent = { rs.parent with LastFormatEvent := e, VerbosePins := v } := by
  induction outputs with
  | nil => intro rs; exact ⟨rs, rfl, _, _, rfl⟩
  | cons a l ih =>
    intro rs
    obtain ⟨r1, h1, e1, v1, hp1⟩ := DatalogData_Format_frame data FH a.1 a.2 rs
    obtain ⟨r2, h2, e2, v2, hp2⟩ := ih r1
    refine ⟨r2, ?_, e2, v2, ?_⟩
    · simp only [List.foldlM_cons, h1]
      exact h2
    · rw [hp2, hp1]

theorem growPatternColumn_false (G : Globals) (n : Int) (h : (growPatternColumn G n).1 = false) :
    (growPatternColumn G n).2 = G := by
  unfold growPatternColumn at h ⊢
  dsimp only at h ⊢
  split
  · rename_i hc
    rw [if_pos hc] at h
    exact Bool.noConfusion h
  · rfl

theorem Functional_fold_plain (d : FunctionalTestData) (F : FuncLib) (parent : ST_Datalog)
    (G : Globals) (hv : d.ShowVerbose parent = false) :
    ∀ (recs : List (SITE × Nat)) (st : FunctionalTestData.LoopState),
      (recs.foldl (d.recStep F parent G) st).out
        = recs.foldl (d.row F parent G)
            (if recs ≠ [] ∧ st.ShowHeaderOnce = true then OutputFunctionalHeader G st.out none
             else st.out) := by
  intro recs
  induction recs with
  | nil => intro st; simp
  | cons r rest ih =>
    intro st
    rw [List.foldl_cons, ih]
    simp only [FunctionalTestData.recStep, hv, Bool.false_eq_true, false_and, if_false,
      and_false, ne_eq, reduceCtorEq, not_false_eq_true, true_and, List.foldl_cons]
    split <;> rfl

theorem Scan_fold (d : ScanTestData) (Pattern : String → PatObject) (G : Globals)
    (tdesc : Option String) :
    ∀ (sites : Sites) (o : OStream) (b : Bool),
      (sites.foldl (d.siteStep Pattern G tdesc) (o, b)).1
        = sites.foldl (d.siteRows Pattern G tdesc)
            (if sites ≠ [] ∧ b = true then ScanTestData.header G o else o) := by
  intro sites
  induction sites with
  | nil => intro o b; simp
  | cons s rest ih =>
    intro o b
    rw [List.foldl_cons]
    show (rest.foldl (d.siteStep Pattern G tdesc)
      (d.siteRows Pattern G tdesc (if b = true then ScanTestData.header G o else o) s, false)).1
      = _
    rw [ih]
    simp
set_option maxRecDepth 1000000 in
/-- C14 counterexample. Two consecutive ASCII renders of the same scan snapshot: before the
second one the last formatted event is ScanTest and the first render left the layout widths
as they were, yet the second render prints the header block again, so the output holds the
column titles twice. -/
theorem C14_counterexample :
    (ScanTestData.Format exScan exPattern exStreamLib (some "ASCII") false
        exFmtState).2.2.1.LastFormatEvent = SystemEvents.ScanTest ∧
    (ScanTestData.Format exScan exPattern exStreamLib (some "ASCII") false exFmtState).2.2.2
      = exFmtState.2.2.2 ∧
    (ScanTestData.Format exScan exPattern exStreamLib (some "ASCII") false
      (ScanTestData.Format exScan exPattern exStreamLib (some "ASCII") false
        exFmtState)).2.2.2 = exFmtState.2.2.2 ∧
    countSub (ScanTestData.Format exScan exPattern exStreamLib (some "ASCII") false
      exFmtState).1.text.data "Test_No.".data = 1 ∧
    countSub (ScanTestData.Format exScan exPattern exStreamLib (some "ASCII") false
      (ScanTestData.Format exScan exPattern exStreamLib (some "ASCII") false
        exFmtState)).1.text.data "Test_No.".data = 2 := by
  refine ⟨by decide, by decide, by decide, by decide, by decide⟩
/-- C14 (amended). When the ASCII renderers print their header block.
`ParametricTestData::FormatASCII` and `ParametricTestDataArray::FormatASCII` print the
parametric header first exactly when the last formatted event is neither ParametricTest nor
ParametricTestArray; so the ASCII render that follows the ASCII render of a parametric or
parametric array snapshot starts with its lines, without header.
`FunctionalTestData::FormatASCII`, when it shows no verbose rows, prints the functional header
once, before the first data row, exactly when there is a data row and the last formatted event
was not FunctionalTest or `CheckPatternNameSize` widened the pattern column; so the render that
follows the render of a functional snapshot, without widening, has no header. Before a verbose
row of a failing site it prints the header with the pin names exactly when the pin list of
the record differs from the cached one, whatever the last formatted event; before any other
row only when `ShowHeaderOnce` is still set.
`ScanTestData::FormatASCII` prints its header before the lines of the first site on every call
that has a site, whatever the last formatted event and the widths. -/
theorem C14_header_rule (dP dP1 : ParametricTestData) (dA dA1 : ParametricTestDataArray)
    (dF dF1 : FunctionalTestData) (dS : ScanTestData) (L : Lib) (F : FuncLib)
    (Pattern : String → PatObject) (env : SiteEnv) (parent : ST_Datalog) (G : Globals)
    (fo : Bool) (o : OStream) (st3 : OStream × STDFV4Stream × ST_Datalog)
    (st4 : OStream × STDFV4Stream × ST_Datalog × Globals)
    (ls : FunctionalTestData.LoopState) (r : SITE × Nat) :
    dP.FormatASCII L parent env fo o
      = dP.asciiLines L parent env fo
          (if parent.LastFormatEvent ≠ SystemEvents.ParametricTest ∧
              parent.LastFormatEvent ≠ SystemEvents.ParametricTestArray then
            OutputParametricHeader o env.LoadedSites parent.FieldWidth
              parent.ASCIIDatalogInColumns false
          else o) ∧
    dA.FormatASCII L parent env fo o
      = dA.asciiLines L parent env fo
          (if parent.LastFormatEvent ≠ SystemEvents.ParametricTest ∧
              parent.LastFormatEvent ≠ SystemEvents.ParametricTestArray then
            OutputParametricHeader o env.LoadedSites parent.FieldWidth
              parent.ASCIIDatalogInColumns false
          else o) ∧
    (∀ st : OStream × STDFV4Stream × ST_Datalog,
      st = dP.Format L env (some "ASCII") fo st3 ∨ st = dA.Format L env (some "ASCII") fo st3 →
      (dP1.Format L env (some "ASCII") fo st).1 = dP1.asciiLines L st.2.2 env fo st.1 ∧
      (dA1.Format L env (some "ASCII") fo st).1 = dA1.asciiLines L st.2.2 env fo st.1) ∧
    (dF.ShowVerbose parent = false →
      (dF.FormatASCII F parent G fo o).1
        = (dF.records fo).foldl
            (dF.row F parent (CheckPatternNameSizeM G dF.PatInfo (dF.fsites fo)).2)
            (if dF.records fo ≠ [] ∧
                (parent.LastFormatEvent ≠ SystemEvents.FunctionalTest ∨
                  (CheckPatternNameSizeM G dF.PatInfo (dF.fsites fo)).1 = true) then
              OutputFunctionalHeader (CheckPatternNameSizeM G dF.PatInfo (dF.fsites fo)).2 o none
            else o)) ∧
    (dF.PatInfo.NumRecordsNonZero = true →
      dF1.PatInfo.NumRecordsNonZero = true →
      dF1.ShowVerbose (dF.Format F (some "ASCII") fo st4).2.2.1 = false →
      (CheckPatternNameSizeM (dF.Format F (some "ASCII") fo st4).2.2.2 dF1.PatInfo
        (dF1.fsites fo)).1 = false →
      (dF1.Format F (some "ASCII") fo (dF.Format F (some "ASCII") fo st4)).1
        = (dF1.records fo).foldl
            (dF1.row F (dF.Format F (some "ASCII") fo st4).2.2.1
              (dF.Format F (some "ASCII") fo st4).2.2.2)
            (dF.Format F (some "ASCII") fo st4).1) ∧
    (dF.recStep F parent G ls r).out
      = dF.row F parent G
          (if dF.ShowVerbose parent = true ∧ dF.FData.Result r.1 = TM_RESULT.TM_FAIL then
            (if F.HasSameOrderAndPins (dF.PatPinInfo.StuffHeaderPins r.1 r.2) ls.VerbosePins
                = false then
              OutputFunctionalHeader G ls.out (dF.PatPinInfo.StuffHeaderPins r.1 r.2)
            else ls.out)
          else if ls.ShowHeaderOnce = true then OutputFunctionalHeader G ls.out none
          else ls.out) r ∧
    (dS.FormatASCII Pattern G fo o).1
      = dS.ctx.DlogSites.foldl
          (dS.siteRows Pattern (CheckPatternNameSizeS G dS.ScanInfo.Patterns)
            (FormatTestDescription dS.ctx dS.FData.Comment))
          (if dS.ctx.DlogSites ≠ [] then
            ScanTestData.header (CheckPatternNameSizeS G dS.ScanInfo.Patterns) o
          else o) := by
  have hsel : FormatSel.ofString (some "ASCII") = FormatSel.ascii := by decide
  have hA : ∀ (d : ParametricTestData) (p : ST_Datalog) (o1 : OStream),
      d.FormatASCII L p env fo o1
        = d.asciiLines L p env fo
            (if p.LastFormatEvent ≠ SystemEvents.ParametricTest ∧
                p.LastFormatEvent ≠ SystemEvents.ParametricTestArray then
              OutputParametricHeader o1 env.LoadedSites p.FieldWidth p.ASCIIDatalogInColumns false
            else o1) := fun _ _ _ => rfl
  have hB : ∀ (d : ParametricTestDataArray) (p : ST_Datalog) (o1 : OStream),
      d.FormatASCII L p env fo o1
        = d.asciiLines L p env fo
            (if p.LastFormatEvent ≠ SystemEvents.ParametricTest ∧
                p.LastFormatEvent ≠ SystemEvents.ParametricTestArray then
              OutputParametricHeader o1 env.LoadedSites p.FieldWidth p.ASCIIDatalogInColumns false
            else o1) := fun _ _ _ => rfl
  have hF : ∀ (d : FunctionalTestData) (p : ST_Datalog) (G0 : Globals) (o1 : OStream),
      d.ShowVerbose p = false →
      (d.FormatASCII F p G0 fo o1).1
        = (d.records fo).foldl
            (d.row F p (CheckPatternNameSizeM G0 d.PatInfo (d.fsites fo)).2)
            (if d.records fo ≠ [] ∧
                (p.LastFormatEvent ≠ SystemEvents.FunctionalTest ∨
                  (CheckPatternNameSizeM G0 d.PatInfo (d.fsites fo)).1 = true) then
              OutputFunctionalHeader (CheckPatternNameSizeM G0 d.PatInfo (d.fsites fo)).2 o1 none
            else o1) := by
    intro d p G0 o1 hv
    unfold FunctionalTestData.FormatASCII
    dsimp only
    rw [Functional_fold_plain d F p _ hv]
    simp only [FunctionalTestData.showHeaderOnce, Bool.or_eq_true, decide_eq_true_eq]
  refine ⟨hA dP parent o, hB dA parent o, ?_, hF dF parent G o, ?_, ?_, ?_⟩
  · intro st hst
    have hlast : st.2.2.LastFormatEvent = SystemEvents.ParametricTest ∨
        st.2.2.LastFormatEvent = SystemEvents.ParametricTestArray := by
      rcases hst with h | h
      · left
        rw [h]
        simp only [ParametricTestData.Format, hsel, ST_Datalog.SetLastFormatEvent]
      · right
        rw [h]
        simp only [ParametricTestDataArray.Format, hsel, ST_Datalog.SetLastFormatEvent]
    have hno : ¬ (st.2.2.LastFormatEvent ≠ SystemEvents.ParametricTest ∧
        st.2.2.LastFormatEvent ≠ SystemEvents.ParametricTestArray) := by
      rcases hlast with h | h
      · exact fun hc => hc.1 h
      · exact fun hc => hc.2 h
    constructor
    · simp only [ParametricTestData.Format, hsel]
      rw [hA dP1 st.2.2 st.1, if_neg hno]
    · simp only [ParametricTestDataArray.Format, hsel]
      rw [hB dA1 st.2.2 st.1, if_neg hno]
  · intro hn hn1 hv hw
    have hlast : (dF.Format F (some "ASCII") fo st4).2.2.1.LastFormatEvent
        = SystemEvents.FunctionalTest := by
      simp only [FunctionalTestData.Format, hn, if_true, hsel, ST_Datalog.SetLastFormatEvent]
    generalize dF.Format F (some "ASCII") fo st4 = r1 at hv hw hlast ⊢
    have hG : (CheckPatternNameSizeM r1.2.2.2 dF1.PatInfo (dF1.fsites fo)).2 = r1.2.2.2 :=
      growPatternColumn_false _ _ hw
    simp only [FunctionalTestData.Format, hn1, if_true, hsel]
    rw [hF dF1 r1.2.2.1 r1.2.2.2 r1.1 hv, hG, hw]
    simp only [hlast, ne_eq, not_true_eq_false, Bool.false_eq_true, or_self, and_false,
      if_false]
  · simp only [FunctionalTestData.recStep]
    split
    · split <;> rfl
    · split <;> rfl
  · unfold ScanTestData.FormatASCII
    dsimp only
    rw [Scan_fold]
    simp
set_option maxRecDepth 1000000 in
/-- Witness of C14 on two consecutive ASCII renders of the functional example, which shows no
verbose rows and does not widen the pattern column: the second render adds its data row to
the output of the first without a header, so the column titles appear once. -/
theorem C14_header_rule_witness :
    exFunc.PatInfo.NumRecordsNonZero = true ∧
    exFunc.ShowVerbose (exFunc.Format exFuncLib (some "ASCII") false exFmtState).2.2.1 = false ∧
    (CheckPatternNameSizeM (exFunc.Format exFuncLib (some "ASCII") false exFmtState).2.2.2
      exFunc.PatInfo (exFunc.fsites false)).1 = false ∧
    (exFunc.Format exFuncLib (some "ASCII") false
        (exFunc.Format exFuncLib (some "ASCII") false exFmtState)).1
      = (exFunc.records false).foldl
          (exFunc.row exFuncLib (exFunc.Format exFuncLib (some "ASCII") false exFmtState).2.2.1
            (exFunc.Format exFuncLib (some "ASCII") false exFmtState).2.2.2)
          (exFunc.Format exFuncLib (some "ASCII") false exFmtState).1 ∧
    countSub (exFunc.Format exFuncLib (some "ASCII") false
      (exFunc.Format exFuncLib (some "ASCII") false exFmtState)).1.text.data
      "Test_No.".data = 1 :=
  have h1 : exFunc.PatInfo.NumRecordsNonZero = true := by decide
  have h2 : exFunc.ShowVerbose
      (exFunc.Format exFuncLib (some "ASCII") false exFmtState).2.2.1 = false := by decide
  have h3 : (CheckPatternNameSizeM (exFunc.Format exFuncLib (some "ASCII") false exFmtState).2.2.2
      exFunc.PatInfo (exFunc.fsites false)).1 = false := by decide
  ⟨h1, h2, h3,
    (C14_header_rule exA exA exArr exArr exFunc exFunc exScan exLib exFuncLib exPattern exEnv2
      ST_Datalog.init Globals.init false exOut (exOut, STDFV4Stream.mk true [], ST_Datalog.init)
      exFmtState { out := exOut, VerbosePins := none, ShowHeaderOnce := true }
      (1, 0)).2.2.2.2.1 h1 h1 h2 h3,
    by decide⟩

/-! ## C21: the summary-needed flag -/

theorem IncNumTestsExecuted_SummaryNeeded (sites : Sites) (p : ST_Datalog) :
    (p.IncNumTestsExecuted sites).SummaryNeeded = p.SummaryNeeded := by
  obtain ⟨f, hf⟩ := IncNumTestsExecuted_frame sites p
  rw [hf]

/-- C21. The flag returned by `ST_Datalog::GetSummaryNeeded` is false in the constructed
method object and after the Summary event; it is true after the StartOfTest, EndOfTest,
ProgramReset and StartOfLot events and after every ParametricTest, ParametricTestArray,
FunctionalTest, ScanTest, Text or Generic event that is accepted (the method returns a data
object: user data of the class of the event, and for ScanTest scan enabled and scan
information available); an event of these six that is not accepted changes nothing, and
neither do StartOfWafer, EndOfWafer, StartTestNode, ProgramLoad, EndOfLot and StartTestBlock.
ProgramUnload runs the Summary action when the flag is true, which leaves the flag false, and
does nothing when the flag is false. No `Format` call changes the flag. -/
theorem C21_summary_needed_flag (FH : FormatHost) (rs : RunState) (ev : SystemEvents)
    (udata : UserData) (H : CaptureHost) (data : DatalogData) (fmt : Option String)
    (fo : Bool) :
    ST_Datalog.init.GetSummaryNeeded = false ∧
    (∃ r, DoEvent SystemEvents.Summary udata H FH rs = some r ∧
      r.1.parent.GetSummaryNeeded = false) ∧
    (ev = SystemEvents.StartOfTest ∨ ev = SystemEvents.EndOfTest ∨
        ev = SystemEvents.ProgramReset ∨ ev = SystemEvents.StartOfLot →
      ∃ r, DoEvent ev udata H FH rs = some r ∧ r.1.parent.GetSummaryNeeded = true) ∧
    (ev = SystemEvents.ParametricTest ∨ ev = SystemEvents.ParametricTestArray ∨
        ev = SystemEvents.FunctionalTest ∨ ev = SystemEvents.ScanTest ∨
        ev = SystemEvents.Text ∨ ev = SystemEvents.Generic →
      ∃ r, DoEvent ev udata H FH rs = some r ∧
        r.2.isSome = eventAccepted rs.parent ev udata H ∧
        (eventAccepted rs.parent ev udata H = true → r.1.parent.GetSummaryNeeded = true) ∧
        (eventAccepted rs.parent ev udata H = false → r.1 = rs)) ∧
    (ev = SystemEvents.StartOfWafer ∨ ev = SystemEvents.EndOfWafer ∨
        ev = SystemEvents.StartTestNode ∨ ev = SystemEvents.ProgramLoad ∨
        ev = SystemEvents.EndOfLot ∨ ev = SystemEvents.StartTestBlock →
      ∃ r, DoEvent ev udata H FH rs = some r ∧ r.1 = rs) ∧
    (rs.parent.GetSummaryNeeded = true →
      ∃ r, DoActionSummary H FH rs = some r ∧
        DoEvent SystemEvents.ProgramUnload udata H FH rs = some (r, none) ∧
        r.parent.GetSummaryNeeded = false) ∧
    (rs.parent.GetSummaryNeeded = false →
      DoEvent SystemEvents.ProgramUnload udata H FH rs = some (rs, none)) ∧
    (∃ rs1, data.Format FH fmt fo rs = some rs1 ∧
      rs1.parent.GetSummaryNeeded = rs.parent.GetSummaryNeeded) := by
  have hinc : ∀ sites : Sites,
      ((rs.parent.SetSummaryNeeded true).IncNumTestsExecuted sites).GetSummaryNeeded = true :=
    fun sites => IncNumTestsExecuted_SummaryNeeded sites _
  refine ⟨rfl, ⟨_, rfl, rfl⟩, ?_, ?_, ?_, ?_, ?_, ?_⟩
  · rintro (h | h | h | h) <;> subst h <;> exact ⟨_, rfl, rfl⟩
  · rintro (h | h | h | h | h | h) <;> subst h
    · cases udata <;>
        first
          | exact ⟨_, rfl, rfl, fun _ => hinc _, fun h => Bool.noConfusion h⟩
          | exact ⟨_, rfl, rfl, fun h => Bool.noConfusion h, fun _ => rfl⟩
    · cases udata <;>
        first
          | exact ⟨_, rfl, rfl, fun _ => hinc _, fun h => Bool.noConfusion h⟩
          | exact ⟨_, rfl, rfl, fun h => Bool.noConfusion h, fun _ => rfl⟩
    · cases udata <;>
        first
          | exact ⟨_, rfl, rfl, fun _ => hinc _, fun h => Bool.noConfusion h⟩
          | exact ⟨_, rfl, rfl, fun h => Bool.noConfusion h, fun _ => rfl⟩
    · cases udata with
      | Functional fdata =>
        by_cases hc : rs.parent.EnableScan2007 = true ∧ H.ScanInfoAvailable = true
        · have ha : eventAccepted rs.parent SystemEvents.ScanTest (UserData.Functional fdata) H
              = true := by
            simp only [eventAccepted, hc.1, hc.2, Bool.and_self]
          refine ⟨({ rs with parent := ((rs.parent.SetSummaryNeeded true).IncNumTestsExecuted
              H.ctx.DlogSites) },
            some (DatalogData.ScanTest (ScanTestData.new (rs.parent.SetSummaryNeeded true) H.ctx
              fdata H.NumberOfScanFails H.ScanInfo).1)), ?_, ?_, fun _ => hinc _, ?_⟩
          · simp only [DoEvent, ST_Datalog.ScanTest, hc, and_self, if_true, ScanTestData.new]
          · rw [ha]; rfl
          · intro h
            rw [ha] at h
            exact Bool.noConfusion h
        · have ha : eventAccepted rs.parent SystemEvents.ScanTest (UserData.Functional fdata) H
              = false := by
            simp only [eventAccepted]
            cases h1 : rs.parent.EnableScan2007
            · rfl
            · cases h2 : H.ScanInfoAvailable
              · rfl
              · exact absurd ⟨h1, h2⟩ hc
          refine ⟨(rs, none), ?_, ?_, ?_, fun _ => rfl⟩
          · simp only [DoEvent, ST_Datalog.ScanTest, hc, if_false]
          · rw [ha]; rfl
          · intro h
            rw [ha] at h
            exact Bool.noConfusion h
      | _ => exact ⟨_, rfl, rfl, fun h => Bool.noConfusion h, fun _ => rfl⟩
    · cases udata <;>
        first
          | exact ⟨_, rfl, rfl, fun _ => rfl, fun h => Bool.noConfusion h⟩
          | exact ⟨_, rfl, rfl, fun h => Bool.noConfusion h, fun _ => rfl⟩
    · cases udata <;>
        first
          | exact ⟨_, rfl, rfl, fun _ => rfl, fun h => Bool.noConfusion h⟩
          | exact ⟨_, rfl, rfl, fun h => Bool.noConfusion h, fun _ => rfl⟩
  · rintro (h | h | h | h | h | h) <;> subst h <;> exact ⟨_, rfl, rfl⟩
  · intro hn
    obtain ⟨r1, h1, e, v, hp⟩ := Format_fold_frame FH
      (DatalogData.Summary (rs.parent.Summary H.ctx.DlogTime H.sum H.lot
        (ST_Datalog.castSummaryInfo H.actionUserData)).2) H.outputs
      { rs with parent := (rs.parent.Summary H.ctx.DlogTime H.sum H.lot
        (ST_Datalog.castSummaryInfo H.actionUserData)).1 }
    have hn1 : rs.parent.SummaryNeeded = true := hn
    have hA : DoActionSummary H FH rs = some r1 := h1
    refine ⟨r1, hA, ?_, ?_⟩
    · simp only [DoEvent, ProgramUnload, hn1, if_true]
      rw [hA]
      rfl
    · rw [hp]; rfl
  · intro hn
    have hn1 : rs.parent.SummaryNeeded = false := hn
    simp only [DoEvent, ProgramUnload, hn1, Bool.false_eq_true, if_false]
  · obtain ⟨r, h1, e, v, hp⟩ := DatalogData_Format_frame data FH fmt fo rs
    exact ⟨r, h1, by rw [hp]; rfl⟩

/-- Witness of C21: the StartOfTest event on the state of a run before any event sets the
flag; and ProgramUnload on the state it leaves runs the Summary action, after which the flag
is false again. -/
theorem C21_summary_needed_flag_witness :
    (SystemEvents.StartOfTest = SystemEvents.StartOfTest ∨
      SystemEvents.StartOfTest = SystemEvents.EndOfTest ∨
      SystemEvents.StartOfTest = SystemEvents.ProgramReset ∨
      SystemEvents.StartOfTest = SystemEvents.StartOfLot) ∧
    ∃ r, DoEvent SystemEvents.StartOfTest UserData.null (exCaptureHost [1, 2]) exFormatHost
        exRun = some r ∧
      r.1.parent.GetSummaryNeeded = true :=
  ⟨Or.inl rfl,
    (C21_summary_needed_flag exFormatHost exRun SystemEvents.StartOfTest UserData.null
      (exCaptureHost [1, 2]) (DatalogData.ParametricTest exA) (some "ASCII") false).2.2.1
      (Or.inl rfl)⟩

/-! ## C22: validity of the result in the part-result records -/

/-- C22 counterexample. A ProgramReset snapshot whose host result for the selected site 1 is
present (pass): the PRR written by `ProgramResetData::FormatSTDFV4` carries the result but
marks it as not valid. -/
theorem C22_counterexample :
    exResetPass.EOT.Results 1 = some true ∧
    ((exResetPass.FormatSTDFV4 ST_Datalog.init false
        (STDFV4Stream.mk true [])).records.filterMap STDFRecord.prr?).map
      (fun r => (r.site, r.resultValid, r.result)) = [(1, false, some true)] := by
  decide

/-- C22 (amended). On a valid stream `EndOfTestData::FormatSTDFV4` writes one PRR per selected
site, in which the result is marked not valid exactly when the host result of the site is
void, and which carries the host result (valid, pass or fail) whenever there is one.
`ProgramResetData::FormatSTDFV4` writes one PRR per selected site too, hands the host result
on, but marks it not valid in every record, whether the host supplied a result or not. -/
theorem C22_part_result_validity (dE : EndOfTestData) (dR : ProgramResetData)
    (parent : ST_Datalog) (fo : Bool) (STDF : STDFV4Stream) (s : SITE)
    (hv : STDF.valid = true) :
    (dE.FormatSTDFV4 parent fo STDF).records
      = STDF.records ++ dE.SelSites.map (fun s => STDFRecord.PRR (dE.PRR parent s)) ∧
    ((dE.PRR parent s).resultValid = false ↔ dE.EOT.Results s = none) ∧
    (dE.PRR parent s).result = dE.EOT.Results s ∧
    (∀ b, dE.EOT.Results s = some b →
      (dE.PRR parent s).resultValid = true ∧ (dE.PRR parent s).result = some b) ∧
    (dR.FormatSTDFV4 parent fo STDF).records
      = STDF.records ++ dR.SelSites.map (fun s => STDFRecord.PRR (dR.PRR parent s)) ∧
    (dR.PRR parent s).resultValid = false ∧
    (dR.PRR parent s).result = dR.EOT.Results s := by
  refine ⟨?_, ?_, rfl, ?_, ?_, rfl, rfl⟩
  · unfold EndOfTestData.FormatSTDFV4
    rw [if_pos hv]
    exact (Write_foldl_records _ _ _).1
  · unfold EndOfTestData.PRR
    cases dE.EOT.Results s <;> simp
  · intro b hb
    unfold EndOfTestData.PRR
    simp [hb]
  · unfold ProgramResetData.FormatSTDFV4
    rw [if_pos hv]
    exact (Write_foldl_records _ _ _).1

/-- Witness of C22 on a valid empty stream: the EndOfTest snapshot with the host result pass
on site 1 gets a PRR with a valid result. -/
theorem C22_part_result_validity_witness :
    (STDFV4Stream.mk true []).valid = true ∧
    (exEOTPass.PRR ST_Datalog.init 1).resultValid = true ∧
    (exEOTPass.PRR ST_Datalog.init 1).result = some true :=
  ⟨rfl, (C22_part_result_validity exEOTPass exResetPass ST_Datalog.init false
    (STDFV4Stream.mk true []) 1 rfl).2.2.2.1 true rfl⟩

/-! ## C26: pass/fail status of a site in the EndOfTest outputs -/

set_option maxRecDepth 1000000 in
/-- C26 (evaluation at the failing input). EndOfTest snapshot of the selected site 1 for which
the host reports no result. The row layout of `EndOfTestData::FormatASCII` shows the blank
status and the PRR marks the result as not valid, but the column layout shows `*FAIL*` for
the site, as it does for a site whose result is fail; with the result pass the three outputs
agree (`PASS `, ` P `, valid pass). -/
theorem C26_void_result_shown_as_fail :
    exEOTVoid.EOT.Results 1 = none ∧
    containsSub (exEOTVoid.FormatASCII exEotLib exParentCols exEnv1 false exOut).text.data
      "*FAIL*".data = true ∧
    containsSub (exEOTVoid.FormatASCII exEotLib exParentCols exEnv1 false exOut).text.data
      "PASS ".data = false ∧
    EndOfTestRowPF exEOTVoid.EOT 1 = "   " ∧
    containsSub (exEOTVoid.FormatASCII exEotLib ST_Datalog.init exEnv1 false exOut).text.data
      " F ".data = false ∧
    (exEOTVoid.PRR ST_Datalog.init 1).resultValid = false ∧
    containsSub (exEOTPass.FormatASCII exEotLib exParentCols exEnv1 false exOut).text.data
      "PASS ".data = true ∧
    containsSub (exEOTPass.FormatASCII exEotLib exParentCols exEnv1 false exOut).text.data
      "*FAIL*".data = false ∧
    EndOfTestRowPF exEOTPass.EOT 1 = " P " ∧
    (exEOTPass.PRR ST_Datalog.init 1).resultValid = true ∧
    (exEOTPass.PRR ST_Datalog.init 1).result = some true := by
  refine ⟨by decide, by decide, by decide, by decide, by decide, by decide, by decide,
    by decide, by decide, by decide, by decide⟩

/-! ## C23: bin counts in the two outputs of a summary -/

theorem filterMap_all_none {α β : Type} (g : α → Option β) (l : List α)
    (h : ∀ a ∈ l, g a = none) : l.filterMap g = [] := by
  induction l with
  | nil => rfl
  | cons a l ih =>
    rw [List.filterMap_cons, h a (List.mem_cons_self a l)]
    exact ih (fun b hb => h b (List.mem_cons_of_mem a hb))

theorem filterMap_all_some {α β γ : Type} (g : α → Option β) (f : γ → α) (k : γ → β)
    (l : List γ) (h : ∀ c, g (f c) = some (k c)) : (l.map f).filterMap g = l.map k := by
  induction l with
  | nil => rfl
  | cons a l ih =>
    rw [List.map_cons, List.filterMap_cons, h a, ih]
    rfl

theorem tsrRecords_no_bins (d : SummaryData) (L : Lib) (parent : ST_Datalog)
    (sites : Sites) :
    (d.tsrRecords L parent sites).filterMap STDFRecord.sbrAll? = [] ∧
    (d.tsrRecords L parent sites).filterMap STDFRecord.hbrAll? = [] := by
  have h : ∀ r ∈ d.tsrRecords L parent sites, ∃ t, r = STDFRecord.TSR t := by
    intro r hr
    unfold SummaryData.tsrRecords at hr
    split at hr
    · rcases List.mem_append.mp hr with h1 | h1
      · obtain ⟨l, hl, hrl⟩ := List.mem_flatten.mp h1
        obtain ⟨s, _, hs⟩ := List.mem_map.mp hl
        rw [← hs] at hrl
        obtain ⟨ii, _, hii⟩ := List.mem_map.mp hrl
        exact ⟨_, hii.symm⟩
      · obtain ⟨ii, _, hii⟩ := List.mem_map.mp h1
        exact ⟨_, hii.symm⟩
    · exact absurd hr (List.not_mem_nil r)
  constructor
  · apply filterMap_all_none
    intro r hr
    obtain ⟨t, ht⟩ := h r hr
    rw [ht]
    rfl
  · apply filterMap_all_none
    intro r hr
    obtain ⟨t, ht⟩ := h r hr
    rw [ht]
    rfl

theorem binRecords_aggregates (d : SummaryData) (H : LotHost) (parent : ST_Datalog)
    (sites : Sites) :
    (d.binRecords H parent sites).filterMap STDFRecord.sbrAll?
      = (List.range d.BinInfo.NumBins).map d.sbrAllRecord ∧
    (d.binRecords H parent sites).filterMap STDFRecord.hbrAll?
      = (List.range d.HWBinInfo.NumBins).map d.hbrAllRecord := by
  have hsiteH : ∀ g : STDFRecord → Option BinRecord,
      (∀ s bn, g (STDFRecord.HBR (d.hbrSiteRecord s bn)) = none) →
      (if parent.PerSiteSummary = true then
        (sites.map (fun site => (List.range d.HWBinInfo.NumBins).map
          (fun bn => STDFRecord.HBR (d.hbrSiteRecord site bn)))).flatten
       else []).filterMap g = [] := by
    intro g hg
    apply filterMap_all_none
    intro r hr
    split at hr
    · obtain ⟨l, hl, hrl⟩ := List.mem_flatten.mp hr
      obtain ⟨s, _, hs⟩ := List.mem_map.mp hl
      rw [← hs] at hrl
      obtain ⟨bn, _, hbn⟩ := List.mem_map.mp hrl
      rw [← hbn]
      exact hg s bn
    · exact absurd hr (List.not_mem_nil r)
  have hsiteS : ∀ g : STDFRecord → Option BinRecord,
      (∀ s bn, g (STDFRecord.SBR (d.sbrSiteRecord s bn)) = none) →
      (if parent.PerSiteSummary = true then
        (sites.map (fun site => (List.range d.BinInfo.NumBins).map
          (fun bn => STDFRecord.SBR (d.sbrSiteRecord site bn)))).flatten
       else []).filterMap g = [] := by
    intro g hg
    apply filterMap_all_none
    intro r hr
    split at hr
    · obtain ⟨l, hl, hrl⟩ := List.mem_flatten.mp hr
      obtain ⟨s, _, hs⟩ := List.mem_map.mp hl
      rw [← hs] at hrl
      obtain ⟨bn, _, hbn⟩ := List.mem_map.mp hrl
      rw [← hbn]
      exact hg s bn
    · exact absurd hr (List.not_mem_nil r)
  have hpcr : ∀ g : STDFRecord → Option BinRecord, (∀ p, g (STDFRecord.PCR p) = none) →
      (if parent.PerSiteSummary = true then
        sites.map (fun site => STDFRecord.PCR
          { total := d.siteTotal site, passes := d.sitePasses site, head := 1, site := site })
       else []).filterMap g = [] := by
    intro g hg
    apply filterMap_all_none
    intro r hr
    split at hr
    · obtain ⟨s, _, hs⟩ := List.mem_map.mp hr
      rw [← hs]
      exact hg _
    · exact absurd hr (List.not_mem_nil r)
  unfold SummaryData.binRecords
  constructor
  · simp only [List.filterMap_append]
    rw [hsiteH _ (fun _ _ => rfl), hsiteS _ (fun _ _ => rfl), hpcr _ (fun _ => rfl),
      filterMap_all_none _ ((List.range d.HWBinInfo.NumBins).map
        (fun bn => STDFRecord.HBR (d.hbrAllRecord bn)))
        (fun r hr => by
          obtain ⟨bn, _, hbn⟩ := List.mem_map.mp hr
          rw [← hbn]
          rfl),
      filterMap_all_some STDFRecord.sbrAll? (fun bn => STDFRecord.SBR (d.sbrAllRecord bn))
        d.sbrAllRecord _ (fun _ => rfl)]
    simp [STDFRecord.sbrAll?]
  · simp only [List.filterMap_append]
    rw [hsiteH _ (fun _ _ => rfl), hsiteS _ (fun _ _ => rfl), hpcr _ (fun _ => rfl),
      filterMap_all_none _ ((List.range d.BinInfo.NumBins).map
        (fun bn => STDFRecord.SBR (d.sbrAllRecord bn)))
        (fun r hr => by
          obtain ⟨bn, _, hbn⟩ := List.mem_map.mp hr
          rw [← hbn]
          rfl),
      filterMap_all_some STDFRecord.hbrAll? (fun bn => STDFRecord.HBR (d.hbrAllRecord bn))
        d.hbrAllRecord _ (fun _ => rfl)]
    simp [STDFRecord.hbrAll?]
theorem binAllRowText_count (d : SummaryData) (F : SumLib) (o : OStream) (ii : Nat) (PC : Rat) :
    ∃ pre post, (d.binAllRowText F o ii PC).text
      = o.text ++ pre ++ padField Adjust.right 10 (toString (d.binAllCount ii)) ++ post := by
  refine ⟨" ALL  " ++ padField Adjust.left 4 (d.BinInfo.Description ii) ++ "  " ++
      padField Adjust.right 5 (toString (d.BinInfo.SWBinNumber ii)) ++ "  " ++
      padField Adjust.right 5 (toString (d.BinInfo.HWBinNumber ii)) ++ "  " ++
      padField Adjust.left 34 (d.BinInfo.BinName ii) ++ "  ",
    "  " ++ padField Adjust.right 9 (F.showFixed 3 PC) ++ "%" ++ "\n", ?_⟩
  simp [SummaryData.binAllRowText, OStream.put, OStream.putw, OStream.setLeft,
    OStream.setRight, OStream.endl, String.append_assoc]

theorem hwAllRowText_count (d : SummaryData) (F : SumLib) (o : OStream) (ii : Nat) (PC : Rat) :
    ∃ pre post, (d.hwAllRowText F o ii PC).text
      = o.text ++ pre ++ padField Adjust.right 10 (toString (d.hwAllCount ii)) ++ post := by
  refine ⟨" ALL  " ++ padField Adjust.left 4 (d.HWBinInfo.Description ii) ++ "  " ++
      padField Adjust.right 5 (toString (d.HWBinInfo.BinNumber ii)) ++ "  " ++
      padField Adjust.left 34 (d.HWBinInfo.BinName ii) ++ "  ",
    "  " ++ padField Adjust.right 9 (F.showFixed 3 PC) ++ "%" ++ "\n", ?_⟩
  simp [SummaryData.hwAllRowText, OStream.put, OStream.putw, OStream.setLeft,
    OStream.setRight, OStream.endl, String.append_assoc]

/-- C23 counterexample. Final summary in which the second software bin (number 2, one device)
has an empty name and the second hardware bin (one device) has the number -1. The binary
output holds an aggregate record for both software bins and for both hardware bins, but the
ASCII bin summaries write no aggregate row for the second software bin and none for the second
hardware bin. -/
theorem C23_counterexample :
    exSumUnnamed.FileClosingAfterSummary = true ∧
    ((exSumUnnamed.FormatSTDFV4 exLib exLotHost ST_Datalog.init exEnv2 false
        (STDFV4Stream.mk true [])).records.filterMap STDFRecord.sbrAll?).map
      (fun r => (r.binNumber, r.count)) = [(1, 3), (2, 1)] ∧
    ((exSumUnnamed.FormatSTDFV4 exLib exLotHost ST_Datalog.init exEnv2 false
        (STDFV4Stream.mk true [])).records.filterMap STDFRecord.hbrAll?).map
      (fun r => (r.binNumber, r.count)) = [(1, 3), (-1, 1)] ∧
    exSumUnnamed.binAllRow exSumLib exOut 1 = some exOut ∧
    exSumUnnamed.hwAllRow exSumLib exOut 1 = some exOut := by
  refine ⟨by decide, by decide, by decide, by decide, by decide⟩

/-- C23 (amended). With the file closing after the summary and a valid stream,
`SummaryData::FormatSTDFV4` writes an aggregate software-bin record for every software bin and
an aggregate hardware-bin record for every hardware bin, with the final or the current count
of the bin according to the kind of the summary. The ASCII bin summary writes an aggregate
row only for the software bins with a non-empty name, and the ASCII hardware bin summary only
for the hardware bins whose number is not negative; such a row shows the count of the
aggregate record of the bin. A software bin without name, or a hardware bin with a negative
number, has an aggregate record and no aggregate row. -/
theorem C23_bin_counts (d : SummaryData) (L : Lib) (F : SumLib) (H : LotHost)
    (parent : ST_Datalog) (env : SiteEnv) (fo : Bool) (STDF : STDFV4Stream) (o : OStream)
    (ii : Nat) (hc : d.FileClosingAfterSummary = true) (hv : STDF.valid = true) :
    ((d.FormatSTDFV4 L H parent env fo STDF).records.drop STDF.records.length).filterMap
        STDFRecord.sbrAll? = (List.range d.BinInfo.NumBins).map d.sbrAllRecord ∧
    ((d.FormatSTDFV4 L H parent env fo STDF).records.drop STDF.records.length).filterMap
        STDFRecord.hbrAll? = (List.range d.HWBinInfo.NumBins).map d.hbrAllRecord ∧
    (d.sbrAllRecord ii).count
      = (if d.IsFinalSummary then d.BinInfo.FinalCount ii else d.BinInfo.Count ii) ∧
    (d.hbrAllRecord ii).count
      = (if d.IsFinalSummary then d.HWBinInfo.FinalCount ii else d.HWBinInfo.Count ii) ∧
    ((d.BinInfo.BinName ii).length > 0 →
      ∃ PC pre post, d.binAllRow F o ii = some (d.binAllRowText F o ii PC) ∧
        (d.binAllRowText F o ii PC).text
          = o.text ++ pre ++ padField Adjust.right 10 (toString (d.sbrAllRecord ii).count)
              ++ post) ∧
    ((d.BinInfo.BinName ii).length = 0 → d.binAllRow F o ii = some o) ∧
    (d.HWBinInfo.BinNumber ii ≥ 0 →
      ∃ PC pre post, d.hwAllRow F o ii = some (d.hwAllRowText F o ii PC) ∧
        (d.hwAllRowText F o ii PC).text
          = o.text ++ pre ++ padField Adjust.right 10 (toString (d.hbrAllRecord ii).count)
              ++ post) ∧
    (d.HWBinInfo.BinNumber ii < 0 → d.hwAllRow F o ii = some o) := by
  have hrec : (d.FormatSTDFV4 L H parent env fo STDF).records.drop STDF.records.length
      = d.tsrRecords L parent env.LoadedSites ++ d.binRecords H parent env.LoadedSites := by
    unfold SummaryData.FormatSTDFV4
    simp only [hc, Bool.true_eq_false, if_false, hv, if_true]
    have h := (Write_foldl_records (fun r => r)
      (d.tsrRecords L parent env.LoadedSites ++ d.binRecords H parent env.LoadedSites) STDF).1
    rw [List.map_id'] at h
    rw [h, List.drop_left]
  refine ⟨?_, ?_, rfl, rfl, ?_, ?_, ?_, ?_⟩
  · rw [hrec, List.filterMap_append, (tsrRecords_no_bins d L parent _).1,
      (binRecords_aggregates d H parent _).1, List.nil_append]
  · rw [hrec, List.filterMap_append, (tsrRecords_no_bins d L parent _).2,
      (binRecords_aggregates d H parent _).2, List.nil_append]
  · intro hn
    obtain ⟨pre, post, hp⟩ := binAllRowText_count d F o ii
      (if d.total > 0 ∧ d.binAllCount ii > 0 then
        (d.binAllCount ii : Rat) / (d.total : Rat) * 100 else 0)
    refine ⟨_, pre, post, ?_, hp⟩
    unfold SummaryData.binAllRow
    rw [if_pos hn, allBinPercent_eq, Option.map_some']
  · intro hn
    unfold SummaryData.binAllRow
    rw [if_neg (by omega)]
  · intro hn
    obtain ⟨pre, post, hp⟩ := hwAllRowText_count d F o ii
      (if d.total > 0 ∧ d.hwAllCount ii > 0 then
        (d.hwAllCount ii : Rat) / (d.total : Rat) * 100 else 0)
    refine ⟨_, pre, post, ?_, hp⟩
    unfold SummaryData.hwAllRow
    rw [if_pos hn, allBinPercent_eq, Option.map_some']
  · intro hn
    unfold SummaryData.hwAllRow
    rw [if_neg (by omega)]

/-- Witness of C23 on the example summary, written to a valid empty stream: both software bins
get an aggregate record, with the counts 3 and 1. -/
theorem C23_bin_counts_witness :
    exSum.FileClosingAfterSummary = true ∧
    (STDFV4Stream.mk true []).valid = true ∧
    ((exSum.FormatSTDFV4 exLib exLotHost ST_Datalog.init exEnv2 false
        (STDFV4Stream.mk true [])).records.drop
          (STDFV4Stream.mk true []).records.length).filterMap STDFRecord.sbrAll?
      = (List.range exSum.BinInfo.NumBins).map exSum.sbrAllRecord :=
  ⟨rfl, rfl, (C23_bin_counts exSum exLib exSumLib exLotHost ST_Datalog.init exEnv2 false
    (STDFV4Stream.mk true []) exOut 0 rfl rfl).1⟩

/-! ## C24: the ASCII render after the binary render of the same snapshot -/

theorem rowCallsFrom_LastFormatEvent (d : ParametricTestData) (L : Lib) (p : ST_Datalog)
    (e : SystemEvents) (tdesc : Option String) (scale : Rat) (sites : Sites) :
    ∀ ru, ParametricTestData.rowCallsFrom d L (p.SetLastFormatEvent e) tdesc scale ru sites
      = ParametricTestData.rowCallsFrom d L p tdesc scale ru sites := by
  induction sites with
  | nil => intro ru; rfl
  | cons s rest ih =>
    intro ru
    simp only [ParametricTestData.rowCallsFrom]
    rw [ih]
    rfl

theorem asciiLines_LastFormatEvent (d : ParametricTestData) (L : Lib) (p : ST_Datalog)
    (e : SystemEvents) (env : SiteEnv) (fo : Bool) (o : OStream) :
    d.asciiLines L (p.SetLastFormatEvent e) env fo o = d.asciiLines L p env fo o := by
  unfold ParametricTestData.asciiLines
  have h1 : (p.SetLastFormatEvent e).ASCIIDatalogInColumns = p.ASCIIDatalogInColumns := rfl
  have h2 : d.FormatASCIIColumns L (p.SetLastFormatEvent e) env fo o
      = d.FormatASCIIColumns L p env fo o := rfl
  have h3 : d.rowCalls L (p.SetLastFormatEvent e) fo = d.rowCalls L p fo := by
    unfold ParametricTestData.rowCalls
    exact rowCallsFrom_LastFormatEvent d L p e _ _ _ _
  rw [h1, h2, h3]

set_option maxRecDepth 1000000 in
/-- C24 counterexample. Scenario A, last formatted event StartTestBlock (the method object as
constructed): the ASCII render alone prints the header block and the two site lines; after the
STDFV4 render of the same snapshot the ASCII render prints the two site lines without the
header block, so the two texts differ. -/
theorem C24_counterexample :
    countSub (exA.Format exLib exEnv2 (some "ASCII") false
      (exOut, STDFV4Stream.mk true [], ST_Datalog.init)).1.text.data "Test_No.".data = 1 ∧
    countSub (exA.Format exLib exEnv2 (some "ASCII") false
      (exA.Format exLib exEnv2 (some "STDFV4") false
        (exOut, STDFV4Stream.mk true [], ST_Datalog.init))).1.text.data "Test_No.".data = 0 ∧
    (exA.Format exLib exEnv2 (some "ASCII") false
      (exA.Format exLib exEnv2 (some "STDFV4") false
        (exOut, STDFV4Stream.mk true [], ST_Datalog.init))).1.text
      ≠ (exA.Format exLib exEnv2 (some "ASCII") false
        (exOut, STDFV4Stream.mk true [], ST_Datalog.init)).1.text := by
  refine ⟨by decide, by decide, by decide⟩

/-- C24 (amended). `ParametricTestData::Format` with the STDFV4 format leaves the text output
as it was and sets the last formatted event to ParametricTest. The ASCII render of the
snapshot that follows prints the lines of the test without the header block, whatever the
last formatted event was before; the ASCII render alone prints the same lines after the header
block when the last formatted event is neither ParametricTest nor ParametricTestArray. The two
texts are the same when the last formatted event was ParametricTest or ParametricTestArray
before; otherwise the binary render in front removes the header block from the ASCII
text. -/
theorem C24_ascii_after_stdf (d : ParametricTestData) (L : Lib) (env : SiteEnv) (fo : Bool)
    (st : OStream × STDFV4Stream × ST_Datalog) :
    (d.Format L env (some "STDFV4") fo st).1 = st.1 ∧
    (d.Format L env (some "STDFV4") fo st).2.2.LastFormatEvent = SystemEvents.ParametricTest ∧
    (d.Format L env (some "ASCII") fo (d.Format L env (some "STDFV4") fo st)).1
      = d.asciiLines L st.2.2 env fo st.1 ∧
    (d.Format L env (some "ASCII") fo st).1
      = d.asciiLines L st.2.2 env fo
          (if st.2.2.LastFormatEvent ≠ SystemEvents.ParametricTest ∧
              st.2.2.LastFormatEvent ≠ SystemEvents.ParametricTestArray then
            OutputParametricHeader st.1 env.LoadedSites st.2.2.FieldWidth
              st.2.2.ASCIIDatalogInColumns false
          else st.1) ∧
    (st.2.2.LastFormatEvent = SystemEvents.ParametricTest ∨
        st.2.2.LastFormatEvent = SystemEvents.ParametricTestArray →
      (d.Format L env (some "ASCII") fo (d.Format L env (some "STDFV4") fo st)).1
        = (d.Format L env (some "ASCII") fo st).1) := by
  have hA : FormatSel.ofString (some "ASCII") = FormatSel.ascii := by decide
  have hS : FormatSel.ofString (some "STDFV4") = FormatSel.stdfv4 := by decide
  have h1 : (d.Format L env (some "STDFV4") fo st).1 = st.1 := by
    simp only [ParametricTestData.Format, hS]
  have h2 : (d.Format L env (some "STDFV4") fo st).2.2
      = st.2.2.SetLastFormatEvent SystemEvents.ParametricTest := by
    simp only [ParametricTestData.Format, hS]
  have hlines : ∀ (p : ST_Datalog) (o : OStream), d.FormatASCII L p env fo o
      = d.asciiLines L p env fo
          (if p.LastFormatEvent ≠ SystemEvents.ParametricTest ∧
              p.LastFormatEvent ≠ SystemEvents.ParametricTestArray then
            OutputParametricHeader o env.LoadedSites p.FieldWidth p.ASCIIDatalogInColumns false
          else o) := fun _ _ => rfl
  have h3 : (d.Format L env (some "ASCII") fo (d.Format L env (some "STDFV4") fo st)).1
      = d.asciiLines L st.2.2 env fo st.1 := by
    have : (d.Format L env (some "ASCII") fo (d.Format L env (some "STDFV4") fo st)).1
        = d.FormatASCII L (d.Format L env (some "STDFV4") fo st).2.2 env fo
            (d.Format L env (some "STDFV4") fo st).1 := by
      simp only [ParametricTestData.Format, hA]
    rw [this, h1, h2, hlines, asciiLines_LastFormatEvent]
    simp [ST_Datalog.SetLastFormatEvent]
  have h4 : (d.Format L env (some "ASCII") fo st).1
      = d.asciiLines L st.2.2 env fo
          (if st.2.2.LastFormatEvent ≠ SystemEvents.ParametricTest ∧
              st.2.2.LastFormatEvent ≠ SystemEvents.ParametricTestArray then
            OutputParametricHeader st.1 env.LoadedSites st.2.2.FieldWidth
              st.2.2.ASCIIDatalogInColumns false
          else st.1) := by
    simp only [ParametricTestData.Format, hA]
    exact hlines _ _
  refine ⟨h1, by rw [h2]; rfl, h3, h4, fun hl => ?_⟩
  rw [h3, h4]
  have hno : ¬ (st.2.2.LastFormatEvent ≠ SystemEvents.ParametricTest ∧
      st.2.2.LastFormatEvent ≠ SystemEvents.ParametricTestArray) := by
    rcases hl with h | h
    · exact fun hc => hc.1 h
    · exact fun hc => hc.2 h
  rw [if_neg hno]

/-- Witness of C24: scenario A rendered when the last formatted event is ParametricTest; the
ASCII text is the same with and without the binary render in front. -/
theorem C24_ascii_after_stdf_witness :
    ((exOut, STDFV4Stream.mk true [],
        ST_Datalog.init.SetLastFormatEvent SystemEvents.ParametricTest).2.2.LastFormatEvent
          = SystemEvents.ParametricTest ∨
      (exOut, STDFV4Stream.mk true [],
        ST_Datalog.init.SetLastFormatEvent SystemEvents.ParametricTest).2.2.LastFormatEvent
          = SystemEvents.ParametricTestArray) ∧
    (exA.Format exLib exEnv2 (some "ASCII") false
      (exA.Format exLib exEnv2 (some "STDFV4") false
        (exOut, STDFV4Stream.mk true [],
          ST_Datalog.init.SetLastFormatEvent SystemEvents.ParametricTest))).1
      = (exA.Format exLib exEnv2 (some "ASCII") false
        (exOut, STDFV4Stream.mk true [],
          ST_Datalog.init.SetLastFormatEvent SystemEvents.ParametricTest)).1 :=
  ⟨Or.inl rfl, (C24_ascii_after_stdf exA exLib exEnv2 false
    (exOut, STDFV4Stream.mk true [],
      ST_Datalog.init.SetLastFormatEvent SystemEvents.ParametricTest)).2.2.2.2 (Or.inl rfl)⟩

/-! ## C25: the scale of the values in the column-oriented output -/

/-- Column-oriented section of `ParametricTestData::FormatASCII`: every cell of a tested site
holds the value printed with the scale and unit string of `valueScaleUnits`. -/
theorem ParametricTestData_column_scales (d : ParametricTestData) (L : Lib)
    (parent : ST_Datalog) (env : SiteEnv) (fo : Bool) (o : OStream)
    (hsorted : List.Pairwise (fun x y => x < y) env.LoadedSites)
    (hne : env.LoadedSites ≠ [])
    (h0 : ∀ s ∈ env.LoadedSites, s ≠ 0)
    (hsub : List.Sublist d.ctx.DlogSites env.LoadedSites)
    (hfw : 1 ≤ parent.FieldWidth) :
    ∃ (cells : List String) (oc : OStream),
      List.Forall₂ (fun site cell =>
        (site ∉ d.fsites fo → cell = blanks (4 + parent.FieldWidth.toNat + 2)) ∧
        (site ∈ d.fsites fo → ∃ v o1 ru,
          cell = PFMarker (d.PData.Result site) parent.PassString ++ " " ++ v ∧
          (PrintValue L o1
              (varType (d.PData.BaseSData ParamKind.Test site)
                (d.PData.BaseSData ParamKind.LowLimit (d.limitSite fo))
                (d.PData.BaseSData ParamKind.HighLimit (d.limitSite fo)))
              (d.PData.BaseSData ParamKind.Test site)
              (d.valueScaleUnits L parent fo ru site).2 parent.FieldWidth
              (d.valueScaleUnits L parent fo ru site).1 true
              parent.GetIntegerPartWidth).text = o1.text ++ v))
        env.LoadedSites cells ∧
      oc.text = cells.foldl (fun acc c => acc ++ c) (d.lineStart L parent fo o).text ∧
      d.FormatASCIIColumns L parent env fo o = d.lineEnd L parent fo oc := by
  obtain ⟨a, l, hl⟩ := List.exists_cons_of_ne_nil hne
  obtain ⟨ls, sel, act⟩ := env
  dsimp only at hl hsorted hne h0 hsub ⊢
  subst hl
  have hfs : List.Sublist (d.fsites fo) (a :: l) := by
    unfold ParametricTestData.fsites Sites.DisableFailingSites
    cases fo
    · simpa using hsub
    · exact (List.filter_sublist _).trans hsub
  exact colFold_line (d.lineStart L parent fo) (d.lineEnd L parent fo)
    (fun o => ((o.put "    ").putw parent.FieldWidth " ").put "  ")
    (fun (st : ParametricTestData.ColState) site =>
      { out := PrintValue L
          ((st.out.put (PFMarker (d.PData.Result site) parent.PassString)).put " ")
          (varType (d.PData.BaseSData ParamKind.Test site)
            (d.PData.BaseSData ParamKind.LowLimit (d.limitSite fo))
            (d.PData.BaseSData ParamKind.HighLimit (d.limitSite fo)))
          (d.PData.BaseSData ParamKind.Test site)
          (d.valueScaleUnits L parent fo st.real_units site).2
          parent.FieldWidth
          (d.valueScaleUnits L parent fo st.real_units site).1
          true parent.GetIntegerPartWidth
        tested := st.tested.tail
        real_units := (d.valueScaleUnits L parent fo st.real_units site).2 })
    (blanks (4 + parent.FieldWidth.toNat + 2))
    (fun site cell => ∃ v o1 ru,
      cell = PFMarker (d.PData.Result site) parent.PassString ++ " " ++ v ∧
      (PrintValue L o1
          (varType (d.PData.BaseSData ParamKind.Test site)
            (d.PData.BaseSData ParamKind.LowLimit (d.limitSite fo))
            (d.PData.BaseSData ParamKind.HighLimit (d.limitSite fo)))
          (d.PData.BaseSData ParamKind.Test site)
          (d.valueScaleUnits L parent fo ru site).2 parent.FieldWidth
          (d.valueScaleUnits L parent fo ru site).1 true
          parent.GetIntegerPartWidth).text = o1.text ++ v)
    (fun o => blank_cell_text o parent.FieldWidth hfw)
    (fun st s => ⟨rfl, by
      obtain ⟨v, hv, _⟩ := PrintValue_cell L
        ((st.out.put (PFMarker (d.PData.Result s) parent.PassString)).put " ")
        (varType (d.PData.BaseSData ParamKind.Test s)
          (d.PData.BaseSData ParamKind.LowLimit (d.limitSite fo))
          (d.PData.BaseSData ParamKind.HighLimit (d.limitSite fo)))
        (d.PData.BaseSData ParamKind.Test s)
        (d.valueScaleUnits L parent fo st.real_units s).2
        parent.FieldWidth (by omega)
        (d.valueScaleUnits L parent fo st.real_units s).1
        parent.GetIntegerPartWidth
      refine ⟨PFMarker (d.PData.Result s) parent.PassString ++ " " ++ v, ?_, v, _,
        st.real_units, rfl, hv⟩
      rw [hv]
      simp [OStream.put, String.append_assoc]⟩)
    a l (d.fsites fo) hsorted h0 hfs (d.asciiRealUnits L) o

/-- Column-oriented section of `ParametricTestDataArray::FormatASCII`: in every printed line
the cell of a tested site that shows a value holds it printed with the scale and unit string
of `valueScaleUnits`. -/
theorem ParametricTestDataArray_column_scales (d : ParametricTestDataArray) (L : Lib)
    (parent : ST_Datalog) (env : SiteEnv) (fo : Bool) (o : OStream) (ru0 : String) (ii : Nat)
    (hsorted : List.Pairwise (fun x y => x < y) env.LoadedSites)
    (hne : env.LoadedSites ≠ [])
    (h0 : ∀ s ∈ env.LoadedSites, s ≠ 0)
    (hsub : List.Sublist d.ctx.DlogSites env.LoadedSites)
    (hfw : 1 ≤ parent.FieldWidth)
    (hprint : env.ActiveSites.all (fun s => decide (d.resAt s ii = TM_RESULT.TM_PASS)) = false
      ∨ fo = false) :
    ∃ (cells : List String) (oc : OStream),
      List.Forall₂ (fun site cell =>
        (site ∉ d.ctx.DlogSites → cell = blanks (4 + parent.FieldWidth.toNat + 2)) ∧
        (site ∈ d.ctx.DlogSites →
          (¬ (fo = true ∧ d.resAt site ii = TM_RESULT.TM_PASS) → ∃ v o1 ru,
            cell = PFMarker (d.resAt site ii) parent.PassString ++ " " ++ v ∧
            (PrintValue L o1
                (varType (d.PData.SData BasicVar.void ParamKind.Test ii site)
                  (d.PData.SData BasicVar.void ParamKind.LowLimit ii d.limitSite)
                  (d.PData.SData BasicVar.void ParamKind.HighLimit ii d.limitSite))
                (d.PData.SData BasicVar.void ParamKind.Test ii site)
                (d.valueScaleUnits L parent ii ru site).2 parent.FieldWidth
                (d.valueScaleUnits L parent ii ru site).1
                true parent.GetIntegerPartWidth).text = o1.text ++ v)))
        env.LoadedSites cells ∧
      oc.text = cells.foldl (fun acc c => acc ++ c) (d.lineStart L parent ii o).text ∧
      (d.FormatASCIIColumnLine L parent env fo (o, ru0) ii).1 = d.lineEnd L parent ii oc := by
  obtain ⟨a, l, hl⟩ := List.exists_cons_of_ne_nil hne
  obtain ⟨ls, sel, act⟩ := env
  dsimp only at hl hsorted hne h0 hsub hprint ⊢
  subst hl
  obtain ⟨cells, oc, hc, ht, hrun⟩ := colFold_line (d.lineStart L parent ii)
    (d.lineEnd L parent ii)
    (fun o => ((o.put "    ").putw parent.FieldWidth " ").put "  ")
    (fun (cs : ParametricTestData.ColState) site =>
      { out :=
          if d.resAt site ii ≠ TM_RESULT.TM_PASS ∨ fo = false then
            PrintValue L
              ((cs.out.put (PFMarker (d.resAt site ii) parent.PassString)).put " ")
              (varType (d.PData.SData BasicVar.void ParamKind.Test ii site)
                (d.PData.SData BasicVar.void ParamKind.LowLimit ii d.limitSite)
                (d.PData.SData BasicVar.void ParamKind.HighLimit ii d.limitSite))
              (d.PData.SData BasicVar.void ParamKind.Test ii site)
              (d.valueScaleUnits L parent ii cs.real_units site).2
              parent.FieldWidth
              (d.valueScaleUnits L parent ii cs.real_units site).1
              true parent.GetIntegerPartWidth
          else ((cs.out.put "    ").putw parent.FieldWidth " ").put "  "
        tested := cs.tested.tail
        real_units := (d.valueScaleUnits L parent ii cs.real_units site).2 })
    (blanks (4 + parent.FieldWidth.toNat + 2))
    (fun site cell =>
      (¬ (fo = true ∧ d.resAt site ii = TM_RESULT.TM_PASS) → ∃ v o1 ru,
        cell = PFMarker (d.resAt site ii) parent.PassString ++ " " ++ v ∧
        (PrintValue L o1
            (varType (d.PData.SData BasicVar.void ParamKind.Test ii site)
              (d.PData.SData BasicVar.void ParamKind.LowLimit ii d.limitSite)
              (d.PData.SData BasicVar.void ParamKind.HighLimit ii d.limitSite))
            (d.PData.SData BasicVar.void ParamKind.Test ii site)
            (d.valueScaleUnits L parent ii ru site).2 parent.FieldWidth
            (d.valueScaleUnits L parent ii ru site).1
            true parent.GetIntegerPartWidth).text = o1.text ++ v))
    (fun o => blank_cell_text o parent.FieldWidth hfw)
    (fun cs s => ⟨rfl, by
      by_cases hcond : fo = true ∧ d.resAt s ii = TM_RESULT.TM_PASS
      · refine ⟨blanks (4 + parent.FieldWidth.toNat + 2), ?_, fun h => absurd hcond h⟩
        have hn : ¬ (d.resAt s ii ≠ TM_RESULT.TM_PASS ∨ fo = false) := by
          rintro (h | h)
          · exact h hcond.2
          · rw [hcond.1] at h
            exact Bool.noConfusion h
        simp only [hn, if_false]
        exact blank_cell_text cs.out parent.FieldWidth hfw
      · have hp : d.resAt s ii ≠ TM_RESULT.TM_PASS ∨ fo = false := by
          by_cases hr : d.resAt s ii = TM_RESULT.TM_PASS
          · right
            cases fo
            · rfl
            · exact absurd ⟨rfl, hr⟩ hcond
          · exact Or.inl hr
        obtain ⟨v, hv, _⟩ := PrintValue_cell L
          ((cs.out.put (PFMarker (d.resAt s ii) parent.PassString)).put " ")
          (varType (d.PData.SData BasicVar.void ParamKind.Test ii s)
            (d.PData.SData BasicVar.void ParamKind.LowLimit ii d.limitSite)
            (d.PData.SData BasicVar.void ParamKind.HighLimit ii d.limitSite))
          (d.PData.SData BasicVar.void ParamKind.Test ii s)
          (d.valueScaleUnits L parent ii cs.real_units s).2
          parent.FieldWidth (by omega)
          (d.valueScaleUnits L parent ii cs.real_units s).1
          parent.GetIntegerPartWidth
        refine ⟨PFMarker (d.resAt s ii) parent.PassString ++ " " ++ v, ?_,
          fun _ => ⟨v, _, cs.real_units, rfl, hv⟩⟩
        simp only [hp, if_true]
        rw [hv]
        simp [OStream.put, String.append_assoc]⟩)
    a l d.ctx.DlogSites hsorted h0 hsub ru0 o
  refine ⟨cells, oc, hc, ht, ?_⟩
  unfold ParametricTestDataArray.FormatASCIIColumnLine
  dsimp only
  rw [if_pos hprint]
  exact hrun
set_option maxRecDepth 1000000 in
/-- C25 counterexample. Column layout, unit autoscaling enabled, unit "W" unknown to the unit
table (fixed scale 0), two loaded and tested sites without limits: site 1 measures 0.005 and
site 2 measures 5. The line carries the single unit label "mW" of the limit scale 1000, taken
from the first tested site; the value of site 1 is printed with scale 1000, but the value of
site 2 is printed with the scale 1 of its own autorange. -/
theorem C25_counterexample :
    exTwoRanges.asciiScale exLibRange exParentColsAuto = 0 ∧
    exTwoRanges.limitScaleUnits exLibRange exParentColsAuto false = (1000, "mW") ∧
    exTwoRanges.valueScaleUnits exLibRange exParentColsAuto false "" 1 = (1000, "mW") ∧
    exTwoRanges.valueScaleUnits exLibRange exParentColsAuto false "mW" 2 = (1, "W") ∧
    (exTwoRanges.FormatASCII exLibRange exParentColsAuto exEnv2 false exOut).text
      = "       100                  P     1000*1/200   P          1*5/1                 mW                               pwr\n" := by
  refine ⟨by decide, by decide, by decide, by decide, by decide⟩

/-- C25 (amended). Column layout, the loaded sites in strictly ascending order, none of them
site 0, the tested sites a sub-sequence of them, field width at least 1. A line of
`ParametricTestData::FormatASCII`, and every printed line of
`ParametricTestDataArray::FormatASCII`, is the line start (low limit), one cell per loaded
site and the line end (high limit, unit label); the limits are printed with the limit scale
and the label is the limit unit string, both computed at the first tested site; the value of
a tested site is printed with the scale `(scale != 0) ? scale : CalculateAutoRangeUnitScale`
computed from the value of that site. When the fixed scale is not 0, which is always so with
unit autoscaling disabled, every value and both limits are printed with that one scale and
the label is the declared unit. When the fixed scale is 0, each value is printed with the
autorange scale of its own site, which the library computes from that site's value, while the
limits and the label come from the autorange at the first tested site. -/
theorem C25_column_value_scale (d : ParametricTestData) (da : ParametricTestDataArray)
    (L : Lib) (parent : ST_Datalog) (env : SiteEnv) (fo : Bool) (o : OStream) (ru0 : String)
    (ii : Nat)
    (hsorted : List.Pairwise (fun x y => x < y) env.LoadedSites)
    (hne : env.LoadedSites ≠ [])
    (h0 : ∀ s ∈ env.LoadedSites, s ≠ 0)
    (hsub : List.Sublist d.ctx.DlogSites env.LoadedSites)
    (hsuba : List.Sublist da.ctx.DlogSites env.LoadedSites)
    (hfw : 1 ≤ parent.FieldWidth)
    (hprint : env.ActiveSites.all (fun s => decide (da.resAt s ii = TM_RESULT.TM_PASS)) = false
      ∨ fo = false) :
    (∃ (cells : List String) (oc : OStream),
      List.Forall₂ (fun site cell =>
        (site ∉ d.fsites fo → cell = blanks (4 + parent.FieldWidth.toNat + 2)) ∧
        (site ∈ d.fsites fo → ∃ v o1 ru,
          cell = PFMarker (d.PData.Result site) parent.PassString ++ " " ++ v ∧
          (PrintValue L o1
              (varType (d.PData.BaseSData ParamKind.Test site)
                (d.PData.BaseSData ParamKind.LowLimit (d.limitSite fo))
                (d.PData.BaseSData ParamKind.HighLimit (d.limitSite fo)))
              (d.PData.BaseSData ParamKind.Test site)
              (d.valueScaleUnits L parent fo ru site).2 parent.FieldWidth
              (d.valueScaleUnits L parent fo ru site).1 true
              parent.GetIntegerPartWidth).text = o1.text ++ v))
        env.LoadedSites cells ∧
      oc.text = cells.foldl (fun acc c => acc ++ c) (d.lineStart L parent fo o).text ∧
      d.FormatASCIIColumns L parent env fo o = d.lineEnd L parent fo oc) ∧
    (∃ (cells : List String) (oc : OStream),
      List.Forall₂ (fun site cell =>
        (site ∉ da.ctx.DlogSites → cell = blanks (4 + parent.FieldWidth.toNat + 2)) ∧
        (site ∈ da.ctx.DlogSites →
          (¬ (fo = true ∧ da.resAt site ii = TM_RESULT.TM_PASS) → ∃ v o1 ru,
            cell = PFMarker (da.resAt site ii) parent.PassString ++ " " ++ v ∧
            (PrintValue L o1
                (varType (da.PData.SData BasicVar.void ParamKind.Test ii site)
                  (da.PData.SData BasicVar.void ParamKind.LowLimit ii da.limitSite)
                  (da.PData.SData BasicVar.void ParamKind.HighLimit ii da.limitSite))
                (da.PData.SData BasicVar.void ParamKind.Test ii site)
                (da.valueScaleUnits L parent ii ru site).2 parent.FieldWidth
                (da.valueScaleUnits L parent ii ru site).1
                true parent.GetIntegerPartWidth).text = o1.text ++ v)))
        env.LoadedSites cells ∧
      oc.text = cells.foldl (fun acc c => acc ++ c) (da.lineStart L parent ii o).text ∧
      (da.FormatASCIIColumnLine L parent env fo (o, ru0) ii).1 = da.lineEnd L parent ii oc) ∧
    (parent.UnitAutoscaling = false →
      d.asciiScale L parent ≠ 0 ∧ da.asciiScale L parent ≠ 0) ∧
    (d.asciiScale L parent ≠ 0 →
      d.limitScaleUnits L parent fo = (d.asciiScale L parent, d.PData.Units) ∧
      ∀ ru site, d.valueScaleUnits L parent fo ru site = (d.asciiScale L parent, ru)) ∧
    (da.asciiScale L parent ≠ 0 →
      da.limitScaleUnits L parent ii = (da.asciiScale L parent, da.PData.Units) ∧
      ∀ ru site, da.valueScaleUnits L parent ii ru site = (da.asciiScale L parent, ru)) ∧
    (d.asciiScale L parent = 0 →
      d.limitScaleUnits L parent fo
        = L.CalculateAutoRangeUnitScale d.PData.Units d.PData.Units
            (d.PData.BaseSData ParamKind.Test (d.limitSite fo))
            (d.PData.BaseSData ParamKind.LowLimit (d.limitSite fo))
            (d.PData.BaseSData ParamKind.HighLimit (d.limitSite fo)) ∧
      ∀ ru site, d.valueScaleUnits L parent fo ru site
        = L.CalculateAutoRangeUnitScale d.PData.Units ru
            (d.PData.BaseSData ParamKind.Test site)
            (d.PData.BaseSData ParamKind.LowLimit (d.limitSite fo))
            (d.PData.BaseSData ParamKind.HighLimit (d.limitSite fo))) ∧
    (da.asciiScale L parent = 0 →
      da.limitScaleUnits L parent ii
        = L.CalculateAutoRangeUnitScale da.PData.Units da.PData.Units
            (da.PData.SData BasicVar.void ParamKind.Test ii da.limitSite)
            (da.PData.SData BasicVar.void ParamKind.LowLimit ii da.limitSite)
            (da.PData.SData BasicVar.void ParamKind.HighLimit ii da.limitSite) ∧
      ∀ ru site, da.valueScaleUnits L parent ii ru site
        = L.CalculateAutoRangeUnitScale da.PData.Units ru
            (da.PData.SData BasicVar.void ParamKind.Test ii site)
            (da.PData.SData BasicVar.void ParamKind.LowLimit ii da.limitSite)
            (da.PData.SData BasicVar.void ParamKind.HighLimit ii da.limitSite)) := by
  refine ⟨ParametricTestData_column_scales d L parent env fo o hsorted hne h0 hsub hfw,
    ParametricTestDataArray_column_scales da L parent env fo o ru0 ii hsorted hne h0 hsuba hfw
      hprint, ?_, ?_, ?_, ?_, ?_⟩
  · intro ha
    constructor
    · unfold ParametricTestData.asciiScale ParametricTestData.fixScale
      rw [ha]
      split
      · norm_num
      · rename_i h
        intro h0
        exact h ⟨h0, rfl⟩
    · unfold ParametricTestDataArray.asciiScale ParametricTestData.fixScale
      rw [ha]
      split
      · norm_num
      · rename_i h
        intro h0
        exact h ⟨h0, rfl⟩
  · intro hs
    constructor
    · unfold ParametricTestData.limitScaleUnits ParametricTestData.realScale
      rw [if_pos hs]
    · intro ru site
      unfold ParametricTestData.valueScaleUnits ParametricTestData.realScale
      rw [if_pos hs]
  · intro hs
    constructor
    · unfold ParametricTestDataArray.limitScaleUnits ParametricTestData.realScale
      rw [if_pos hs]
    · intro ru site
      unfold ParametricTestDataArray.valueScaleUnits ParametricTestData.realScale
      rw [if_pos hs]
  · intro hs
    constructor
    · unfold ParametricTestData.limitScaleUnits ParametricTestData.realScale
      rw [if_neg (not_not.mpr hs)]
    · intro ru site
      unfold ParametricTestData.valueScaleUnits ParametricTestData.realScale
      rw [if_neg (not_not.mpr hs)]
  · intro hs
    constructor
    · unfold ParametricTestDataArray.limitScaleUnits ParametricTestData.realScale
      rw [if_neg (not_not.mpr hs)]
    · intro ru site
      unfold ParametricTestDataArray.valueScaleUnits ParametricTestData.realScale
      rw [if_neg (not_not.mpr hs)]

/-- Witness of C25 on scenario A and the example array, two loaded sites, column layout with
autoscaling disabled: the fixed scale of the unit "V" is 1, and every value is printed with
it. -/
theorem C25_column_value_scale_witness :
    List.Pairwise (fun x y => x < y) exEnv2.LoadedSites ∧
    exEnv2.LoadedSites ≠ [] ∧
    (∀ s ∈ exEnv2.LoadedSites, s ≠ 0) ∧
    List.Sublist exA.ctx.DlogSites exEnv2.LoadedSites ∧
    List.Sublist exArr.ctx.DlogSites exEnv2.LoadedSites ∧
    1 ≤ exParentCols.FieldWidth ∧
    (exEnv2.ActiveSites.all (fun s => decide (exArr.resAt s 0 = TM_RESULT.TM_PASS)) = false
      ∨ false = false) ∧
    exParentCols.UnitAutoscaling = false ∧
    exA.asciiScale exLib exParentCols ≠ 0 ∧
    (∀ ru site, exA.valueScaleUnits exLib exParentCols false ru site
      = (exA.asciiScale exLib exParentCols, ru)) :=
  have h1 : List.Pairwise (fun x y => x < y) exEnv2.LoadedSites := by decide
  have h2 : exEnv2.LoadedSites ≠ [] := by decide
  have h3 : ∀ s ∈ exEnv2.LoadedSites, s ≠ 0 := by decide
  have h4 : List.Sublist exA.ctx.DlogSites exEnv2.LoadedSites := List.Sublist.refl _
  have h5 : List.Sublist exArr.ctx.DlogSites exEnv2.LoadedSites := List.Sublist.refl _
  have h6 : 1 ≤ exParentCols.FieldWidth := by decide
  have h7 : exEnv2.ActiveSites.all (fun s => decide (exArr.resAt s 0 = TM_RESULT.TM_PASS))
      = false ∨ false = false := Or.inr rfl
  have hall := C25_column_value_scale exA exArr exLib exParentCols exEnv2 false exOut "" 0
    h1 h2 h3 h4 h5 h6 h7
  ⟨h1, h2, h3, h4, h5, h6, h7, rfl, (hall.2.2.1 rfl).1,
    (hall.2.2.2.1 (hall.2.2.1 rfl).1).2⟩

/-! ## C27: rows and records of a functional test -/

theorem records_count (n : SITE → Nat) (site : SITE) (l : Sites) (hnd : l.Nodup) :
    (((l.map (fun s => (List.range (n s)).map (fun fn => (s, fn)))).flatten).filter
      (fun r => decide (r.1 = site))).length = if site ∈ l then n site else 0 := by
  induction l with
  | nil => simp
  | cons a l ih =>
    have hnd1 := List.nodup_cons.mp hnd
    rw [List.map_cons, List.flatten_cons, List.filter_append, List.length_append, ih hnd1.2]
    by_cases ha : a = site
    · subst ha
      have h1 : ((List.range (n a)).map (fun fn => (a, fn))).filter
          (fun r => decide (r.1 = a)) = (List.range (n a)).map (fun fn => (a, fn)) := by
        apply List.filter_eq_self.mpr
        intro r hr
        obtain ⟨fn, _, hfn⟩ := List.mem_map.mp hr
        rw [← hfn]
        simp
      rw [h1]
      simp [hnd1.1]
    · have h1 : ((List.range (n a)).map (fun fn => (a, fn))).filter
          (fun r => decide (r.1 = site)) = [] := by
        apply List.filter_eq_nil_iff.mpr
        intro r hr
        obtain ⟨fn, _, hfn⟩ := List.mem_map.mp hr
        rw [← hfn]
        simp [ha]
      rw [h1]
      have hne : site ≠ a := fun h => ha h.symm
      simp [hne]

theorem ext_refl (o : OStream) : ∃ t, o.text = o.text ++ t := ⟨"", by simp⟩

theorem ext_put (a b : OStream) (s : String) (h : ∃ t, b.text = a.text ++ t) :
    ∃ t, (b.put s).text = a.text ++ t := by
  obtain ⟨t, ht⟩ := h
  exact ⟨t ++ s, by simp [OStream.put, ht, String.append_assoc]⟩

theorem ext_putw (a b : OStream) (w : Int) (s : String) (h : ∃ t, b.text = a.text ++ t) :
    ∃ t, (b.putw w s).text = a.text ++ t := by
  obtain ⟨t, ht⟩ := h
  exact ⟨t ++ padField b.adjust w s, by simp [OStream.putw, ht, String.append_assoc]⟩

theorem ext_setLeft (a b : OStream) (h : ∃ t, b.text = a.text ++ t) :
    ∃ t, b.setLeft.text = a.text ++ t := h

theorem ext_setRight (a b : OStream) (h : ∃ t, b.text = a.text ++ t) :
    ∃ t, b.setRight.text = a.text ++ t := h

theorem ext_endl (a b : OStream) (h : ∃ t, b.text = a.text ++ t) :
    ∃ t, b.endl.text = a.text ++ t := ext_put a b "\n" h

theorem ext_border (a b : OStream) (len space : Int) (h : ∃ t, b.text = a.text ++ t) :
    ∃ t, (OutputBorder b len space).text = a.text ++ t := by
  unfold OutputBorder
  dsimp only
  split
  · exact ext_putw _ _ _ _ (ext_put _ _ _ h)
  · exact ext_put _ _ _ h

theorem ext_pinrow (a b : OStream) (index space : Int) (header : List String) (extra : Bool)
    (h : ∃ t, b.text = a.text ++ t) :
    ∃ t, (ShowPinHeaderRow b index space header extra).text = a.text ++ t := by
  unfold ShowPinHeaderRow
  dsimp only
  have h1 : ∃ t, (if extra = true then
        (if space ≥ 6 then b.putw (space - 6) " " else b).put "fail  "
      else if space > 0 then b.putw space " " else b).text = a.text ++ t := by
    split
    · apply ext_put
      split
      · exact ext_putw _ _ _ _ h
      · exact h
    · split
      · exact ext_putw _ _ _ _ h
      · exact h
  split
  · exact ext_put _ _ _ (ext_setLeft _ _ h1)
  · exact h1

theorem ext_foldl {α : Type} (f : OStream → α → OStream)
    (hf : ∀ (a b : OStream) (x : α), (∃ t, b.text = a.text ++ t) →
      ∃ t, (f b x).text = a.text ++ t)
    (l : List α) (a b : OStream) (h : ∃ t, b.text = a.text ++ t) :
    ∃ t, (l.foldl f b).text = a.text ++ t := by
  induction l generalizing b with
  | nil => exact h
  | cons x rest ih => exact ih (f b x) (hf a b x h)

theorem ext_ite (a x y : OStream) (c : Prop) [Decidable c]
    (hx : ∃ t, x.text = a.text ++ t) (hy : ∃ t, y.text = a.text ++ t) :
    ∃ t, (if c then x else y).text = a.text ++ t := by
  split
  · exact hx
  · exact hy

theorem ext_ite_fst {β : Type} (a x y : OStream) (i j : β) (c : Prop) [Decidable c]
    (hx : ∃ t, x.text = a.text ++ t) (hy : ∃ t, y.text = a.text ++ t) :
    ∃ t, (if c then (x, i) else (y, j)).1.text = a.text ++ t := by
  split
  · exact hx
  · exact hy

theorem OutputFunctionalHeader_text (G : Globals) (o : OStream) (pins : PinML) :
    ∃ t, (OutputFunctionalHeader G o pins).text = o.text ++ t := by
  unfold OutputFunctionalHeader
  dsimp only
  generalize (if pins.isSome = true then CalcMaxPinLength pins else (0, [])) = cm
  have hS : ∀ (l : List Int) (pr : Int), ∃ t, (l.foldl
      (fun o ii => (ShowPinHeaderRow o ii G.BHSize cm.2 (decide (ii = pr))).endl)
        o.endl).text = o.text ++ t := fun l pr =>
    ext_foldl _ (fun a b x h => ext_endl _ _ (ext_pinrow _ _ _ _ _ _ h)) l o o.endl
      (ext_endl _ _ (ext_refl o))
  have hC : ∀ s1 : OStream, (∃ t, s1.text = o.text ++ t) →
      ∃ t, ((((((((((s1.setLeft.putw TNSize "Test_No.").put "  P/F  Site  ").setLeft.putw
        G.FPSize "Pattern").put "  ").setLeft.putw CCSize "Count").put "  ").setLeft.putw
        SCSize "ScanVec:Bit").put "  ").setLeft.putw TDSize "Test_Description").put "  ").text
        = o.text ++ t := fun s1 h =>
    ext_put _ _ _ (ext_putw _ _ _ _ (ext_setLeft _ _
      (ext_put _ _ _ (ext_putw _ _ _ _ (ext_setLeft _ _
        (ext_put _ _ _ (ext_putw _ _ _ _ (ext_setLeft _ _
          (ext_put _ _ _ (ext_putw _ _ _ _ (ext_setLeft _ _
            (ext_put _ _ _ (ext_putw _ _ _ _ (ext_setLeft _ _ h))))))))))))))
  have hB : ∀ b : OStream, (∃ t, b.text = o.text ++ t) →
      ∃ t, (OutputBorder (OutputBorder (OutputBorder (OutputBorder (OutputBorder
        (OutputBorder (OutputBorder b TNSize 2) 3 2) 4 2) G.FPSize 2) CCSize 2) SCSize 2)
          TDSize 2).text = o.text ++ t := fun b h =>
    ext_border _ _ _ _ (ext_border _ _ _ _ (ext_border _ _ _ _ (ext_border _ _ _ _
      (ext_border _ _ _ _ (ext_border _ _ _ _ (ext_border _ _ _ _ h))))))
  apply ext_endl
  apply ext_ite
  · apply ext_pinrow
    apply ext_border
    apply hB
    apply ext_endl
    apply ext_ite_fst
    · apply ext_pinrow
      apply ext_put
      exact hC _ (hS _ _)
    · exact hC _ (hS _ _)
  · apply hB
    apply ext_endl
    apply ext_ite_fst
    · apply ext_pinrow
      apply ext_put
      exact hC _ (hS _ _)
    · exact hC _ (hS _ _)

theorem FunctionalTestData_row_text (d : FunctionalTestData) (F : FuncLib) (parent : ST_Datalog)
    (G : Globals) (r : SITE × Nat) :
    ∃ verbose : String,
      (¬ (d.ShowVerbose parent = true ∧ d.FData.Result r.1 = TM_RESULT.TM_FAIL) →
        verbose = "") ∧
      ∀ o : OStream, (d.row F parent G o r).text
        = o.text ++ (padField Adjust.right TNSize (toString d.FData.TestID) ++ "  "
          ++ PFMarker (d.FData.Result r.1) parent.PassString ++ "  "
          ++ padField Adjust.right 4 (toString r.1) ++ "  "
          ++ padField Adjust.left G.FPSize
              (FormatPatternAddrObj "" (d.PatInfo.PatternObject r.1 r.2)
                (d.PatInfo.VecOffset r.1 r.2))
          ++ "  "
          ++ padField Adjust.right CCSize
              (if d.PatInfo.Count r.1 r.2 ≠ 2 ^ 32 - 1 then toString (d.PatInfo.Count r.1 r.2)
               else "unknown")
          ++ "  "
          ++ padField Adjust.left SCSize
              (FormatScanInfo (d.PatInfo.ScanRegister r.1 r.2) (d.PatInfo.ScanBit r.1 r.2))
          ++ "  "
          ++ padField Adjust.left TDSize
              (if r.2 > 0 then " " else showStringS (d.tdescASCII parent))
          ++ verbose ++ "\n") := by
  by_cases hv : d.ShowVerbose parent = true ∧ d.FData.Result r.1 = TM_RESULT.TM_FAIL
  · refine ⟨"  " ++ padField Adjust.right 4 (toString (d.PatPinInfo.FailingPinsCount r.1 r.2))
        ++ "  " ++
        (if parent.EnhancedFuncChars = true then
          (if (FunctionalTestData.altEnhancedChars F parent).length > 0 then
            (d.PatPinInfo.StuffComplexStringAlt r.1 r.2
              (FunctionalTestData.altEnhancedChars F parent)).getD
                (d.PatPinInfo.DatalogChar r.1 r.2)
          else (d.PatPinInfo.StuffComplexString r.1 r.2).getD
            (d.PatPinInfo.DatalogChar r.1 r.2))
        else (d.PatPinInfo.StuffPassFailString r.1 r.2 '.' 'F').getD ""),
      fun h => absurd hv h, fun o => ?_⟩
    unfold FunctionalTestData.row
    dsimp only
    rw [if_pos hv]
    by_cases hc : d.PatInfo.Count r.1 r.2 = 2 ^ 32 - 1 <;>
      by_cases hf : r.2 > 0 <;>
      by_cases he : parent.EnhancedFuncChars = true <;>
      simp only [hc, hf, he, ne_eq, eq_self, if_true, if_false, OStream.put, OStream.putw, OStream.setRight,
        OStream.setLeft, OStream.endl, String.append_assoc, not_true_eq_false,
        not_false_eq_true, Bool.false_eq_true]
  · refine ⟨"", fun _ => rfl, fun o => ?_⟩
    unfold FunctionalTestData.row
    dsimp only
    rw [if_neg hv]
    by_cases hc : d.PatInfo.Count r.1 r.2 = 2 ^ 32 - 1 <;>
      by_cases hf : r.2 > 0 <;>
      simp only [hc, hf, ne_eq, eq_self, if_true, if_false, OStream.put, OStream.putw, OStream.setRight,
        OStream.setLeft, OStream.endl, String.append_assoc, not_true_eq_false,
        not_false_eq_true, String.empty_append]

theorem recFold_segments (d : FunctionalTestData) (F : FuncLib) (parent : ST_Datalog)
    (G : Globals) (P : SITE × Nat → String → Prop)
    (hP : ∀ (st : FunctionalTestData.LoopState) (r : SITE × Nat),
      ∃ seg, P r seg ∧ (d.recStep F parent G st r).out.text = st.out.text ++ seg)
    (l : List (SITE × Nat)) (st : FunctionalTestData.LoopState) :
    ∃ segs : List String, List.Forall₂ P l segs ∧
      (l.foldl (d.recStep F parent G) st).out.text
        = segs.foldl (fun acc s => acc ++ s) st.out.text := by
  induction l generalizing st with
  | nil => exact ⟨[], List.Forall₂.nil, rfl⟩
  | cons r rest ih =>
    obtain ⟨seg, hseg, htext⟩ := hP st r
    obtain ⟨segs, hsegs, hfold⟩ := ih (d.recStep F parent G st r)
    refine ⟨seg :: segs, List.Forall₂.cons hseg hsegs, ?_⟩
    simp only [List.foldl_cons]
    rw [hfold, htext]

theorem recStep_out (d : FunctionalTestData) (F : FuncLib) (parent : ST_Datalog) (G : Globals)
    (st : FunctionalTestData.LoopState) (r : SITE × Nat) :
    ∃ o1, (o1 = st.out ∨ ∃ pins, o1 = OutputFunctionalHeader G st.out pins) ∧
      (d.recStep F parent G st r).out = d.row F parent G o1 r := by
  simp only [FunctionalTestData.recStep]
  split
  · split
    · exact ⟨_, Or.inr ⟨_, rfl⟩, rfl⟩
    · exact ⟨_, Or.inl rfl, rfl⟩
  · split
    · exact ⟨_, Or.inr ⟨_, rfl⟩, rfl⟩
    · exact ⟨_, Or.inl rfl, rfl⟩

/-- C27. For a functional snapshot with a duplicate-free set of datalogged sites and a valid
stream, `FunctionalTestData::FormatSTDFV4` appends one FTR per pair of site and record index,
the sites being the datalogged sites (in fail-only mode those with result fail) and the
indices of a site those below `nrecs`, which is `NumRecords[site]` when that is less than
`MaxNumFails`, otherwise `MaxNumFails` for a failing site and 1 for any other site. The text
that `FunctionalTestData::FormatASCII` appends to the output is made of one segment per FTR,
in the same order: the segment that goes with the FTR of site `s` and record index `fn` is a
header block or nothing, followed by the data row of that site and record: the test number,
the pass/fail marker of the site, the site, the pattern field, the count, the scan field, the
description field, the per-pin part (empty unless verbose output applies to a failing site)
and a line end. So for every site the number of data rows equals the number of FTRs, and it
is `nrecs` for a covered site and 0 for any other site. -/
theorem C27_functional_rows_and_records (d : FunctionalTestData) (F : FuncLib)
    (parent : ST_Datalog) (G : Globals) (fo : Bool) (o : OStream) (STDF : STDFV4Stream)
    (site : SITE)
    (hnd : d.ctx.DlogSites.Nodup) (hv : STDF.valid = true) :
    (d.FormatSTDFV4 parent fo STDF).records
      = STDF.records ++ (d.ftrRecords parent fo).map STDFRecord.FTR ∧
    (∃ segs : List String,
      (d.FormatASCII F parent G fo o).1.text = segs.foldl (fun acc s => acc ++ s) o.text ∧
      segs.length = (d.ftrRecords parent fo).length ∧
      List.Forall₂
        (fun (x : FTRRecord) (seg : String) =>
          ∃ hdr verbose : String,
            (hdr = "" ∨ ∃ oh pins,
              (OutputFunctionalHeader (CheckPatternNameSizeM G d.PatInfo (d.fsites fo)).2
                oh pins).text = oh.text ++ hdr) ∧
            (¬ (d.ShowVerbose parent = true ∧ d.FData.Result x.site = TM_RESULT.TM_FAIL) →
              verbose = "") ∧
            seg = hdr ++
              (padField Adjust.right TNSize (toString d.FData.TestID) ++ "  "
              ++ PFMarker (d.FData.Result x.site) parent.PassString ++ "  "
              ++ padField Adjust.right 4 (toString x.site) ++ "  "
              ++ padField Adjust.left (CheckPatternNameSizeM G d.PatInfo (d.fsites fo)).2.FPSize
                  (FormatPatternAddrObj "" (d.PatInfo.PatternObject x.site x.recIndex)
                    (d.PatInfo.VecOffset x.site x.recIndex))
              ++ "  "
              ++ padField Adjust.right CCSize
                  (if d.PatInfo.Count x.site x.recIndex ≠ 2 ^ 32 - 1 then
                    toString (d.PatInfo.Count x.site x.recIndex)
                   else "unknown")
              ++ "  "
              ++ padField Adjust.left SCSize
                  (FormatScanInfo (d.PatInfo.ScanRegister x.site x.recIndex)
                    (d.PatInfo.ScanBit x.site x.recIndex))
              ++ "  "
              ++ padField Adjust.left TDSize
                  (if x.recIndex > 0 then " " else showStringS (d.tdescASCII parent))
              ++ verbose ++ "\n"))
        (d.ftrRecords parent fo) segs) ∧
    ((d.ftrRecords parent fo).filter (fun x => decide (x.site = site))).length
      = (if site ∈ d.fsites fo then (d.nrecs site).toNat else 0) ∧
    (∀ x ∈ d.ftrRecords parent fo,
      x.site ∈ d.fsites fo ∧ (x.recIndex : Int) < d.nrecs x.site ∧
        x.testID = d.FData.TestID) ∧
    (site ∈ d.fsites fo ↔
      site ∈ d.ctx.DlogSites ∧ (fo = true → d.FData.Result site = TM_RESULT.TM_FAIL)) ∧
    d.nrecs site
      = (if (d.PatInfo.NumRecords site : Int) < d.MaxNumFails then
          (d.PatInfo.NumRecords site : Int)
        else if d.FData.Result site = TM_RESULT.TM_FAIL then d.MaxNumFails else 1) ∧
    (0 ≤ d.MaxNumFails → ((d.nrecs site).toNat : Int) = d.nrecs site) := by
  have hmap : (d.ftrRecords parent fo).map (fun x => (x.site, x.recIndex)) = d.records fo := by
    unfold FunctionalTestData.ftrRecords
    rw [List.map_map]
    exact List.map_id' _
  have hfs : (d.fsites fo).Nodup := by
    unfold FunctionalTestData.fsites Sites.DisableFailingSites
    split
    · exact hnd.filter _
    · exact hnd
  refine ⟨?_, ?_, ?_, ?_, ?_, rfl, ?_⟩
  · unfold FunctionalTestData.FormatSTDFV4
    rw [if_pos hv]
    exact (Write_foldl_records _ _ _).1
  · obtain ⟨segs, hall, htext⟩ := recFold_segments d F parent
      (CheckPatternNameSizeM G d.PatInfo (d.fsites fo)).2
      (fun (r : SITE × Nat) (seg : String) =>
        ∃ hdr verbose : String,
          (hdr = "" ∨ ∃ oh pins,
            (OutputFunctionalHeader (CheckPatternNameSizeM G d.PatInfo (d.fsites fo)).2
              oh pins).text = oh.text ++ hdr) ∧
          (¬ (d.ShowVerbose parent = true ∧ d.FData.Result r.1 = TM_RESULT.TM_FAIL) →
            verbose = "") ∧
          seg = hdr ++
            (padField Adjust.right TNSize (toString d.FData.TestID) ++ "  "
            ++ PFMarker (d.FData.Result r.1) parent.PassString ++ "  "
            ++ padField Adjust.right 4 (toString r.1) ++ "  "
            ++ padField Adjust.left (CheckPatternNameSizeM G d.PatInfo (d.fsites fo)).2.FPSize
                (FormatPatternAddrObj "" (d.PatInfo.PatternObject r.1 r.2)
                  (d.PatInfo.VecOffset r.1 r.2))
            ++ "  "
            ++ padField Adjust.right CCSize
                (if d.PatInfo.Count r.1 r.2 ≠ 2 ^ 32 - 1 then
                  toString (d.PatInfo.Count r.1 r.2)
                 else "unknown")
            ++ "  "
            ++ padField Adjust.left SCSize
                (FormatScanInfo (d.PatInfo.ScanRegister r.1 r.2)
                  (d.PatInfo.ScanBit r.1 r.2))
            ++ "  "
            ++ padField Adjust.left TDSize
                (if r.2 > 0 then " " else showStringS (d.tdescASCII parent))
            ++ verbose ++ "\n"))
      (fun st r => by
        obtain ⟨verbose, hverb, hrow⟩ := FunctionalTestData_row_text d F parent
          (CheckPatternNameSizeM G d.PatInfo (d.fsites fo)).2 r
        obtain ⟨o1, ho1, hstep⟩ := recStep_out d F parent
          (CheckPatternNameSizeM G d.PatInfo (d.fsites fo)).2 st r
        rcases ho1 with h | ⟨pins, h⟩
        · refine ⟨_, ⟨"", verbose, Or.inl rfl, hverb, rfl⟩, ?_⟩
          rw [hstep, hrow, h, String.empty_append]
        · obtain ⟨t, ht⟩ := OutputFunctionalHeader_text
            (CheckPatternNameSizeM G d.PatInfo (d.fsites fo)).2 st.out pins
          refine ⟨_, ⟨t, verbose, Or.inr ⟨st.out, pins, ht⟩, hverb, rfl⟩, ?_⟩
          rw [hstep, hrow, h, ht, String.append_assoc])
      (d.records fo)
      { out := o
        VerbosePins :=
          if parent.LastFormatEvent ≠ SystemEvents.FunctionalTest then none
          else parent.VerbosePins
        ShowHeaderOnce := d.showHeaderOnce parent G fo }
    have hall2 : List.Forall₂
        (fun (x : FTRRecord) (seg : String) =>
          ∃ hdr verbose : String,
            (hdr = "" ∨ ∃ oh pins,
              (OutputFunctionalHeader (CheckPatternNameSizeM G d.PatInfo (d.fsites fo)).2
                oh pins).text = oh.text ++ hdr) ∧
            (¬ (d.ShowVerbose parent = true ∧ d.FData.Result x.site = TM_RESULT.TM_FAIL) →
              verbose = "") ∧
            seg = hdr ++
              (padField Adjust.right TNSize (toString d.FData.TestID) ++ "  "
              ++ PFMarker (d.FData.Result x.site) parent.PassString ++ "  "
              ++ padField Adjust.right 4 (toString x.site) ++ "  "
              ++ padField Adjust.left (CheckPatternNameSizeM G d.PatInfo (d.fsites fo)).2.FPSize
                  (FormatPatternAddrObj "" (d.PatInfo.PatternObject x.site x.recIndex)
                    (d.PatInfo.VecOffset x.site x.recIndex))
              ++ "  "
              ++ padField Adjust.right CCSize
                  (if d.PatInfo.Count x.site x.recIndex ≠ 2 ^ 32 - 1 then
                    toString (d.PatInfo.Count x.site x.recIndex)
                   else "unknown")
              ++ "  "
              ++ padField Adjust.left SCSize
                  (FormatScanInfo (d.PatInfo.ScanRegister x.site x.recIndex)
                    (d.PatInfo.ScanBit x.site x.recIndex))
              ++ "  "
              ++ padField Adjust.left TDSize
                  (if x.recIndex > 0 then " " else showStringS (d.tdescASCII parent))
              ++ verbose ++ "\n"))
        (d.ftrRecords parent fo) segs := by
      rw [← hmap] at hall
      exact List.forall₂_map_left_iff.mp hall
    exact ⟨segs, htext, hall2.length_eq.symm, hall2⟩
  · have hcount : ((d.records fo).filter (fun x => decide (x.1 = site))).length
        = (if site ∈ d.fsites fo then (d.nrecs site).toNat else 0) := by
      unfold FunctionalTestData.records
      exact records_count (fun s => (d.nrecs s).toNat) site (d.fsites fo) hfs
    rw [← hcount, ← hmap, List.filter_map, List.length_map]
    rfl
  · intro x hx
    unfold FunctionalTestData.ftrRecords at hx
    obtain ⟨r, hr, e⟩ := List.mem_map.mp hx
    unfold FunctionalTestData.records at hr
    obtain ⟨l, hl, hrl⟩ := List.mem_flatten.mp hr
    obtain ⟨s, hs, e2⟩ := List.mem_map.mp hl
    rw [← e2] at hrl
    obtain ⟨fn, hfn, e3⟩ := List.mem_map.mp hrl
    rw [← e, ← e3]
    dsimp only
    have hlt : fn < (d.nrecs s).toNat := List.mem_range.mp hfn
    exact ⟨hs, by omega, rfl⟩
  · unfold FunctionalTestData.fsites Sites.DisableFailingSites TMResultM.Equal
    cases fo
    · simp
    · simp [List.mem_filter]
  · intro h0
    have hn : 0 ≤ d.nrecs site := by
      unfold FunctionalTestData.nrecs
      split
      · exact Int.ofNat_nonneg _
      · split
        · exact h0
        · norm_num
    exact Int.toNat_of_nonneg hn

set_option maxRecDepth 1000000 in
/-- Witness of C27 on the functional example, written to a valid empty stream: site 1 gets
one FTR and one data row (shown here without header, the last formatted event being a
functional test). -/
theorem C27_functional_rows_and_records_witness :
    exFunc.ctx.DlogSites.Nodup ∧
    (STDFV4Stream.mk true []).valid = true ∧
    ((exFunc.ftrRecords ST_Datalog.init false).filter
      (fun x => decide (x.site = 1))).length = 1 ∧
    (exFunc.FormatSTDFV4 ST_Datalog.init false (STDFV4Stream.mk true [])).records.length = 1 ∧
    (exFunc.FormatASCII exFuncLib
      { ST_Datalog.init with LastFormatEvent := SystemEvents.FunctionalTest }
      Globals.init false exOut).1.text
      = "         7   P      1  pat                                                   7                  func                                              \n" :=
  have h1 : exFunc.ctx.DlogSites.Nodup := by decide
  ⟨h1, rfl,
    (C27_functional_rows_and_records exFunc exFuncLib ST_Datalog.init Globals.init false exOut
      (STDFV4Stream.mk true []) 1 h1 rfl).2.2.1.trans (by decide),
    (congrArg List.length
      (C27_functional_rows_and_records exFunc exFuncLib ST_Datalog.init Globals.init false exOut
        (STDFV4Stream.mk true []) 1 h1 rfl).1).trans (by decide),
    by decide⟩

/-! ## C28: fail-only column output without a failing site -/

set_option maxRecDepth 1000000 in
/-- C28 (evaluation at the failing input). Fail-only mode, two loaded sites, both tested and
both passing, no header due. In the column layout `ParametricTestData::FormatASCII` still
writes a line: the test number, the low limit, a blank cell per loaded site, the high limit,
the unit and the description. In the row layout it writes nothing, and
`ParametricTestDataArray::FormatASCII` writes nothing for an array whose results all pass,
in the column layout as in the row layout. -/
theorem C28_column_line_without_failing_site :
    exAllPass.fsites true = [] ∧
    (exAllPass.FormatASCII exLib exParentColsNoHeader exEnv2 true exOut).text
      = "       100            val                                                  val  V                                vdd\n" ∧
    (exAllPass.FormatASCII exLib exParentRowsNoHeader exEnv2 true exOut).text = "" ∧
    (exArrAllPass.FormatASCII exLib exParentColsNoHeader exEnv2 true exOut).text = "" ∧
    (exArrAllPass.FormatASCII exLib exParentRowsNoHeader exEnv2 true exOut).text = "" := by
  refine ⟨by decide, by decide, by decide, by decide, by decide⟩

/-! ## C30: the layout widths `FPSize` and `BHSize` -/

theorem foldl_longest {α : Type} (f : α → Nat) (l : List α) :
    ∀ a : Nat,
      a ≤ l.foldl (fun acc x => if f x > acc then f x else acc) a ∧
      (∀ x ∈ l, f x ≤ l.foldl (fun acc x => if f x > acc then f x else acc) a) ∧
      (∀ B, a ≤ B → (∀ x ∈ l, f x ≤ B) →
        l.foldl (fun acc x => if f x > acc then f x else acc) a ≤ B) := by
  induction l with
  | nil =>
    intro a
    exact ⟨Nat.le_refl a, fun x hx => absurd hx (List.not_mem_nil x), fun B hB _ => hB⟩
  | cons y l ih =>
    intro a
    obtain ⟨h1, h2, h3⟩ := ih (if f y > a then f y else a)
    have ha : a ≤ (if f y > a then f y else a) := by split <;> omega
    have hy : f y ≤ (if f y > a then f y else a) := by split <;> omega
    refine ⟨Nat.le_trans ha h1, ?_, ?_⟩
    · intro x hx
      rcases List.mem_cons.mp hx with h | h
      · rw [h]
        exact Nat.le_trans hy h1
      · exact h2 x h
    · intro B hB hall
      apply h3 B
      · split
        · exact hall y (List.mem_cons_self y l)
        · exact hB
      · exact fun x hx => hall x (List.mem_cons_of_mem y hx)

theorem foldl_longest_sites (f : SITE → Nat → Nat) (n : Nat) (sites : Sites) :
    ∀ a : Nat,
      a ≤ sites.foldl (fun acc site => (List.range n).foldl
        (fun acc ii => if f site ii > acc then f site ii else acc) acc) a ∧
      (∀ s ∈ sites, ∀ ii, ii < n → f s ii ≤ sites.foldl (fun acc site => (List.range n).foldl
        (fun acc ii => if f site ii > acc then f site ii else acc) acc) a) ∧
      (∀ B, a ≤ B → (∀ s ∈ sites, ∀ ii, ii < n → f s ii ≤ B) →
        sites.foldl (fun acc site => (List.range n).foldl
          (fun acc ii => if f site ii > acc then f site ii else acc) acc) a ≤ B) := by
  induction sites with
  | nil =>
    intro a
    exact ⟨Nat.le_refl a, fun s hs => absurd hs (List.not_mem_nil s), fun B hB _ => hB⟩
  | cons y l ih =>
    intro a
    obtain ⟨g1, g2, g3⟩ := foldl_longest (f y) (List.range n) a
    obtain ⟨h1, h2, h3⟩ := ih ((List.range n).foldl
      (fun acc ii => if f y ii > acc then f y ii else acc) a)
    refine ⟨Nat.le_trans g1 h1, ?_, ?_⟩
    · intro s hs ii hii
      rcases List.mem_cons.mp hs with h | h
      · rw [h]
        exact Nat.le_trans (g2 ii (List.mem_range.mpr hii)) h1
      · exact h2 s h ii hii
    · intro B hB hall
      apply h3 B
      · exact g3 B hB (fun ii hii =>
          hall y (List.mem_cons_self y l) ii (List.mem_range.mp hii))
      · exact fun s hs => hall s (List.mem_cons_of_mem y hs)

theorem growPatternColumn_spec (G : Globals) (n : Int) (hinv : G.BHSize = G.FPSize + 111) :
    (growPatternColumn G n).2.BHSize = (growPatternColumn G n).2.FPSize + 111 ∧
    G.FPSize ≤ (growPatternColumn G n).2.FPSize ∧
    n + 8 ≤ (growPatternColumn G n).2.FPSize ∧
    ((growPatternColumn G n).1 = true ↔ G.FPSize < (growPatternColumn G n).2.FPSize) ∧
    (n + 8 ≤ G.FPSize → growPatternColumn G n = (false, G)) := by
  by_cases h : n + 8 > G.FPSize
  · have e : growPatternColumn G n
        = (true, { FPSize := n + 8, BHSize := G.BHSize - G.FPSize + (n + 8) }) := by
      unfold growPatternColumn
      exact if_pos h
    rw [e]
    dsimp only
    refine ⟨by omega, by omega, Int.le_refl _, ⟨fun _ => h, fun _ => rfl⟩, fun h2 => ?_⟩
    exact absurd h2 (by omega)
  · have e : growPatternColumn G n = (false, G) := by
      unfold growPatternColumn
      exact if_neg h
    rw [e]
    dsimp only
    refine ⟨hinv, Int.le_refl _, by omega,
      ⟨fun hc => Bool.noConfusion hc, fun hc => absurd hc (Int.lt_irrefl _)⟩, fun _ => rfl⟩

/-- C30. `FPSize` is 43 and `BHSize` is `FPSize + 111` initially. When `BHSize = FPSize + 111`
holds before a call of either `CheckPatternNameSize` function, it holds after the call;
`FPSize` is not smaller than before and not smaller than the length of any examined pattern
name plus 8; the function with the site argument returns true exactly when `FPSize` grew in
the call, and leaves both widths as they were when it returns false. A call that examines only
names whose length plus 8 does not exceed `FPSize` returns false and changes nothing; in
particular the same call made again after a widening returns false. -/
theorem C30_layout_widths (G : Globals) (PatInfo PatInfo1 : DigitalPatternInfoStruct)
    (sites sites1 : Sites) (names names1 : List String)
    (hinv : G.BHSize = G.FPSize + 111) (hfp : 8 ≤ G.FPSize) :
    Globals.init.FPSize = 43 ∧
    Globals.init.BHSize = Globals.init.FPSize + 111 ∧
    (CheckPatternNameSizeM G PatInfo sites).2.BHSize
      = (CheckPatternNameSizeM G PatInfo sites).2.FPSize + 111 ∧
    G.FPSize ≤ (CheckPatternNameSizeM G PatInfo sites).2.FPSize ∧
    (∀ s ∈ sites, ∀ ii, ii < PatInfo.NumPatterns →
      ((PatInfo.PatternObject s ii).Name.length : Int) + 8
        ≤ (CheckPatternNameSizeM G PatInfo sites).2.FPSize) ∧
    ((CheckPatternNameSizeM G PatInfo sites).1 = true
      ↔ G.FPSize < (CheckPatternNameSizeM G PatInfo sites).2.FPSize) ∧
    ((CheckPatternNameSizeM G PatInfo sites).1 = false →
      (CheckPatternNameSizeM G PatInfo sites).2 = G) ∧
    ((∀ s ∈ sites1, ∀ ii, ii < PatInfo1.NumPatterns →
        ((PatInfo1.PatternObject s ii).Name.length : Int) + 8 ≤ G.FPSize) →
      CheckPatternNameSizeM G PatInfo1 sites1 = (false, G)) ∧
    CheckPatternNameSizeM (CheckPatternNameSizeM G PatInfo sites).2 PatInfo sites
      = (false, (CheckPatternNameSizeM G PatInfo sites).2) ∧
    (CheckPatternNameSizeS G names).BHSize = (CheckPatternNameSizeS G names).FPSize + 111 ∧
    G.FPSize ≤ (CheckPatternNameSizeS G names).FPSize ∧
    (∀ nm ∈ names, (nm.length : Int) + 8 ≤ (CheckPatternNameSizeS G names).FPSize) ∧
    ((∀ nm ∈ names1, (nm.length : Int) + 8 ≤ G.FPSize) →
      CheckPatternNameSizeS G names1 = G) ∧
    CheckPatternNameSizeS (CheckPatternNameSizeS G names) names
      = CheckPatternNameSizeS G names := by
  have hM : ∀ (G0 : Globals) (P : DigitalPatternInfoStruct) (ss : Sites),
      G0.BHSize = G0.FPSize + 111 →
      (CheckPatternNameSizeM G0 P ss).2.BHSize = (CheckPatternNameSizeM G0 P ss).2.FPSize + 111 ∧
      G0.FPSize ≤ (CheckPatternNameSizeM G0 P ss).2.FPSize ∧
      (∀ s ∈ ss, ∀ ii, ii < P.NumPatterns →
        ((P.PatternObject s ii).Name.length : Int) + 8 ≤ (CheckPatternNameSizeM G0 P ss).2.FPSize) ∧
      ((CheckPatternNameSizeM G0 P ss).1 = true
        ↔ G0.FPSize < (CheckPatternNameSizeM G0 P ss).2.FPSize) ∧
      (8 ≤ G0.FPSize → (∀ s ∈ ss, ∀ ii, ii < P.NumPatterns →
          ((P.PatternObject s ii).Name.length : Int) + 8 ≤ G0.FPSize) →
        CheckPatternNameSizeM G0 P ss = (false, G0)) := by
    intro G0 P ss h0
    obtain ⟨l1, l2, l3⟩ := foldl_longest_sites
      (fun s ii => (P.PatternObject s ii).Name.length) P.NumPatterns ss 0
    unfold CheckPatternNameSizeM
    dsimp only
    generalize hL : (ss.foldl (fun acc site => (List.range P.NumPatterns).foldl
      (fun acc ii => if (P.PatternObject site ii).Name.length > acc then
        (P.PatternObject site ii).Name.length else acc) acc) 0) = Lg at l1 l2 l3
    obtain ⟨g1, g2, g3, g4, g5⟩ := growPatternColumn_spec G0 (Lg : Int) h0
    refine ⟨g1, g2, ?_, g4, ?_⟩
    · intro s hs ii hii
      have := l2 s hs ii hii
      have h2 : ((P.PatternObject s ii).Name.length : Int) ≤ (Lg : Int) := by exact_mod_cast this
      omega
    · intro h8 hall
      apply g5
      have hB : Lg ≤ (G0.FPSize - 8).toNat := by
        apply l3
        · exact Nat.zero_le _
        · intro s hs ii hii
          have := hall s hs ii hii
          omega
      omega
  have hS : ∀ (G0 : Globals) (nms : List String), G0.BHSize = G0.FPSize + 111 →
      (CheckPatternNameSizeS G0 nms).BHSize = (CheckPatternNameSizeS G0 nms).FPSize + 111 ∧
      G0.FPSize ≤ (CheckPatternNameSizeS G0 nms).FPSize ∧
      (∀ nm ∈ nms, (nm.length : Int) + 8 ≤ (CheckPatternNameSizeS G0 nms).FPSize) ∧
      (8 ≤ G0.FPSize → (∀ nm ∈ nms, (nm.length : Int) + 8 ≤ G0.FPSize) →
        CheckPatternNameSizeS G0 nms = G0) := by
    intro G0 nms h0
    obtain ⟨l1, l2, l3⟩ := foldl_longest (fun nm : String => nm.length) nms 0
    unfold CheckPatternNameSizeS
    dsimp only
    generalize hL : (nms.foldl (fun acc (name : String) =>
      if name.length > acc then name.length else acc) 0) = Lg at l1 l2 l3
    obtain ⟨g1, g2, g3, g4, g5⟩ := growPatternColumn_spec G0 (Lg : Int) h0
    refine ⟨g1, g2, ?_, ?_⟩
    · intro nm hnm
      have := l2 nm hnm
      have h2 : (nm.length : Int) ≤ (Lg : Int) := by exact_mod_cast this
      omega
    · intro h8 hall
      have hB : Lg ≤ (G0.FPSize - 8).toNat := by
        apply l3
        · exact Nat.zero_le _
        · intro nm hnm
          have := hall nm hnm
          omega
      rw [g5 (by omega)]
  obtain ⟨m1, m2, m3, m4, m5⟩ := hM G PatInfo sites hinv
  obtain ⟨s1, s2, s3, s4⟩ := hS G names hinv
  refine ⟨rfl, rfl, m1, m2, m3, m4, ?_, (hM G PatInfo1 sites1 hinv).2.2.2.2 hfp, ?_,
    s1, s2, s3, (hS G names1 hinv).2.2.2 hfp, ?_⟩
  · intro hf
    exact growPatternColumn_false _ _ hf
  · exact (hM _ PatInfo sites m1).2.2.2.2 (by omega) m3
  · exact (hS _ names s1).2.2.2 (by omega) s3

/-- Witness of C30 on the initial widths and the functional example. -/
theorem C30_layout_widths_witness :
    Globals.init.BHSize = Globals.init.FPSize + 111 ∧
    8 ≤ Globals.init.FPSize ∧
    (CheckPatternNameSizeM Globals.init exPatInfo [1]).2.BHSize
      = (CheckPatternNameSizeM Globals.init exPatInfo [1]).2.FPSize + 111 :=
  have h1 : Globals.init.BHSize = Globals.init.FPSize + 111 := by decide
  have h2 : 8 ≤ Globals.init.FPSize := by decide
  ⟨h1, h2, (C30_layout_widths Globals.init exPatInfo exPatInfo [1] [1] ["sp"] ["sp"]
    h1 h2).2.2.1⟩

/-! ## C29: the pattern named on a scan failure row -/

theorem failRows_states (d : ScanTestData) (G : Globals) (tdesc : Option String) (site : SITE)
    (o : OStream) (n : Nat) :
    (List.range n).foldl
        (fun (st : OStream × Nat × Nat) ii =>
          (d.failRow G tdesc site (d.locatePattern (d.ScanInfo.FailCount site ii) st.2).1
            st.1 ii, d.locatePattern (d.ScanInfo.FailCount site ii) st.2))
        (o, 0, d.ScanInfo.PatternCounts.getD 0 0)
      = ((List.range n).foldl
          (fun o ii => d.failRow G tdesc site (d.patternStates site (ii + 1)).1 o ii) o,
         d.patternStates site n) := by
  induction n with
  | zero => rfl
  | succ k ih =>
    rw [List.range_succ, List.foldl_append, List.foldl_append, ih]
    rfl

theorem sum_take_succ (counts : List Nat) (p : Nat) :
    (counts.take (p + 2)).sum = (counts.take (p + 1)).sum + counts.getD (p + 1) 0 := by
  induction counts generalizing p with
  | nil => simp
  | cons a l ih =>
    cases p with
    | zero =>
      cases l with
      | nil => simp
      | cons b l2 => simp
    | succ q =>
      have := ih q
      simp only [List.take_succ_cons, List.sum_cons, List.getD_cons_succ] at this ⊢
      omega

theorem sum_take_le (counts : List Nat) (p : Nat) : (counts.take p).sum ≤ counts.sum := by
  induction counts generalizing p with
  | nil => simp
  | cons a l ih =>
    cases p with
    | zero => simp
    | succ q =>
      have := ih q
      simp only [List.take_succ_cons, List.sum_cons]
      omega

theorem foldl_text {α : Type} (f : OStream → α → OStream) (t : α → String)
    (h : ∀ o a, (f o a).text = o.text ++ t a) (l : List α) (o : OStream) :
    (l.foldl f o).text = l.foldl (fun acc a => acc ++ t a) o.text := by
  induction l generalizing o with
  | nil => rfl
  | cons a rest ih =>
    simp only [List.foldl_cons]
    rw [ih (f o a), h o a]

theorem failRow_text (d : ScanTestData) (G : Globals) (tdesc : Option String) (site : SITE)
    (pat_index : Nat) (o : OStream) (ii : Nat) :
    (d.failRow G tdesc site pat_index o ii).text
      = o.text ++ (padField Adjust.right TNSize (toString d.FData.TestID) ++ "  " ++ "*F*"
        ++ "  " ++ padField Adjust.right 4 (toString site) ++ "  "
        ++ padField Adjust.right CCSize (toString (d.ScanInfo.FailCount site ii)) ++ "  "
        ++ padField Adjust.left PGSize (d.ScanInfo.Pins.getD (d.ScanInfo.FailPin site ii) "")
        ++ "  " ++ d.ScanInfo.ExpectAlias site ii ++ "    "
        ++ padField Adjust.left G.FPSize
            (FormatPatternAddrName (d.ScanInfo.Patterns.getD pat_index "")
              (d.ScanInfo.PatternVec site ii))
        ++ "  "
        ++ padField Adjust.left SCSize
            (FormatScanInfo (d.ScanInfo.ScanRegister site ii) (d.ScanInfo.ScanBit site ii))
        ++ "  "
        ++ (if ii = 0 then padField Adjust.left TDSize (showStringS tdesc) else "")
        ++ "\n") := by
  unfold ScanTestData.failRow
  by_cases h0 : ii = 0
  · simp only [h0, if_true, OStream.put, OStream.putw, OStream.setRight, OStream.setLeft,
      OStream.endl, String.append_assoc]
  · simp only [h0, if_false, OStream.put, OStream.putw, OStream.setRight, OStream.setLeft,
      OStream.endl, String.append_assoc, String.empty_append, String.append_empty]

theorem advancePattern_spec (counts : List Nat) (n : Nat) (cycle : Nat) :
    ∀ (fuel p : Nat), p + fuel + 1 = n →
      (∀ q, q ≤ p → (counts.take (q + 1)).sum % 2 ^ 32 < cycle) →
      (ScanTestData.advancePattern counts cycle fuel
        (p, (counts.take (p + 1)).sum % 2 ^ 32)).1 < n ∧
      (ScanTestData.advancePattern counts cycle fuel (p, (counts.take (p + 1)).sum % 2 ^ 32)).2
        = (counts.take
            ((ScanTestData.advancePattern counts cycle fuel
              (p, (counts.take (p + 1)).sum % 2 ^ 32)).1 + 1)).sum % 2 ^ 32 ∧
      (∀ q, q < (ScanTestData.advancePattern counts cycle fuel
          (p, (counts.take (p + 1)).sum % 2 ^ 32)).1 →
        (counts.take (q + 1)).sum % 2 ^ 32 < cycle) ∧
      (cycle ≤ (counts.take
            ((ScanTestData.advancePattern counts cycle fuel
              (p, (counts.take (p + 1)).sum % 2 ^ 32)).1 + 1)).sum % 2 ^ 32 ∨
        ((ScanTestData.advancePattern counts cycle fuel
            (p, (counts.take (p + 1)).sum % 2 ^ 32)).1 + 1 = n ∧
          (counts.take
            ((ScanTestData.advancePattern counts cycle fuel
              (p, (counts.take (p + 1)).sum % 2 ^ 32)).1 + 1)).sum % 2 ^ 32 < cycle)) := by
  intro fuel
  induction fuel with
  | zero =>
    intro p hp hlt
    have e : ScanTestData.advancePattern counts cycle 0 (p, (counts.take (p + 1)).sum % 2 ^ 32)
        = (p, (counts.take (p + 1)).sum % 2 ^ 32) := rfl
    rw [e]
    dsimp only
    exact ⟨by omega, rfl, fun q hq => hlt q (by omega),
      Or.inr ⟨by omega, hlt p (Nat.le_refl p)⟩⟩
  | succ f ih =>
    intro p hp hlt
    have hmod : ((counts.take (p + 1)).sum % 2 ^ 32 + counts.getD (p + 1) 0) % 2 ^ 32
        = (counts.take (p + 1 + 1)).sum % 2 ^ 32 := by
      rw [sum_take_succ counts p, Nat.mod_add_mod]
    have e : ScanTestData.advancePattern counts cycle (f + 1)
          (p, (counts.take (p + 1)).sum % 2 ^ 32)
        = if cycle ≤ (counts.take (p + 1 + 1)).sum % 2 ^ 32 then
            (p + 1, (counts.take (p + 1 + 1)).sum % 2 ^ 32)
          else ScanTestData.advancePattern counts cycle f
            (p + 1, (counts.take (p + 1 + 1)).sum % 2 ^ 32) := by
      simp only [ScanTestData.advancePattern, hmod]
    rw [e]
    by_cases hc : cycle ≤ (counts.take (p + 1 + 1)).sum % 2 ^ 32
    · rw [if_pos hc]
      exact ⟨by omega, rfl, fun q hq => hlt q (by omega), Or.inl hc⟩
    · rw [if_neg hc]
      apply ih (p + 1) (by omega)
      intro q hq
      rcases Nat.lt_or_ge q (p + 1) with h | h
      · exact hlt q (by omega)
      · have : q = p + 1 := by omega
        rw [this]
        omega

theorem patternStates_spec (d : ScanTestData) (site : SITE)
    (hn : d.ScanInfo.Patterns ≠ [])
    (hb : ∀ c ∈ d.ScanInfo.PatternCounts, c < 2 ^ 32)
    (hmono : ∀ i j, i ≤ j → j < d.ScanInfo.NumRecords site →
      d.ScanInfo.FailCount site i ≤ d.ScanInfo.FailCount site j) :
    ∀ k, k ≤ d.ScanInfo.NumRecords site →
      (d.patternStates site k).1 < d.ScanInfo.Patterns.length ∧
      (d.patternStates site k).2
        = (d.ScanInfo.PatternCounts.take ((d.patternStates site k).1 + 1)).sum % 2 ^ 32 ∧
      (∀ c, (k = 0 ∨ d.ScanInfo.FailCount site (k - 1) ≤ c) →
        ∀ q, q < (d.patternStates site k).1 →
          (d.ScanInfo.PatternCounts.take (q + 1)).sum % 2 ^ 32 < c) ∧
      (0 < k →
        (d.ScanInfo.FailCount site (k - 1)
            ≤ (d.ScanInfo.PatternCounts.take ((d.patternStates site k).1 + 1)).sum % 2 ^ 32 ∨
          ((d.patternStates site k).1 + 1 = d.ScanInfo.Patterns.length ∧
            (d.ScanInfo.PatternCounts.take ((d.patternStates site k).1 + 1)).sum % 2 ^ 32
              < d.ScanInfo.FailCount site (k - 1)))) := by
  have hpos : 0 < d.ScanInfo.Patterns.length := List.length_pos.mpr hn
  intro k
  induction k with
  | zero =>
    intro _
    refine ⟨hpos, ?_, fun c _ q hq => absurd hq (Nat.not_lt_zero q),
      fun h => absurd h (Nat.lt_irrefl 0)⟩
    show d.ScanInfo.PatternCounts.getD 0 0
      = (d.ScanInfo.PatternCounts.take 1).sum % 2 ^ 32
    cases hcs : d.ScanInfo.PatternCounts with
    | nil => rfl
    | cons a l =>
      have ha : a < 2 ^ 32 := hb a (by rw [hcs]; exact List.mem_cons_self _ _)
      have e : (List.take 1 (a :: l)).sum = a := by simp
      rw [e, Nat.mod_eq_of_lt ha]
      rfl
  | succ k ih =>
    intro hk
    obtain ⟨i1, i2, i3, _⟩ := ih (by omega)
    have hprev : k = 0 ∨ d.ScanInfo.FailCount site (k - 1) ≤ d.ScanInfo.FailCount site k := by
      rcases Nat.eq_zero_or_pos k with h | h
      · exact Or.inl h
      · exact Or.inr (hmono (k - 1) k (by omega) (by omega))
    have hbelow := i3 (d.ScanInfo.FailCount site k) hprev
    have hstep : d.patternStates site (k + 1)
        = d.locatePattern (d.ScanInfo.FailCount site k) (d.patternStates site k) := rfl
    rw [hstep, Nat.add_sub_cancel]
    generalize d.patternStates site k = st at i1 i2 hbelow ⊢
    obtain ⟨p, e⟩ := st
    dsimp only at i1 i2 hbelow
    subst i2
    unfold ScanTestData.locatePattern
    dsimp only
    by_cases hgt : d.ScanInfo.FailCount site k
        > (d.ScanInfo.PatternCounts.take (p + 1)).sum % 2 ^ 32
    · rw [if_pos hgt]
      obtain ⟨a1, a2, a3, a4⟩ := advancePattern_spec d.ScanInfo.PatternCounts
        d.ScanInfo.Patterns.length (d.ScanInfo.FailCount site k)
        (d.ScanInfo.Patterns.length - (p + 1)) p (by omega)
        (fun q hq => by
          rcases Nat.lt_or_ge q p with h | h
          · exact hbelow q h
          · have : q = p := by omega
            rw [this]
            exact hgt)
      refine ⟨a1, a2, fun c hc q hq => ?_, fun _ => a4⟩
      have hcc : d.ScanInfo.FailCount site k ≤ c := by
        rcases hc with h | h
        · omega
        · exact h
      exact Nat.lt_of_lt_of_le (a3 q hq) hcc
    · rw [if_neg hgt]
      dsimp only
      refine ⟨i1, rfl, fun c hc q hq => ?_, fun _ => Or.inl (Nat.le_of_not_gt hgt)⟩
      have hcc : d.ScanInfo.FailCount site k ≤ c := by
        rcases hc with h | h
        · omega
        · exact h
      exact Nat.lt_of_lt_of_le (hbelow q hq) hcc

set_option maxRecDepth 1000000 in
/-- C29 counterexample. A burst of three patterns of 2147483648, 2147483648 and 5 cycles and
one failure at cycle 2147483655. The least index `p` with the failing cycle at most
`PatternCounts[0] + ... + PatternCounts[p]` is 1 (the first count is smaller than the cycle,
the first two add up to 4294967296), and the cycle does not exceed the total of the counts;
but the failure row names the pattern "p2" of index 2, because `pat_end` is an `unsigned int`
and is 0 after the second count was added. -/
theorem C29_counterexample :
    exScanWrap.ScanInfo.Patterns ≠ [] ∧
    exScanWrap.ScanInfo.NumRecords 1 = 1 ∧
    (exScanWrap.ScanInfo.PatternCounts.take 1).sum < exScanWrap.ScanInfo.FailCount 1 0 ∧
    exScanWrap.ScanInfo.FailCount 1 0 ≤ (exScanWrap.ScanInfo.PatternCounts.take 2).sum ∧
    exScanWrap.ScanInfo.FailCount 1 0 ≤ exScanWrap.ScanInfo.PatternCounts.sum ∧
    (exScanWrap.failRows Globals.init none 1 exOut).2.1 = 2 ∧
    (exScanWrap.siteRows exPattern Globals.init none exOut 1).text
      = (exScanWrap.failRow Globals.init none 1 2 exOut 0).text ∧
    containsSub (exScanWrap.siteRows exPattern Globals.init none exOut 1).text.data
      "p2".data = true ∧
    containsSub (exScanWrap.siteRows exPattern Globals.init none exOut 1).text.data
      "p1".data = false := by
  refine ⟨by decide, by decide, by decide, by decide, by decide, by decide, by decide,
    by decide, by decide⟩

/-- C29 (amended). `ScanTestData::FormatASCII`, for a site with at least one failure, writes
one row per failure, in order: the text of the row of failure `ii` is the test number, the
marker `*F*`, the site, the failing cycle, the pin, the expect alias, the pattern field, the
scan field, the description (first row only) and a line end, and the pattern field holds the
name `Patterns[p]` (with `+offset` for a positive vector offset), where `p` is the value of
`pat_index` after the search made for that failure. With a non-empty pattern list, pattern
counts that are `unsigned int` values and the failing cycle counts of the site in
non-decreasing order, `p` is inside the pattern list, it is the least index at which the
failing cycle is at most `pat_end`, the sum `PatternCounts[0] + ... + PatternCounts[p]` taken
modulo `2 ^ 32`, and it is the last index when the cycle exceeds `pat_end` at every index.
When the counts add up to less than `2 ^ 32`, `p` is the least index with the failing cycle
at most `PatternCounts[0] + ... + PatternCounts[p]`, or the last index when the cycle exceeds
the total of the counts of all patterns. -/
theorem C29_scan_pattern_index (d : ScanTestData) (Pattern : String → PatObject) (G : Globals)
    (tdesc : Option String) (site : SITE) (o : OStream)
    (hn : d.ScanInfo.Patterns ≠ [])
    (hb : ∀ c ∈ d.ScanInfo.PatternCounts, c < 2 ^ 32)
    (hmono : ∀ i j, i ≤ j → j < d.ScanInfo.NumRecords site →
      d.ScanInfo.FailCount site i ≤ d.ScanInfo.FailCount site j) :
    (0 < d.ScanInfo.NumRecords site →
      (d.siteRows Pattern G tdesc o site).text
        = (List.range (d.ScanInfo.NumRecords site)).foldl
            (fun acc ii => acc ++
              (padField Adjust.right TNSize (toString d.FData.TestID) ++ "  " ++ "*F*"
              ++ "  " ++ padField Adjust.right 4 (toString site) ++ "  "
              ++ padField Adjust.right CCSize (toString (d.ScanInfo.FailCount site ii)) ++ "  "
              ++ padField Adjust.left PGSize
                  (d.ScanInfo.Pins.getD (d.ScanInfo.FailPin site ii) "")
              ++ "  " ++ d.ScanInfo.ExpectAlias site ii ++ "    "
              ++ padField Adjust.left G.FPSize
                  (FormatPatternAddrName
                    (d.ScanInfo.Patterns.getD (d.patternStates site (ii + 1)).1 "")
                    (d.ScanInfo.PatternVec site ii))
              ++ "  "
              ++ padField Adjust.left SCSize
                  (FormatScanInfo (d.ScanInfo.ScanRegister site ii)
                    (d.ScanInfo.ScanBit site ii))
              ++ "  "
              ++ (if ii = 0 then padField Adjust.left TDSize (showStringS tdesc) else "")
              ++ "\n"))
            o.text) ∧
    (∀ ii, ii < d.ScanInfo.NumRecords site →
      (d.patternStates site (ii + 1)).1 < d.ScanInfo.Patterns.length ∧
      (∀ q, q < (d.patternStates site (ii + 1)).1 →
        (d.ScanInfo.PatternCounts.take (q + 1)).sum % 2 ^ 32 < d.ScanInfo.FailCount site ii) ∧
      (d.ScanInfo.FailCount site ii
          ≤ (d.ScanInfo.PatternCounts.take ((d.patternStates site (ii + 1)).1 + 1)).sum
              % 2 ^ 32 ∨
        ((d.patternStates site (ii + 1)).1 + 1 = d.ScanInfo.Patterns.length ∧
          (d.ScanInfo.PatternCounts.take ((d.patternStates site (ii + 1)).1 + 1)).sum % 2 ^ 32
            < d.ScanInfo.FailCount site ii))) ∧
    (d.ScanInfo.PatternCounts.sum < 2 ^ 32 →
      ∀ ii, ii < d.ScanInfo.NumRecords site →
        (∀ q, q < (d.patternStates site (ii + 1)).1 →
          (d.ScanInfo.PatternCounts.take (q + 1)).sum < d.ScanInfo.FailCount site ii) ∧
        (d.ScanInfo.FailCount site ii
            ≤ (d.ScanInfo.PatternCounts.take ((d.patternStates site (ii + 1)).1 + 1)).sum ∨
          ((d.patternStates site (ii + 1)).1 + 1 = d.ScanInfo.Patterns.length ∧
            (d.ScanInfo.PatternCounts.take d.ScanInfo.Patterns.length).sum
              < d.ScanInfo.FailCount site ii))) := by
  have hmain : ∀ ii, ii < d.ScanInfo.NumRecords site →
      (d.patternStates site (ii + 1)).1 < d.ScanInfo.Patterns.length ∧
      (∀ q, q < (d.patternStates site (ii + 1)).1 →
        (d.ScanInfo.PatternCounts.take (q + 1)).sum % 2 ^ 32 < d.ScanInfo.FailCount site ii) ∧
      (d.ScanInfo.FailCount site ii
          ≤ (d.ScanInfo.PatternCounts.take ((d.patternStates site (ii + 1)).1 + 1)).sum
              % 2 ^ 32 ∨
        ((d.patternStates site (ii + 1)).1 + 1 = d.ScanInfo.Patterns.length ∧
          (d.ScanInfo.PatternCounts.take ((d.patternStates site (ii + 1)).1 + 1)).sum % 2 ^ 32
            < d.ScanInfo.FailCount site ii)) := by
    intro ii hii
    obtain ⟨h1, _, h3, h4⟩ := patternStates_spec d site hn hb hmono (ii + 1) hii
    exact ⟨h1, h3 (d.ScanInfo.FailCount site ii) (Or.inr (Nat.le_refl _)),
      h4 (Nat.succ_pos ii)⟩
  refine ⟨fun h0 => ?_, hmain, fun htot ii hii => ?_⟩
  · unfold ScanTestData.siteRows
    rw [if_pos h0]
    unfold ScanTestData.failRows
    rw [failRows_states d G tdesc site o (d.ScanInfo.NumRecords site)]
    exact foldl_text
      (fun o ii => d.failRow G tdesc site (d.patternStates site (ii + 1)).1 o ii) _
      (fun o ii => failRow_text d G tdesc site _ o ii) _ o
  · have hW : ∀ q, (d.ScanInfo.PatternCounts.take q).sum % 2 ^ 32
        = (d.ScanInfo.PatternCounts.take q).sum := fun q =>
      Nat.mod_eq_of_lt (Nat.lt_of_le_of_lt (sum_take_le _ q) htot)
    obtain ⟨_, h2, h3⟩ := hmain ii hii
    refine ⟨fun q hq => ?_, ?_⟩
    · have := h2 q hq
      rw [hW] at this
      exact this
    · rcases h3 with h | ⟨h, h'⟩
      · rw [hW] at h
        exact Or.inl h
      · rw [hW, h] at h'
        exact Or.inr ⟨h, h'⟩

/-- Witness of C29 on the scan example with the patterns "p0", "p1", "p2" of 10, 20 and 30
cycles and the failing cycles 5, 25 and 100 on site 1: the rows name the patterns of index
0, 1 and 2, the last one because cycle 100 is beyond the 60 cycles of the burst. -/
theorem C29_scan_pattern_index_witness :
    exScanFails.ScanInfo.Patterns ≠ [] ∧
    (∀ c ∈ exScanFails.ScanInfo.PatternCounts, c < 2 ^ 32) ∧
    exScanFails.ScanInfo.PatternCounts.sum < 2 ^ 32 ∧
    (exScanFails.patternStates 1 1).1 = 0 ∧
    (exScanFails.patternStates 1 2).1 = 1 ∧
    (exScanFails.patternStates 1 3).1 = 2 ∧
    (exScanFails.patternStates 1 3).1 < exScanFails.ScanInfo.Patterns.length ∧
    ((exScanFails.patternStates 1 3).1 + 1 = exScanFails.ScanInfo.Patterns.length ∧
      (exScanFails.ScanInfo.PatternCounts.take exScanFails.ScanInfo.Patterns.length).sum
        < exScanFails.ScanInfo.FailCount 1 2) :=
  have hn : exScanFails.ScanInfo.Patterns ≠ [] := by decide
  have hb : ∀ c ∈ exScanFails.ScanInfo.PatternCounts, c < 2 ^ 32 := by decide
  have htot : exScanFails.ScanInfo.PatternCounts.sum < 2 ^ 32 := by decide
  have hmono : ∀ i j, i ≤ j → j < exScanFails.ScanInfo.NumRecords 1 →
      exScanFails.ScanInfo.FailCount 1 i ≤ exScanFails.ScanInfo.FailCount 1 j := by
    intro i j hij hj
    have hj3 : j < 3 := hj
    interval_cases j <;> interval_cases i <;> decide
  ⟨hn, hb, htot, by decide, by decide, by decide,
    ((C29_scan_pattern_index exScanFails exPattern Globals.init none 1 exOut hn hb hmono).2.1
      2 (by decide)).1,
    (((C29_scan_pattern_index exScanFails exPattern Globals.init none 1 exOut hn hb hmono).2.2
      htot 2 (by decide)).2).resolve_left (by decide)⟩

end STDatalog
